import Mathlib

set_option maxRecDepth 4000
set_option maxHeartbeats 4000000

/-!
Verification of the Marlin generic thermistor-table generator
(`Tools/GenericThermTableh.py`).

The script samples every ADC code in `[adcStart, adcStop]`, computes the
log resistance ratio `rlvals[i] = ln (v2r adc[i] / rRef)` and three
Steinhart-Hart temperature projections `tx1, tx2, tx3` (one per trial
beta, each with a `+0.5` rounding bias), and keeps a row when `tx2`
falls below a running threshold `oldTx` that starts at `maxTemp` and
decreases by `temperatureStepSize` at each retained row (step `0` in
"dense" mode, table id `0`).

The development embeds the numeric pipeline over `ℝ` (the float64
computation is modelled by exact real arithmetic; every comparison the
program makes is certified here with a margin far above float64
round-off, so the real-valued run and the float run select the same
rows).  The selection loop is embedded as a fold over the list of
sampled codes; a retained row is identified by its ADC code, since all
printed fields of a row are functions of the code.
-/

noncomputable section

/-- Nominal NTC resistance at 25 °C (source: `rRef=1e5`). -/
def rRef : ℝ := 100000

/-- Pull-up resistance (source: `rPullup=4700`). -/
def rPullup : ℝ := 4700

/-- Celsius-to-Kelvin offset (source: `tZero=273.15`). -/
def tZero : ℝ := 273.15

/-- ADC full-scale code (source: `adcFS=1023`). -/
def adcFS : ℝ := 1023

/-- Initial selection threshold (source: `maxTemp=300`). -/
def maxTemp : ℝ := 300

/-- Lower end of the faked temperature range (source: `minTemp=-15`). -/
def minTemp : ℝ := -15

/-- First trial beta (source: `TXBETA1=3380`). -/
def TXBETA1 : ℝ := 3380

/-- Middle trial beta, used by the selection filter (source: `TXBETA2=3950`). -/
def TXBETA2 : ℝ := 3950

/-- Third trial beta (source: `TXBETA3=4500`). -/
def TXBETA3 : ℝ := 4500

/-- ADC code to thermistor resistance
(source: `def v2r(vr): vrs=vr/adcFS; return ((vrs*rPullup)/(1-vrs))`). -/
def v2r (vr : ℝ) : ℝ := vr / adcFS * rPullup / (1 - vr / adcFS)

/-- Resistance to ADC code (source: `def r2v(r): return adcFS*r/(r+rPullup)`). -/
def r2v (r : ℝ) : ℝ := adcFS * r / (r + rPullup)

/-- The scalar-semantics model of `v2r`: plain Python numbers raise
`ZeroDivisionError` exactly when the denominator is zero, so the
function is fallible and returns `none` in that case (inside the
generation loop the arguments are numpy values in `[20, 1020]`, where
the two models agree). -/
def v2rPy (vr : ℚ) : Option ℚ :=
  if 1 - vr / 1023 = 0 then none else some (vr / 1023 * 4700 / (1 - vr / 1023))

/-- Natural-log resistance ratio of a sampled code
(source: `rlvals[i]=np.log(v2r(adc[i])/rRef)`). -/
def rl (c : ℝ) : ℝ := Real.log (v2r c / rRef)

/-- Steinhart-Hart temperature projection with the `+0.5` rounding bias
(source: `tx=1.0/(1.0/(25.0+tZero)+rlvals[i]/TXBETA)-tZero+0.5`). -/
def txT (x B : ℝ) : ℝ := 1 / (1 / (25 + tZero) + x / B) - tZero + 0.5

/-- The filter temperature of a sampled code: projection under the
middle beta `TXBETA2`. -/
def tx2R (c : ℝ) : ℝ := txT (rl c) TXBETA2

/-- `tx2R` on integer ADC codes, the value the selection loop compares. -/
def tx2N (c : ℕ) : ℝ := tx2R c

/-- One iteration of the selection loop: retain the code and lower the
threshold when `tx2 < oldTx`, else drop it
(source: `if tx2<oldTx: oldTx=oldTx-temperatureStepSize; print(...)`). -/
def selStep (f : ℕ → ℝ) (s : ℝ) (acc : ℝ × List ℕ) (c : ℕ) : ℝ × List ℕ :=
  if f c < acc.1 then (acc.1 - s, acc.2 ++ [c]) else acc

/-- The whole selection loop over a list of codes, starting from
threshold `M` with an empty table. -/
def selRows (f : ℕ → ℝ) (s M : ℝ) (cs : List ℕ) : List ℕ :=
  (cs.foldl (selStep f s) (M, [])).2

/-- First sampled ADC code (source: `adcStart=20`). -/
def adcStart : ℕ := 20

/-- Last sampled ADC code (source: `adcStop=1020`). -/
def adcStop : ℕ := 1020

/-- Number of samples (source: `numResult=adcStop-adcStart+1`). -/
def numResult : ℕ := adcStop - adcStart + 1

/-- The sampled codes `adc = linspace(adcStart, adcStop, numResult)`,
which are exactly the integers `adcStart, …, adcStop`. -/
def codesList : List ℕ := List.range' adcStart numResult

/-- Per-table threshold step: `0` in dense mode (table id `0`), else
`(maxTemp-minTemp)/100` (source: the `if (tbl==0)` branch). -/
def temperatureStepSize (tbl : ℕ) : ℝ :=
  if tbl = 0 then 0 else (maxTemp - minTemp) / 100

/-- The retained rows (by ADC code) for a given threshold step. -/
def retained (s : ℝ) : List ℕ := selRows tx2N s maxTemp codesList

/-- The retained rows of the table with identifier `tbl`. -/
def tableRows (tbl : ℕ) : List ℕ := retained (temperatureStepSize tbl)

end

/-- The rows retained in a normal-mode table (step `3.15`), certified
below in `retained_normal_eq`. -/
def normalRows : List ℕ :=
  [37, 39, 40, 41, 43, 45, 46, 48, 50, 52, 54, 57, 59, 61, 64, 67, 69, 72,
   76, 79, 82, 86, 90, 94, 99, 103, 108, 113, 119, 124, 130, 137, 143, 150,
   158, 166, 174, 183, 192, 201, 212, 222, 234, 245, 258, 271, 284, 299,
   314, 329, 345, 362, 380, 398, 416, 436, 455, 476, 496, 517, 539, 561,
   582, 604, 626, 648, 670, 691, 713, 733, 754, 773, 792, 810, 828, 845,
   860, 875, 889, 902, 915, 926, 936, 946, 955, 963, 970, 977, 983, 988,
   993, 997, 1001, 1004, 1007, 1009, 1011, 1013, 1015, 1016, 1018, 1019,
   1020]

/-! ## Basic list and fold lemmas -/

theorem codesList_eq : codesList = List.range' 20 1001 := rfl

theorem range'_split (a m n : ℕ) :
    List.range' a (m + n) = List.range' a m ++ List.range' (a + m) n := by
  induction m generalizing a with
  | zero => simp
  | succ k ih =>
    rw [show k + 1 + n = (k + n) + 1 from by omega, List.range'_succ, ih,
      List.range'_succ, List.cons_append, show a + (k + 1) = a + 1 + k from by omega]

theorem foldl_skip (f : ℕ → ℝ) (s t : ℝ) (r : List ℕ) (l : List ℕ)
    (h : ∀ c ∈ l, ¬ f c < t) :
    List.foldl (selStep f s) (t, r) l = (t, r) := by
  induction l with
  | nil => rfl
  | cons a as ih =>
    have ha : ¬ f a < t := h a (by simp)
    simp only [List.foldl_cons, selStep, ha, if_false]
    exact ih fun c hc => h c (by simp [hc])

theorem foldl_dense (f : ℕ → ℝ) (t : ℝ) (r l : List ℕ)
    (h : ∀ c ∈ l, f c < t) :
    List.foldl (selStep f 0) (t, r) l = (t, r ++ l) := by
  induction l generalizing r with
  | nil => simp
  | cons a as ih =>
    have ha : f a < t := h a (by simp)
    simp only [List.foldl_cons, selStep, ha, if_true, sub_zero]
    rw [ih (r ++ [a]) fun c hc => h c (by simp [hc])]
    simp

theorem mem_foldl_selStep (f : ℕ → ℝ) (s : ℝ) (l : List ℕ) :
    ∀ (t : ℝ) (r : List ℕ) (c : ℕ), c ∈ r →
      c ∈ (List.foldl (selStep f s) (t, r) l).2 := by
  induction l with
  | nil => intro t r c hc; exact hc
  | cons a as ih =>
    intro t r c hc
    simp only [List.foldl_cons, selStep]
    by_cases h : f a < t
    · rw [if_pos h]; exact ih _ _ _ (by simp [hc])
    · rw [if_neg h]; exact ih _ _ _ hc

theorem foldl_selStep_lt (f : ℕ → ℝ) (s : ℝ) (hs : 0 ≤ s) (M : ℝ) (l : List ℕ) :
    ∀ (t : ℝ) (r : List ℕ), t ≤ M → (∀ c ∈ r, f c < M) →
      ∀ c ∈ (List.foldl (selStep f s) (t, r) l).2, f c < M := by
  induction l with
  | nil => intro t r _ hr c hc; exact hr c hc
  | cons a as ih =>
    intro t r ht hr c hc
    simp only [List.foldl_cons, selStep] at hc
    by_cases h : f a < t
    · rw [if_pos h] at hc
      refine ih (t - s) (r ++ [a]) (by linarith) ?_ c hc
      intro d hd
      rcases List.mem_append.1 hd with hd | hd
      · exact hr d hd
      · rw [List.mem_singleton] at hd; subst hd; linarith
    · rw [if_neg h] at hc
      exact ih t r ht hr c hc

/-! ## Monotonicity of the conversion chain -/

theorem v2r_pos {x : ℝ} (h0 : 0 < x) (h1 : x < 1023) : 0 < v2r x := by
  unfold v2r adcFS rPullup
  have hd : 0 < 1 - x / 1023 := by
    rw [sub_pos, div_lt_one (by norm_num)]; exact h1
  positivity

theorem v2r_mono {x y : ℝ} (h0 : 0 ≤ x) (hxy : x < y) (hy : y < 1023) :
    v2r x < v2r y := by
  unfold v2r adcFS rPullup
  have hdx : 0 < 1 - x / 1023 := by
    rw [sub_pos, div_lt_one (by norm_num)]; linarith
  have hdy : 0 < 1 - y / 1023 := by
    rw [sub_pos, div_lt_one (by norm_num)]; exact hy
  rw [div_lt_div_iff hdx hdy]
  ring_nf
  nlinarith

theorem rl_mono {x y : ℝ} (h0 : 0 < x) (hxy : x < y) (hy : y < 1023) :
    rl x < rl y := by
  unfold rl
  have h1 : 0 < v2r x / rRef := by
    have := v2r_pos h0 (lt_trans hxy hy)
    unfold rRef at *
    positivity
  refine Real.log_lt_log h1 ?_
  have h2 := v2r_mono (le_of_lt h0) hxy hy
  have hR : (0 : ℝ) < rRef := by unfold rRef; norm_num
  exact (div_lt_div_right hR).mpr h2

/-! ## Certified numeric bounds on `rl` at sampled codes

Each bound is obtained from the Taylor expansion of `log (1 - x)`
(`Real.abs_log_sub_add_sum_range_le`) after factoring the rational
resistance ratio into a power of two times a factor near one, using the
ten-digit bounds on `log 2`.  The two template lemmas below carry the
transcendental reasoning once; each instance only discharges rational
arithmetic. -/

theorem rl_bound_div (c : ℕ) (x0 S E L U : ℝ) (a : ℝ) (k n : ℕ)
    (hv : v2r ((c : ℕ) : ℝ) / rRef = (1 - x0) / 2 ^ k)
    (habs : |x0| = a) (ha1 : a < 1)
    (hS : (∑ i ∈ Finset.range n, x0 ^ (i + 1) / (i + 1)) = S)
    (hE : a ^ (n + 1) / (1 - a) ≤ E)
    (hL : L < -S - E - k * 0.6931471808)
    (hU : -S + E - k * 0.6931471803 < U) :
    L < rl ((c : ℕ) : ℝ) ∧ rl ((c : ℕ) : ℝ) < U := by
  have hx : |x0| < 1 := by rw [habs]; exact ha1
  have z := Real.abs_log_sub_add_sum_range_le hx n
  rw [hS, habs] at z
  have hEz : |S + Real.log (1 - x0)| ≤ E := le_trans z hE
  rw [abs_le] at hEz
  obtain ⟨z1, z2⟩ := hEz
  have hm : Real.log (1 - x0) = rl ((c : ℕ) : ℝ) + k * Real.log 2 := by
    unfold rl
    rw [hv]
    have h1x : (1 - x0 : ℝ) ≠ 0 := by
      intro h
      have hx0 : x0 = 1 := by linarith
      rw [hx0, abs_one] at habs
      rw [← habs] at ha1
      exact lt_irrefl _ ha1
    rw [Real.log_div h1x (by positivity), Real.log_pow]
    ring
  rw [hm] at z1 z2
  have l2a := Real.log_two_gt_d9
  have l2b := Real.log_two_lt_d9
  have hk2a : (k : ℝ) * 0.6931471803 ≤ k * Real.log 2 :=
    mul_le_mul_of_nonneg_left (le_of_lt l2a) (Nat.cast_nonneg k)
  have hk2b : (k : ℝ) * Real.log 2 ≤ k * 0.6931471808 :=
    mul_le_mul_of_nonneg_left (le_of_lt l2b) (Nat.cast_nonneg k)
  constructor
  · linarith
  · linarith

theorem rl_bound_mul (c : ℕ) (x0 S E L U : ℝ) (a : ℝ) (k n : ℕ)
    (hv : v2r ((c : ℕ) : ℝ) / rRef = (1 - x0) * 2 ^ k)
    (habs : |x0| = a) (ha1 : a < 1)
    (hS : (∑ i ∈ Finset.range n, x0 ^ (i + 1) / (i + 1)) = S)
    (hE : a ^ (n + 1) / (1 - a) ≤ E)
    (hL : L < -S - E + k * 0.6931471803)
    (hU : -S + E + k * 0.6931471808 < U) :
    L < rl ((c : ℕ) : ℝ) ∧ rl ((c : ℕ) : ℝ) < U := by
  have hx : |x0| < 1 := by rw [habs]; exact ha1
  have z := Real.abs_log_sub_add_sum_range_le hx n
  rw [hS, habs] at z
  have hEz : |S + Real.log (1 - x0)| ≤ E := le_trans z hE
  rw [abs_le] at hEz
  obtain ⟨z1, z2⟩ := hEz
  have hm : Real.log (1 - x0) = rl ((c : ℕ) : ℝ) - k * Real.log 2 := by
    unfold rl
    rw [hv]
    have h1x : (1 - x0 : ℝ) ≠ 0 := by
      intro h
      have hx0 : x0 = 1 := by linarith
      rw [hx0, abs_one] at habs
      rw [← habs] at ha1
      exact lt_irrefl _ ha1
    rw [Real.log_mul h1x (by positivity), Real.log_pow]
    ring
  rw [hm] at z1 z2
  have l2a := Real.log_two_gt_d9
  have l2b := Real.log_two_lt_d9
  have hk2a : (k : ℝ) * 0.6931471803 ≤ k * Real.log 2 :=
    mul_le_mul_of_nonneg_left (le_of_lt l2a) (Nat.cast_nonneg k)
  have hk2b : (k : ℝ) * Real.log 2 ≤ k * 0.6931471808 :=
    mul_le_mul_of_nonneg_left (le_of_lt l2b) (Nat.cast_nonneg k)
  constructor
  · linarith
  · linarith

/-! ## Comparison helpers: turning `rl` bounds into `tx2` comparisons -/

theorem txT_lt_of (x L t : ℝ) (hL : L < x)
    (hpos : 0 < 1 / (25 + tZero) + L / TXBETA2)
    (ht : 1 / (1 / (25 + tZero) + L / TXBETA2) - tZero + 0.5 ≤ t) :
    txT x TXBETA2 < t := by
  unfold txT
  have hB : (0 : ℝ) < TXBETA2 := by unfold TXBETA2; norm_num
  have hd : 1 / (25 + tZero) + L / TXBETA2 < 1 / (25 + tZero) + x / TXBETA2 := by
    have : L / TXBETA2 < x / TXBETA2 := by gcongr
    linarith
  have := one_div_lt_one_div_of_lt hpos hd
  linarith

theorem txT_ge_of (x L U t : ℝ) (hL : L < x) (hU : x ≤ U)
    (hpos : 0 < 1 / (25 + tZero) + L / TXBETA2)
    (ht : t ≤ 1 / (1 / (25 + tZero) + U / TXBETA2) - tZero + 0.5) :
    t ≤ txT x TXBETA2 := by
  unfold txT
  have hB : (0 : ℝ) < TXBETA2 := by unfold TXBETA2; norm_num
  have hdL : 1 / (25 + tZero) + L / TXBETA2 < 1 / (25 + tZero) + x / TXBETA2 := by
    have : L / TXBETA2 < x / TXBETA2 := by gcongr
    linarith
  have hdU : 1 / (25 + tZero) + x / TXBETA2 ≤ 1 / (25 + tZero) + U / TXBETA2 := by
    have : x / TXBETA2 ≤ U / TXBETA2 := by gcongr
    linarith
  have hxpos : 0 < 1 / (25 + tZero) + x / TXBETA2 := lt_trans hpos hdL
  have := one_div_le_one_div_of_le hxpos hdU
  linarith

theorem rlb_20 : ((-6.9726727 : ℝ) < rl (((20 : ℕ)) : ℝ) ∧ rl (((20 : ℕ)) : ℝ) < (-6.9725346 : ℝ)) :=
  rl_bound_div 20 (1011 / 25075) (51723771 / 1257511250) (0.000069)
      (-6.9726727) (-6.9725346) (1011 / 25075) 10 2
      (by unfold v2r rRef adcFS rPullup; norm_num)
      (abs_of_pos (by norm_num))
      (by norm_num)
      (by norm_num [Finset.sum_range_succ])
      (by norm_num)
      (by push_cast; norm_num)
      (by push_cast; norm_num)

theorem rlbC_0 : ((-6.3701873 : ℝ) < rl (((36 : ℕ)) : ℝ) ∧ rl (((36 : ℕ)) : ℝ) < (-6.3659872 : ℝ)) ∧
    ((-6.3404202 : ℝ) < rl (((37 : ℕ)) : ℝ) ∧ rl (((37 : ℕ)) : ℝ) < (-6.3402241 : ℝ)) ∧
    ((-6.3126649 : ℝ) < rl (((38 : ℕ)) : ℝ) ∧ rl (((38 : ℕ)) : ℝ) < (-6.3126606 : ℝ)) ∧
    ((-6.2857478 : ℝ) < rl (((39 : ℕ)) : ℝ) ∧ rl (((39 : ℕ)) : ℝ) < (-6.2855277 : ℝ)) ∧
    ((-6.2593436 : ℝ) < rl (((40 : ℕ)) : ℝ) ∧ rl (((40 : ℕ)) : ℝ) < (-6.259325 : ℝ)) ∧
    ((-6.2336271 : ℝ) < rl (((41 : ℕ)) : ℝ) ∧ rl (((41 : ℕ)) : ℝ) < (-6.2336268 : ℝ)) ∧
    ((-6.2085486 : ℝ) < rl (((42 : ℕ)) : ℝ) ∧ rl (((42 : ℕ)) : ℝ) < (-6.2084905 : ℝ)) ∧
    ((-6.184206 : ℝ) < rl (((43 : ℕ)) : ℝ) ∧ rl (((43 : ℕ)) : ℝ) < (-6.1838259 : ℝ)) ∧
    ((-6.1599884 : ℝ) < rl (((44 : ℕ)) : ℝ) ∧ rl (((44 : ℕ)) : ℝ) < (-6.1598903 : ℝ)) ∧
    ((-6.1365745 : ℝ) < rl (((45 : ℕ)) : ℝ) ∧ rl (((45 : ℕ)) : ℝ) < (-6.1362743 : ℝ)) ∧
    ((-6.1135095 : ℝ) < rl (((46 : ℕ)) : ℝ) ∧ rl (((46 : ℕ)) : ℝ) < (-6.1134114 : ℝ)) ∧
    ((-6.0915415 : ℝ) < rl (((47 : ℕ)) : ℝ) ∧ rl (((47 : ℕ)) : ℝ) < (-6.0900214 : ℝ)) ∧
    ((-6.0691515 : ℝ) < rl (((48 : ℕ)) : ℝ) ∧ rl (((48 : ℕ)) : ℝ) < (-6.0686113 : ℝ)) ∧
    ((-6.0477993 : ℝ) < rl (((49 : ℕ)) : ℝ) ∧ rl (((49 : ℕ)) : ℝ) < (-6.0467392 : ℝ)) ∧
    ((-6.0261745 : ℝ) < rl (((50 : ℕ)) : ℝ) ∧ rl (((50 : ℕ)) : ℝ) < (-6.0257144 : ℝ)) ∧
    ((-6.0070431 : ℝ) < rl (((51 : ℕ)) : ℝ) ∧ rl (((51 : ℕ)) : ℝ) < (-6.003643 : ℝ)) ∧
    ((-5.9849496 : ℝ) < rl (((52 : ℕ)) : ℝ) ∧ rl (((52 : ℕ)) : ℝ) < (-5.9844695 : ℝ)) ∧
    ((-5.9659839 : ℝ) < rl (((53 : ℕ)) : ℝ) ∧ rl (((53 : ℕ)) : ℝ) < (-5.9629838 : ℝ)) ∧
    ((-5.9450737 : ℝ) < rl (((54 : ℕ)) : ℝ) ∧ rl (((54 : ℕ)) : ℝ) < (-5.9446536 : ℝ)) ∧
    ((-5.9064631 : ℝ) < rl (((56 : ℕ)) : ℝ) ∧ rl (((56 : ℕ)) : ℝ) < (-5.906444 : ℝ)) ∧
    ((-5.8877391 : ℝ) < rl (((57 : ℕ)) : ℝ) ∧ rl (((57 : ℕ)) : ℝ) < (-5.887697 : ℝ)) ∧
    ((-5.8698243 : ℝ) < rl (((58 : ℕ)) : ℝ) ∧ rl (((58 : ℕ)) : ℝ) < (-5.8685642 : ℝ)) ∧
    ((-5.8515492 : ℝ) < rl (((59 : ℕ)) : ℝ) ∧ rl (((59 : ℕ)) : ℝ) < (-5.8506291 : ℝ)) ∧
    ((-5.8344676 : ℝ) < rl (((60 : ℕ)) : ℝ) ∧ rl (((60 : ℕ)) : ℝ) < (-5.8316675 : ℝ)) ∧
    ((-5.8159511 : ℝ) < rl (((61 : ℕ)) : ℝ) ∧ rl (((61 : ℕ)) : ℝ) < (-5.815471 : ℝ)) :=
  ⟨rl_bound_div 36 (107 / 875) (198699 / 1531250) (0.0021)
      (-6.3701873) (-6.3659872) (107 / 875) 9 2
      (by unfold v2r rRef adcFS rPullup; norm_num)
      (abs_of_pos (by norm_num))
      (by norm_num)
      (by norm_num [Finset.sum_range_succ])
      (by norm_num)
      (by push_cast; norm_num)
      (by push_cast; norm_num),
   rl_bound_div 37 (5977 / 61625) (143222611412291 / 1404177621093750) (0.000098)
      (-6.3404202) (-6.3402241) (5977 / 61625) 9 3
      (by unfold v2r rRef adcFS rPullup; norm_num)
      (abs_of_pos (by norm_num))
      (by norm_num)
      (by norm_num [Finset.sum_range_succ])
      (by norm_num)
      (by push_cast; norm_num)
      (by push_cast; norm_num),
   rl_bound_div 38 (8821 / 123125) (205011330868653838793 / 2757821925659179687500) (0.0000021)
      (-6.3126649) (-6.3126606) (8821 / 123125) 9 4
      (by unfold v2r rRef adcFS rPullup; norm_num)
      (abs_of_pos (by norm_num))
      (by norm_num)
      (by norm_num [Finset.sum_range_succ])
      (by norm_num)
      (by push_cast; norm_num)
      (by push_cast; norm_num),
   rl_bound_div 39 (237 / 5125) (2485419 / 52531250) (0.00011)
      (-6.2857478) (-6.2855277) (237 / 5125) 9 2
      (by unfold v2r rRef adcFS rPullup; norm_num)
      (abs_of_pos (by norm_num))
      (by norm_num)
      (by norm_num [Finset.sum_range_succ])
      (by norm_num)
      (by push_cast; norm_num)
      (by push_cast; norm_num),
   rl_bound_div 40 (511 / 24575) (25376771 / 1207861250) (0.0000092)
      (-6.2593436) (-6.259325) (511 / 24575) 9 2
      (by unfold v2r rRef adcFS rPullup; norm_num)
      (abs_of_pos (by norm_num))
      (by norm_num)
      (by norm_num [Finset.sum_range_succ])
      (by norm_num)
      (by push_cast; norm_num)
      (by push_cast; norm_num),
   rl_bound_div 41 (-(289 / 61375)) (-35391229 / 7533781250) (0.00000011)
      (-6.2336271) (-6.2336268) (289 / 61375) 9 2
      (by unfold v2r rRef adcFS rPullup; norm_num)
      (by rw [abs_of_neg (by norm_num)]; norm_num)
      (by norm_num)
      (by norm_num [Finset.sum_range_succ])
      (by norm_num)
      (by push_cast; norm_num)
      (by push_cast; norm_num),
   rl_bound_div 42 (-(1237 / 40875)) (-99594581 / 3341531250) (0.000029)
      (-6.2085486) (-6.2084905) (1237 / 40875) 9 2
      (by unfold v2r rRef adcFS rPullup; norm_num)
      (by rw [abs_of_neg (by norm_num)]; norm_num)
      (by norm_num)
      (by norm_num [Finset.sum_range_succ])
      (by norm_num)
      (by push_cast; norm_num)
      (by push_cast; norm_num),
   rl_bound_div 43 (-(1711 / 30625)) (-101871229 / 1875781250) (0.00019)
      (-6.184206) (-6.1838259) (1711 / 30625) 9 2
      (by unfold v2r rRef adcFS rPullup; norm_num)
      (by rw [abs_of_neg (by norm_num)]; norm_num)
      (by norm_num)
      (by norm_num [Finset.sum_range_succ])
      (by norm_num)
      (by push_cast; norm_num)
      (by push_cast; norm_num),
   rl_bound_div 44 (-(907 / 11125)) (-647568906161 / 8261355468750) (0.000049)
      (-6.1599884) (-6.1598903) (907 / 11125) 9 3
      (by unfold v2r rRef adcFS rPullup; norm_num)
      (by rw [abs_of_neg (by norm_num)]; norm_num)
      (by norm_num)
      (by norm_num [Finset.sum_range_succ])
      (by norm_num)
      (by push_cast; norm_num)
      (by push_cast; norm_num),
   rl_bound_div 45 (-(437 / 4075)) (-41372259631 / 406007531250) (0.00015)
      (-6.1365745) (-6.1362743) (437 / 4075) 9 3
      (by unfold v2r rRef adcFS rPullup; norm_num)
      (by rw [abs_of_neg (by norm_num)]; norm_num)
      (by norm_num)
      (by norm_num [Finset.sum_range_succ])
      (by norm_num)
      (by push_cast; norm_num)
      (by push_cast; norm_num),
   rl_bound_div 46 (-(16243 / 122125)) (-333301662329322041047 / 2669313315940429687500) (0.000049)
      (-6.1135095) (-6.1134114) (16243 / 122125) 9 4
      (by unfold v2r rRef adcFS rPullup; norm_num)
      (by rw [abs_of_neg (by norm_num)]; norm_num)
      (by norm_num)
      (by norm_num [Finset.sum_range_succ])
      (by norm_num)
      (by push_cast; norm_num)
      (by push_cast; norm_num),
   rl_bound_div 47 (-(1211 / 7625)) (-392455027237 / 2659933593750) (0.00076)
      (-6.0915415) (-6.0900214) (1211 / 7625) 9 3
      (by unfold v2r rRef adcFS rPullup; norm_num)
      (by rw [abs_of_neg (by norm_num)]; norm_num)
      (by norm_num)
      (by norm_num [Finset.sum_range_succ])
      (by norm_num)
      (by push_cast; norm_num)
      (by push_cast; norm_num),
   rl_bound_div 48 (-(7503 / 40625)) (-1846110496779558669 / 10895156860351562500) (0.00027)
      (-6.0691515) (-6.0686113) (7503 / 40625) 9 4
      (by unfold v2r rRef adcFS rPullup; norm_num)
      (by rw [abs_of_neg (by norm_num)]; norm_num)
      (by norm_num)
      (by norm_num [Finset.sum_range_succ])
      (by norm_num)
      (by push_cast; norm_num)
      (by push_cast; norm_num),
   rl_bound_div 49 (-(12821 / 60875)) (-31484473838726929207 / 164792386409179687500) (0.00053)
      (-6.0477993) (-6.0467392) (12821 / 60875) 9 4
      (by unfold v2r rRef adcFS rPullup; norm_num)
      (by rw [abs_of_neg (by norm_num)]; norm_num)
      (by norm_num)
      (by norm_num [Finset.sum_range_succ])
      (by norm_num)
      (by push_cast; norm_num)
      (by push_cast; norm_num),
   rl_bound_div 50 (-(1151 / 4865)) (-34727975854700999287 / 163517964910517437500) (0.00023)
      (-6.0261745) (-6.0257144) (1151 / 4865) 9 5
      (by unfold v2r rRef adcFS rPullup; norm_num)
      (by rw [abs_of_neg (by norm_num)]; norm_num)
      (by norm_num)
      (by norm_num [Finset.sum_range_succ])
      (by norm_num)
      (by push_cast; norm_num)
      (by push_cast; norm_num),
   rl_bound_div 51 (-(2659 / 10125)) (-9794037315653789 / 42037813476562500) (0.0017)
      (-6.0070431) (-6.003643) (2659 / 10125) 9 4
      (by unfold v2r rRef adcFS rPullup; norm_num)
      (by rw [abs_of_neg (by norm_num)]; norm_num)
      (by norm_num)
      (by norm_num [Finset.sum_range_succ])
      (by norm_num)
      (by push_cast; norm_num)
      (by push_cast; norm_num),
   rl_bound_div 52 (-(35041 / 121375)) (-9730425845907122054683234957193 / 38366899417553527267456054687500) (0.00024)
      (-5.9849496) (-5.9844695) (35041 / 121375) 9 6
      (by unfold v2r rRef adcFS rPullup; norm_num)
      (by rw [abs_of_neg (by norm_num)]; norm_num)
      (by norm_num)
      (by norm_num [Finset.sum_range_succ])
      (by norm_num)
      (by push_cast; norm_num)
      (by push_cast; norm_num),
   rl_bound_div 53 (-(19087 / 60625)) (-13455754823954192028672359 / 49137155096054077148437500) (0.0015)
      (-5.9659839) (-5.9629838) (19087 / 60625) 9 5
      (by unfold v2r rRef adcFS rPullup; norm_num)
      (by rw [abs_of_neg (by norm_num)]; norm_num)
      (by norm_num)
      (by norm_num [Finset.sum_range_succ])
      (by norm_num)
      (by push_cast; norm_num)
      (by push_cast; norm_num),
   rl_bound_div 54 (13303 / 40375) (1957333940584178974978510745758473 / 4897176747311089380264282226562500) (0.00021)
      (-5.9450737) (-5.9446536) (13303 / 40375) 8 7
      (by unfold v2r rRef adcFS rPullup; norm_num)
      (abs_of_pos (by norm_num))
      (by norm_num)
      (by norm_num [Finset.sum_range_succ])
      (by norm_num)
      (by push_cast; norm_num)
      (by push_cast; norm_num),
   rl_bound_div 56 (36651 / 120875) (111443740014644529012984669424316674434338522559 / 308472469904242217800281603872776031494140625000) (0.0000095)
      (-5.9064631) (-5.906444) (36651 / 120875) 8 9
      (by unfold v2r rRef adcFS rPullup; norm_num)
      (abs_of_pos (by norm_num))
      (by norm_num)
      (by norm_num [Finset.sum_range_succ])
      (by norm_num)
      (by push_cast; norm_num)
      (by push_cast; norm_num),
   rl_bound_div 57 (5837 / 20125) (221212887305373477874320520554861113 / 645800465954152223110198974609375000) (0.000021)
      (-5.8877391) (-5.887697) (5837 / 20125) 8 8
      (by unfold v2r rRef adcFS rPullup; norm_num)
      (abs_of_pos (by norm_num))
      (by norm_num)
      (by norm_num [Finset.sum_range_succ])
      (by norm_num)
      (by push_cast; norm_num)
      (by push_cast; norm_num),
   rl_bound_div 58 (33393 / 120625) (165494715093343812486360147 / 510759704957962036132812500) (0.00063)
      (-5.8698243) (-5.8685642) (33393 / 120625) 8 5
      (by unfold v2r rRef adcFS rPullup; norm_num)
      (abs_of_pos (by norm_num))
      (by norm_num)
      (by norm_num [Finset.sum_range_succ])
      (by norm_num)
      (by push_cast; norm_num)
      (by push_cast; norm_num),
   rl_bound_div 59 (7941 / 30125) (151796372804324530094679 / 496209727295532226562500) (0.00046)
      (-5.8515492) (-5.8506291) (7941 / 30125) 8 5
      (by unfold v2r rRef adcFS rPullup; norm_num)
      (abs_of_pos (by norm_num))
      (by norm_num)
      (by norm_num [Finset.sum_range_succ])
      (by norm_num)
      (by push_cast; norm_num)
      (by push_cast; norm_num),
   rl_bound_div 60 (2009 / 8025) (4776028501302611 / 16589762001562500) (0.0014)
      (-5.8344676) (-5.8316675) (2009 / 8025) 8 4
      (by unfold v2r rRef adcFS rPullup; norm_num)
      (abs_of_pos (by norm_num))
      (by norm_num)
      (by norm_num [Finset.sum_range_succ])
      (by norm_num)
      (by push_cast; norm_num)
      (by push_cast; norm_num),
   rl_bound_div 61 (14253 / 60125) (4251348792678137934467847 / 15714676407715454101562500) (0.00024)
      (-5.8159511) (-5.815471) (14253 / 60125) 8 5
      (by unfold v2r rRef adcFS rPullup; norm_num)
      (abs_of_pos (by norm_num))
      (by norm_num)
      (by norm_num [Finset.sum_range_succ])
      (by norm_num)
      (by push_cast; norm_num)
      (by push_cast; norm_num)⟩

theorem rlbC_1 : ((-5.7818362 : ℝ) < rl (((63 : ℕ)) : ℝ) ∧ rl (((63 : ℕ)) : ℝ) < (-5.7807761 : ℝ)) ∧
    ((-5.764677 : ℝ) < rl (((64 : ℕ)) : ℝ) ∧ rl (((64 : ℕ)) : ℝ) < (-5.7645309 : ℝ)) ∧
    ((-5.7319031 : ℝ) < rl (((66 : ℕ)) : ℝ) ∧ rl (((66 : ℕ)) : ℝ) < (-5.731543 : ℝ)) ∧
    ((-5.7157712 : ℝ) < rl (((67 : ℕ)) : ℝ) ∧ rl (((67 : ℕ)) : ℝ) < (-5.7155311 : ℝ)) ∧
    ((-5.7001923 : ℝ) < rl (((68 : ℕ)) : ℝ) ∧ rl (((68 : ℕ)) : ℝ) < (-5.6991922 : ℝ)) ∧
    ((-5.6841996 : ℝ) < rl (((69 : ℕ)) : ℝ) ∧ rl (((69 : ℕ)) : ℝ) < (-5.6841135 : ℝ)) ∧
    ((-5.654402 : ℝ) < rl (((71 : ℕ)) : ℝ) ∧ rl (((71 : ℕ)) : ℝ) < (-5.6518019 : ℝ)) ∧
    ((-5.6385087 : ℝ) < rl (((72 : ℕ)) : ℝ) ∧ rl (((72 : ℕ)) : ℝ) < (-5.6383686 : ℝ)) ∧
    ((-5.5945556 : ℝ) < rl (((75 : ℕ)) : ℝ) ∧ rl (((75 : ℕ)) : ℝ) < (-5.5943155 : ℝ)) ∧
    ((-5.5802026 : ℝ) < rl (((76 : ℕ)) : ℝ) ∧ rl (((76 : ℕ)) : ℝ) < (-5.5801165 : ℝ)) ∧
    ((-5.5520841 : ℝ) < rl (((78 : ℕ)) : ℝ) ∧ rl (((78 : ℕ)) : ℝ) < (-5.5520833 : ℝ)) ∧
    ((-5.5382865 : ℝ) < rl (((79 : ℕ)) : ℝ) ∧ rl (((79 : ℕ)) : ℝ) < (-5.5382857 : ℝ)) ∧
    ((-5.5112203 : ℝ) < rl (((81 : ℕ)) : ℝ) ∧ rl (((81 : ℕ)) : ℝ) < (-5.5111342 : ℝ)) ∧
    ((-5.4978362 : ℝ) < rl (((82 : ℕ)) : ℝ) ∧ rl (((82 : ℕ)) : ℝ) < (-5.4978243 : ℝ)) ∧
    ((-5.4597465 : ℝ) < rl (((85 : ℕ)) : ℝ) ∧ rl (((85 : ℕ)) : ℝ) < (-5.4581264 : ℝ)) ∧
    ((-5.4460564 : ℝ) < rl (((86 : ℕ)) : ℝ) ∧ rl (((86 : ℕ)) : ℝ) < (-5.4457763 : ℝ)) ∧
    ((-5.4088846 : ℝ) < rl (((89 : ℕ)) : ℝ) ∧ rl (((89 : ℕ)) : ℝ) < (-5.4078045 : ℝ)) ∧
    ((-5.3963521 : ℝ) < rl (((90 : ℕ)) : ℝ) ∧ rl (((90 : ℕ)) : ℝ) < (-5.396092 : ℝ)) ∧
    ((-5.3606921 : ℝ) < rl (((93 : ℕ)) : ℝ) ∧ rl (((93 : ℕ)) : ℝ) < (-5.359812 : ℝ)) ∧
    ((-5.3485468 : ℝ) < rl (((94 : ℕ)) : ℝ) ∧ rl (((94 : ℕ)) : ℝ) < (-5.3482667 : ℝ)) ∧
    ((-5.3024757 : ℝ) < rl (((98 : ℕ)) : ℝ) ∧ rl (((98 : ℕ)) : ℝ) < (-5.3023856 : ℝ)) ∧
    ((-5.2914592 : ℝ) < rl (((99 : ℕ)) : ℝ) ∧ rl (((99 : ℕ)) : ℝ) < (-5.2909791 : ℝ)) ∧
    ((-5.2588247 : ℝ) < rl (((102 : ℕ)) : ℝ) ∧ rl (((102 : ℕ)) : ℝ) < (-5.2574646 : ℝ)) ∧
    ((-5.2473088 : ℝ) < rl (((103 : ℕ)) : ℝ) ∧ rl (((103 : ℕ)) : ℝ) < (-5.2471827 : ℝ)) ∧
    ((-5.2050556 : ℝ) < rl (((107 : ℕ)) : ℝ) ∧ rl (((107 : ℕ)) : ℝ) < (-5.2044555 : ℝ)) :=
  ⟨rl_bound_div 63 (263 / 1250) (6917832161683 / 29296875000000) (0.00053)
      (-5.7818362) (-5.7807761) (263 / 1250) 8 4
      (by unfold v2r rRef adcFS rPullup; norm_num)
      (abs_of_pos (by norm_num))
      (by norm_num)
      (by norm_num [Finset.sum_range_succ])
      (by norm_num)
      (by push_cast; norm_num)
      (by push_cast; norm_num),
   rl_bound_div 64 (23619 / 119875) (108633091087779426642634521 / 495077394377929077148437500) (0.000073)
      (-5.764677) (-5.7645309) (23619 / 119875) 8 5
      (by unfold v2r rRef adcFS rPullup; norm_num)
      (abs_of_pos (by norm_num))
      (by norm_num)
      (by norm_num [Finset.sum_range_succ])
      (by norm_num)
      (by push_cast; norm_num)
      (by push_cast; norm_num),
   rl_bound_div 66 (617 / 3625) (386543359513913 / 2072112304687500) (0.00018)
      (-5.7319031) (-5.731543) (617 / 3625) 8 4
      (by unfold v2r rRef adcFS rPullup; norm_num)
      (abs_of_pos (by norm_num))
      (by norm_num)
      (by norm_num [Finset.sum_range_succ])
      (by norm_num)
      (by push_cast; norm_num)
      (by push_cast; norm_num),
   rl_bound_div 67 (4683 / 29875) (543186712282438371 / 3186336563476562500) (0.00012)
      (-5.7157712) (-5.7155311) (4683 / 29875) 8 4
      (by unfold v2r rRef adcFS rPullup; norm_num)
      (abs_of_pos (by norm_num))
      (by norm_num)
      (by norm_num [Finset.sum_range_succ])
      (by norm_num)
      (by push_cast; norm_num)
      (by push_cast; norm_num),
   rl_bound_div 68 (17103 / 119375) (525702783185943 / 3402280761718750) (0.0005)
      (-5.7001923) (-5.6991922) (17103 / 119375) 8 3
      (by unfold v2r rRef adcFS rPullup; norm_num)
      (abs_of_pos (by norm_num))
      (by norm_num)
      (by norm_num [Finset.sum_range_succ])
      (by norm_num)
      (by push_cast; norm_num)
      (by push_cast; norm_num),
   rl_bound_div 69 (2579 / 19875) (9638194159885259 / 69349930664062500) (0.000043)
      (-5.6841996) (-5.6841135) (2579 / 19875) 8 4
      (by unfold v2r rRef adcFS rPullup; norm_num)
      (abs_of_pos (by norm_num))
      (by norm_num)
      (by norm_num [Finset.sum_range_succ])
      (by norm_num)
      (by push_cast; norm_num)
      (by push_cast; norm_num),
   rl_bound_div 71 (1527 / 14875) (47759979 / 442531250) (0.0013)
      (-5.654402) (-5.6518019) (1527 / 14875) 8 2
      (by unfold v2r rRef adcFS rPullup; norm_num)
      (abs_of_pos (by norm_num))
      (by norm_num)
      (by norm_num [Finset.sum_range_succ])
      (by norm_num)
      (by push_cast; norm_num)
      (by push_cast; norm_num),
   rl_bound_div 72 (3529 / 39625) (34814507152403 / 373300933593750) (0.00007)
      (-5.6385087) (-5.6383686) (3529 / 39625) 8 3
      (by unfold v2r rRef adcFS rPullup; norm_num)
      (abs_of_pos (by norm_num))
      (by norm_num)
      (by norm_num [Finset.sum_range_succ])
      (by norm_num)
      (by push_cast; norm_num)
      (by push_cast; norm_num),
   rl_bound_div 75 (19 / 395) (15371 / 312050) (0.00012)
      (-5.5945556) (-5.5943155) (19 / 395) 8 2
      (by unfold v2r rRef adcFS rPullup; norm_num)
      (abs_of_pos (by norm_num))
      (by norm_num)
      (by norm_num [Finset.sum_range_succ])
      (by norm_num)
      (by push_cast; norm_num)
      (by push_cast; norm_num),
   rl_bound_div 76 (4071 / 118375) (980382291 / 28025281250) (0.000043)
      (-5.5802026) (-5.5801165) (4071 / 118375) 8 2
      (by unfold v2r rRef adcFS rPullup; norm_num)
      (abs_of_pos (by norm_num))
      (by norm_num)
      (by norm_num [Finset.sum_range_succ])
      (by norm_num)
      (by push_cast; norm_num)
      (by push_cast; norm_num),
   rl_bound_div 78 (271 / 39375) (21414691 / 3100781250) (0.00000033)
      (-5.5520841) (-5.5520833) (271 / 39375) 8 2
      (by unfold v2r rRef adcFS rPullup; norm_num)
      (abs_of_pos (by norm_num))
      (by norm_num)
      (by norm_num [Finset.sum_range_succ])
      (by norm_num)
      (by push_cast; norm_num)
      (by push_cast; norm_num),
   rl_bound_div 79 (-(51 / 7375)) (-749649 / 108781250) (0.00000034)
      (-5.5382865) (-5.5382857) (51 / 7375) 8 2
      (by unfold v2r rRef adcFS rPullup; norm_num)
      (by rw [abs_of_neg (by norm_num)]; norm_num)
      (by norm_num)
      (by norm_num [Finset.sum_range_succ])
      (by norm_num)
      (by push_cast; norm_num)
      (by push_cast; norm_num),
   rl_bound_div 81 (-(679 / 19625)) (-26189709 / 770281250) (0.000043)
      (-5.5112203) (-5.5111342) (679 / 19625) 8 2
      (by unfold v2r rRef adcFS rPullup; norm_num)
      (by rw [abs_of_neg (by norm_num)]; norm_num)
      (by norm_num)
      (by norm_num [Finset.sum_range_succ])
      (by norm_num)
      (by push_cast; norm_num)
      (by push_cast; norm_num),
   rl_bound_div 82 (-(5703 / 117625)) (-154107313927743 / 3254834457031250) (0.0000059)
      (-5.4978362) (-5.4978243) (5703 / 117625) 8 3
      (by unfold v2r rRef adcFS rPullup; norm_num)
      (by rw [abs_of_neg (by norm_num)]; norm_num)
      (by norm_num)
      (by norm_num [Finset.sum_range_succ])
      (by norm_num)
      (by push_cast; norm_num)
      (by push_cast; norm_num),
   rl_bound_div 85 (-(1059 / 11725)) (-23712069 / 274951250) (0.00081)
      (-5.4597465) (-5.4581264) (1059 / 11725) 8 2
      (by unfold v2r rRef adcFS rPullup; norm_num)
      (by rw [abs_of_neg (by norm_num)]; norm_num)
      (by norm_num)
      (by norm_num [Finset.sum_range_succ])
      (by norm_num)
      (by push_cast; norm_num)
      (by push_cast; norm_num),
   rl_bound_div 86 (-(12219 / 117125)) (-318975978977931 / 3213503722656250) (0.00014)
      (-5.4460564) (-5.4457763) (12219 / 117125) 8 3
      (by unfold v2r rRef adcFS rPullup; norm_num)
      (by rw [abs_of_neg (by norm_num)]; norm_num)
      (by norm_num)
      (by norm_num [Finset.sum_range_succ])
      (by norm_num)
      (by push_cast; norm_num)
      (by push_cast; norm_num),
   rl_bound_div 89 (-(8553 / 58375)) (-54437869949793 / 397842042968750) (0.00054)
      (-5.4088846) (-5.4078045) (8553 / 58375) 8 3
      (by unfold v2r rRef adcFS rPullup; norm_num)
      (by rw [abs_of_neg (by norm_num)]; norm_num)
      (by norm_num)
      (by norm_num [Finset.sum_range_succ])
      (by norm_num)
      (by push_cast; norm_num)
      (by push_cast; norm_num),
   rl_bound_div 90 (-(1249 / 7775)) (-6531891598092647 / 43851336754687500) (0.00013)
      (-5.3963521) (-5.396092) (1249 / 7775) 8 4
      (by unfold v2r rRef adcFS rPullup; norm_num)
      (by rw [abs_of_neg (by norm_num)]; norm_num)
      (by norm_num)
      (by norm_num [Finset.sum_range_succ])
      (by norm_num)
      (by push_cast; norm_num)
      (by push_cast; norm_num),
   rl_bound_div 93 (-(127 / 625)) (-338608492327 / 1831054687500) (0.00044)
      (-5.3606921) (-5.359812) (127 / 625) 8 4
      (by unfold v2r rRef adcFS rPullup; norm_num)
      (by rw [abs_of_neg (by norm_num)]; norm_num)
      (by norm_num)
      (by norm_num [Finset.sum_range_succ])
      (by norm_num)
      (by push_cast; norm_num)
      (by push_cast; norm_num),
   rl_bound_div 94 (-(25251 / 116125)) (-83103438375740423471643129 / 422336513779082641601562500) (0.00014)
      (-5.3485468) (-5.3482667) (25251 / 116125) 8 5
      (by unfold v2r rRef adcFS rPullup; norm_num)
      (by rw [abs_of_neg (by norm_num)]; norm_num)
      (by norm_num)
      (by norm_num [Finset.sum_range_succ])
      (by norm_num)
      (by push_cast; norm_num)
      (by push_cast; norm_num),
   rl_bound_div 98 (-(31767 / 115625)) (-1877905414010492937583829880543323817 / 7736067519651260226964950561523437500) (0.000045)
      (-5.3024757) (-5.3023856) (31767 / 115625) 8 7
      (by unfold v2r rRef adcFS rPullup; norm_num)
      (by rw [abs_of_neg (by norm_num)]; norm_num)
      (by norm_num)
      (by norm_num [Finset.sum_range_succ])
      (by norm_num)
      (by push_cast; norm_num)
      (by push_cast; norm_num),
   rl_bound_div 99 (-(253 / 875)) (-455901129219879739 / 1795181274414062500) (0.00024)
      (-5.2914592) (-5.2909791) (253 / 875) 8 6
      (by unfold v2r rRef adcFS rPullup; norm_num)
      (by rw [abs_of_neg (by norm_num)]; norm_num)
      (by norm_num)
      (by norm_num [Finset.sum_range_succ])
      (by norm_num)
      (by push_cast; norm_num)
      (by push_cast; norm_num),
   rl_bound_div 102 (-(12761 / 38375)) (-11000261874481843004466435353 / 38324065783092453002929687500) (0.00068)
      (-5.2588247) (-5.2574646) (12761 / 38375) 8 6
      (by unfold v2r rRef adcFS rPullup; norm_num)
      (by rw [abs_of_neg (by norm_num)]; norm_num)
      (by norm_num)
      (by norm_num [Finset.sum_range_succ])
      (by norm_num)
      (by push_cast; norm_num)
      (by push_cast; norm_num),
   rl_bound_div 103 (4693 / 14375) (121061493844046569353685590536284271 / 306317711416818201541900634765625000) (0.000063)
      (-5.2473088) (-5.2471827) (4693 / 14375) 7 8
      (by unfold v2r rRef adcFS rPullup; norm_num)
      (abs_of_pos (by norm_num))
      (by norm_num)
      (by norm_num [Finset.sum_range_succ])
      (by norm_num)
      (by push_cast; norm_num)
      (by push_cast; norm_num),
   rl_bound_div 107 (8509 / 28625) (2328578034838381118589742807 / 6601676184179122924804687500) (0.0003)
      (-5.2050556) (-5.2044555) (8509 / 28625) 7 6
      (by unfold v2r rRef adcFS rPullup; norm_num)
      (abs_of_pos (by norm_num))
      (by norm_num)
      (by norm_num [Finset.sum_range_succ])
      (by norm_num)
      (by push_cast; norm_num)
      (by push_cast; norm_num)⟩

theorem rlbC_2 : ((-5.1946176 : ℝ) < rl (((108 : ℕ)) : ℝ) ∧ rl (((108 : ℕ)) : ℝ) < (-5.1941175 : ℝ)) ∧
    ((-5.1540148 : ℝ) < rl (((112 : ℕ)) : ℝ) ∧ rl (((112 : ℕ)) : ℝ) < (-5.1531547 : ℝ)) ∧
    ((-5.1439687 : ℝ) < rl (((113 : ℕ)) : ℝ) ∧ rl (((113 : ℕ)) : ℝ) < (-5.1432486 : ℝ)) ∧
    ((-5.0948633 : ℝ) < rl (((118 : ℕ)) : ℝ) ∧ rl (((118 : ℕ)) : ℝ) < (-5.0948512 : ℝ)) ∧
    ((-5.0857191 : ℝ) < rl (((119 : ℕ)) : ℝ) ∧ rl (((119 : ℕ)) : ℝ) < (-5.084719 : ℝ)) ∧
    ((-5.0479964 : ℝ) < rl (((123 : ℕ)) : ℝ) ∧ rl (((123 : ℕ)) : ℝ) < (-5.0475563 : ℝ)) ∧
    ((-5.0387559 : ℝ) < rl (((124 : ℕ)) : ℝ) ∧ rl (((124 : ℕ)) : ℝ) < (-5.0383958 : ℝ)) ∧
    ((-4.9937664 : ℝ) < rl (((129 : ℕ)) : ℝ) ∧ rl (((129 : ℕ)) : ℝ) < (-4.9930663 : ℝ)) ∧
    ((-4.9848738 : ℝ) < rl (((130 : ℕ)) : ℝ) ∧ rl (((130 : ℕ)) : ℝ) < (-4.9843136 : ℝ)) ∧
    ((-4.9328003 : ℝ) < rl (((136 : ℕ)) : ℝ) ∧ rl (((136 : ℕ)) : ℝ) < (-4.932794 : ℝ)) ∧
    ((-4.9243635 : ℝ) < rl (((137 : ℕ)) : ℝ) ∧ rl (((137 : ℕ)) : ℝ) < (-4.9243114 : ℝ)) ∧
    ((-4.8828578 : ℝ) < rl (((142 : ℕ)) : ℝ) ∧ rl (((142 : ℕ)) : ℝ) < (-4.8827997 : ℝ)) ∧
    ((-4.8746932 : ℝ) < rl (((143 : ℕ)) : ℝ) ∧ rl (((143 : ℕ)) : ℝ) < (-4.8746691 : ℝ)) ∧
    ((-4.8267653 : ℝ) < rl (((149 : ℕ)) : ℝ) ∧ rl (((149 : ℕ)) : ℝ) < (-4.8267292 : ℝ)) ∧
    ((-4.8189604 : ℝ) < rl (((150 : ℕ)) : ℝ) ∧ rl (((150 : ℕ)) : ℝ) < (-4.8188803 : ℝ)) ∧
    ((-4.7653061 : ℝ) < rl (((157 : ℕ)) : ℝ) ∧ rl (((157 : ℕ)) : ℝ) < (-4.765156 : ℝ)) ∧
    ((-4.7578301 : ℝ) < rl (((158 : ℕ)) : ℝ) ∧ rl (((158 : ℕ)) : ℝ) < (-4.75761 : ℝ)) ∧
    ((-4.7062822 : ℝ) < rl (((165 : ℕ)) : ℝ) ∧ rl (((165 : ℕ)) : ℝ) < (-4.7062461 : ℝ)) ∧
    ((-4.6992296 : ℝ) < rl (((166 : ℕ)) : ℝ) ∧ rl (((166 : ℕ)) : ℝ) < (-4.6989295 : ℝ)) ∧
    ((-4.6497046 : ℝ) < rl (((173 : ℕ)) : ℝ) ∧ rl (((173 : ℕ)) : ℝ) < (-4.6493645 : ℝ)) ∧
    ((-4.6427994 : ℝ) < rl (((174 : ℕ)) : ℝ) ∧ rl (((174 : ℕ)) : ℝ) < (-4.6423793 : ℝ)) ∧
    ((-4.5882013 : ℝ) < rl (((182 : ℕ)) : ℝ) ∧ rl (((182 : ℕ)) : ℝ) < (-4.588183 : ℝ)) ∧
    ((-4.581645 : ℝ) < rl (((183 : ℕ)) : ℝ) ∧ rl (((183 : ℕ)) : ℝ) < (-4.5813849 : ℝ)) ∧
    ((-4.5292822 : ℝ) < rl (((191 : ℕ)) : ℝ) ∧ rl (((191 : ℕ)) : ℝ) < (-4.5290221 : ℝ)) ∧
    ((-4.5227716 : ℝ) < rl (((192 : ℕ)) : ℝ) ∧ rl (((192 : ℕ)) : ℝ) < (-4.5227055 : ℝ)) :=
  ⟨rl_bound_div 108 (11053 / 38125) (4205070240779196998909349461 / 12283414449930191040039062500) (0.00025)
      (-5.1946176) (-5.1941175) (11053 / 38125) 7 6
      (by unfold v2r rRef adcFS rPullup; norm_num)
      (abs_of_pos (by norm_num))
      (by norm_num)
      (by norm_num [Finset.sum_range_succ])
      (by norm_num)
      (by push_cast; norm_num)
      (by push_cast; norm_num),
   rl_bound_div 112 (29651 / 113875) (346464676849052845161343387 / 1148929023093660278320312500) (0.00043)
      (-5.1540148) (-5.1531547) (29651 / 113875) 7 5
      (by unfold v2r rRef adcFS rPullup; norm_num)
      (abs_of_pos (by norm_num))
      (by norm_num)
      (by norm_num [Finset.sum_range_succ])
      (by norm_num)
      (by push_cast; norm_num)
      (by push_cast; norm_num),
   rl_bound_div 113 (14387 / 56875) (10411506614991914060607859 / 35707405763626098632812500) (0.00036)
      (-5.1439687) (-5.1432486) (14387 / 56875) 7 5
      (by unfold v2r rRef adcFS rPullup; norm_num)
      (abs_of_pos (by norm_num))
      (by norm_num)
      (by norm_num [Finset.sum_range_succ])
      (by norm_num)
      (by push_cast; norm_num)
      (by push_cast; norm_num),
   rl_bound_div 118 (24389 / 113125) (4836001472960534315794153473616077673 / 19915418248062563091516494750976562500) (0.000006)
      (-5.0948633) (-5.0948512) (24389 / 113125) 7 7
      (by unfold v2r rRef adcFS rPullup; norm_num)
      (abs_of_pos (by norm_num))
      (by norm_num)
      (by norm_num [Finset.sum_range_succ])
      (by norm_num)
      (by push_cast; norm_num)
      (by push_cast; norm_num),
   rl_bound_div 119 (2939 / 14125) (111389119807451273 / 477677815429687500) (0.0005)
      (-5.0857191) (-5.084719) (2939 / 14125) 7 4
      (by unfold v2r rRef adcFS rPullup; norm_num)
      (abs_of_pos (by norm_num))
      (by norm_num)
      (by norm_num [Finset.sum_range_succ])
      (by norm_num)
      (by push_cast; norm_num)
      (by push_cast; norm_num),
   rl_bound_div 123 (1667 / 9375) (6048366600955571 / 30899047851562500) (0.00022)
      (-5.0479964) (-5.0475563) (1667 / 9375) 7 4
      (by unfold v2r rRef adcFS rPullup; norm_num)
      (abs_of_pos (by norm_num))
      (by norm_num)
      (by norm_num [Finset.sum_range_succ])
      (by norm_num)
      (by push_cast; norm_num)
      (by push_cast; norm_num),
   rl_bound_div 124 (617 / 3625) (386543359513913 / 2072112304687500) (0.00018)
      (-5.0387559) (-5.0383958) (617 / 3625) 7 4
      (by unfold v2r rRef adcFS rPullup; norm_num)
      (abs_of_pos (by norm_num))
      (by norm_num)
      (by norm_num [Finset.sum_range_succ])
      (by norm_num)
      (by push_cast; norm_num)
      (by push_cast; norm_num),
   rl_bound_div 129 (2457 / 18625) (1826945202537 / 12921675781250) (0.00035)
      (-4.9937664) (-4.9930663) (2457 / 18625) 7 3
      (by unfold v2r rRef adcFS rPullup; norm_num)
      (abs_of_pos (by norm_num))
      (by norm_num)
      (by norm_num [Finset.sum_range_succ])
      (by norm_num)
      (by push_cast; norm_num)
      (by push_cast; norm_num),
   rl_bound_div 130 (59 / 475) (85242433 / 643031250) (0.00028)
      (-4.9848738) (-4.9843136) (59 / 475) 7 3
      (by unfold v2r rRef adcFS rPullup; norm_num)
      (abs_of_pos (by norm_num))
      (by norm_num)
      (by norm_num [Finset.sum_range_succ])
      (by norm_num)
      (by push_cast; norm_num)
      (by push_cast; norm_num),
   rl_bound_div 136 (8603 / 110875) (146470187348436512393 / 1813492556721679687500) (0.0000031)
      (-4.9328003) (-4.932794) (8603 / 110875) 7 4
      (by unfold v2r rRef adcFS rPullup; norm_num)
      (abs_of_pos (by norm_num))
      (by norm_num)
      (by norm_num [Finset.sum_range_succ])
      (by norm_num)
      (by push_cast; norm_num)
      (by push_cast; norm_num),
   rl_bound_div 137 (3863 / 55375) (73667140219669 / 1018808285156250) (0.000026)
      (-4.9243635) (-4.9243114) (3863 / 55375) 7 3
      (by unfold v2r rRef adcFS rPullup; norm_num)
      (abs_of_pos (by norm_num))
      (by norm_num)
      (by norm_num [Finset.sum_range_succ])
      (by norm_num)
      (by push_cast; norm_num)
      (by push_cast; norm_num),
   rl_bound_div 142 (3341 / 110125) (747017531 / 24255031250) (0.000029)
      (-4.8828578) (-4.8827997) (3341 / 110125) 7 2
      (by unfold v2r rRef adcFS rPullup; norm_num)
      (abs_of_pos (by norm_num))
      (by norm_num)
      (by norm_num [Finset.sum_range_succ])
      (by norm_num)
      (by push_cast; norm_num)
      (by push_cast; norm_num),
   rl_bound_div 143 (14 / 625) (8848 / 390625) (0.000012)
      (-4.8746932) (-4.8746691) (14 / 625) 7 2
      (by unfold v2r rRef adcFS rPullup; norm_num)
      (abs_of_pos (by norm_num))
      (by norm_num)
      (by norm_num [Finset.sum_range_succ])
      (by norm_num)
      (by push_cast; norm_num)
      (by push_cast; norm_num),
   rl_bound_div 149 (-(1399 / 54625)) (-150883549 / 5967781250) (0.000018)
      (-4.8267653) (-4.8267292) (1399 / 54625) 7 2
      (by unfold v2r rRef adcFS rPullup; norm_num)
      (by rw [abs_of_neg (by norm_num)]; norm_num)
      (by norm_num)
      (by norm_num [Finset.sum_range_succ])
      (by norm_num)
      (by push_cast; norm_num)
      (by push_cast; norm_num),
   rl_bound_div 150 (-(49 / 1455)) (-140189 / 4234050) (0.00004)
      (-4.8189604) (-4.8188803) (49 / 1455) 7 2
      (by unfold v2r rRef adcFS rPullup; norm_num)
      (by rw [abs_of_neg (by norm_num)]; norm_num)
      (by norm_num)
      (by norm_num [Finset.sum_range_succ])
      (by norm_num)
      (by push_cast; norm_num)
      (by push_cast; norm_num),
   rl_bound_div 157 (-(4907 / 54125)) (-82577336261161 / 951360199218750) (0.000075)
      (-4.7653061) (-4.765156) (4907 / 54125) 7 3
      (by unfold v2r rRef adcFS rPullup; norm_num)
      (by rw [abs_of_neg (by norm_num)]; norm_num)
      (by norm_num)
      (by norm_num [Finset.sum_range_succ])
      (by norm_num)
      (by push_cast; norm_num)
      (by push_cast; norm_num),
   rl_bound_div 158 (-(10691 / 108125)) (-715300551620617 / 7584546386718750) (0.00011)
      (-4.7578301) (-4.75761) (10691 / 108125) 7 3
      (by unfold v2r rRef adcFS rPullup; norm_num)
      (by rw [abs_of_neg (by norm_num)]; norm_num)
      (by norm_num)
      (by norm_num [Finset.sum_range_succ])
      (by norm_num)
      (by push_cast; norm_num)
      (by push_cast; norm_num),
   rl_bound_div 165 (-(51 / 325)) (-10570693968129 / 72518164062500) (0.000018)
      (-4.7062822) (-4.7062461) (51 / 325) 7 5
      (by unfold v2r rRef adcFS rPullup; norm_num)
      (by rw [abs_of_neg (by norm_num)]; norm_num)
      (by norm_num)
      (by norm_num [Finset.sum_range_succ])
      (by norm_num)
      (by push_cast; norm_num)
      (by push_cast; norm_num),
   rl_bound_div 166 (-(17707 / 107125)) (-241710889889785953847 / 1580318360159179687500) (0.00015)
      (-4.6992296) (-4.6989295) (17707 / 107125) 7 4
      (by unfold v2r rRef adcFS rPullup; norm_num)
      (by rw [abs_of_neg (by norm_num)]; norm_num)
      (by norm_num)
      (by norm_num [Finset.sum_range_succ])
      (by norm_num)
      (by push_cast; norm_num)
      (by push_cast; norm_num),
   rl_bound_div 173 (-(11923 / 53125)) (-5141167829325881923719491 / 25389021635055541992187500) (0.00017)
      (-4.6497046) (-4.6493645) (11923 / 53125) 7 5
      (by unfold v2r rRef adcFS rPullup; norm_num)
      (by rw [abs_of_neg (by norm_num)]; norm_num)
      (by norm_num)
      (by norm_num [Finset.sum_range_succ])
      (by norm_num)
      (by push_cast; norm_num)
      (by push_cast; norm_num),
   rl_bound_div 174 (-(8241 / 35375)) (-232045833139794617008179 / 1107929786159057617187500) (0.00021)
      (-4.6427994) (-4.6423793) (8241 / 35375) 7 5
      (by unfold v2r rRef adcFS rPullup; norm_num)
      (by rw [abs_of_neg (by norm_num)]; norm_num)
      (by norm_num)
      (by norm_num [Finset.sum_range_succ])
      (by norm_num)
      (by push_cast; norm_num)
      (by push_cast; norm_num),
   rl_bound_div 182 (-(31739 / 105125)) (-208507719934407000538319760338211460252519344679 / 790286595523705695915772029340267181396484375000) (0.0000091)
      (-4.5882013) (-4.588183) (31739 / 105125) 7 9
      (by unfold v2r rRef adcFS rPullup; norm_num)
      (by rw [abs_of_neg (by norm_num)]; norm_num)
      (by norm_num)
      (by norm_num [Finset.sum_range_succ])
      (by norm_num)
      (by push_cast; norm_num)
      (by push_cast; norm_num),
   rl_bound_div 183 (-(1359 / 4375)) (-232378709865986520243898551 / 859022289514541625976562500) (0.00013)
      (-4.581645) (-4.5813849) (1359 / 4375) 7 7
      (by unfold v2r rRef adcFS rPullup; norm_num)
      (by rw [abs_of_neg (by norm_num)]; norm_num)
      (by norm_num)
      (by norm_num [Finset.sum_range_succ])
      (by norm_num)
      (by push_cast; norm_num)
      (by push_cast; norm_num),
   rl_bound_div 191 (4023 / 13000) (162636848960343866382557833947 / 439239619000000000000000000000) (0.00013)
      (-4.5292822) (-4.5290221) (4023 / 13000) 6 7
      (by unfold v2r rRef adcFS rPullup; norm_num)
      (abs_of_pos (by norm_num))
      (by norm_num)
      (by norm_num [Finset.sum_range_succ])
      (by norm_num)
      (by push_cast; norm_num)
      (by push_cast; norm_num),
   rl_bound_div 192 (10561 / 34625) (126286375124098659617254620098996719151 / 347078361303633709955692291259765625000) (0.000033)
      (-4.5227716) (-4.5227055) (10561 / 34625) 6 8
      (by unfold v2r rRef adcFS rPullup; norm_num)
      (abs_of_pos (by norm_num))
      (by norm_num)
      (by norm_num [Finset.sum_range_succ])
      (by norm_num)
      (by push_cast; norm_num)
      (by push_cast; norm_num)⟩

theorem rlbC_3 : ((-4.4726843 : ℝ) < rl (((200 : ℕ)) : ℝ) ∧ rl (((200 : ℕ)) : ℝ) < (-4.4716442 : ℝ)) ∧
    ((-4.4660723 : ℝ) < rl (((201 : ℕ)) : ℝ) ∧ rl (((201 : ℕ)) : ℝ) < (-4.4660062 : ℝ)) ∧
    ((-4.4052768 : ℝ) < rl (((211 : ℕ)) : ℝ) ∧ rl (((211 : ℕ)) : ℝ) < (-4.4052146 : ℝ)) ∧
    ((-4.3997509 : ℝ) < rl (((212 : ℕ)) : ℝ) ∧ rl (((212 : ℕ)) : ℝ) < (-4.3986108 : ℝ)) ∧
    ((-4.3466994 : ℝ) < rl (((221 : ℕ)) : ℝ) ∧ rl (((221 : ℕ)) : ℝ) < (-4.3463393 : ℝ)) ∧
    ((-4.3408132 : ℝ) < rl (((222 : ℕ)) : ℝ) ∧ rl (((222 : ℕ)) : ℝ) < (-4.3407611 : ℝ)) ∧
    ((-4.2786192 : ℝ) < rl (((233 : ℕ)) : ℝ) ∧ rl (((233 : ℕ)) : ℝ) < (-4.2785771 : ℝ)) ∧
    ((-4.2731758 : ℝ) < rl (((234 : ℕ)) : ℝ) ∧ rl (((234 : ℕ)) : ℝ) < (-4.2728557 : ℝ)) ∧
    ((-4.2185932 : ℝ) < rl (((244 : ℕ)) : ℝ) ∧ rl (((244 : ℕ)) : ℝ) < (-4.2181731 : ℝ)) ∧
    ((-4.2130822 : ℝ) < rl (((245 : ℕ)) : ℝ) ∧ rl (((245 : ℕ)) : ℝ) < (-4.2130657 : ℝ)) ∧
    ((-4.1497149 : ℝ) < rl (((257 : ℕ)) : ℝ) ∧ rl (((257 : ℕ)) : ℝ) < (-4.1497132 : ℝ)) ∧
    ((-4.1445281 : ℝ) < rl (((258 : ℕ)) : ℝ) ∧ rl (((258 : ℕ)) : ℝ) < (-4.1445218 : ℝ)) ∧
    ((-4.083284 : ℝ) < rl (((270 : ℕ)) : ℝ) ∧ rl (((270 : ℕ)) : ℝ) < (-4.0831999 : ℝ)) ∧
    ((-4.0782686 : ℝ) < rl (((271 : ℕ)) : ℝ) ∧ rl (((271 : ℕ)) : ℝ) < (-4.0781585 : ℝ)) ∧
    ((-4.0189157 : ℝ) < rl (((283 : ℕ)) : ℝ) ∧ rl (((283 : ℕ)) : ℝ) < (-4.0187336 : ℝ)) ∧
    ((-4.0139344 : ℝ) < rl (((284 : ℕ)) : ℝ) ∧ rl (((284 : ℕ)) : ℝ) < (-4.0139289 : ℝ)) ∧
    ((-3.9467458 : ℝ) < rl (((298 : ℕ)) : ℝ) ∧ rl (((298 : ℕ)) : ℝ) < (-3.9466357 : ℝ)) ∧
    ((-3.9421976 : ℝ) < rl (((299 : ℕ)) : ℝ) ∧ rl (((299 : ℕ)) : ℝ) < (-3.9416575 : ℝ)) ∧
    ((-3.8767351 : ℝ) < rl (((313 : ℕ)) : ℝ) ∧ rl (((313 : ℕ)) : ℝ) < (-3.876611 : ℝ)) ∧
    ((-3.872286 : ℝ) < rl (((314 : ℕ)) : ℝ) ∧ rl (((314 : ℕ)) : ℝ) < (-3.8718259 : ℝ)) ∧
    ((-3.8087227 : ℝ) < rl (((328 : ℕ)) : ℝ) ∧ rl (((328 : ℕ)) : ℝ) < (-3.8082226 : ℝ)) ∧
    ((-3.8040792 : ℝ) < rl (((329 : ℕ)) : ℝ) ∧ rl (((329 : ℕ)) : ℝ) < (-3.8039491 : ℝ)) ∧
    ((-3.7377891 : ℝ) < rl (((344 : ℕ)) : ℝ) ∧ rl (((344 : ℕ)) : ℝ) < (-3.737309 : ℝ)) ∧
    ((-3.7332555 : ℝ) < rl (((345 : ℕ)) : ℝ) ∧ rl (((345 : ℕ)) : ℝ) < (-3.7331514 : ℝ)) ∧
    ((-3.664181 : ℝ) < rl (((361 : ℕ)) : ℝ) ∧ rl (((361 : ℕ)) : ℝ) < (-3.6637209 : ℝ)) :=
  ⟨rl_bound_div 200 (1107 / 4115) (7392877308321620553 / 23598217162521437500) (0.00052)
      (-4.4726843) (-4.4716442) (1107 / 4115) 6 5
      (by unfold v2r rRef adcFS rPullup; norm_num)
      (abs_of_pos (by norm_num))
      (by norm_num)
      (by norm_num [Finset.sum_range_succ])
      (by norm_num)
      (by push_cast; norm_num)
      (by push_cast; norm_num),
   rl_bound_div 201 (4529 / 17125) (1592042087724179252428532321119 / 5183168256760213851928710937500) (0.000033)
      (-4.4660723) (-4.4660062) (4529 / 17125) 6 7
      (by unfold v2r rRef adcFS rPullup; norm_num)
      (abs_of_pos (by norm_num))
      (by norm_num)
      (by norm_num [Finset.sum_range_succ])
      (by norm_num)
      (by push_cast; norm_num)
      (by push_cast; norm_num),
   rl_bound_div 211 (5541 / 25375) (263069866351484044034043669 / 1067815687443984985351562500) (0.000031)
      (-4.4052768) (-4.4052146) (5541 / 25375) 6 6
      (by unfold v2r rRef adcFS rPullup; norm_num)
      (abs_of_pos (by norm_num))
      (by norm_num)
      (by norm_num [Finset.sum_range_succ])
      (by norm_num)
      (by push_cast; norm_num)
      (by push_cast; norm_num),
   rl_bound_div 212 (21663 / 101375) (101515712415396217011 / 422457923672851562500) (0.00057)
      (-4.3997509) (-4.3986108) (21663 / 101375) 6 4
      (by unfold v2r rRef adcFS rPullup; norm_num)
      (abs_of_pos (by norm_num))
      (by norm_num)
      (by norm_num [Finset.sum_range_succ])
      (by norm_num)
      (by push_cast; norm_num)
      (by push_cast; norm_num),
   rl_bound_div 221 (8577 / 50125) (4737991679758824291 / 25250939063476562500) (0.00018)
      (-4.3466994) (-4.3463393) (8577 / 50125) 6 4
      (by unfold v2r rRef adcFS rPullup; norm_num)
      (abs_of_pos (by norm_num))
      (by norm_num)
      (by norm_num [Finset.sum_range_succ])
      (by norm_num)
      (by push_cast; norm_num)
      (by push_cast; norm_num),
   rl_bound_div 222 (5551 / 33375) (150653323541974618721629 / 828202176578979492187500) (0.000026)
      (-4.3408132) (-4.3407611) (5551 / 33375) 6 5
      (by unfold v2r rRef adcFS rPullup; norm_num)
      (abs_of_pos (by norm_num))
      (by norm_num)
      (by norm_num [Finset.sum_range_succ])
      (by norm_num)
      (by push_cast; norm_num)
      (by push_cast; norm_num),
   rl_bound_div 233 (5571 / 49375) (2846014896125354931 / 23773242797851562500) (0.000021)
      (-4.2786192) (-4.2785771) (5571 / 49375) 6 4
      (by unfold v2r rRef adcFS rPullup; norm_num)
      (abs_of_pos (by norm_num))
      (by norm_num)
      (by norm_num [Finset.sum_range_succ])
      (by norm_num)
      (by push_cast; norm_num)
      (by push_cast; norm_num),
   rl_bound_div 234 (3547 / 32875) (24330926865521 / 213181019531250) (0.00016)
      (-4.2731758) (-4.2728557) (3547 / 32875) 6 3
      (by unfold v2r rRef adcFS rPullup; norm_num)
      (abs_of_pos (by norm_num))
      (by norm_num)
      (by norm_num [Finset.sum_range_succ])
      (by norm_num)
      (by push_cast; norm_num)
      (by push_cast; norm_num),
   rl_bound_div 244 (5631 / 97375) (1128345411 / 18963781250) (0.00021)
      (-4.2185932) (-4.2181731) (5631 / 97375) 6 2
      (by unfold v2r rRef adcFS rPullup; norm_num)
      (abs_of_pos (by norm_num))
      (by norm_num)
      (by norm_num [Finset.sum_range_succ])
      (by norm_num)
      (by push_cast; norm_num)
      (by push_cast; norm_num),
   rl_bound_div 245 (513 / 9725) (99683913573 / 1839495906250) (0.0000082)
      (-4.2130822) (-4.2130657) (513 / 9725) 6 3
      (by unfold v2r rRef adcFS rPullup; norm_num)
      (abs_of_pos (by norm_num))
      (by norm_num)
      (by norm_num [Finset.sum_range_succ])
      (by norm_num)
      (by push_cast; norm_num)
      (by push_cast; norm_num),
   rl_bound_div 257 (-(441 / 47875)) (-42031269 / 4584031250) (0.00000079)
      (-4.1497149) (-4.1497132) (441 / 47875) 6 2
      (by unfold v2r rRef adcFS rPullup; norm_num)
      (by rw [abs_of_neg (by norm_num)]; norm_num)
      (by norm_num)
      (by norm_num [Finset.sum_range_succ])
      (by norm_num)
      (by push_cast; norm_num)
      (by push_cast; norm_num),
   rl_bound_div 258 (-(461 / 31875)) (-29176229 / 2032031250) (0.0000031)
      (-4.1445281) (-4.1445218) (461 / 31875) 6 2
      (by unfold v2r rRef adcFS rPullup; norm_num)
      (by rw [abs_of_neg (by norm_num)]; norm_num)
      (by norm_num)
      (by norm_num [Finset.sum_range_succ])
      (by norm_num)
      (by push_cast; norm_num)
      (by push_cast; norm_num),
   rl_bound_div 270 (-(493 / 6275)) (-112137347639 / 1482492281250) (0.000042)
      (-4.083284) (-4.0831999) (493 / 6275) 6 3
      (by unfold v2r rRef adcFS rPullup; norm_num)
      (by rw [abs_of_neg (by norm_num)]; norm_num)
      (by norm_num)
      (by norm_num [Finset.sum_range_succ])
      (by norm_num)
      (by push_cast; norm_num)
      (by push_cast; norm_num),
   rl_bound_div 271 (-(21 / 250)) (-630231 / 7812500) (0.000055)
      (-4.0782686) (-4.0781585) (21 / 250) 6 3
      (by unfold v2r rRef adcFS rPullup; norm_num)
      (by rw [abs_of_neg (by norm_num)]; norm_num)
      (by norm_num)
      (by norm_num [Finset.sum_range_succ])
      (by norm_num)
      (by push_cast; norm_num)
      (by push_cast; norm_num),
   rl_bound_div 283 (-(3477 / 23125)) (-160212459632106909 / 1143897094726562500) (0.000091)
      (-4.0189157) (-4.0187336) (3477 / 23125) 6 4
      (by unfold v2r rRef adcFS rPullup; norm_num)
      (by rw [abs_of_neg (by norm_num)]; norm_num)
      (by norm_num)
      (by norm_num [Finset.sum_range_succ])
      (by norm_num)
      (by push_cast; norm_num)
      (by push_cast; norm_num),
   rl_bound_div 284 (-(14409 / 92375)) (-360254352324588642257403672531 / 2485345094173119522094726562500) (0.0000027)
      (-4.0139344) (-4.0139289) (14409 / 92375) 6 6
      (by unfold v2r rRef adcFS rPullup; norm_num)
      (by rw [abs_of_neg (by norm_num)]; norm_num)
      (by norm_num)
      (by norm_num [Finset.sum_range_succ])
      (by norm_num)
      (by push_cast; norm_num)
      (by push_cast; norm_num),
   rl_bound_div 298 (-(21423 / 90625)) (-470194815854995958841718360899 / 2215889547020196914672851562500) (0.000055)
      (-3.9467458) (-3.9466357) (21423 / 90625) 6 6
      (by unfold v2r rRef adcFS rPullup; norm_num)
      (by rw [abs_of_neg (by norm_num)]; norm_num)
      (by norm_num)
      (by norm_num [Finset.sum_range_succ])
      (by norm_num)
      (by push_cast; norm_num)
      (by push_cast; norm_num),
   rl_bound_div 299 (-(5481 / 22625)) (-25724302052838053936229 / 118569485413208007812500) (0.00027)
      (-3.9421976) (-3.9416575) (5481 / 22625) 6 5
      (by unfold v2r rRef adcFS rPullup; norm_num)
      (by rw [abs_of_neg (by norm_num)]; norm_num)
      (by norm_num)
      (by norm_num [Finset.sum_range_succ])
      (by norm_num)
      (by push_cast; norm_num)
      (by push_cast; norm_num),
   rl_bound_div 313 (-(14469 / 44375)) (-33944497598308401953714576887543767309 / 120280968257367797195911407470703125000) (0.000062)
      (-3.8767351) (-3.876611) (14469 / 44375) 6 8
      (by unfold v2r rRef adcFS rPullup; norm_num)
      (by rw [abs_of_neg (by norm_num)]; norm_num)
      (by norm_num)
      (by norm_num [Finset.sum_range_succ])
      (by norm_num)
      (by push_cast; norm_num)
      (by push_cast; norm_num),
   rl_bound_div 314 (-(29439 / 88625)) (-344883225695357284552477415049331041 / 1202407755233185533681869506835937500) (0.00023)
      (-3.872286) (-3.8718259) (29439 / 88625) 6 7
      (by unfold v2r rRef adcFS rPullup; norm_num)
      (by rw [abs_of_neg (by norm_num)]; norm_num)
      (by norm_num)
      (by norm_num [Finset.sum_range_succ])
      (by norm_num)
      (by push_cast; norm_num)
      (by push_cast; norm_num),
   rl_bound_div 328 (25211 / 86875) (1768116371044544377928010089647 / 5158817348356962203979492187500) (0.00025)
      (-3.8087227) (-3.8082226) (25211 / 86875) 5 6
      (by unfold v2r rRef adcFS rPullup; norm_num)
      (abs_of_pos (by norm_num))
      (by norm_num)
      (by norm_num [Finset.sum_range_succ])
      (by norm_num)
      (by push_cast; norm_num)
      (by push_cast; norm_num),
   rl_bound_div 329 (12449 / 43375) (8207856820477786466791009282476163 / 24263625861653077360153198242187500) (0.000065)
      (-3.8040792) (-3.8039491) (12449 / 43375) 5 7
      (by unfold v2r rRef adcFS rPullup; norm_num)
      (abs_of_pos (by norm_num))
      (by norm_num)
      (by norm_num [Finset.sum_range_succ])
      (by norm_num)
      (by push_cast; norm_num)
      (by push_cast; norm_num),
   rl_bound_div 344 (20203 / 84875) (71832434270130438585554291 / 264271413023801879882812500) (0.00024)
      (-3.7377891) (-3.737309) (20203 / 84875) 5 5
      (by unfold v2r rRef adcFS rPullup; norm_num)
      (abs_of_pos (by norm_num))
      (by norm_num)
      (by norm_num [Finset.sum_range_succ])
      (by norm_num)
      (by push_cast; norm_num)
      (by push_cast; norm_num),
   rl_bound_div 345 (663 / 2825) (543803333855665217061 / 2033156008407226562500) (0.000052)
      (-3.7332555) (-3.7331514) (663 / 2825) 5 6
      (by unfold v2r rRef adcFS rPullup; norm_num)
      (abs_of_pos (by norm_num))
      (by norm_num)
      (by norm_num [Finset.sum_range_succ])
      (by norm_num)
      (by push_cast; norm_num)
      (by push_cast; norm_num),
   rl_bound_div 361 (7441 / 41375) (6970596635659923833 / 35166834143554687500) (0.00023)
      (-3.664181) (-3.6637209) (7441 / 41375) 5 4
      (by unfold v2r rRef adcFS rPullup; norm_num)
      (abs_of_pos (by norm_num))
      (by norm_num)
      (by norm_num [Finset.sum_range_succ])
      (by norm_num)
      (by push_cast; norm_num)
      (by push_cast; norm_num)⟩

theorem rlbC_4 : ((-3.6597485 : ℝ) < rl (((362 : ℕ)) : ℝ) ∧ rl (((362 : ℕ)) : ℝ) < (-3.6596743 : ℝ)) ∧
    ((-3.5877888 : ℝ) < rl (((379 : ℕ)) : ℝ) ∧ rl (((379 : ℕ)) : ℝ) < (-3.5877427 : ℝ)) ∧
    ((-3.5835975 : ℝ) < rl (((380 : ℕ)) : ℝ) ∧ rl (((380 : ℕ)) : ℝ) < (-3.5835574 : ℝ)) ∧
    ((-3.5130978 : ℝ) < rl (((397 : ℕ)) : ℝ) ∧ rl (((397 : ℕ)) : ℝ) < (-3.5128777 : ℝ)) ∧
    ((-3.5089604 : ℝ) < rl (((398 : ℕ)) : ℝ) ∧ rl (((398 : ℕ)) : ℝ) < (-3.5088023 : ℝ)) ∧
    ((-3.4395302 : ℝ) < rl (((415 : ℕ)) : ℝ) ∧ rl (((415 : ℕ)) : ℝ) < (-3.4394901 : ℝ)) ∧
    ((-3.4354907 : ℝ) < rl (((416 : ℕ)) : ℝ) ∧ rl (((416 : ℕ)) : ℝ) < (-3.4354306 : ℝ)) ∧
    ((-3.359013 : ℝ) < rl (((435 : ℕ)) : ℝ) ∧ rl (((435 : ℕ)) : ℝ) < (-3.3589709 : ℝ)) ∧
    ((-3.3551673 : ℝ) < rl (((436 : ℕ)) : ℝ) ∧ rl (((436 : ℕ)) : ℝ) < (-3.3547272 : ℝ)) ∧
    ((-3.2838559 : ℝ) < rl (((454 : ℕ)) : ℝ) ∧ rl (((454 : ℕ)) : ℝ) < (-3.2830358 : ℝ)) ∧
    ((-3.2794526 : ℝ) < rl (((455 : ℕ)) : ℝ) ∧ rl (((455 : ℕ)) : ℝ) < (-3.2794145 : ℝ)) ∧
    ((-3.2006021 : ℝ) < rl (((475 : ℕ)) : ℝ) ∧ rl (((475 : ℕ)) : ℝ) < (-3.200538 : ℝ)) ∧
    ((-3.1970588 : ℝ) < rl (((476 : ℕ)) : ℝ) ∧ rl (((476 : ℕ)) : ℝ) < (-3.1962787 : ℝ)) ∧
    ((-3.1223887 : ℝ) < rl (((495 : ℕ)) : ℝ) ∧ rl (((495 : ℕ)) : ℝ) < (-3.1218286 : ℝ)) ∧
    ((-3.1182994 : ℝ) < rl (((496 : ℕ)) : ℝ) ∧ rl (((496 : ℕ)) : ℝ) < (-3.1181473 : ℝ)) ∧
    ((-3.0401971 : ℝ) < rl (((516 : ℕ)) : ℝ) ∧ rl (((516 : ℕ)) : ℝ) < (-3.039757 : ℝ)) ∧
    ((-3.0361112 : ℝ) < rl (((517 : ℕ)) : ℝ) ∧ rl (((517 : ℕ)) : ℝ) < (-3.0360891 : ℝ)) ∧
    ((-2.9540289 : ℝ) < rl (((538 : ℕ)) : ℝ) ∧ rl (((538 : ℕ)) : ℝ) < (-2.9537088 : ℝ)) ∧
    ((-2.9500908 : ℝ) < rl (((539 : ℕ)) : ℝ) ∧ rl (((539 : ℕ)) : ℝ) < (-2.9498107 : ℝ)) ∧
    ((-2.8674034 : ℝ) < rl (((560 : ℕ)) : ℝ) ∧ rl (((560 : ℕ)) : ℝ) < (-2.8673899 : ℝ)) ∧
    ((-2.8634994 : ℝ) < rl (((561 : ℕ)) : ℝ) ∧ rl (((561 : ℕ)) : ℝ) < (-2.8633733 : ℝ)) ∧
    ((-2.7841679 : ℝ) < rl (((581 : ℕ)) : ℝ) ∧ rl (((581 : ℕ)) : ℝ) < (-2.7841646 : ℝ)) ∧
    ((-2.7801825 : ℝ) < rl (((582 : ℕ)) : ℝ) ∧ rl (((582 : ℕ)) : ℝ) < (-2.7801815 : ℝ)) ∧
    ((-2.6959798 : ℝ) < rl (((603 : ℕ)) : ℝ) ∧ rl (((603 : ℕ)) : ℝ) < (-2.6958917 : ℝ)) ∧
    ((-2.6919478 : ℝ) < rl (((604 : ℕ)) : ℝ) ∧ rl (((604 : ℕ)) : ℝ) < (-2.6918377 : ℝ)) :=
  ⟨rl_bound_div 362 (14569 / 82625) (44818311204249891438454313 / 231051404515321655273437500) (0.000037)
      (-3.6597485) (-3.6596743) (14569 / 82625) 5 5
      (by unfold v2r rRef adcFS rPullup; norm_num)
      (abs_of_pos (by norm_num))
      (by norm_num)
      (by norm_num [Finset.sum_range_succ])
      (by norm_num)
      (by push_cast; norm_num)
      (by push_cast; norm_num),
   rl_bound_div 379 (2312 / 20125) (60052480846209752 / 492112969482421875) (0.000023)
      (-3.5877888) (-3.5877427) (2312 / 20125) 5 4
      (by unfold v2r rRef adcFS rPullup; norm_num)
      (abs_of_pos (by norm_num))
      (by norm_num)
      (by norm_num [Finset.sum_range_succ])
      (by norm_num)
      (by push_cast; norm_num)
      (by push_cast; norm_num),
   rl_bound_div 380 (1787 / 16075) (94424228408114633 / 801281604379687500) (0.00002)
      (-3.5835975) (-3.5835574) (1787 / 16075) 5 4
      (by unfold v2r rRef adcFS rPullup; norm_num)
      (abs_of_pos (by norm_num))
      (by norm_num)
      (by norm_num [Finset.sum_range_succ])
      (by norm_num)
      (by push_cast; norm_num)
      (by push_cast; norm_num),
   rl_bound_div 397 (1807 / 39125) (144662999 / 3061531250) (0.00011)
      (-3.5130978) (-3.5128777) (1807 / 39125) 5 2
      (by unfold v2r rRef adcFS rPullup; norm_num)
      (abs_of_pos (by norm_num))
      (by norm_num)
      (by norm_num [Finset.sum_range_succ])
      (by norm_num)
      (by push_cast; norm_num)
      (by push_cast; norm_num),
   rl_bound_div 398 (3301 / 78125) (526677851 / 12207031250) (0.000079)
      (-3.5089604) (-3.5088023) (3301 / 78125) 5 2
      (by unfold v2r rRef adcFS rPullup; norm_num)
      (abs_of_pos (by norm_num))
      (by norm_num)
      (by norm_num [Finset.sum_range_succ])
      (by norm_num)
      (by push_cast; norm_num)
      (by push_cast; norm_num),
   rl_bound_div 415 (-(101 / 3800)) (-757399 / 28880000) (0.00002)
      (-3.4395302) (-3.4394901) (101 / 3800) 5 2
      (by unfold v2r rRef adcFS rPullup; norm_num)
      (by rw [abs_of_neg (by norm_num)]; norm_num)
      (by norm_num)
      (by norm_num [Finset.sum_range_succ])
      (by norm_num)
      (by push_cast; norm_num)
      (by push_cast; norm_num),
   rl_bound_div 416 (-(2333 / 75875)) (-348589861 / 11514031250) (0.00003)
      (-3.4354907) (-3.4354306) (2333 / 75875) 5 2
      (by unfold v2r rRef adcFS rPullup; norm_num)
      (by rw [abs_of_neg (by norm_num)]; norm_num)
      (by norm_num)
      (by norm_num [Finset.sum_range_succ])
      (by norm_num)
      (by push_cast; norm_num)
      (by push_cast; norm_num),
   rl_bound_div 435 (-(138 / 1225)) (-240374165916 / 2251875390625) (0.000021)
      (-3.359013) (-3.3589709) (138 / 1225) 5 4
      (by unfold v2r rRef adcFS rPullup; norm_num)
      (by rw [abs_of_neg (by norm_num)]; norm_num)
      (by norm_num)
      (by norm_num [Finset.sum_range_succ])
      (by norm_num)
      (by push_cast; norm_num)
      (by push_cast; norm_num),
   rl_bound_div 436 (-(8593 / 73375)) (-262597688315339 / 2370257847656250) (0.00022)
      (-3.3551673) (-3.3547272) (8593 / 73375) 5 3
      (by unfold v2r rRef adcFS rPullup; norm_num)
      (by rw [abs_of_neg (by norm_num)]; norm_num)
      (by norm_num)
      (by norm_num [Finset.sum_range_succ])
      (by norm_num)
      (by push_cast; norm_num)
      (by push_cast; norm_num),
   rl_bound_div 454 (-(14227 / 71125)) (-55980059516532924727 / 307093315784179687500) (0.00041)
      (-3.2838559) (-3.2830358) (14227 / 71125) 5 4
      (by unfold v2r rRef adcFS rPullup; norm_num)
      (by rw [abs_of_neg (by norm_num)]; norm_num)
      (by norm_num)
      (by norm_num [Finset.sum_range_succ])
      (by norm_num)
      (by push_cast; norm_num)
      (by push_cast; norm_num),
   rl_bound_div 455 (-(727 / 3550)) (-2237380284212429670181 / 12009401617593750000000) (0.000019)
      (-3.2794526) (-3.2794145) (727 / 3550) 5 6
      (by unfold v2r rRef adcFS rPullup; norm_num)
      (by rw [abs_of_neg (by norm_num)]; norm_num)
      (by norm_num)
      (by norm_num [Finset.sum_range_succ])
      (by norm_num)
      (by push_cast; norm_num)
      (by push_cast; norm_num),
   rl_bound_div 475 (-(208 / 685)) (-269936380389368891061968 / 1017990831766127633203125) (0.000032)
      (-3.2006021) (-3.200538) (208 / 685) 5 8
      (by unfold v2r rRef adcFS rPullup; norm_num)
      (by rw [abs_of_neg (by norm_num)]; norm_num)
      (by norm_num)
      (by norm_num [Finset.sum_range_succ])
      (by norm_num)
      (by push_cast; norm_num)
      (by push_cast; norm_num),
   rl_bound_div 476 (-(21113 / 68375)) (-329933158361159221290815374457 / 1226211209929794113159179687500) (0.00039)
      (-3.1970588) (-3.1962787) (21113 / 68375) 5 6
      (by unfold v2r rRef adcFS rPullup; norm_num)
      (by rw [abs_of_neg (by norm_num)]; norm_num)
      (by norm_num)
      (by norm_num [Finset.sum_range_succ])
      (by norm_num)
      (by push_cast; norm_num)
      (by push_cast; norm_num),
   rl_bound_div 495 (59 / 200) (44738556008467 / 128000000000000) (0.00028)
      (-3.1223887) (-3.1218286) (59 / 200) 4 6
      (by unfold v2r rRef adcFS rPullup; norm_num)
      (abs_of_pos (by norm_num))
      (by norm_num)
      (by norm_num [Finset.sum_range_succ])
      (by norm_num)
      (by push_cast; norm_num)
      (by push_cast; norm_num),
   rl_bound_div 496 (621 / 2125) (1893597884124621087963339 / 5478612348556518554687500) (0.000076)
      (-3.1182994) (-3.1181473) (621 / 2125) 4 7
      (by unfold v2r rRef adcFS rPullup; norm_num)
      (abs_of_pos (by norm_num))
      (by norm_num)
      (by norm_num [Finset.sum_range_succ])
      (by norm_num)
      (by push_cast; norm_num)
      (by push_cast; norm_num),
   rl_bound_div 516 (4957 / 21125) (67495881832996576109309 / 252426437711791992187500) (0.00022)
      (-3.0401971) (-3.039757) (4957 / 21125) 4 5
      (by unfold v2r rRef adcFS rPullup; norm_num)
      (abs_of_pos (by norm_num))
      (by norm_num)
      (by norm_num [Finset.sum_range_succ])
      (by norm_num)
      (by push_cast; norm_num)
      (by push_cast; norm_num),
   rl_bound_div 517 (666 / 2875) (2994763029163020309627756 / 11364831032276153564453125) (0.000011)
      (-3.0361112) (-3.0360891) (666 / 2875) 4 7
      (by unfold v2r rRef adcFS rPullup; norm_num)
      (abs_of_pos (by norm_num))
      (by norm_num)
      (by norm_num [Finset.sum_range_succ])
      (by norm_num)
      (by push_cast; norm_num)
      (by push_cast; norm_num),
   rl_bound_div 538 (10053 / 60625) (9795289923657871731 / 54033984985351562500) (0.00016)
      (-2.9540289) (-2.9537088) (10053 / 60625) 4 4
      (by unfold v2r rRef adcFS rPullup; norm_num)
      (abs_of_pos (by norm_num))
      (by norm_num)
      (by norm_num [Finset.sum_range_succ])
      (by norm_num)
      (by push_cast; norm_num)
      (by push_cast; norm_num),
   rl_bound_div 539 (447 / 2750) (40574334212481 / 228765625000000) (0.00014)
      (-2.9500908) (-2.9498107) (447 / 2750) 4 4
      (by unfold v2r rRef adcFS rPullup; norm_num)
      (abs_of_pos (by norm_num))
      (by norm_num)
      (by norm_num [Finset.sum_range_succ])
      (by norm_num)
      (by push_cast; norm_num)
      (by push_cast; norm_num),
   rl_bound_div 560 (1047 / 11575) (6807514696003731 / 71803231501562500) (0.0000067)
      (-2.8674034) (-2.8673899) (1047 / 11575) 4 4
      (by unfold v2r rRef adcFS rPullup; norm_num)
      (abs_of_pos (by norm_num))
      (by norm_num)
      (by norm_num [Finset.sum_range_succ])
      (by norm_num)
      (by push_cast; norm_num)
      (by push_cast; norm_num),
   rl_bound_div 561 (76 / 875) (182582476 / 2009765625) (0.000063)
      (-2.8634994) (-2.8633733) (76 / 875) 4 3
      (by unfold v2r rRef adcFS rPullup; norm_num)
      (abs_of_pos (by norm_num))
      (by norm_num)
      (by norm_num [Finset.sum_range_succ])
      (by norm_num)
      (by push_cast; norm_num)
      (by push_cast; norm_num),
   rl_bound_div 581 (318 / 27625) (8835312 / 763140625) (0.0000016)
      (-2.7841679) (-2.7841646) (318 / 27625) 4 2
      (by unfold v2r rRef adcFS rPullup; norm_num)
      (abs_of_pos (by norm_num))
      (by norm_num)
      (by norm_num [Finset.sum_range_succ])
      (by norm_num)
      (by push_cast; norm_num)
      (by push_cast; norm_num),
   rl_bound_div 582 (139 / 18375) (5127571 / 675281250) (0.00000044)
      (-2.7801825) (-2.7801815) (139 / 18375) 4 2
      (by unfold v2r rRef adcFS rPullup; norm_num)
      (abs_of_pos (by norm_num))
      (by norm_num)
      (by norm_num [Finset.sum_range_succ])
      (by norm_num)
      (by push_cast; norm_num)
      (by push_cast; norm_num),
   rl_bound_div 603 (-(697 / 8750)) (-19256819156 / 251220703125) (0.000044)
      (-2.6959798) (-2.6958917) (697 / 8750) 4 3
      (by unfold v2r rRef adcFS rPullup; norm_num)
      (by rw [abs_of_neg (by norm_num)]; norm_num)
      (by norm_num)
      (by norm_num [Finset.sum_range_succ])
      (by norm_num)
      (by push_cast; norm_num)
      (by push_cast; norm_num),
   rl_bound_div 604 (-(4401 / 52375)) (-23187510891009 / 287343980468750) (0.000055)
      (-2.6919478) (-2.6918377) (4401 / 52375) 4 3
      (by unfold v2r rRef adcFS rPullup; norm_num)
      (by rw [abs_of_neg (by norm_num)]; norm_num)
      (by norm_num)
      (by norm_num [Finset.sum_range_succ])
      (by norm_num)
      (by push_cast; norm_num)
      (by push_cast; norm_num)⟩

theorem rlbC_5 : ((-2.6065818 : ℝ) < rl (((625 : ℕ)) : ℝ) ∧ rl (((625 : ℕ)) : ℝ) < (-2.6061017 : ℝ)) ∧
    ((-2.6022387 : ℝ) < rl (((626 : ℕ)) : ℝ) ∧ rl (((626 : ℕ)) : ℝ) < (-2.6021366 : ℝ)) ∧
    ((-2.5151422 : ℝ) < rl (((647 : ℕ)) : ℝ) ∧ rl (((647 : ℕ)) : ℝ) < (-2.5146021 : ℝ)) ∧
    ((-2.5107297 : ℝ) < rl (((648 : ℕ)) : ℝ) ∧ rl (((648 : ℕ)) : ℝ) < (-2.5105436 : ℝ)) ∧
    ((-2.421328 : ℝ) < rl (((669 : ℕ)) : ℝ) ∧ rl (((669 : ℕ)) : ℝ) < (-2.4208479 : ℝ)) ∧
    ((-2.4168545 : ℝ) < rl (((670 : ℕ)) : ℝ) ∧ rl (((670 : ℕ)) : ℝ) < (-2.4167264 : ℝ)) ∧
    ((-2.3291847 : ℝ) < rl (((690 : ℕ)) : ℝ) ∧ rl (((690 : ℕ)) : ℝ) < (-2.3288846 : ℝ)) ∧
    ((-2.3246085 : ℝ) < rl (((691 : ℕ)) : ℝ) ∧ rl (((691 : ℕ)) : ℝ) < (-2.3245956 : ℝ)) ∧
    ((-2.2293719 : ℝ) < rl (((712 : ℕ)) : ℝ) ∧ rl (((712 : ℕ)) : ℝ) < (-2.2292498 : ℝ)) ∧
    ((-2.2249949 : ℝ) < rl (((713 : ℕ)) : ℝ) ∧ rl (((713 : ℕ)) : ℝ) < (-2.2242148 : ℝ)) ∧
    ((-2.1352652 : ℝ) < rl (((732 : ℕ)) : ℝ) ∧ rl (((732 : ℕ)) : ℝ) < (-2.1349251 : ℝ)) ∧
    ((-2.1303478 : ℝ) < rl (((733 : ℕ)) : ℝ) ∧ rl (((733 : ℕ)) : ℝ) < (-2.1303349 : ℝ)) ∧
    ((-2.031969 : ℝ) < rl (((753 : ℕ)) : ℝ) ∧ rl (((753 : ℕ)) : ℝ) < (-2.0319571 : ℝ)) ∧
    ((-2.027147 : ℝ) < rl (((754 : ℕ)) : ℝ) ∧ rl (((754 : ℕ)) : ℝ) < (-2.0268069 : ℝ)) ∧
    ((-1.9342127 : ℝ) < rl (((772 : ℕ)) : ℝ) ∧ rl (((772 : ℕ)) : ℝ) < (-1.9339726 : ℝ)) ∧
    ((-1.9289496 : ℝ) < rl (((773 : ℕ)) : ℝ) ∧ rl (((773 : ℕ)) : ℝ) < (-1.9286695 : ℝ)) ∧
    ((-1.8312634 : ℝ) < rl (((791 : ℕ)) : ℝ) ∧ rl (((791 : ℕ)) : ℝ) < (-1.8308633 : ℝ)) ∧
    ((-1.8255282 : ℝ) < rl (((792 : ℕ)) : ℝ) ∧ rl (((792 : ℕ)) : ℝ) < (-1.8253901 : ℝ)) ∧
    ((-1.7279923 : ℝ) < rl (((809 : ℕ)) : ℝ) ∧ rl (((809 : ℕ)) : ℝ) < (-1.7275122 : ℝ)) ∧
    ((-1.7218818 : ℝ) < rl (((810 : ℕ)) : ℝ) ∧ rl (((810 : ℕ)) : ℝ) < (-1.7218457 : ℝ)) ∧
    ((-1.6180009 : ℝ) < rl (((827 : ℕ)) : ℝ) ∧ rl (((827 : ℕ)) : ℝ) < (-1.6178028 : ℝ)) ∧
    ((-1.6119337 : ℝ) < rl (((828 : ℕ)) : ℝ) ∧ rl (((828 : ℕ)) : ℝ) < (-1.6110936 : ℝ)) ∧
    ((-1.5068589 : ℝ) < rl (((844 : ℕ)) : ℝ) ∧ rl (((844 : ℕ)) : ℝ) < (-1.5068148 : ℝ)) ∧
    ((-1.5001681 : ℝ) < rl (((845 : ℕ)) : ℝ) ∧ rl (((845 : ℕ)) : ℝ) < (-1.499868 : ℝ)) ∧
    ((-1.4017077 : ℝ) < rl (((859 : ℕ)) : ℝ) ∧ rl (((859 : ℕ)) : ℝ) < (-1.4017002 : ℝ)) :=
  ⟨rl_bound_div 625 (-(36 / 199)) (-260715060 / 1568239201) (0.00024)
      (-2.6065818) (-2.6061017) (36 / 199) 4 4
      (by unfold v2r rRef adcFS rPullup; norm_num)
      (by rw [abs_of_neg (by norm_num)]; norm_num)
      (by norm_num)
      (by norm_num [Finset.sum_range_succ])
      (by norm_num)
      (by push_cast; norm_num)
      (by push_cast; norm_num),
   rl_bound_div 626 (-(9219 / 49625)) (-1025663392152948761814021 / 6019114356541137695312500) (0.000051)
      (-2.6022387) (-2.6021366) (9219 / 49625) 4 5
      (by unfold v2r rRef adcFS rPullup; norm_num)
      (by rw [abs_of_neg (by norm_num)]; norm_num)
      (by norm_num)
      (by norm_num [Finset.sum_range_succ])
      (by norm_num)
      (by push_cast; norm_num)
      (by push_cast; norm_num),
   rl_bound_div 647 (-(147 / 500)) (-8053644004186557 / 31250000000000000) (0.00027)
      (-2.5151422) (-2.5146021) (147 / 500) 4 6
      (by unfold v2r rRef adcFS rPullup; norm_num)
      (by rw [abs_of_neg (by norm_num)]; norm_num)
      (by norm_num)
      (by norm_num [Finset.sum_range_succ])
      (by norm_num)
      (by push_cast; norm_num)
      (by push_cast; norm_num),
   rl_bound_div 648 (-(4679 / 15625)) (-1667708347185836590997283687561 / 6366462912410497665405273437500) (0.000093)
      (-2.5107297) (-2.5105436) (4679 / 15625) 4 7
      (by unfold v2r rRef adcFS rPullup; norm_num)
      (by rw [abs_of_neg (by norm_num)]; norm_num)
      (by norm_num)
      (by norm_num [Finset.sum_range_succ])
      (by norm_num)
      (by push_cast; norm_num)
      (by push_cast; norm_num),
   rl_bound_div 669 (4269 / 14750) (7036536618019123773892977 / 20595963691894531250000000) (0.00024)
      (-2.421328) (-2.4208479) (4269 / 14750) 3 6
      (by unfold v2r rRef adcFS rPullup; norm_num)
      (abs_of_pos (by norm_num))
      (by norm_num)
      (by norm_num [Finset.sum_range_succ])
      (by norm_num)
      (by push_cast; norm_num)
      (by push_cast; norm_num),
   rl_bound_div 670 (2527 / 8825) (16875767404654994429793984323 / 50024671391329155541992187500) (0.000064)
      (-2.4168545) (-2.4167264) (2527 / 8825) 3 7
      (by unfold v2r rRef adcFS rPullup; norm_num)
      (abs_of_pos (by norm_num))
      (by norm_num)
      (by norm_num [Finset.sum_range_succ])
      (by norm_num)
      (by push_cast; norm_num)
      (by push_cast; norm_num),
   rl_bound_div 690 (613 / 2775) (821443184391044797 / 3291129209179687500) (0.00015)
      (-2.3291847) (-2.3288846) (613 / 2775) 3 5
      (by unfold v2r rRef adcFS rPullup; norm_num)
      (abs_of_pos (by norm_num))
      (by norm_num)
      (by norm_num [Finset.sum_range_succ])
      (by norm_num)
      (by push_cast; norm_num)
      (by push_cast; norm_num),
   rl_bound_div 691 (9023 / 41500) (155922375088590875542338978853513 / 636001195069382812500000000000000) (0.0000064)
      (-2.3246085) (-2.3245956) (9023 / 41500) 3 7
      (by unfold v2r rRef adcFS rPullup; norm_num)
      (abs_of_pos (by norm_num))
      (by norm_num)
      (by norm_num [Finset.sum_range_succ])
      (by norm_num)
      (by push_cast; norm_num)
      (by push_cast; norm_num),
   rl_bound_div 712 (5411 / 38875) (4107481013761374473 / 27407085471679687500) (0.000061)
      (-2.2293719) (-2.2292498) (5411 / 38875) 3 4
      (by unfold v2r rRef adcFS rPullup; norm_num)
      (abs_of_pos (by norm_num))
      (by norm_num)
      (by norm_num [Finset.sum_range_succ])
      (by norm_num)
      (by push_cast; norm_num)
      (by push_cast; norm_num),
   rl_bound_div 713 (169 / 1250) (106320773 / 732421875) (0.00039)
      (-2.2249949) (-2.2242148) (169 / 1250) 3 3
      (by unfold v2r rRef adcFS rPullup; norm_num)
      (abs_of_pos (by norm_num))
      (by norm_num)
      (by norm_num [Finset.sum_range_succ])
      (by norm_num)
      (by push_cast; norm_num)
      (by push_cast; norm_num),
   rl_bound_div 732 (657 / 12125) (16363899 / 294031250) (0.00017)
      (-2.1352652) (-2.1349251) (657 / 12125) 3 2
      (by unfold v2r rRef adcFS rPullup; norm_num)
      (abs_of_pos (by norm_num))
      (by norm_num)
      (by norm_num [Finset.sum_range_succ])
      (by norm_num)
      (by push_cast; norm_num)
      (by push_cast; norm_num),
   rl_bound_div 733 (1799 / 36250) (3636898451137 / 71452148437500) (0.0000064)
      (-2.1303478) (-2.1303349) (1799 / 36250) 3 3
      (by unfold v2r rRef adcFS rPullup; norm_num)
      (abs_of_pos (by norm_num))
      (by norm_num)
      (by norm_num [Finset.sum_range_succ])
      (by norm_num)
      (by push_cast; norm_num)
      (by push_cast; norm_num),
   rl_bound_div 753 (-(547 / 11250)) (-50700894487 / 1067871093750) (0.0000059)
      (-2.031969) (-2.0319571) (547 / 11250) 3 3
      (by unfold v2r rRef adcFS rPullup; norm_num)
      (by rw [abs_of_neg (by norm_num)]; norm_num)
      (by norm_num)
      (by norm_num [Finset.sum_range_succ])
      (by norm_num)
      (by push_cast; norm_num)
      (by push_cast; norm_num),
   rl_bound_div 754 (-(1813 / 33625)) (-118637281 / 2261281250) (0.00017)
      (-2.027147) (-2.0268069) (1813 / 33625) 3 2
      (by unfold v2r rRef adcFS rPullup; norm_num)
      (by rw [abs_of_neg (by norm_num)]; norm_num)
      (by norm_num)
      (by norm_num [Finset.sum_range_succ])
      (by norm_num)
      (by push_cast; norm_num)
      (by push_cast; norm_num),
   rl_bound_div 772 (-(4909 / 31375)) (-1690160196261843367 / 11628298831054687500) (0.00012)
      (-1.9342127) (-1.9339726) (4909 / 31375) 3 4
      (by unfold v2r rRef adcFS rPullup; norm_num)
      (by rw [abs_of_neg (by norm_num)]; norm_num)
      (by norm_num)
      (by norm_num [Finset.sum_range_succ])
      (by norm_num)
      (by push_cast; norm_num)
      (by push_cast; norm_num),
   rl_bound_div 773 (-(5081 / 31250)) (-1723846120167649837 / 11444091796875000000) (0.00014)
      (-1.9289496) (-1.9286695) (5081 / 31250) 3 4
      (by unfold v2r rRef adcFS rPullup; norm_num)
      (by rw [abs_of_neg (by norm_num)]; norm_num)
      (by norm_num)
      (by norm_num [Finset.sum_range_succ])
      (by norm_num)
      (by push_cast; norm_num)
      (by push_cast; norm_num),
   rl_bound_div 791 (-(8177 / 29000)) (-886446921358190618300003311 / 3568939926000000000000000000) (0.0002)
      (-1.8312634) (-1.8308633) (8177 / 29000) 3 6
      (by unfold v2r rRef adcFS rPullup; norm_num)
      (by rw [abs_of_neg (by norm_num)]; norm_num)
      (by norm_num)
      (by norm_num [Finset.sum_range_succ])
      (by norm_num)
      (by push_cast; norm_num)
      (by push_cast; norm_num),
   rl_bound_div 792 (-(253 / 875)) (-2792659818134606763123 / 10995485305786132812500) (0.000069)
      (-1.8255282) (-1.8253901) (253 / 875) 3 7
      (by unfold v2r rRef adcFS rPullup; norm_num)
      (by rw [abs_of_neg (by norm_num)]; norm_num)
      (by norm_num)
      (by norm_num [Finset.sum_range_succ])
      (by norm_num)
      (by push_cast; norm_num)
      (by push_cast; norm_num),
   rl_bound_div 809 (15477 / 53500) (16013633495123798177702513763 / 46897823495281250000000000000) (0.00024)
      (-1.7279923) (-1.7275122) (15477 / 53500) 2 6
      (by unfold v2r rRef adcFS rPullup; norm_num)
      (abs_of_pos (by norm_num))
      (by norm_num)
      (by norm_num [Finset.sum_range_succ])
      (by norm_num)
      (by push_cast; norm_num)
      (by push_cast; norm_num),
   rl_bound_div 810 (506 / 1775) (231455346255871346148389564 / 689739184375049896240234375) (0.000018)
      (-1.7218818) (-1.7218457) (506 / 1775) 2 8
      (by unfold v2r rRef adcFS rPullup; norm_num)
      (abs_of_pos (by norm_num))
      (by norm_num)
      (by norm_num [Finset.sum_range_succ])
      (by norm_num)
      (by push_cast; norm_num)
      (by push_cast; norm_num),
   rl_bound_div 827 (10131 / 49000) (327116849447515630700901 / 1412376245000000000000000) (0.000099)
      (-1.6180009) (-1.6178028) (10131 / 49000) 2 5
      (by unfold v2r rRef adcFS rPullup; norm_num)
      (abs_of_pos (by norm_num))
      (by norm_num)
      (by norm_num [Finset.sum_range_succ])
      (by norm_num)
      (by push_cast; norm_num)
      (by push_cast; norm_num),
   rl_bound_div 828 (1639 / 8125) (11778239438068873 / 52296752929687500) (0.00042)
      (-1.6119337) (-1.6110936) (1639 / 8125) 2 4
      (by unfold v2r rRef adcFS rPullup; norm_num)
      (abs_of_pos (by norm_num))
      (by norm_num)
      (by norm_num [Finset.sum_range_succ])
      (by norm_num)
      (by push_cast; norm_num)
      (by push_cast; norm_num),
   rl_bound_div 844 (2541 / 22375) (120851541357481011 / 1002564141601562500) (0.000022)
      (-1.5068589) (-1.5068148) (2541 / 22375) 2 4
      (by unfold v2r rRef adcFS rPullup; norm_num)
      (abs_of_pos (by norm_num))
      (by norm_num)
      (by norm_num [Finset.sum_range_succ])
      (by norm_num)
      (by push_cast; norm_num)
      (by push_cast; norm_num),
   rl_bound_div 845 (957 / 8900) (80171653881 / 704969000000) (0.00015)
      (-1.5001681) (-1.499868) (957 / 8900) 2 3
      (by unfold v2r rRef adcFS rPullup; norm_num)
      (abs_of_pos (by norm_num))
      (by norm_num)
      (by norm_num [Finset.sum_range_succ])
      (by norm_num)
      (by push_cast; norm_num)
      (by push_cast; norm_num),
   rl_bound_div 859 (627 / 41000) (51807129 / 3362000000) (0.0000037)
      (-1.4017077) (-1.4017002) (627 / 41000) 2 2
      (by unfold v2r rRef adcFS rPullup; norm_num)
      (abs_of_pos (by norm_num))
      (by norm_num)
      (by norm_num [Finset.sum_range_succ])
      (by norm_num)
      (by push_cast; norm_num)
      (by push_cast; norm_num)⟩

theorem rlbC_6 : ((-1.3944259 : ℝ) < rl (((860 : ℕ)) : ℝ) ∧ rl (((860 : ℕ)) : ℝ) < (-1.3944247 : ℝ)) ∧
    ((-1.2885779 : ℝ) < rl (((874 : ℕ)) : ℝ) ∧ rl (((874 : ℕ)) : ℝ) < (-1.2883178 : ℝ)) ∧
    ((-1.2807406 : ℝ) < rl (((875 : ℕ)) : ℝ) ∧ rl (((875 : ℕ)) : ℝ) < (-1.2803805 : ℝ)) ∧
    ((-1.1741164 : ℝ) < rl (((888 : ℕ)) : ℝ) ∧ rl (((888 : ℕ)) : ℝ) < (-1.1736563 : ℝ)) ∧
    ((-1.1654329 : ℝ) < rl (((889 : ℕ)) : ℝ) ∧ rl (((889 : ℕ)) : ℝ) < (-1.1652808 : ℝ)) ∧
    ((-1.0584447 : ℝ) < rl (((901 : ℕ)) : ℝ) ∧ rl (((901 : ℕ)) : ℝ) < (-1.0577046 : ℝ)) ∧
    ((-1.0488088 : ℝ) < rl (((902 : ℕ)) : ℝ) ∧ rl (((902 : ℕ)) : ℝ) < (-1.0487527 : ℝ)) ∧
    ((-0.9312266 : ℝ) < rl (((914 : ℕ)) : ℝ) ∧ rl (((914 : ℕ)) : ℝ) < (-0.9309865 : ℝ)) ∧
    ((-0.9211705 : ℝ) < rl (((915 : ℕ)) : ℝ) ∧ rl (((915 : ℕ)) : ℝ) < (-0.9202904 : ℝ)) ∧
    ((-0.812927 : ℝ) < rl (((925 : ℕ)) : ℝ) ∧ rl (((925 : ℕ)) : ℝ) < (-0.8125469 : ℝ)) ∧
    ((-0.8015442 : ℝ) < rl (((926 : ℕ)) : ℝ) ∧ rl (((926 : ℕ)) : ℝ) < (-0.8012841 : ℝ)) ∧
    ((-0.694398 : ℝ) < rl (((935 : ℕ)) : ℝ) ∧ rl (((935 : ℕ)) : ℝ) < (-0.6943979 : ℝ)) ∧
    ((-0.6819023 : ℝ) < rl (((936 : ℕ)) : ℝ) ∧ rl (((936 : ℕ)) : ℝ) < (-0.6818992 : ℝ)) ∧
    ((-0.563488 : ℝ) < rl (((945 : ℕ)) : ℝ) ∧ rl (((945 : ℕ)) : ℝ) < (-0.5626079 : ℝ)) ∧
    ((-0.5497326 : ℝ) < rl (((946 : ℕ)) : ℝ) ∧ rl (((946 : ℕ)) : ℝ) < (-0.5483525 : ℝ)) ∧
    ((-0.4313851 : ℝ) < rl (((954 : ℕ)) : ℝ) ∧ rl (((954 : ℕ)) : ℝ) < (-0.430765 : ℝ)) ∧
    ((-0.4159526 : ℝ) < rl (((955 : ℕ)) : ℝ) ∧ rl (((955 : ℕ)) : ℝ) < (-0.4149325 : ℝ)) ∧
    ((-0.2998127 : ℝ) < rl (((962 : ℕ)) : ℝ) ∧ rl (((962 : ℕ)) : ℝ) < (-0.2989926 : ℝ)) ∧
    ((-0.281961 : ℝ) < rl (((963 : ℕ)) : ℝ) ∧ rl (((963 : ℕ)) : ℝ) < (-0.2818169 : ℝ)) ∧
    ((-0.1708751 : ℝ) < rl (((969 : ℕ)) : ℝ) ∧ rl (((969 : ℕ)) : ℝ) < (-0.169435 : ℝ)) ∧
    ((-0.1506545 : ℝ) < rl (((970 : ℕ)) : ℝ) ∧ rl (((970 : ℕ)) : ℝ) < (-0.1505284 : ℝ)) ∧
    ((-0.0243031 : ℝ) < rl (((976 : ℕ)) : ℝ) ∧ rl (((976 : ℕ)) : ℝ) < (-0.0242729 : ℝ)) ∧
    ((-0.0017625 : ℝ) < rl (((977 : ℕ)) : ℝ) ∧ rl (((977 : ℕ)) : ℝ) < (-0.0017624 : ℝ)) ∧
    ((0.1181783 : ℝ) < rl (((982 : ℕ)) : ℝ) ∧ rl (((982 : ℕ)) : ℝ) < (0.1187584 : ℝ)) ∧
    ((0.1435605 : ℝ) < rl (((983 : ℕ)) : ℝ) ∧ rl (((983 : ℕ)) : ℝ) < (0.1449406 : ℝ)) :=
  ⟨rl_bound_div 860 (33 / 4075) (270039 / 33211250) (0.00000054)
      (-1.3944259) (-1.3944247) (33 / 4075) 2 2
      (by unfold v2r rRef adcFS rPullup; norm_num)
      (abs_of_pos (by norm_num))
      (by norm_num)
      (by norm_num [Finset.sum_range_succ])
      (by norm_num)
      (by push_cast; norm_num)
      (by push_cast; norm_num),
   rl_bound_div 874 (-(1914 / 18625)) (-632170527648 / 6460837890625) (0.00013)
      (-1.2885779) (-1.2883178) (1914 / 18625) 2 3
      (by unfold v2r rRef adcFS rPullup; norm_num)
      (by rw [abs_of_neg (by norm_num)]; norm_num)
      (by norm_num)
      (by norm_num [Finset.sum_range_succ])
      (by norm_num)
      (by push_cast; norm_num)
      (by push_cast; norm_num),
   rl_bound_div 875 (-(33 / 296)) (-2742135 / 25934336) (0.00018)
      (-1.2807406) (-1.2803805) (33 / 296) 2 3
      (by unfold v2r rRef adcFS rPullup; norm_num)
      (by rw [abs_of_neg (by norm_num)]; norm_num)
      (by norm_num)
      (by norm_num [Finset.sum_range_succ])
      (by norm_num)
      (by push_cast; norm_num)
      (by push_cast; norm_num),
   rl_bound_div 888 (-(1331 / 5625)) (-23922880297859728229 / 112627029418945312500) (0.00023)
      (-1.1741164) (-1.1736563) (1331 / 5625) 2 5
      (by unfold v2r rRef adcFS rPullup; norm_num)
      (by rw [abs_of_neg (by norm_num)]; norm_num)
      (by norm_num)
      (by norm_num [Finset.sum_range_succ])
      (by norm_num)
      (by push_cast; norm_num)
      (by push_cast; norm_num),
   rl_bound_div 889 (-(8283 / 33500)) (-624551471375885903327354877 / 2826824442781250000000000000) (0.000076)
      (-1.1654329) (-1.1652808) (8283 / 33500) 2 6
      (by unfold v2r rRef adcFS rPullup; norm_num)
      (by rw [abs_of_neg (by norm_num)]; norm_num)
      (by norm_num)
      (by norm_num [Finset.sum_range_succ])
      (by norm_num)
      (by push_cast; norm_num)
      (by push_cast; norm_num),
   rl_bound_div 901 (18653 / 61000) (112807185622266894719829967529 / 309122246166000000000000000000) (0.00037)
      (-1.0584447) (-1.0577046) (18653 / 61000) 1 6
      (by unfold v2r rRef adcFS rPullup; norm_num)
      (abs_of_pos (by norm_num))
      (by norm_num)
      (by norm_num [Finset.sum_range_succ])
      (by norm_num)
      (by push_cast; norm_num)
      (by push_cast; norm_num),
   rl_bound_div 902 (823 / 2750) (195422068587105538118592399701 / 549503967407226562500000000000) (0.000028)
      (-1.0488088) (-1.0487527) (823 / 2750) 1 8
      (by unfold v2r rRef adcFS rPullup; norm_num)
      (abs_of_pos (by norm_num))
      (by norm_num)
      (by norm_num [Finset.sum_range_succ])
      (by norm_num)
      (by push_cast; norm_num)
      (by push_cast; norm_num),
   rl_bound_div 914 (5771 / 27250) (107264666069362279531481 / 450768736787109375000000) (0.00012)
      (-0.9312266) (-0.9309865) (5771 / 27250) 1 5
      (by unfold v2r rRef adcFS rPullup; norm_num)
      (abs_of_pos (by norm_num))
      (by norm_num)
      (by norm_num [Finset.sum_range_succ])
      (by norm_num)
      (by push_cast; norm_num)
      (by push_cast; norm_num),
   rl_bound_div 915 (733 / 3600) (152900999967121 / 671846400000000) (0.00044)
      (-0.9211705) (-0.9202904) (733 / 3600) 1 4
      (by unfold v2r rRef adcFS rPullup; norm_num)
      (abs_of_pos (by norm_num))
      (by norm_num)
      (by norm_num [Finset.sum_range_succ])
      (by norm_num)
      (by push_cast; norm_num)
      (by push_cast; norm_num),
   rl_bound_div 925 (221 / 1960) (2701367201 / 22588608000) (0.00019)
      (-0.812927) (-0.8125469) (221 / 1960) 1 3
      (by unfold v2r rRef adcFS rPullup; norm_num)
      (abs_of_pos (by norm_num))
      (by norm_num)
      (by norm_num [Finset.sum_range_succ])
      (by norm_num)
      (by push_cast; norm_num)
      (by push_cast; norm_num),
   rl_bound_div 926 (2489 / 24250) (1157957467511 / 10695386718750) (0.00013)
      (-0.8015442) (-0.8012841) (2489 / 24250) 1 3
      (by unfold v2r rRef adcFS rPullup; norm_num)
      (abs_of_pos (by norm_num))
      (by norm_num)
      (by norm_num [Finset.sum_range_succ])
      (by norm_num)
      (by push_cast; norm_num)
      (by push_cast; norm_num),
   rl_bound_div 935 (1 / 800) (1601 / 1280000) (0.000000002)
      (-0.694398) (-0.6943979) (1 / 800) 1 2
      (by unfold v2r rRef adcFS rPullup; norm_num)
      (abs_of_pos (by norm_num))
      (by norm_num)
      (by norm_num [Finset.sum_range_succ])
      (by norm_num)
      (by push_cast; norm_num)
      (by push_cast; norm_num),
   rl_bound_div 936 (-(41 / 3625)) (-295569 / 26281250) (0.0000015)
      (-0.6819023) (-0.6818992) (41 / 3625) 1 2
      (by unfold v2r rRef adcFS rPullup; norm_num)
      (by rw [abs_of_neg (by norm_num)]; norm_num)
      (by norm_num)
      (by norm_num [Finset.sum_range_succ])
      (by norm_num)
      (by push_cast; norm_num)
      (by push_cast; norm_num),
   rl_bound_div 945 (-(361 / 2600)) (-6859873981 / 52728000000) (0.00044)
      (-0.563488) (-0.5626079) (361 / 2600) 1 3
      (by unfold v2r rRef adcFS rPullup; norm_num)
      (by rw [abs_of_neg (by norm_num)]; norm_num)
      (by norm_num)
      (by norm_num [Finset.sum_range_succ])
      (by norm_num)
      (by push_cast; norm_num)
      (by push_cast; norm_num),
   rl_bound_div 946 (-(271 / 1750)) (-1158466193 / 8039062500) (0.00069)
      (-0.5497326) (-0.5483525) (271 / 1750) 1 3
      (by unfold v2r rRef adcFS rPullup; norm_num)
      (by rw [abs_of_neg (by norm_num)]; norm_num)
      (by norm_num)
      (by norm_num [Finset.sum_range_succ])
      (by norm_num)
      (by push_cast; norm_num)
      (by push_cast; norm_num),
   rl_bound_div 954 (-(1723 / 5750)) (-18943396638682546579487 / 72283148925781250000000) (0.00031)
      (-0.4313851) (-0.430765) (1723 / 5750) 1 6
      (by unfold v2r rRef adcFS rPullup; norm_num)
      (by rw [abs_of_neg (by norm_num)]; norm_num)
      (by norm_num)
      (by norm_num [Finset.sum_range_succ])
      (by norm_num)
      (by push_cast; norm_num)
      (by push_cast; norm_num),
   rl_bound_div 955 (-(2177 / 6800)) (-164735752344016430932831 / 593204895744000000000000) (0.00051)
      (-0.4159526) (-0.4149325) (2177 / 6800) 1 6
      (by unfold v2r rRef adcFS rPullup; norm_num)
      (by rw [abs_of_neg (by norm_num)]; norm_num)
      (by norm_num)
      (by norm_num [Finset.sum_range_succ])
      (by norm_num)
      (by push_cast; norm_num)
      (by push_cast; norm_num),
   rl_bound_div 962 (7893 / 30500) (19755810593602199780409 / 65984086015625000000000) (0.00041)
      (-0.2998127) (-0.2989926) (7893 / 30500) 0 5
      (by unfold v2r rRef adcFS rPullup; norm_num)
      (abs_of_pos (by norm_num))
      (by norm_num)
      (by norm_num [Finset.sum_range_succ])
      (by norm_num)
      (by push_cast; norm_num)
      (by push_cast; norm_num),
   rl_bound_div 963 (4913 / 20000) (36081791241326053301341003 / 128000000000000000000000000) (0.000072)
      (-0.281961) (-0.2818169) (4913 / 20000) 0 6
      (by unfold v2r rRef adcFS rPullup; norm_num)
      (abs_of_pos (by norm_num))
      (by norm_num)
      (by norm_num [Finset.sum_range_succ])
      (by norm_num)
      (by push_cast; norm_num)
      (by push_cast; norm_num),
   rl_bound_div 969 (2819 / 18000) (2977032466259 / 17496000000000) (0.00072)
      (-0.1708751) (-0.169435) (2819 / 18000) 0 3
      (by unfold v2r rRef adcFS rPullup; norm_num)
      (abs_of_pos (by norm_num))
      (by norm_num)
      (by norm_num [Finset.sum_range_succ])
      (by norm_num)
      (by push_cast; norm_num)
      (by push_cast; norm_num),
   rl_bound_div 970 (741 / 5300) (475295496272961 / 3156192400000000) (0.000063)
      (-0.1506545) (-0.1505284) (741 / 5300) 0 4
      (by unfold v2r rRef adcFS rPullup; norm_num)
      (abs_of_pos (by norm_num))
      (by norm_num)
      (by norm_num [Finset.sum_range_succ])
      (by norm_num)
      (by push_cast; norm_num)
      (by push_cast; norm_num),
   rl_bound_div 976 (3 / 125) (759 / 31250) (0.000015)
      (-0.0243031) (-0.0242729) (3 / 125) 0 2
      (by unfold v2r rRef adcFS rPullup; norm_num)
      (abs_of_pos (by norm_num))
      (by norm_num)
      (by norm_num [Finset.sum_range_succ])
      (by norm_num)
      (by push_cast; norm_num)
      (by push_cast; norm_num),
   rl_bound_div 977 (81 / 46000) (7458561 / 4232000000) (0.0000000055)
      (-0.0017625) (-0.0017624) (81 / 46000) 0 2
      (by unfold v2r rRef adcFS rPullup; norm_num)
      (abs_of_pos (by norm_num))
      (by norm_num)
      (by norm_num [Finset.sum_range_succ])
      (by norm_num)
      (by push_cast; norm_num)
      (by push_cast; norm_num),
   rl_bound_div 982 (-(2577 / 20500)) (-1020619285761 / 8615125000000) (0.00029)
      (0.1181783) (0.1187584) (2577 / 20500) 0 3
      (by unfold v2r rRef adcFS rPullup; norm_num)
      (by rw [abs_of_neg (by norm_num)]; norm_num)
      (by norm_num)
      (by norm_num [Finset.sum_range_succ])
      (by norm_num)
      (by push_cast; norm_num)
      (by push_cast; norm_num),
   rl_bound_div 983 (-(6201 / 40000)) (-9232033092867 / 64000000000000) (0.00069)
      (0.1435605) (0.1449406) (6201 / 40000) 0 3
      (by unfold v2r rRef adcFS rPullup; norm_num)
      (by rw [abs_of_neg (by norm_num)]; norm_num)
      (by norm_num)
      (by norm_num [Finset.sum_range_succ])
      (by norm_num)
      (by push_cast; norm_num)
      (by push_cast; norm_num)⟩

theorem rlbC_7 : ((0.2528006 : ℝ) < rl (((987 : ℕ)) : ℝ) ∧ rl (((987 : ℕ)) : ℝ) < (0.2544407 : ℝ)) ∧
    ((0.2820827 : ℝ) < rl (((988 : ℕ)) : ℝ) ∧ rl (((988 : ℕ)) : ℝ) < (0.2832828 : ℝ)) ∧
    ((0.4078675 : ℝ) < rl (((992 : ℕ)) : ℝ) ∧ rl (((992 : ℕ)) : ℝ) < (0.4084876 : ℝ)) ∧
    ((0.4413585 : ℝ) < rl (((993 : ℕ)) : ℝ) ∧ rl (((993 : ℕ)) : ℝ) < (0.4427586 : ℝ)) ∧
    ((0.5500206 : ℝ) < rl (((996 : ℕ)) : ℝ) ∧ rl (((996 : ℕ)) : ℝ) < (0.5507607 : ℝ)) ∧
    ((0.5882946 : ℝ) < rl (((997 : ℕ)) : ℝ) ∧ rl (((997 : ℕ)) : ℝ) < (0.5904947 : ℝ)) ∧
    ((0.714639 : ℝ) < rl (((1000 : ℕ)) : ℝ) ∧ rl (((1000 : ℕ)) : ℝ) < (0.7146611 : ℝ)) ∧
    ((0.7596393 : ℝ) < rl (((1001 : ℕ)) : ℝ) ∧ rl (((1001 : ℕ)) : ℝ) < (0.7603594 : ℝ)) ∧
    ((0.8563331 : ℝ) < rl (((1003 : ℕ)) : ℝ) ∧ rl (((1003 : ℕ)) : ℝ) < (0.8589332 : ℝ)) ∧
    ((0.9084629 : ℝ) < rl (((1004 : ℕ)) : ℝ) ∧ rl (((1004 : ℕ)) : ℝ) < (0.910663 : ℝ)) ∧
    ((1.0218972 : ℝ) < rl (((1006 : ℕ)) : ℝ) ∧ rl (((1006 : ℕ)) : ℝ) < (1.0242973 : ℝ)) ∧
    ((1.0844295 : ℝ) < rl (((1007 : ℕ)) : ℝ) ∧ rl (((1007 : ℕ)) : ℝ) < (1.0846696 : ℝ)) ∧
    ((1.1481556 : ℝ) < rl (((1008 : ℕ)) : ℝ) ∧ rl (((1008 : ℕ)) : ℝ) < (1.1531557 : ℝ)) ∧
    ((1.2195569 : ℝ) < rl (((1009 : ℕ)) : ℝ) ∧ rl (((1009 : ℕ)) : ℝ) < (1.220857 : ℝ)) ∧
    ((1.2946544 : ℝ) < rl (((1010 : ℕ)) : ℝ) ∧ rl (((1010 : ℕ)) : ℝ) < (1.2961145 : ℝ)) ∧
    ((1.3761801 : ℝ) < rl (((1011 : ℕ)) : ℝ) ∧ rl (((1011 : ℕ)) : ℝ) < (1.3761824 : ℝ)) ∧
    ((1.4634338 : ℝ) < rl (((1012 : ℕ)) : ℝ) ∧ rl (((1012 : ℕ)) : ℝ) < (1.4645939 : ℝ)) ∧
    ((1.5601256 : ℝ) < rl (((1013 : ℕ)) : ℝ) ∧ rl (((1013 : ℕ)) : ℝ) < (1.5607457 : ℝ)) ∧
    ((1.6609642 : ℝ) < rl (((1014 : ℕ)) : ℝ) ∧ rl (((1014 : ℕ)) : ℝ) < (1.6715643 : ℝ)) ∧
    ((1.7852828 : ℝ) < rl (((1015 : ℕ)) : ℝ) ∧ rl (((1015 : ℕ)) : ℝ) < (1.7860229 : ℝ)) ∧
    ((1.9196842 : ℝ) < rl (((1016 : ℕ)) : ℝ) ∧ rl (((1016 : ℕ)) : ℝ) < (1.9208043 : ℝ)) ∧
    ((2.0752451 : ℝ) < rl (((1017 : ℕ)) : ℝ) ∧ rl (((1017 : ℕ)) : ℝ) < (2.0752454 : ℝ)) ∧
    ((2.2581296 : ℝ) < rl (((1018 : ℕ)) : ℝ) ∧ rl (((1018 : ℕ)) : ℝ) < (2.2588697 : ℝ)) ∧
    ((2.481531 : ℝ) < rl (((1019 : ℕ)) : ℝ) ∧ rl (((1019 : ℕ)) : ℝ) < (2.4843311 : ℝ)) ∧
    ((2.7713379 : ℝ) < rl (((1020 : ℕ)) : ℝ) ∧ rl (((1020 : ℕ)) : ℝ) < (2.771338 : ℝ)) :=
  ⟨rl_bound_div 987 (-(3463 / 12000)) (-315544687903783558543 / 1244160000000000000000) (0.00082)
      (0.2528006) (0.2544407) (3463 / 12000) 0 5
      (by unfold v2r rRef adcFS rPullup; norm_num)
      (by rw [abs_of_neg (by norm_num)]; norm_num)
      (by norm_num)
      (by norm_num [Finset.sum_range_succ])
      (by norm_num)
      (by push_cast; norm_num)
      (by push_cast; norm_num),
   rl_bound_div 988 (-(2859 / 8750)) (-253733391345235286646303 / 897590637207031250000000) (0.0006)
      (0.2820827) (0.2832828) (2859 / 8750) 0 6
      (by unfold v2r rRef adcFS rPullup; norm_num)
      (by rw [abs_of_neg (by norm_num)]; norm_num)
      (by norm_num)
      (by norm_num [Finset.sum_range_succ])
      (by norm_num)
      (by push_cast; norm_num)
      (by push_cast; norm_num),
   rl_bound_mul 992 (31 / 125) (521794995437 / 1831054687500) (0.00031)
      (0.4078675) (0.4084876) (31 / 125) 1 5
      (by unfold v2r rRef adcFS rPullup; norm_num)
      (abs_of_pos (by norm_num))
      (by norm_num)
      (by norm_num [Finset.sum_range_succ])
      (by norm_num)
      (by push_cast; norm_num)
      (by push_cast; norm_num),
   rl_bound_mul 993 (4443 / 20000) (160696701332102001 / 640000000000000000) (0.0007)
      (0.4413585) (0.4427586) (4443 / 20000) 1 4
      (by unfold v2r rRef adcFS rPullup; norm_num)
      (abs_of_pos (by norm_num))
      (by norm_num)
      (by norm_num [Finset.sum_range_succ])
      (by norm_num)
      (by push_cast; norm_num)
      (by push_cast; norm_num),
   rl_bound_mul 996 (599 / 4500) (39026078549 / 273375000000) (0.00037)
      (0.5500206) (0.5507607) (599 / 4500) 1 3
      (by unfold v2r rRef adcFS rPullup; norm_num)
      (abs_of_pos (by norm_num))
      (by norm_num)
      (by norm_num [Finset.sum_range_succ])
      (by norm_num)
      (by push_cast; norm_num)
      (by push_cast; norm_num),
   rl_bound_mul 997 (5141 / 52000) (561093881 / 5408000000) (0.0011)
      (0.5882946) (0.5904947) (5141 / 52000) 1 2
      (by unfold v2r rRef adcFS rPullup; norm_num)
      (abs_of_pos (by norm_num))
      (by norm_num)
      (by norm_num [Finset.sum_range_succ])
      (by norm_num)
      (by push_cast; norm_num)
      (by push_cast; norm_num),
   rl_bound_mul 1000 (-(1 / 46)) (-91 / 4232) (0.000011)
      (0.714639) (0.7146611) (1 / 46) 1 2
      (by unfold v2r rRef adcFS rPullup; norm_num)
      (by rw [abs_of_neg (by norm_num)]; norm_num)
      (by norm_num)
      (by norm_num [Finset.sum_range_succ])
      (by norm_num)
      (by push_cast; norm_num)
      (by push_cast; norm_num),
   rl_bound_mul 1001 (-(277 / 4000)) (-2139271 / 32000000) (0.00036)
      (0.7596393) (0.7603594) (277 / 4000) 1 2
      (by unfold v2r rRef adcFS rPullup; norm_num)
      (by rw [abs_of_neg (by norm_num)]; norm_num)
      (by norm_num)
      (by norm_num [Finset.sum_range_succ])
      (by norm_num)
      (by push_cast; norm_num)
      (by push_cast; norm_num),
   rl_bound_mul 1003 (-(7141 / 40000)) (-31581314444221 / 192000000000000) (0.0013)
      (0.8563331) (0.8589332) (7141 / 40000) 1 3
      (by unfold v2r rRef adcFS rPullup; norm_num)
      (by rw [abs_of_neg (by norm_num)]; norm_num)
      (by norm_num)
      (by norm_num [Finset.sum_range_succ])
      (by norm_num)
      (by push_cast; norm_num)
      (by push_cast; norm_num),
   rl_bound_mul 1004 (-(2297 / 9500)) (-21152641361038957 / 97740750000000000) (0.0011)
      (0.9084629) (0.910663) (2297 / 9500) 1 4
      (by unfold v2r rRef adcFS rPullup; norm_num)
      (by rw [abs_of_neg (by norm_num)]; norm_num)
      (by norm_num)
      (by norm_num [Finset.sum_range_succ])
      (by norm_num)
      (by push_cast; norm_num)
      (by push_cast; norm_num),
   rl_bound_mul 1006 (10359 / 34000) (82510082641347816958299 / 227177120000000000000000) (0.0012)
      (1.0218972) (1.0242973) (10359 / 34000) 2 5
      (by unfold v2r rRef adcFS rPullup; norm_num)
      (abs_of_pos (by norm_num))
      (by norm_num)
      (by norm_num [Finset.sum_range_succ])
      (by norm_num)
      (by push_cast; norm_num)
      (by push_cast; norm_num),
   rl_bound_mul 1007 (16671 / 64000) (41471488410804758065811200107 / 137438953472000000000000000000) (0.00012)
      (1.0844295) (1.0846696) (16671 / 64000) 2 6
      (by unfold v2r rRef adcFS rPullup; norm_num)
      (abs_of_pos (by norm_num))
      (by norm_num)
      (by norm_num [Finset.sum_range_succ])
      (by norm_num)
      (by push_cast; norm_num)
      (by push_cast; norm_num),
   rl_bound_mul 1008 (263 / 1250) (690347911 / 2929687500) (0.0025)
      (1.1481556) (1.1531557) (263 / 1250) 2 3
      (by unfold v2r rRef adcFS rPullup; norm_num)
      (abs_of_pos (by norm_num))
      (by norm_num)
      (by norm_num [Finset.sum_range_succ])
      (by norm_num)
      (by push_cast; norm_num)
      (by push_cast; norm_num),
   rl_bound_mul 1009 (8577 / 56000) (29167612144011 / 175616000000000) (0.00065)
      (1.2195569) (1.220857) (8577 / 56000) 2 3
      (by unfold v2r rRef adcFS rPullup; norm_num)
      (abs_of_pos (by norm_num))
      (by norm_num)
      (by norm_num [Finset.sum_range_succ])
      (by norm_num)
      (by push_cast; norm_num)
      (by push_cast; norm_num),
   rl_bound_mul 1010 (453 / 5200) (4916409 / 54080000) (0.00073)
      (1.2946544) (1.2961145) (453 / 5200) 2 2
      (by unfold v2r rRef adcFS rPullup; norm_num)
      (abs_of_pos (by norm_num))
      (by norm_num)
      (by norm_num [Finset.sum_range_succ])
      (by norm_num)
      (by push_cast; norm_num)
      (by push_cast; norm_num),
   rl_bound_mul 1011 (161 / 16000) (5177921 / 512000000) (0.0000011)
      (1.3761801) (1.3761824) (161 / 16000) 2 2
      (by unfold v2r rRef adcFS rPullup; norm_num)
      (abs_of_pos (by norm_num))
      (by norm_num)
      (by norm_num [Finset.sum_range_succ])
      (by norm_num)
      (by push_cast; norm_num)
      (by push_cast; norm_num),
   rl_bound_mul 1012 (-(81 / 1000)) (-155439 / 2000000) (0.00058)
      (1.4634338) (1.4645939) (81 / 1000) 2 2
      (by unfold v2r rRef adcFS rPullup; norm_num)
      (by rw [abs_of_neg (by norm_num)]; norm_num)
      (by norm_num)
      (by norm_num [Finset.sum_range_succ])
      (by norm_num)
      (by push_cast; norm_num)
      (by push_cast; norm_num),
   rl_bound_mul 1013 (-(7611 / 40000)) (-1783206856422082959 / 10240000000000000000) (0.00031)
      (1.5601256) (1.5607457) (7611 / 40000) 2 4
      (by unfold v2r rRef adcFS rPullup; norm_num)
      (by rw [abs_of_neg (by norm_num)]; norm_num)
      (by norm_num)
      (by norm_num [Finset.sum_range_succ])
      (by norm_num)
      (by push_cast; norm_num)
      (by push_cast; norm_num),
   rl_bound_mul 1014 (-(1943 / 6000)) (-53754223609037 / 192000000000000) (0.0053)
      (1.6609642) (1.6715643) (1943 / 6000) 2 4
      (by unfold v2r rRef adcFS rPullup; norm_num)
      (by rw [abs_of_neg (by norm_num)]; norm_num)
      (by norm_num)
      (by norm_num [Finset.sum_range_succ])
      (by norm_num)
      (by push_cast; norm_num)
      (by push_cast; norm_num),
   rl_bound_mul 1015 (3259 / 12800) (1514175430207894628897 / 5153960755200000000000) (0.00037)
      (1.7852828) (1.7860229) (3259 / 12800) 3 5
      (by unfold v2r rRef adcFS rPullup; norm_num)
      (abs_of_pos (by norm_num))
      (by norm_num)
      (by norm_num [Finset.sum_range_succ])
      (by norm_num)
      (by push_cast; norm_num)
      (by push_cast; norm_num),
   rl_bound_mul 1016 (1031 / 7000) (163814003291 / 1029000000000) (0.00056)
      (1.9196842) (1.9208043) (1031 / 7000) 3 3
      (by unfold v2r rRef adcFS rPullup; norm_num)
      (abs_of_pos (by norm_num))
      (by norm_num)
      (by norm_num [Finset.sum_range_succ])
      (by norm_num)
      (by push_cast; norm_num)
      (by push_cast; norm_num),
   rl_bound_mul 1017 (67 / 16000) (2148489 / 512000000) (0.000000074)
      (2.0752451) (2.0752454) (67 / 16000) 3 2
      (by unfold v2r rRef adcFS rPullup; norm_num)
      (abs_of_pos (by norm_num))
      (by norm_num)
      (by norm_num [Finset.sum_range_succ])
      (by norm_num)
      (by push_cast; norm_num)
      (by push_cast; norm_num),
   rl_bound_mul 1018 (-(3923 / 20000)) (-343791595973484877 / 1920000000000000000) (0.00037)
      (2.2581296) (2.2588697) (3923 / 20000) 3 4
      (by unfold v2r rRef adcFS rPullup; norm_num)
      (by rw [abs_of_neg (by norm_num)]; norm_num)
      (by norm_num)
      (by norm_num [Finset.sum_range_succ])
      (by norm_num)
      (by push_cast; norm_num)
      (by push_cast; norm_num),
   rl_bound_mul 1019 (16107 / 64000) (19438600267380167601 / 67108864000000000000) (0.0014)
      (2.481531) (2.4843311) (16107 / 64000) 4 4
      (by unfold v2r rRef adcFS rPullup; norm_num)
      (abs_of_pos (by norm_num))
      (by norm_num)
      (by norm_num [Finset.sum_range_succ])
      (by norm_num)
      (by push_cast; norm_num)
      (by push_cast; norm_num),
   rl_bound_mul 1020 (1 / 800) (1601 / 1280000) (0.000000002)
      (2.7713379) (2.771338) (1 / 800) 4 2
      (by unfold v2r rRef adcFS rPullup; norm_num)
      (abs_of_pos (by norm_num))
      (by norm_num)
      (by norm_num [Finset.sum_range_succ])
      (by norm_num)
      (by push_cast; norm_num)
      (by push_cast; norm_num)⟩

/-! ## Antitonicity of `tx2` on the sampled range -/

theorem rl_lb {x : ℝ} (h20 : 20 ≤ x) (h1 : x ≤ 1020) : (-6.98 : ℝ) < rl x := by
  have h0 := rlb_20.1
  norm_num at h0
  rcases eq_or_lt_of_le h20 with h | h
  · rw [← h]
    linarith
  · have := rl_mono (by norm_num : (0 : ℝ) < 20) h (by linarith)
    linarith

theorem dpos {x : ℝ} (h20 : 20 ≤ x) (h1 : x ≤ 1020) :
    0 < 1 / (25 + tZero) + rl x / TXBETA2 := by
  have h := rl_lb h20 h1
  unfold tZero TXBETA2
  have h2 : (0 : ℝ) < 1 / (25 + 273.15) + (-6.98) / 3950 := by norm_num
  have h3 : (-6.98 : ℝ) / 3950 ≤ rl x / 3950 := by linarith
  linarith

theorem tx2R_anti {x y : ℝ} (hx : 20 ≤ x) (hxy : x < y) (hy : y ≤ 1020) :
    tx2R y < tx2R x := by
  unfold tx2R txT
  have hrl := rl_mono (by linarith : (0 : ℝ) < x) hxy (by linarith : y < 1023)
  have hdx := dpos hx (by linarith)
  have hdy := dpos (by linarith) hy
  have hB : (0 : ℝ) < TXBETA2 := by unfold TXBETA2; norm_num
  have hd : 1 / (25 + tZero) + rl x / TXBETA2 < 1 / (25 + tZero) + rl y / TXBETA2 := by
    have : rl x / TXBETA2 < rl y / TXBETA2 := by gcongr
    linarith
  have := one_div_lt_one_div_of_lt hdx hd
  linarith

theorem tx2N_anti {a b : ℕ} (ha : 20 ≤ a) (hab : a ≤ b) (hb : b ≤ 1020) :
    tx2N b ≤ tx2N a := by
  rcases eq_or_lt_of_le hab with h | h
  · rw [h]
  · unfold tx2N
    have hab2 : ((a : ℕ) : ℝ) < ((b : ℕ) : ℝ) := by exact_mod_cast h
    exact le_of_lt (tx2R_anti (by exact_mod_cast ha) hab2 (by exact_mod_cast hb))

/-- One segment of the selection loop: skip a block of codes whose `tx2`
is still at or above the threshold, then retain the first code that
falls below it and decrement the threshold. -/
theorem run_segment (s t tn : ℝ) (r rn : List ℕ) (p g rest cR pn m cm : ℕ)
    (hm : m = g + 1 + rest) (hcR : cR = p + g) (hcm : cm = p + g - 1)
    (hpn : pn = p + g + 1) (htn : tn = t - s) (hrn : rn = r ++ [cR])
    (hp20 : 20 ≤ p) (hend : p + g ≤ 1020)
    (hskip : g = 0 ∨ t ≤ tx2N cm)
    (hret : tx2N cR < t) :
    List.foldl (selStep tx2N s) (t, r) (List.range' p m)
      = List.foldl (selStep tx2N s) (tn, rn) (List.range' pn rest) := by
  subst hm hcR hcm hpn htn hrn
  rw [show g + 1 + rest = g + (1 + rest) from by omega, range'_split,
    List.foldl_append]
  have hskip2 : List.foldl (selStep tx2N s) (t, r) (List.range' p g) = (t, r) := by
    rcases Nat.eq_zero_or_pos g with h0 | hg
    · subst h0; rfl
    · rcases hskip with h0 | hle
      · exact absurd h0 (by omega)
      · apply foldl_skip
        intro c hc
        rw [List.mem_range'_1] at hc
        rw [not_lt]
        exact le_trans hle (tx2N_anti (by omega) (by omega) (by omega))
  rw [hskip2, show 1 + rest = rest + 1 from by omega, List.range'_succ,
    List.foldl_cons]
  have : selStep tx2N s (t, r) (p + g) = (t - s, r ++ [p + g]) := by
    unfold selStep
    rw [if_pos hret]
  rw [this]

/-! ## Comparison facts at individual codes, and the certified runs -/

theorem tx2N_ge_36_300 : (300 : ℝ) ≤ tx2N 36 := (by unfold tx2N tx2R; exact txT_ge_of _ _ _ _ rlbC_0.1.1 (le_of_lt rlbC_0.1.2) (by unfold tZero TXBETA2; norm_num) (by unfold tZero TXBETA2; norm_num))

theorem tx2N_lt_37_300 : tx2N 37 < (300 : ℝ) := (by unfold tx2N tx2R; exact txT_lt_of _ _ _ rlbC_0.2.1.1 (by unfold tZero TXBETA2; norm_num) (by unfold tZero TXBETA2; norm_num))

theorem retained_normal_eq : retained ((maxTemp - minTemp) / 100) = normalRows := by
  unfold retained selRows
  rw [codesList_eq,
    show ((maxTemp - minTemp) / 100 : ℝ) = (3.15 : ℝ) from by
      unfold maxTemp minTemp; norm_num,
    show (maxTemp : ℝ) = (300 : ℝ) from rfl]
  have e0 : List.foldl (selStep tx2N (3.15 : ℝ)) ((300 : ℝ), ([] : List ℕ))
      (List.range' 20 1001)
      = List.foldl (selStep tx2N (3.15 : ℝ)) ((296.85 : ℝ), [37])
      (List.range' 38 983) :=
    run_segment (3.15 : ℝ) (300 : ℝ) (296.85 : ℝ) ([] : List ℕ) [37]
      20 17 983 37 38 1001 36
      rfl rfl rfl rfl (by norm_num) rfl (by norm_num) (by norm_num)
      (Or.inr (by unfold tx2N tx2R; exact txT_ge_of _ _ _ _ rlbC_0.1.1 (le_of_lt rlbC_0.1.2) (by unfold tZero TXBETA2; norm_num) (by unfold tZero TXBETA2; norm_num)))
      (by unfold tx2N tx2R; exact txT_lt_of _ _ _ rlbC_0.2.1.1 (by unfold tZero TXBETA2; norm_num) (by unfold tZero TXBETA2; norm_num))
  have e1 : List.foldl (selStep tx2N (3.15 : ℝ)) ((296.85 : ℝ), [37])
      (List.range' 38 983)
      = List.foldl (selStep tx2N (3.15 : ℝ)) ((293.7 : ℝ), [37, 39])
      (List.range' 40 981) :=
    run_segment (3.15 : ℝ) (296.85 : ℝ) (293.7 : ℝ) [37] [37, 39]
      38 1 981 39 40 983 38
      rfl rfl rfl rfl (by norm_num) rfl (by norm_num) (by norm_num)
      (Or.inr (by unfold tx2N tx2R; exact txT_ge_of _ _ _ _ rlbC_0.2.2.1.1 (le_of_lt rlbC_0.2.2.1.2) (by unfold tZero TXBETA2; norm_num) (by unfold tZero TXBETA2; norm_num)))
      (by unfold tx2N tx2R; exact txT_lt_of _ _ _ rlbC_0.2.2.2.1.1 (by unfold tZero TXBETA2; norm_num) (by unfold tZero TXBETA2; norm_num))
  have e2 : List.foldl (selStep tx2N (3.15 : ℝ)) ((293.7 : ℝ), [37, 39])
      (List.range' 40 981)
      = List.foldl (selStep tx2N (3.15 : ℝ)) ((290.55 : ℝ), [37, 39, 40])
      (List.range' 41 980) :=
    run_segment (3.15 : ℝ) (293.7 : ℝ) (290.55 : ℝ) [37, 39] [37, 39, 40]
      40 0 980 40 41 981 39
      rfl rfl rfl rfl (by norm_num) rfl (by norm_num) (by norm_num)
      (Or.inl rfl)
      (by unfold tx2N tx2R; exact txT_lt_of _ _ _ rlbC_0.2.2.2.2.1.1 (by unfold tZero TXBETA2; norm_num) (by unfold tZero TXBETA2; norm_num))
  have e3 : List.foldl (selStep tx2N (3.15 : ℝ)) ((290.55 : ℝ), [37, 39, 40])
      (List.range' 41 980)
      = List.foldl (selStep tx2N (3.15 : ℝ)) ((287.4 : ℝ), [37, 39, 40, 41])
      (List.range' 42 979) :=
    run_segment (3.15 : ℝ) (290.55 : ℝ) (287.4 : ℝ) [37, 39, 40] [37, 39, 40, 41]
      41 0 979 41 42 980 40
      rfl rfl rfl rfl (by norm_num) rfl (by norm_num) (by norm_num)
      (Or.inl rfl)
      (by unfold tx2N tx2R; exact txT_lt_of _ _ _ rlbC_0.2.2.2.2.2.1.1 (by unfold tZero TXBETA2; norm_num) (by unfold tZero TXBETA2; norm_num))
  have e4 : List.foldl (selStep tx2N (3.15 : ℝ)) ((287.4 : ℝ), [37, 39, 40, 41])
      (List.range' 42 979)
      = List.foldl (selStep tx2N (3.15 : ℝ)) ((284.25 : ℝ), [37, 39, 40, 41, 43])
      (List.range' 44 977) :=
    run_segment (3.15 : ℝ) (287.4 : ℝ) (284.25 : ℝ) [37, 39, 40, 41] [37, 39, 40, 41, 43]
      42 1 977 43 44 979 42
      rfl rfl rfl rfl (by norm_num) rfl (by norm_num) (by norm_num)
      (Or.inr (by unfold tx2N tx2R; exact txT_ge_of _ _ _ _ rlbC_0.2.2.2.2.2.2.1.1 (le_of_lt rlbC_0.2.2.2.2.2.2.1.2) (by unfold tZero TXBETA2; norm_num) (by unfold tZero TXBETA2; norm_num)))
      (by unfold tx2N tx2R; exact txT_lt_of _ _ _ rlbC_0.2.2.2.2.2.2.2.1.1 (by unfold tZero TXBETA2; norm_num) (by unfold tZero TXBETA2; norm_num))
  have e5 : List.foldl (selStep tx2N (3.15 : ℝ)) ((284.25 : ℝ), [37, 39, 40, 41, 43])
      (List.range' 44 977)
      = List.foldl (selStep tx2N (3.15 : ℝ)) ((281.1 : ℝ), [37, 39, 40, 41, 43, 45])
      (List.range' 46 975) :=
    run_segment (3.15 : ℝ) (284.25 : ℝ) (281.1 : ℝ) [37, 39, 40, 41, 43] [37, 39, 40, 41, 43, 45]
      44 1 975 45 46 977 44
      rfl rfl rfl rfl (by norm_num) rfl (by norm_num) (by norm_num)
      (Or.inr (by unfold tx2N tx2R; exact txT_ge_of _ _ _ _ rlbC_0.2.2.2.2.2.2.2.2.1.1 (le_of_lt rlbC_0.2.2.2.2.2.2.2.2.1.2) (by unfold tZero TXBETA2; norm_num) (by unfold tZero TXBETA2; norm_num)))
      (by unfold tx2N tx2R; exact txT_lt_of _ _ _ rlbC_0.2.2.2.2.2.2.2.2.2.1.1 (by unfold tZero TXBETA2; norm_num) (by unfold tZero TXBETA2; norm_num))
  have e6 : List.foldl (selStep tx2N (3.15 : ℝ)) ((281.1 : ℝ), [37, 39, 40, 41, 43, 45])
      (List.range' 46 975)
      = List.foldl (selStep tx2N (3.15 : ℝ)) ((277.95 : ℝ), [37, 39, 40, 41, 43, 45, 46])
      (List.range' 47 974) :=
    run_segment (3.15 : ℝ) (281.1 : ℝ) (277.95 : ℝ) [37, 39, 40, 41, 43, 45] [37, 39, 40, 41, 43, 45, 46]
      46 0 974 46 47 975 45
      rfl rfl rfl rfl (by norm_num) rfl (by norm_num) (by norm_num)
      (Or.inl rfl)
      (by unfold tx2N tx2R; exact txT_lt_of _ _ _ rlbC_0.2.2.2.2.2.2.2.2.2.2.1.1 (by unfold tZero TXBETA2; norm_num) (by unfold tZero TXBETA2; norm_num))
  have e7 : List.foldl (selStep tx2N (3.15 : ℝ)) ((277.95 : ℝ), [37, 39, 40, 41, 43, 45, 46])
      (List.range' 47 974)
      = List.foldl (selStep tx2N (3.15 : ℝ)) ((274.8 : ℝ), [37, 39, 40, 41, 43, 45, 46, 48])
      (List.range' 49 972) :=
    run_segment (3.15 : ℝ) (277.95 : ℝ) (274.8 : ℝ) [37, 39, 40, 41, 43, 45, 46] [37, 39, 40, 41, 43, 45, 46, 48]
      47 1 972 48 49 974 47
      rfl rfl rfl rfl (by norm_num) rfl (by norm_num) (by norm_num)
      (Or.inr (by unfold tx2N tx2R; exact txT_ge_of _ _ _ _ rlbC_0.2.2.2.2.2.2.2.2.2.2.2.1.1 (le_of_lt rlbC_0.2.2.2.2.2.2.2.2.2.2.2.1.2) (by unfold tZero TXBETA2; norm_num) (by unfold tZero TXBETA2; norm_num)))
      (by unfold tx2N tx2R; exact txT_lt_of _ _ _ rlbC_0.2.2.2.2.2.2.2.2.2.2.2.2.1.1 (by unfold tZero TXBETA2; norm_num) (by unfold tZero TXBETA2; norm_num))
  have e8 : List.foldl (selStep tx2N (3.15 : ℝ)) ((274.8 : ℝ), [37, 39, 40, 41, 43, 45, 46, 48])
      (List.range' 49 972)
      = List.foldl (selStep tx2N (3.15 : ℝ)) ((271.65 : ℝ), [37, 39, 40, 41, 43, 45, 46, 48, 50])
      (List.range' 51 970) :=
    run_segment (3.15 : ℝ) (274.8 : ℝ) (271.65 : ℝ) [37, 39, 40, 41, 43, 45, 46, 48] [37, 39, 40, 41, 43, 45, 46, 48, 50]
      49 1 970 50 51 972 49
      rfl rfl rfl rfl (by norm_num) rfl (by norm_num) (by norm_num)
      (Or.inr (by unfold tx2N tx2R; exact txT_ge_of _ _ _ _ rlbC_0.2.2.2.2.2.2.2.2.2.2.2.2.2.1.1 (le_of_lt rlbC_0.2.2.2.2.2.2.2.2.2.2.2.2.2.1.2) (by unfold tZero TXBETA2; norm_num) (by unfold tZero TXBETA2; norm_num)))
      (by unfold tx2N tx2R; exact txT_lt_of _ _ _ rlbC_0.2.2.2.2.2.2.2.2.2.2.2.2.2.2.1.1 (by unfold tZero TXBETA2; norm_num) (by unfold tZero TXBETA2; norm_num))
  have e9 : List.foldl (selStep tx2N (3.15 : ℝ)) ((271.65 : ℝ), [37, 39, 40, 41, 43, 45, 46, 48, 50])
      (List.range' 51 970)
      = List.foldl (selStep tx2N (3.15 : ℝ)) ((268.5 : ℝ), [37, 39, 40, 41, 43, 45, 46, 48, 50, 52])
      (List.range' 53 968) :=
    run_segment (3.15 : ℝ) (271.65 : ℝ) (268.5 : ℝ) [37, 39, 40, 41, 43, 45, 46, 48, 50] [37, 39, 40, 41, 43, 45, 46, 48, 50, 52]
      51 1 968 52 53 970 51
      rfl rfl rfl rfl (by norm_num) rfl (by norm_num) (by norm_num)
      (Or.inr (by unfold tx2N tx2R; exact txT_ge_of _ _ _ _ rlbC_0.2.2.2.2.2.2.2.2.2.2.2.2.2.2.2.1.1 (le_of_lt rlbC_0.2.2.2.2.2.2.2.2.2.2.2.2.2.2.2.1.2) (by unfold tZero TXBETA2; norm_num) (by unfold tZero TXBETA2; norm_num)))
      (by unfold tx2N tx2R; exact txT_lt_of _ _ _ rlbC_0.2.2.2.2.2.2.2.2.2.2.2.2.2.2.2.2.1.1 (by unfold tZero TXBETA2; norm_num) (by unfold tZero TXBETA2; norm_num))
  have e10 : List.foldl (selStep tx2N (3.15 : ℝ)) ((268.5 : ℝ), [37, 39, 40, 41, 43, 45, 46, 48, 50, 52])
      (List.range' 53 968)
      = List.foldl (selStep tx2N (3.15 : ℝ)) ((265.35 : ℝ), [37, 39, 40, 41, 43, 45, 46, 48, 50, 52, 54])
      (List.range' 55 966) :=
    run_segment (3.15 : ℝ) (268.5 : ℝ) (265.35 : ℝ) [37, 39, 40, 41, 43, 45, 46, 48, 50, 52] [37, 39, 40, 41, 43, 45, 46, 48, 50, 52, 54]
      53 1 966 54 55 968 53
      rfl rfl rfl rfl (by norm_num) rfl (by norm_num) (by norm_num)
      (Or.inr (by unfold tx2N tx2R; exact txT_ge_of _ _ _ _ rlbC_0.2.2.2.2.2.2.2.2.2.2.2.2.2.2.2.2.2.1.1 (le_of_lt rlbC_0.2.2.2.2.2.2.2.2.2.2.2.2.2.2.2.2.2.1.2) (by unfold tZero TXBETA2; norm_num) (by unfold tZero TXBETA2; norm_num)))
      (by unfold tx2N tx2R; exact txT_lt_of _ _ _ rlbC_0.2.2.2.2.2.2.2.2.2.2.2.2.2.2.2.2.2.2.1.1 (by unfold tZero TXBETA2; norm_num) (by unfold tZero TXBETA2; norm_num))
  have e11 : List.foldl (selStep tx2N (3.15 : ℝ)) ((265.35 : ℝ), [37, 39, 40, 41, 43, 45, 46, 48, 50, 52, 54])
      (List.range' 55 966)
      = List.foldl (selStep tx2N (3.15 : ℝ)) ((262.2 : ℝ), [37, 39, 40, 41, 43, 45, 46, 48, 50, 52, 54, 57])
      (List.range' 58 963) :=
    run_segment (3.15 : ℝ) (265.35 : ℝ) (262.2 : ℝ) [37, 39, 40, 41, 43, 45, 46, 48, 50, 52, 54] [37, 39, 40, 41, 43, 45, 46, 48, 50, 52, 54, 57]
      55 2 963 57 58 966 56
      rfl rfl rfl rfl (by norm_num) rfl (by norm_num) (by norm_num)
      (Or.inr (by unfold tx2N tx2R; exact txT_ge_of _ _ _ _ rlbC_0.2.2.2.2.2.2.2.2.2.2.2.2.2.2.2.2.2.2.2.1.1 (le_of_lt rlbC_0.2.2.2.2.2.2.2.2.2.2.2.2.2.2.2.2.2.2.2.1.2) (by unfold tZero TXBETA2; norm_num) (by unfold tZero TXBETA2; norm_num)))
      (by unfold tx2N tx2R; exact txT_lt_of _ _ _ rlbC_0.2.2.2.2.2.2.2.2.2.2.2.2.2.2.2.2.2.2.2.2.1.1 (by unfold tZero TXBETA2; norm_num) (by unfold tZero TXBETA2; norm_num))
  have e12 : List.foldl (selStep tx2N (3.15 : ℝ)) ((262.2 : ℝ), [37, 39, 40, 41, 43, 45, 46, 48, 50, 52, 54, 57])
      (List.range' 58 963)
      = List.foldl (selStep tx2N (3.15 : ℝ)) ((259.05 : ℝ), [37, 39, 40, 41, 43, 45, 46, 48, 50, 52, 54, 57, 59])
      (List.range' 60 961) :=
    run_segment (3.15 : ℝ) (262.2 : ℝ) (259.05 : ℝ) [37, 39, 40, 41, 43, 45, 46, 48, 50, 52, 54, 57] [37, 39, 40, 41, 43, 45, 46, 48, 50, 52, 54, 57, 59]
      58 1 961 59 60 963 58
      rfl rfl rfl rfl (by norm_num) rfl (by norm_num) (by norm_num)
      (Or.inr (by unfold tx2N tx2R; exact txT_ge_of _ _ _ _ rlbC_0.2.2.2.2.2.2.2.2.2.2.2.2.2.2.2.2.2.2.2.2.2.1.1 (le_of_lt rlbC_0.2.2.2.2.2.2.2.2.2.2.2.2.2.2.2.2.2.2.2.2.2.1.2) (by unfold tZero TXBETA2; norm_num) (by unfold tZero TXBETA2; norm_num)))
      (by unfold tx2N tx2R; exact txT_lt_of _ _ _ rlbC_0.2.2.2.2.2.2.2.2.2.2.2.2.2.2.2.2.2.2.2.2.2.2.1.1 (by unfold tZero TXBETA2; norm_num) (by unfold tZero TXBETA2; norm_num))
  have e13 : List.foldl (selStep tx2N (3.15 : ℝ)) ((259.05 : ℝ), [37, 39, 40, 41, 43, 45, 46, 48, 50, 52, 54, 57, 59])
      (List.range' 60 961)
      = List.foldl (selStep tx2N (3.15 : ℝ)) ((255.9 : ℝ), [37, 39, 40, 41, 43, 45, 46, 48, 50, 52, 54, 57, 59, 61])
      (List.range' 62 959) :=
    run_segment (3.15 : ℝ) (259.05 : ℝ) (255.9 : ℝ) [37, 39, 40, 41, 43, 45, 46, 48, 50, 52, 54, 57, 59] [37, 39, 40, 41, 43, 45, 46, 48, 50, 52, 54, 57, 59, 61]
      60 1 959 61 62 961 60
      rfl rfl rfl rfl (by norm_num) rfl (by norm_num) (by norm_num)
      (Or.inr (by unfold tx2N tx2R; exact txT_ge_of _ _ _ _ rlbC_0.2.2.2.2.2.2.2.2.2.2.2.2.2.2.2.2.2.2.2.2.2.2.2.1.1 (le_of_lt rlbC_0.2.2.2.2.2.2.2.2.2.2.2.2.2.2.2.2.2.2.2.2.2.2.2.1.2) (by unfold tZero TXBETA2; norm_num) (by unfold tZero TXBETA2; norm_num)))
      (by unfold tx2N tx2R; exact txT_lt_of _ _ _ rlbC_0.2.2.2.2.2.2.2.2.2.2.2.2.2.2.2.2.2.2.2.2.2.2.2.2.1 (by unfold tZero TXBETA2; norm_num) (by unfold tZero TXBETA2; norm_num))
  have e14 : List.foldl (selStep tx2N (3.15 : ℝ)) ((255.9 : ℝ), [37, 39, 40, 41, 43, 45, 46, 48, 50, 52, 54, 57, 59, 61])
      (List.range' 62 959)
      = List.foldl (selStep tx2N (3.15 : ℝ)) ((252.75 : ℝ), [37, 39, 40, 41, 43, 45, 46, 48, 50, 52, 54, 57, 59, 61, 64])
      (List.range' 65 956) :=
    run_segment (3.15 : ℝ) (255.9 : ℝ) (252.75 : ℝ) [37, 39, 40, 41, 43, 45, 46, 48, 50, 52, 54, 57, 59, 61] [37, 39, 40, 41, 43, 45, 46, 48, 50, 52, 54, 57, 59, 61, 64]
      62 2 956 64 65 959 63
      rfl rfl rfl rfl (by norm_num) rfl (by norm_num) (by norm_num)
      (Or.inr (by unfold tx2N tx2R; exact txT_ge_of _ _ _ _ rlbC_1.1.1 (le_of_lt rlbC_1.1.2) (by unfold tZero TXBETA2; norm_num) (by unfold tZero TXBETA2; norm_num)))
      (by unfold tx2N tx2R; exact txT_lt_of _ _ _ rlbC_1.2.1.1 (by unfold tZero TXBETA2; norm_num) (by unfold tZero TXBETA2; norm_num))
  have e15 : List.foldl (selStep tx2N (3.15 : ℝ)) ((252.75 : ℝ), [37, 39, 40, 41, 43, 45, 46, 48, 50, 52, 54, 57, 59, 61, 64])
      (List.range' 65 956)
      = List.foldl (selStep tx2N (3.15 : ℝ)) ((249.6 : ℝ), [37, 39, 40, 41, 43, 45, 46, 48, 50, 52, 54, 57, 59, 61, 64, 67])
      (List.range' 68 953) :=
    run_segment (3.15 : ℝ) (252.75 : ℝ) (249.6 : ℝ) [37, 39, 40, 41, 43, 45, 46, 48, 50, 52, 54, 57, 59, 61, 64] [37, 39, 40, 41, 43, 45, 46, 48, 50, 52, 54, 57, 59, 61, 64, 67]
      65 2 953 67 68 956 66
      rfl rfl rfl rfl (by norm_num) rfl (by norm_num) (by norm_num)
      (Or.inr (by unfold tx2N tx2R; exact txT_ge_of _ _ _ _ rlbC_1.2.2.1.1 (le_of_lt rlbC_1.2.2.1.2) (by unfold tZero TXBETA2; norm_num) (by unfold tZero TXBETA2; norm_num)))
      (by unfold tx2N tx2R; exact txT_lt_of _ _ _ rlbC_1.2.2.2.1.1 (by unfold tZero TXBETA2; norm_num) (by unfold tZero TXBETA2; norm_num))
  have e16 : List.foldl (selStep tx2N (3.15 : ℝ)) ((249.6 : ℝ), [37, 39, 40, 41, 43, 45, 46, 48, 50, 52, 54, 57, 59, 61, 64, 67])
      (List.range' 68 953)
      = List.foldl (selStep tx2N (3.15 : ℝ)) ((246.45 : ℝ), [37, 39, 40, 41, 43, 45, 46, 48, 50, 52, 54, 57, 59, 61, 64, 67, 69])
      (List.range' 70 951) :=
    run_segment (3.15 : ℝ) (249.6 : ℝ) (246.45 : ℝ) [37, 39, 40, 41, 43, 45, 46, 48, 50, 52, 54, 57, 59, 61, 64, 67] [37, 39, 40, 41, 43, 45, 46, 48, 50, 52, 54, 57, 59, 61, 64, 67, 69]
      68 1 951 69 70 953 68
      rfl rfl rfl rfl (by norm_num) rfl (by norm_num) (by norm_num)
      (Or.inr (by unfold tx2N tx2R; exact txT_ge_of _ _ _ _ rlbC_1.2.2.2.2.1.1 (le_of_lt rlbC_1.2.2.2.2.1.2) (by unfold tZero TXBETA2; norm_num) (by unfold tZero TXBETA2; norm_num)))
      (by unfold tx2N tx2R; exact txT_lt_of _ _ _ rlbC_1.2.2.2.2.2.1.1 (by unfold tZero TXBETA2; norm_num) (by unfold tZero TXBETA2; norm_num))
  have e17 : List.foldl (selStep tx2N (3.15 : ℝ)) ((246.45 : ℝ), [37, 39, 40, 41, 43, 45, 46, 48, 50, 52, 54, 57, 59, 61, 64, 67, 69])
      (List.range' 70 951)
      = List.foldl (selStep tx2N (3.15 : ℝ)) ((243.3 : ℝ), [37, 39, 40, 41, 43, 45, 46, 48, 50, 52, 54, 57, 59, 61, 64, 67, 69, 72])
      (List.range' 73 948) :=
    run_segment (3.15 : ℝ) (246.45 : ℝ) (243.3 : ℝ) [37, 39, 40, 41, 43, 45, 46, 48, 50, 52, 54, 57, 59, 61, 64, 67, 69] [37, 39, 40, 41, 43, 45, 46, 48, 50, 52, 54, 57, 59, 61, 64, 67, 69, 72]
      70 2 948 72 73 951 71
      rfl rfl rfl rfl (by norm_num) rfl (by norm_num) (by norm_num)
      (Or.inr (by unfold tx2N tx2R; exact txT_ge_of _ _ _ _ rlbC_1.2.2.2.2.2.2.1.1 (le_of_lt rlbC_1.2.2.2.2.2.2.1.2) (by unfold tZero TXBETA2; norm_num) (by unfold tZero TXBETA2; norm_num)))
      (by unfold tx2N tx2R; exact txT_lt_of _ _ _ rlbC_1.2.2.2.2.2.2.2.1.1 (by unfold tZero TXBETA2; norm_num) (by unfold tZero TXBETA2; norm_num))
  have e18 : List.foldl (selStep tx2N (3.15 : ℝ)) ((243.3 : ℝ), [37, 39, 40, 41, 43, 45, 46, 48, 50, 52, 54, 57, 59, 61, 64, 67, 69, 72])
      (List.range' 73 948)
      = List.foldl (selStep tx2N (3.15 : ℝ)) ((240.15 : ℝ), [37, 39, 40, 41, 43, 45, 46, 48, 50, 52, 54, 57, 59, 61, 64, 67, 69, 72, 76])
      (List.range' 77 944) :=
    run_segment (3.15 : ℝ) (243.3 : ℝ) (240.15 : ℝ) [37, 39, 40, 41, 43, 45, 46, 48, 50, 52, 54, 57, 59, 61, 64, 67, 69, 72] [37, 39, 40, 41, 43, 45, 46, 48, 50, 52, 54, 57, 59, 61, 64, 67, 69, 72, 76]
      73 3 944 76 77 948 75
      rfl rfl rfl rfl (by norm_num) rfl (by norm_num) (by norm_num)
      (Or.inr (by unfold tx2N tx2R; exact txT_ge_of _ _ _ _ rlbC_1.2.2.2.2.2.2.2.2.1.1 (le_of_lt rlbC_1.2.2.2.2.2.2.2.2.1.2) (by unfold tZero TXBETA2; norm_num) (by unfold tZero TXBETA2; norm_num)))
      (by unfold tx2N tx2R; exact txT_lt_of _ _ _ rlbC_1.2.2.2.2.2.2.2.2.2.1.1 (by unfold tZero TXBETA2; norm_num) (by unfold tZero TXBETA2; norm_num))
  have e19 : List.foldl (selStep tx2N (3.15 : ℝ)) ((240.15 : ℝ), [37, 39, 40, 41, 43, 45, 46, 48, 50, 52, 54, 57, 59, 61, 64, 67, 69, 72, 76])
      (List.range' 77 944)
      = List.foldl (selStep tx2N (3.15 : ℝ)) ((237 : ℝ), [37, 39, 40, 41, 43, 45, 46, 48, 50, 52, 54, 57, 59, 61, 64, 67, 69, 72, 76, 79])
      (List.range' 80 941) :=
    run_segment (3.15 : ℝ) (240.15 : ℝ) (237 : ℝ) [37, 39, 40, 41, 43, 45, 46, 48, 50, 52, 54, 57, 59, 61, 64, 67, 69, 72, 76] [37, 39, 40, 41, 43, 45, 46, 48, 50, 52, 54, 57, 59, 61, 64, 67, 69, 72, 76, 79]
      77 2 941 79 80 944 78
      rfl rfl rfl rfl (by norm_num) rfl (by norm_num) (by norm_num)
      (Or.inr (by unfold tx2N tx2R; exact txT_ge_of _ _ _ _ rlbC_1.2.2.2.2.2.2.2.2.2.2.1.1 (le_of_lt rlbC_1.2.2.2.2.2.2.2.2.2.2.1.2) (by unfold tZero TXBETA2; norm_num) (by unfold tZero TXBETA2; norm_num)))
      (by unfold tx2N tx2R; exact txT_lt_of _ _ _ rlbC_1.2.2.2.2.2.2.2.2.2.2.2.1.1 (by unfold tZero TXBETA2; norm_num) (by unfold tZero TXBETA2; norm_num))
  have e20 : List.foldl (selStep tx2N (3.15 : ℝ)) ((237 : ℝ), [37, 39, 40, 41, 43, 45, 46, 48, 50, 52, 54, 57, 59, 61, 64, 67, 69, 72, 76, 79])
      (List.range' 80 941)
      = List.foldl (selStep tx2N (3.15 : ℝ)) ((233.85 : ℝ), [37, 39, 40, 41, 43, 45, 46, 48, 50, 52, 54, 57, 59, 61, 64, 67, 69, 72, 76, 79, 82])
      (List.range' 83 938) :=
    run_segment (3.15 : ℝ) (237 : ℝ) (233.85 : ℝ) [37, 39, 40, 41, 43, 45, 46, 48, 50, 52, 54, 57, 59, 61, 64, 67, 69, 72, 76, 79] [37, 39, 40, 41, 43, 45, 46, 48, 50, 52, 54, 57, 59, 61, 64, 67, 69, 72, 76, 79, 82]
      80 2 938 82 83 941 81
      rfl rfl rfl rfl (by norm_num) rfl (by norm_num) (by norm_num)
      (Or.inr (by unfold tx2N tx2R; exact txT_ge_of _ _ _ _ rlbC_1.2.2.2.2.2.2.2.2.2.2.2.2.1.1 (le_of_lt rlbC_1.2.2.2.2.2.2.2.2.2.2.2.2.1.2) (by unfold tZero TXBETA2; norm_num) (by unfold tZero TXBETA2; norm_num)))
      (by unfold tx2N tx2R; exact txT_lt_of _ _ _ rlbC_1.2.2.2.2.2.2.2.2.2.2.2.2.2.1.1 (by unfold tZero TXBETA2; norm_num) (by unfold tZero TXBETA2; norm_num))
  have e21 : List.foldl (selStep tx2N (3.15 : ℝ)) ((233.85 : ℝ), [37, 39, 40, 41, 43, 45, 46, 48, 50, 52, 54, 57, 59, 61, 64, 67, 69, 72, 76, 79, 82])
      (List.range' 83 938)
      = List.foldl (selStep tx2N (3.15 : ℝ)) ((230.7 : ℝ), [37, 39, 40, 41, 43, 45, 46, 48, 50, 52, 54, 57, 59, 61, 64, 67, 69, 72, 76, 79, 82, 86])
      (List.range' 87 934) :=
    run_segment (3.15 : ℝ) (233.85 : ℝ) (230.7 : ℝ) [37, 39, 40, 41, 43, 45, 46, 48, 50, 52, 54, 57, 59, 61, 64, 67, 69, 72, 76, 79, 82] [37, 39, 40, 41, 43, 45, 46, 48, 50, 52, 54, 57, 59, 61, 64, 67, 69, 72, 76, 79, 82, 86]
      83 3 934 86 87 938 85
      rfl rfl rfl rfl (by norm_num) rfl (by norm_num) (by norm_num)
      (Or.inr (by unfold tx2N tx2R; exact txT_ge_of _ _ _ _ rlbC_1.2.2.2.2.2.2.2.2.2.2.2.2.2.2.1.1 (le_of_lt rlbC_1.2.2.2.2.2.2.2.2.2.2.2.2.2.2.1.2) (by unfold tZero TXBETA2; norm_num) (by unfold tZero TXBETA2; norm_num)))
      (by unfold tx2N tx2R; exact txT_lt_of _ _ _ rlbC_1.2.2.2.2.2.2.2.2.2.2.2.2.2.2.2.1.1 (by unfold tZero TXBETA2; norm_num) (by unfold tZero TXBETA2; norm_num))
  have e22 : List.foldl (selStep tx2N (3.15 : ℝ)) ((230.7 : ℝ), [37, 39, 40, 41, 43, 45, 46, 48, 50, 52, 54, 57, 59, 61, 64, 67, 69, 72, 76, 79, 82, 86])
      (List.range' 87 934)
      = List.foldl (selStep tx2N (3.15 : ℝ)) ((227.55 : ℝ), [37, 39, 40, 41, 43, 45, 46, 48, 50, 52, 54, 57, 59, 61, 64, 67, 69, 72, 76, 79, 82, 86, 90])
      (List.range' 91 930) :=
    run_segment (3.15 : ℝ) (230.7 : ℝ) (227.55 : ℝ) [37, 39, 40, 41, 43, 45, 46, 48, 50, 52, 54, 57, 59, 61, 64, 67, 69, 72, 76, 79, 82, 86] [37, 39, 40, 41, 43, 45, 46, 48, 50, 52, 54, 57, 59, 61, 64, 67, 69, 72, 76, 79, 82, 86, 90]
      87 3 930 90 91 934 89
      rfl rfl rfl rfl (by norm_num) rfl (by norm_num) (by norm_num)
      (Or.inr (by unfold tx2N tx2R; exact txT_ge_of _ _ _ _ rlbC_1.2.2.2.2.2.2.2.2.2.2.2.2.2.2.2.2.1.1 (le_of_lt rlbC_1.2.2.2.2.2.2.2.2.2.2.2.2.2.2.2.2.1.2) (by unfold tZero TXBETA2; norm_num) (by unfold tZero TXBETA2; norm_num)))
      (by unfold tx2N tx2R; exact txT_lt_of _ _ _ rlbC_1.2.2.2.2.2.2.2.2.2.2.2.2.2.2.2.2.2.1.1 (by unfold tZero TXBETA2; norm_num) (by unfold tZero TXBETA2; norm_num))
  have e23 : List.foldl (selStep tx2N (3.15 : ℝ)) ((227.55 : ℝ), [37, 39, 40, 41, 43, 45, 46, 48, 50, 52, 54, 57, 59, 61, 64, 67, 69, 72, 76, 79, 82, 86, 90])
      (List.range' 91 930)
      = List.foldl (selStep tx2N (3.15 : ℝ)) ((224.4 : ℝ), [37, 39, 40, 41, 43, 45, 46, 48, 50, 52, 54, 57, 59, 61, 64, 67, 69, 72, 76, 79, 82, 86, 90, 94])
      (List.range' 95 926) :=
    run_segment (3.15 : ℝ) (227.55 : ℝ) (224.4 : ℝ) [37, 39, 40, 41, 43, 45, 46, 48, 50, 52, 54, 57, 59, 61, 64, 67, 69, 72, 76, 79, 82, 86, 90] [37, 39, 40, 41, 43, 45, 46, 48, 50, 52, 54, 57, 59, 61, 64, 67, 69, 72, 76, 79, 82, 86, 90, 94]
      91 3 926 94 95 930 93
      rfl rfl rfl rfl (by norm_num) rfl (by norm_num) (by norm_num)
      (Or.inr (by unfold tx2N tx2R; exact txT_ge_of _ _ _ _ rlbC_1.2.2.2.2.2.2.2.2.2.2.2.2.2.2.2.2.2.2.1.1 (le_of_lt rlbC_1.2.2.2.2.2.2.2.2.2.2.2.2.2.2.2.2.2.2.1.2) (by unfold tZero TXBETA2; norm_num) (by unfold tZero TXBETA2; norm_num)))
      (by unfold tx2N tx2R; exact txT_lt_of _ _ _ rlbC_1.2.2.2.2.2.2.2.2.2.2.2.2.2.2.2.2.2.2.2.1.1 (by unfold tZero TXBETA2; norm_num) (by unfold tZero TXBETA2; norm_num))
  have e24 : List.foldl (selStep tx2N (3.15 : ℝ)) ((224.4 : ℝ), [37, 39, 40, 41, 43, 45, 46, 48, 50, 52, 54, 57, 59, 61, 64, 67, 69, 72, 76, 79, 82, 86, 90, 94])
      (List.range' 95 926)
      = List.foldl (selStep tx2N (3.15 : ℝ)) ((221.25 : ℝ), [37, 39, 40, 41, 43, 45, 46, 48, 50, 52, 54, 57, 59, 61, 64, 67, 69, 72, 76, 79, 82, 86, 90, 94, 99])
      (List.range' 100 921) :=
    run_segment (3.15 : ℝ) (224.4 : ℝ) (221.25 : ℝ) [37, 39, 40, 41, 43, 45, 46, 48, 50, 52, 54, 57, 59, 61, 64, 67, 69, 72, 76, 79, 82, 86, 90, 94] [37, 39, 40, 41, 43, 45, 46, 48, 50, 52, 54, 57, 59, 61, 64, 67, 69, 72, 76, 79, 82, 86, 90, 94, 99]
      95 4 921 99 100 926 98
      rfl rfl rfl rfl (by norm_num) rfl (by norm_num) (by norm_num)
      (Or.inr (by unfold tx2N tx2R; exact txT_ge_of _ _ _ _ rlbC_1.2.2.2.2.2.2.2.2.2.2.2.2.2.2.2.2.2.2.2.2.1.1 (le_of_lt rlbC_1.2.2.2.2.2.2.2.2.2.2.2.2.2.2.2.2.2.2.2.2.1.2) (by unfold tZero TXBETA2; norm_num) (by unfold tZero TXBETA2; norm_num)))
      (by unfold tx2N tx2R; exact txT_lt_of _ _ _ rlbC_1.2.2.2.2.2.2.2.2.2.2.2.2.2.2.2.2.2.2.2.2.2.1.1 (by unfold tZero TXBETA2; norm_num) (by unfold tZero TXBETA2; norm_num))
  have e25 : List.foldl (selStep tx2N (3.15 : ℝ)) ((221.25 : ℝ), [37, 39, 40, 41, 43, 45, 46, 48, 50, 52, 54, 57, 59, 61, 64, 67, 69, 72, 76, 79, 82, 86, 90, 94, 99])
      (List.range' 100 921)
      = List.foldl (selStep tx2N (3.15 : ℝ)) ((218.1 : ℝ), [37, 39, 40, 41, 43, 45, 46, 48, 50, 52, 54, 57, 59, 61, 64, 67, 69, 72, 76, 79, 82, 86, 90, 94, 99, 103])
      (List.range' 104 917) :=
    run_segment (3.15 : ℝ) (221.25 : ℝ) (218.1 : ℝ) [37, 39, 40, 41, 43, 45, 46, 48, 50, 52, 54, 57, 59, 61, 64, 67, 69, 72, 76, 79, 82, 86, 90, 94, 99] [37, 39, 40, 41, 43, 45, 46, 48, 50, 52, 54, 57, 59, 61, 64, 67, 69, 72, 76, 79, 82, 86, 90, 94, 99, 103]
      100 3 917 103 104 921 102
      rfl rfl rfl rfl (by norm_num) rfl (by norm_num) (by norm_num)
      (Or.inr (by unfold tx2N tx2R; exact txT_ge_of _ _ _ _ rlbC_1.2.2.2.2.2.2.2.2.2.2.2.2.2.2.2.2.2.2.2.2.2.2.1.1 (le_of_lt rlbC_1.2.2.2.2.2.2.2.2.2.2.2.2.2.2.2.2.2.2.2.2.2.2.1.2) (by unfold tZero TXBETA2; norm_num) (by unfold tZero TXBETA2; norm_num)))
      (by unfold tx2N tx2R; exact txT_lt_of _ _ _ rlbC_1.2.2.2.2.2.2.2.2.2.2.2.2.2.2.2.2.2.2.2.2.2.2.2.1.1 (by unfold tZero TXBETA2; norm_num) (by unfold tZero TXBETA2; norm_num))
  have e26 : List.foldl (selStep tx2N (3.15 : ℝ)) ((218.1 : ℝ), [37, 39, 40, 41, 43, 45, 46, 48, 50, 52, 54, 57, 59, 61, 64, 67, 69, 72, 76, 79, 82, 86, 90, 94, 99, 103])
      (List.range' 104 917)
      = List.foldl (selStep tx2N (3.15 : ℝ)) ((214.95 : ℝ), [37, 39, 40, 41, 43, 45, 46, 48, 50, 52, 54, 57, 59, 61, 64, 67, 69, 72, 76, 79, 82, 86, 90, 94, 99, 103, 108])
      (List.range' 109 912) :=
    run_segment (3.15 : ℝ) (218.1 : ℝ) (214.95 : ℝ) [37, 39, 40, 41, 43, 45, 46, 48, 50, 52, 54, 57, 59, 61, 64, 67, 69, 72, 76, 79, 82, 86, 90, 94, 99, 103] [37, 39, 40, 41, 43, 45, 46, 48, 50, 52, 54, 57, 59, 61, 64, 67, 69, 72, 76, 79, 82, 86, 90, 94, 99, 103, 108]
      104 4 912 108 109 917 107
      rfl rfl rfl rfl (by norm_num) rfl (by norm_num) (by norm_num)
      (Or.inr (by unfold tx2N tx2R; exact txT_ge_of _ _ _ _ rlbC_1.2.2.2.2.2.2.2.2.2.2.2.2.2.2.2.2.2.2.2.2.2.2.2.2.1 (le_of_lt rlbC_1.2.2.2.2.2.2.2.2.2.2.2.2.2.2.2.2.2.2.2.2.2.2.2.2.2) (by unfold tZero TXBETA2; norm_num) (by unfold tZero TXBETA2; norm_num)))
      (by unfold tx2N tx2R; exact txT_lt_of _ _ _ rlbC_2.1.1 (by unfold tZero TXBETA2; norm_num) (by unfold tZero TXBETA2; norm_num))
  have e27 : List.foldl (selStep tx2N (3.15 : ℝ)) ((214.95 : ℝ), [37, 39, 40, 41, 43, 45, 46, 48, 50, 52, 54, 57, 59, 61, 64, 67, 69, 72, 76, 79, 82, 86, 90, 94, 99, 103, 108])
      (List.range' 109 912)
      = List.foldl (selStep tx2N (3.15 : ℝ)) ((211.8 : ℝ), [37, 39, 40, 41, 43, 45, 46, 48, 50, 52, 54, 57, 59, 61, 64, 67, 69, 72, 76, 79, 82, 86, 90, 94, 99, 103, 108, 113])
      (List.range' 114 907) :=
    run_segment (3.15 : ℝ) (214.95 : ℝ) (211.8 : ℝ) [37, 39, 40, 41, 43, 45, 46, 48, 50, 52, 54, 57, 59, 61, 64, 67, 69, 72, 76, 79, 82, 86, 90, 94, 99, 103, 108] [37, 39, 40, 41, 43, 45, 46, 48, 50, 52, 54, 57, 59, 61, 64, 67, 69, 72, 76, 79, 82, 86, 90, 94, 99, 103, 108, 113]
      109 4 907 113 114 912 112
      rfl rfl rfl rfl (by norm_num) rfl (by norm_num) (by norm_num)
      (Or.inr (by unfold tx2N tx2R; exact txT_ge_of _ _ _ _ rlbC_2.2.1.1 (le_of_lt rlbC_2.2.1.2) (by unfold tZero TXBETA2; norm_num) (by unfold tZero TXBETA2; norm_num)))
      (by unfold tx2N tx2R; exact txT_lt_of _ _ _ rlbC_2.2.2.1.1 (by unfold tZero TXBETA2; norm_num) (by unfold tZero TXBETA2; norm_num))
  have e28 : List.foldl (selStep tx2N (3.15 : ℝ)) ((211.8 : ℝ), [37, 39, 40, 41, 43, 45, 46, 48, 50, 52, 54, 57, 59, 61, 64, 67, 69, 72, 76, 79, 82, 86, 90, 94, 99, 103, 108, 113])
      (List.range' 114 907)
      = List.foldl (selStep tx2N (3.15 : ℝ)) ((208.65 : ℝ), [37, 39, 40, 41, 43, 45, 46, 48, 50, 52, 54, 57, 59, 61, 64, 67, 69, 72, 76, 79, 82, 86, 90, 94, 99, 103, 108, 113, 119])
      (List.range' 120 901) :=
    run_segment (3.15 : ℝ) (211.8 : ℝ) (208.65 : ℝ) [37, 39, 40, 41, 43, 45, 46, 48, 50, 52, 54, 57, 59, 61, 64, 67, 69, 72, 76, 79, 82, 86, 90, 94, 99, 103, 108, 113] [37, 39, 40, 41, 43, 45, 46, 48, 50, 52, 54, 57, 59, 61, 64, 67, 69, 72, 76, 79, 82, 86, 90, 94, 99, 103, 108, 113, 119]
      114 5 901 119 120 907 118
      rfl rfl rfl rfl (by norm_num) rfl (by norm_num) (by norm_num)
      (Or.inr (by unfold tx2N tx2R; exact txT_ge_of _ _ _ _ rlbC_2.2.2.2.1.1 (le_of_lt rlbC_2.2.2.2.1.2) (by unfold tZero TXBETA2; norm_num) (by unfold tZero TXBETA2; norm_num)))
      (by unfold tx2N tx2R; exact txT_lt_of _ _ _ rlbC_2.2.2.2.2.1.1 (by unfold tZero TXBETA2; norm_num) (by unfold tZero TXBETA2; norm_num))
  have e29 : List.foldl (selStep tx2N (3.15 : ℝ)) ((208.65 : ℝ), [37, 39, 40, 41, 43, 45, 46, 48, 50, 52, 54, 57, 59, 61, 64, 67, 69, 72, 76, 79, 82, 86, 90, 94, 99, 103, 108, 113, 119])
      (List.range' 120 901)
      = List.foldl (selStep tx2N (3.15 : ℝ)) ((205.5 : ℝ), [37, 39, 40, 41, 43, 45, 46, 48, 50, 52, 54, 57, 59, 61, 64, 67, 69, 72, 76, 79, 82, 86, 90, 94, 99, 103, 108, 113, 119, 124])
      (List.range' 125 896) :=
    run_segment (3.15 : ℝ) (208.65 : ℝ) (205.5 : ℝ) [37, 39, 40, 41, 43, 45, 46, 48, 50, 52, 54, 57, 59, 61, 64, 67, 69, 72, 76, 79, 82, 86, 90, 94, 99, 103, 108, 113, 119] [37, 39, 40, 41, 43, 45, 46, 48, 50, 52, 54, 57, 59, 61, 64, 67, 69, 72, 76, 79, 82, 86, 90, 94, 99, 103, 108, 113, 119, 124]
      120 4 896 124 125 901 123
      rfl rfl rfl rfl (by norm_num) rfl (by norm_num) (by norm_num)
      (Or.inr (by unfold tx2N tx2R; exact txT_ge_of _ _ _ _ rlbC_2.2.2.2.2.2.1.1 (le_of_lt rlbC_2.2.2.2.2.2.1.2) (by unfold tZero TXBETA2; norm_num) (by unfold tZero TXBETA2; norm_num)))
      (by unfold tx2N tx2R; exact txT_lt_of _ _ _ rlbC_2.2.2.2.2.2.2.1.1 (by unfold tZero TXBETA2; norm_num) (by unfold tZero TXBETA2; norm_num))
  have e30 : List.foldl (selStep tx2N (3.15 : ℝ)) ((205.5 : ℝ), [37, 39, 40, 41, 43, 45, 46, 48, 50, 52, 54, 57, 59, 61, 64, 67, 69, 72, 76, 79, 82, 86, 90, 94, 99, 103, 108, 113, 119, 124])
      (List.range' 125 896)
      = List.foldl (selStep tx2N (3.15 : ℝ)) ((202.35 : ℝ), [37, 39, 40, 41, 43, 45, 46, 48, 50, 52, 54, 57, 59, 61, 64, 67, 69, 72, 76, 79, 82, 86, 90, 94, 99, 103, 108, 113, 119, 124, 130])
      (List.range' 131 890) :=
    run_segment (3.15 : ℝ) (205.5 : ℝ) (202.35 : ℝ) [37, 39, 40, 41, 43, 45, 46, 48, 50, 52, 54, 57, 59, 61, 64, 67, 69, 72, 76, 79, 82, 86, 90, 94, 99, 103, 108, 113, 119, 124] [37, 39, 40, 41, 43, 45, 46, 48, 50, 52, 54, 57, 59, 61, 64, 67, 69, 72, 76, 79, 82, 86, 90, 94, 99, 103, 108, 113, 119, 124, 130]
      125 5 890 130 131 896 129
      rfl rfl rfl rfl (by norm_num) rfl (by norm_num) (by norm_num)
      (Or.inr (by unfold tx2N tx2R; exact txT_ge_of _ _ _ _ rlbC_2.2.2.2.2.2.2.2.1.1 (le_of_lt rlbC_2.2.2.2.2.2.2.2.1.2) (by unfold tZero TXBETA2; norm_num) (by unfold tZero TXBETA2; norm_num)))
      (by unfold tx2N tx2R; exact txT_lt_of _ _ _ rlbC_2.2.2.2.2.2.2.2.2.1.1 (by unfold tZero TXBETA2; norm_num) (by unfold tZero TXBETA2; norm_num))
  have e31 : List.foldl (selStep tx2N (3.15 : ℝ)) ((202.35 : ℝ), [37, 39, 40, 41, 43, 45, 46, 48, 50, 52, 54, 57, 59, 61, 64, 67, 69, 72, 76, 79, 82, 86, 90, 94, 99, 103, 108, 113, 119, 124, 130])
      (List.range' 131 890)
      = List.foldl (selStep tx2N (3.15 : ℝ)) ((199.2 : ℝ), [37, 39, 40, 41, 43, 45, 46, 48, 50, 52, 54, 57, 59, 61, 64, 67, 69, 72, 76, 79, 82, 86, 90, 94, 99, 103, 108, 113, 119, 124, 130, 137])
      (List.range' 138 883) :=
    run_segment (3.15 : ℝ) (202.35 : ℝ) (199.2 : ℝ) [37, 39, 40, 41, 43, 45, 46, 48, 50, 52, 54, 57, 59, 61, 64, 67, 69, 72, 76, 79, 82, 86, 90, 94, 99, 103, 108, 113, 119, 124, 130] [37, 39, 40, 41, 43, 45, 46, 48, 50, 52, 54, 57, 59, 61, 64, 67, 69, 72, 76, 79, 82, 86, 90, 94, 99, 103, 108, 113, 119, 124, 130, 137]
      131 6 883 137 138 890 136
      rfl rfl rfl rfl (by norm_num) rfl (by norm_num) (by norm_num)
      (Or.inr (by unfold tx2N tx2R; exact txT_ge_of _ _ _ _ rlbC_2.2.2.2.2.2.2.2.2.2.1.1 (le_of_lt rlbC_2.2.2.2.2.2.2.2.2.2.1.2) (by unfold tZero TXBETA2; norm_num) (by unfold tZero TXBETA2; norm_num)))
      (by unfold tx2N tx2R; exact txT_lt_of _ _ _ rlbC_2.2.2.2.2.2.2.2.2.2.2.1.1 (by unfold tZero TXBETA2; norm_num) (by unfold tZero TXBETA2; norm_num))
  have e32 : List.foldl (selStep tx2N (3.15 : ℝ)) ((199.2 : ℝ), [37, 39, 40, 41, 43, 45, 46, 48, 50, 52, 54, 57, 59, 61, 64, 67, 69, 72, 76, 79, 82, 86, 90, 94, 99, 103, 108, 113, 119, 124, 130, 137])
      (List.range' 138 883)
      = List.foldl (selStep tx2N (3.15 : ℝ)) ((196.05 : ℝ), [37, 39, 40, 41, 43, 45, 46, 48, 50, 52, 54, 57, 59, 61, 64, 67, 69, 72, 76, 79, 82, 86, 90, 94, 99, 103, 108, 113, 119, 124, 130, 137, 143])
      (List.range' 144 877) :=
    run_segment (3.15 : ℝ) (199.2 : ℝ) (196.05 : ℝ) [37, 39, 40, 41, 43, 45, 46, 48, 50, 52, 54, 57, 59, 61, 64, 67, 69, 72, 76, 79, 82, 86, 90, 94, 99, 103, 108, 113, 119, 124, 130, 137] [37, 39, 40, 41, 43, 45, 46, 48, 50, 52, 54, 57, 59, 61, 64, 67, 69, 72, 76, 79, 82, 86, 90, 94, 99, 103, 108, 113, 119, 124, 130, 137, 143]
      138 5 877 143 144 883 142
      rfl rfl rfl rfl (by norm_num) rfl (by norm_num) (by norm_num)
      (Or.inr (by unfold tx2N tx2R; exact txT_ge_of _ _ _ _ rlbC_2.2.2.2.2.2.2.2.2.2.2.2.1.1 (le_of_lt rlbC_2.2.2.2.2.2.2.2.2.2.2.2.1.2) (by unfold tZero TXBETA2; norm_num) (by unfold tZero TXBETA2; norm_num)))
      (by unfold tx2N tx2R; exact txT_lt_of _ _ _ rlbC_2.2.2.2.2.2.2.2.2.2.2.2.2.1.1 (by unfold tZero TXBETA2; norm_num) (by unfold tZero TXBETA2; norm_num))
  have e33 : List.foldl (selStep tx2N (3.15 : ℝ)) ((196.05 : ℝ), [37, 39, 40, 41, 43, 45, 46, 48, 50, 52, 54, 57, 59, 61, 64, 67, 69, 72, 76, 79, 82, 86, 90, 94, 99, 103, 108, 113, 119, 124, 130, 137, 143])
      (List.range' 144 877)
      = List.foldl (selStep tx2N (3.15 : ℝ)) ((192.9 : ℝ), [37, 39, 40, 41, 43, 45, 46, 48, 50, 52, 54, 57, 59, 61, 64, 67, 69, 72, 76, 79, 82, 86, 90, 94, 99, 103, 108, 113, 119, 124, 130, 137, 143, 150])
      (List.range' 151 870) :=
    run_segment (3.15 : ℝ) (196.05 : ℝ) (192.9 : ℝ) [37, 39, 40, 41, 43, 45, 46, 48, 50, 52, 54, 57, 59, 61, 64, 67, 69, 72, 76, 79, 82, 86, 90, 94, 99, 103, 108, 113, 119, 124, 130, 137, 143] [37, 39, 40, 41, 43, 45, 46, 48, 50, 52, 54, 57, 59, 61, 64, 67, 69, 72, 76, 79, 82, 86, 90, 94, 99, 103, 108, 113, 119, 124, 130, 137, 143, 150]
      144 6 870 150 151 877 149
      rfl rfl rfl rfl (by norm_num) rfl (by norm_num) (by norm_num)
      (Or.inr (by unfold tx2N tx2R; exact txT_ge_of _ _ _ _ rlbC_2.2.2.2.2.2.2.2.2.2.2.2.2.2.1.1 (le_of_lt rlbC_2.2.2.2.2.2.2.2.2.2.2.2.2.2.1.2) (by unfold tZero TXBETA2; norm_num) (by unfold tZero TXBETA2; norm_num)))
      (by unfold tx2N tx2R; exact txT_lt_of _ _ _ rlbC_2.2.2.2.2.2.2.2.2.2.2.2.2.2.2.1.1 (by unfold tZero TXBETA2; norm_num) (by unfold tZero TXBETA2; norm_num))
  have e34 : List.foldl (selStep tx2N (3.15 : ℝ)) ((192.9 : ℝ), [37, 39, 40, 41, 43, 45, 46, 48, 50, 52, 54, 57, 59, 61, 64, 67, 69, 72, 76, 79, 82, 86, 90, 94, 99, 103, 108, 113, 119, 124, 130, 137, 143, 150])
      (List.range' 151 870)
      = List.foldl (selStep tx2N (3.15 : ℝ)) ((189.75 : ℝ), [37, 39, 40, 41, 43, 45, 46, 48, 50, 52, 54, 57, 59, 61, 64, 67, 69, 72, 76, 79, 82, 86, 90, 94, 99, 103, 108, 113, 119, 124, 130, 137, 143, 150, 158])
      (List.range' 159 862) :=
    run_segment (3.15 : ℝ) (192.9 : ℝ) (189.75 : ℝ) [37, 39, 40, 41, 43, 45, 46, 48, 50, 52, 54, 57, 59, 61, 64, 67, 69, 72, 76, 79, 82, 86, 90, 94, 99, 103, 108, 113, 119, 124, 130, 137, 143, 150] [37, 39, 40, 41, 43, 45, 46, 48, 50, 52, 54, 57, 59, 61, 64, 67, 69, 72, 76, 79, 82, 86, 90, 94, 99, 103, 108, 113, 119, 124, 130, 137, 143, 150, 158]
      151 7 862 158 159 870 157
      rfl rfl rfl rfl (by norm_num) rfl (by norm_num) (by norm_num)
      (Or.inr (by unfold tx2N tx2R; exact txT_ge_of _ _ _ _ rlbC_2.2.2.2.2.2.2.2.2.2.2.2.2.2.2.2.1.1 (le_of_lt rlbC_2.2.2.2.2.2.2.2.2.2.2.2.2.2.2.2.1.2) (by unfold tZero TXBETA2; norm_num) (by unfold tZero TXBETA2; norm_num)))
      (by unfold tx2N tx2R; exact txT_lt_of _ _ _ rlbC_2.2.2.2.2.2.2.2.2.2.2.2.2.2.2.2.2.1.1 (by unfold tZero TXBETA2; norm_num) (by unfold tZero TXBETA2; norm_num))
  have e35 : List.foldl (selStep tx2N (3.15 : ℝ)) ((189.75 : ℝ), [37, 39, 40, 41, 43, 45, 46, 48, 50, 52, 54, 57, 59, 61, 64, 67, 69, 72, 76, 79, 82, 86, 90, 94, 99, 103, 108, 113, 119, 124, 130, 137, 143, 150, 158])
      (List.range' 159 862)
      = List.foldl (selStep tx2N (3.15 : ℝ)) ((186.6 : ℝ), [37, 39, 40, 41, 43, 45, 46, 48, 50, 52, 54, 57, 59, 61, 64, 67, 69, 72, 76, 79, 82, 86, 90, 94, 99, 103, 108, 113, 119, 124, 130, 137, 143, 150, 158, 166])
      (List.range' 167 854) :=
    run_segment (3.15 : ℝ) (189.75 : ℝ) (186.6 : ℝ) [37, 39, 40, 41, 43, 45, 46, 48, 50, 52, 54, 57, 59, 61, 64, 67, 69, 72, 76, 79, 82, 86, 90, 94, 99, 103, 108, 113, 119, 124, 130, 137, 143, 150, 158] [37, 39, 40, 41, 43, 45, 46, 48, 50, 52, 54, 57, 59, 61, 64, 67, 69, 72, 76, 79, 82, 86, 90, 94, 99, 103, 108, 113, 119, 124, 130, 137, 143, 150, 158, 166]
      159 7 854 166 167 862 165
      rfl rfl rfl rfl (by norm_num) rfl (by norm_num) (by norm_num)
      (Or.inr (by unfold tx2N tx2R; exact txT_ge_of _ _ _ _ rlbC_2.2.2.2.2.2.2.2.2.2.2.2.2.2.2.2.2.2.1.1 (le_of_lt rlbC_2.2.2.2.2.2.2.2.2.2.2.2.2.2.2.2.2.2.1.2) (by unfold tZero TXBETA2; norm_num) (by unfold tZero TXBETA2; norm_num)))
      (by unfold tx2N tx2R; exact txT_lt_of _ _ _ rlbC_2.2.2.2.2.2.2.2.2.2.2.2.2.2.2.2.2.2.2.1.1 (by unfold tZero TXBETA2; norm_num) (by unfold tZero TXBETA2; norm_num))
  have e36 : List.foldl (selStep tx2N (3.15 : ℝ)) ((186.6 : ℝ), [37, 39, 40, 41, 43, 45, 46, 48, 50, 52, 54, 57, 59, 61, 64, 67, 69, 72, 76, 79, 82, 86, 90, 94, 99, 103, 108, 113, 119, 124, 130, 137, 143, 150, 158, 166])
      (List.range' 167 854)
      = List.foldl (selStep tx2N (3.15 : ℝ)) ((183.45 : ℝ), [37, 39, 40, 41, 43, 45, 46, 48, 50, 52, 54, 57, 59, 61, 64, 67, 69, 72, 76, 79, 82, 86, 90, 94, 99, 103, 108, 113, 119, 124, 130, 137, 143, 150, 158, 166, 174])
      (List.range' 175 846) :=
    run_segment (3.15 : ℝ) (186.6 : ℝ) (183.45 : ℝ) [37, 39, 40, 41, 43, 45, 46, 48, 50, 52, 54, 57, 59, 61, 64, 67, 69, 72, 76, 79, 82, 86, 90, 94, 99, 103, 108, 113, 119, 124, 130, 137, 143, 150, 158, 166] [37, 39, 40, 41, 43, 45, 46, 48, 50, 52, 54, 57, 59, 61, 64, 67, 69, 72, 76, 79, 82, 86, 90, 94, 99, 103, 108, 113, 119, 124, 130, 137, 143, 150, 158, 166, 174]
      167 7 846 174 175 854 173
      rfl rfl rfl rfl (by norm_num) rfl (by norm_num) (by norm_num)
      (Or.inr (by unfold tx2N tx2R; exact txT_ge_of _ _ _ _ rlbC_2.2.2.2.2.2.2.2.2.2.2.2.2.2.2.2.2.2.2.2.1.1 (le_of_lt rlbC_2.2.2.2.2.2.2.2.2.2.2.2.2.2.2.2.2.2.2.2.1.2) (by unfold tZero TXBETA2; norm_num) (by unfold tZero TXBETA2; norm_num)))
      (by unfold tx2N tx2R; exact txT_lt_of _ _ _ rlbC_2.2.2.2.2.2.2.2.2.2.2.2.2.2.2.2.2.2.2.2.2.1.1 (by unfold tZero TXBETA2; norm_num) (by unfold tZero TXBETA2; norm_num))
  have e37 : List.foldl (selStep tx2N (3.15 : ℝ)) ((183.45 : ℝ), [37, 39, 40, 41, 43, 45, 46, 48, 50, 52, 54, 57, 59, 61, 64, 67, 69, 72, 76, 79, 82, 86, 90, 94, 99, 103, 108, 113, 119, 124, 130, 137, 143, 150, 158, 166, 174])
      (List.range' 175 846)
      = List.foldl (selStep tx2N (3.15 : ℝ)) ((180.3 : ℝ), [37, 39, 40, 41, 43, 45, 46, 48, 50, 52, 54, 57, 59, 61, 64, 67, 69, 72, 76, 79, 82, 86, 90, 94, 99, 103, 108, 113, 119, 124, 130, 137, 143, 150, 158, 166, 174, 183])
      (List.range' 184 837) :=
    run_segment (3.15 : ℝ) (183.45 : ℝ) (180.3 : ℝ) [37, 39, 40, 41, 43, 45, 46, 48, 50, 52, 54, 57, 59, 61, 64, 67, 69, 72, 76, 79, 82, 86, 90, 94, 99, 103, 108, 113, 119, 124, 130, 137, 143, 150, 158, 166, 174] [37, 39, 40, 41, 43, 45, 46, 48, 50, 52, 54, 57, 59, 61, 64, 67, 69, 72, 76, 79, 82, 86, 90, 94, 99, 103, 108, 113, 119, 124, 130, 137, 143, 150, 158, 166, 174, 183]
      175 8 837 183 184 846 182
      rfl rfl rfl rfl (by norm_num) rfl (by norm_num) (by norm_num)
      (Or.inr (by unfold tx2N tx2R; exact txT_ge_of _ _ _ _ rlbC_2.2.2.2.2.2.2.2.2.2.2.2.2.2.2.2.2.2.2.2.2.2.1.1 (le_of_lt rlbC_2.2.2.2.2.2.2.2.2.2.2.2.2.2.2.2.2.2.2.2.2.2.1.2) (by unfold tZero TXBETA2; norm_num) (by unfold tZero TXBETA2; norm_num)))
      (by unfold tx2N tx2R; exact txT_lt_of _ _ _ rlbC_2.2.2.2.2.2.2.2.2.2.2.2.2.2.2.2.2.2.2.2.2.2.2.1.1 (by unfold tZero TXBETA2; norm_num) (by unfold tZero TXBETA2; norm_num))
  have e38 : List.foldl (selStep tx2N (3.15 : ℝ)) ((180.3 : ℝ), [37, 39, 40, 41, 43, 45, 46, 48, 50, 52, 54, 57, 59, 61, 64, 67, 69, 72, 76, 79, 82, 86, 90, 94, 99, 103, 108, 113, 119, 124, 130, 137, 143, 150, 158, 166, 174, 183])
      (List.range' 184 837)
      = List.foldl (selStep tx2N (3.15 : ℝ)) ((177.15 : ℝ), [37, 39, 40, 41, 43, 45, 46, 48, 50, 52, 54, 57, 59, 61, 64, 67, 69, 72, 76, 79, 82, 86, 90, 94, 99, 103, 108, 113, 119, 124, 130, 137, 143, 150, 158, 166, 174, 183, 192])
      (List.range' 193 828) :=
    run_segment (3.15 : ℝ) (180.3 : ℝ) (177.15 : ℝ) [37, 39, 40, 41, 43, 45, 46, 48, 50, 52, 54, 57, 59, 61, 64, 67, 69, 72, 76, 79, 82, 86, 90, 94, 99, 103, 108, 113, 119, 124, 130, 137, 143, 150, 158, 166, 174, 183] [37, 39, 40, 41, 43, 45, 46, 48, 50, 52, 54, 57, 59, 61, 64, 67, 69, 72, 76, 79, 82, 86, 90, 94, 99, 103, 108, 113, 119, 124, 130, 137, 143, 150, 158, 166, 174, 183, 192]
      184 8 828 192 193 837 191
      rfl rfl rfl rfl (by norm_num) rfl (by norm_num) (by norm_num)
      (Or.inr (by unfold tx2N tx2R; exact txT_ge_of _ _ _ _ rlbC_2.2.2.2.2.2.2.2.2.2.2.2.2.2.2.2.2.2.2.2.2.2.2.2.1.1 (le_of_lt rlbC_2.2.2.2.2.2.2.2.2.2.2.2.2.2.2.2.2.2.2.2.2.2.2.2.1.2) (by unfold tZero TXBETA2; norm_num) (by unfold tZero TXBETA2; norm_num)))
      (by unfold tx2N tx2R; exact txT_lt_of _ _ _ rlbC_2.2.2.2.2.2.2.2.2.2.2.2.2.2.2.2.2.2.2.2.2.2.2.2.2.1 (by unfold tZero TXBETA2; norm_num) (by unfold tZero TXBETA2; norm_num))
  have e39 : List.foldl (selStep tx2N (3.15 : ℝ)) ((177.15 : ℝ), [37, 39, 40, 41, 43, 45, 46, 48, 50, 52, 54, 57, 59, 61, 64, 67, 69, 72, 76, 79, 82, 86, 90, 94, 99, 103, 108, 113, 119, 124, 130, 137, 143, 150, 158, 166, 174, 183, 192])
      (List.range' 193 828)
      = List.foldl (selStep tx2N (3.15 : ℝ)) ((174 : ℝ), [37, 39, 40, 41, 43, 45, 46, 48, 50, 52, 54, 57, 59, 61, 64, 67, 69, 72, 76, 79, 82, 86, 90, 94, 99, 103, 108, 113, 119, 124, 130, 137, 143, 150, 158, 166, 174, 183, 192, 201])
      (List.range' 202 819) :=
    run_segment (3.15 : ℝ) (177.15 : ℝ) (174 : ℝ) [37, 39, 40, 41, 43, 45, 46, 48, 50, 52, 54, 57, 59, 61, 64, 67, 69, 72, 76, 79, 82, 86, 90, 94, 99, 103, 108, 113, 119, 124, 130, 137, 143, 150, 158, 166, 174, 183, 192] [37, 39, 40, 41, 43, 45, 46, 48, 50, 52, 54, 57, 59, 61, 64, 67, 69, 72, 76, 79, 82, 86, 90, 94, 99, 103, 108, 113, 119, 124, 130, 137, 143, 150, 158, 166, 174, 183, 192, 201]
      193 8 819 201 202 828 200
      rfl rfl rfl rfl (by norm_num) rfl (by norm_num) (by norm_num)
      (Or.inr (by unfold tx2N tx2R; exact txT_ge_of _ _ _ _ rlbC_3.1.1 (le_of_lt rlbC_3.1.2) (by unfold tZero TXBETA2; norm_num) (by unfold tZero TXBETA2; norm_num)))
      (by unfold tx2N tx2R; exact txT_lt_of _ _ _ rlbC_3.2.1.1 (by unfold tZero TXBETA2; norm_num) (by unfold tZero TXBETA2; norm_num))
  have e40 : List.foldl (selStep tx2N (3.15 : ℝ)) ((174 : ℝ), [37, 39, 40, 41, 43, 45, 46, 48, 50, 52, 54, 57, 59, 61, 64, 67, 69, 72, 76, 79, 82, 86, 90, 94, 99, 103, 108, 113, 119, 124, 130, 137, 143, 150, 158, 166, 174, 183, 192, 201])
      (List.range' 202 819)
      = List.foldl (selStep tx2N (3.15 : ℝ)) ((170.85 : ℝ), [37, 39, 40, 41, 43, 45, 46, 48, 50, 52, 54, 57, 59, 61, 64, 67, 69, 72, 76, 79, 82, 86, 90, 94, 99, 103, 108, 113, 119, 124, 130, 137, 143, 150, 158, 166, 174, 183, 192, 201, 212])
      (List.range' 213 808) :=
    run_segment (3.15 : ℝ) (174 : ℝ) (170.85 : ℝ) [37, 39, 40, 41, 43, 45, 46, 48, 50, 52, 54, 57, 59, 61, 64, 67, 69, 72, 76, 79, 82, 86, 90, 94, 99, 103, 108, 113, 119, 124, 130, 137, 143, 150, 158, 166, 174, 183, 192, 201] [37, 39, 40, 41, 43, 45, 46, 48, 50, 52, 54, 57, 59, 61, 64, 67, 69, 72, 76, 79, 82, 86, 90, 94, 99, 103, 108, 113, 119, 124, 130, 137, 143, 150, 158, 166, 174, 183, 192, 201, 212]
      202 10 808 212 213 819 211
      rfl rfl rfl rfl (by norm_num) rfl (by norm_num) (by norm_num)
      (Or.inr (by unfold tx2N tx2R; exact txT_ge_of _ _ _ _ rlbC_3.2.2.1.1 (le_of_lt rlbC_3.2.2.1.2) (by unfold tZero TXBETA2; norm_num) (by unfold tZero TXBETA2; norm_num)))
      (by unfold tx2N tx2R; exact txT_lt_of _ _ _ rlbC_3.2.2.2.1.1 (by unfold tZero TXBETA2; norm_num) (by unfold tZero TXBETA2; norm_num))
  have e41 : List.foldl (selStep tx2N (3.15 : ℝ)) ((170.85 : ℝ), [37, 39, 40, 41, 43, 45, 46, 48, 50, 52, 54, 57, 59, 61, 64, 67, 69, 72, 76, 79, 82, 86, 90, 94, 99, 103, 108, 113, 119, 124, 130, 137, 143, 150, 158, 166, 174, 183, 192, 201, 212])
      (List.range' 213 808)
      = List.foldl (selStep tx2N (3.15 : ℝ)) ((167.7 : ℝ), [37, 39, 40, 41, 43, 45, 46, 48, 50, 52, 54, 57, 59, 61, 64, 67, 69, 72, 76, 79, 82, 86, 90, 94, 99, 103, 108, 113, 119, 124, 130, 137, 143, 150, 158, 166, 174, 183, 192, 201, 212, 222])
      (List.range' 223 798) :=
    run_segment (3.15 : ℝ) (170.85 : ℝ) (167.7 : ℝ) [37, 39, 40, 41, 43, 45, 46, 48, 50, 52, 54, 57, 59, 61, 64, 67, 69, 72, 76, 79, 82, 86, 90, 94, 99, 103, 108, 113, 119, 124, 130, 137, 143, 150, 158, 166, 174, 183, 192, 201, 212] [37, 39, 40, 41, 43, 45, 46, 48, 50, 52, 54, 57, 59, 61, 64, 67, 69, 72, 76, 79, 82, 86, 90, 94, 99, 103, 108, 113, 119, 124, 130, 137, 143, 150, 158, 166, 174, 183, 192, 201, 212, 222]
      213 9 798 222 223 808 221
      rfl rfl rfl rfl (by norm_num) rfl (by norm_num) (by norm_num)
      (Or.inr (by unfold tx2N tx2R; exact txT_ge_of _ _ _ _ rlbC_3.2.2.2.2.1.1 (le_of_lt rlbC_3.2.2.2.2.1.2) (by unfold tZero TXBETA2; norm_num) (by unfold tZero TXBETA2; norm_num)))
      (by unfold tx2N tx2R; exact txT_lt_of _ _ _ rlbC_3.2.2.2.2.2.1.1 (by unfold tZero TXBETA2; norm_num) (by unfold tZero TXBETA2; norm_num))
  have e42 : List.foldl (selStep tx2N (3.15 : ℝ)) ((167.7 : ℝ), [37, 39, 40, 41, 43, 45, 46, 48, 50, 52, 54, 57, 59, 61, 64, 67, 69, 72, 76, 79, 82, 86, 90, 94, 99, 103, 108, 113, 119, 124, 130, 137, 143, 150, 158, 166, 174, 183, 192, 201, 212, 222])
      (List.range' 223 798)
      = List.foldl (selStep tx2N (3.15 : ℝ)) ((164.55 : ℝ), [37, 39, 40, 41, 43, 45, 46, 48, 50, 52, 54, 57, 59, 61, 64, 67, 69, 72, 76, 79, 82, 86, 90, 94, 99, 103, 108, 113, 119, 124, 130, 137, 143, 150, 158, 166, 174, 183, 192, 201, 212, 222, 234])
      (List.range' 235 786) :=
    run_segment (3.15 : ℝ) (167.7 : ℝ) (164.55 : ℝ) [37, 39, 40, 41, 43, 45, 46, 48, 50, 52, 54, 57, 59, 61, 64, 67, 69, 72, 76, 79, 82, 86, 90, 94, 99, 103, 108, 113, 119, 124, 130, 137, 143, 150, 158, 166, 174, 183, 192, 201, 212, 222] [37, 39, 40, 41, 43, 45, 46, 48, 50, 52, 54, 57, 59, 61, 64, 67, 69, 72, 76, 79, 82, 86, 90, 94, 99, 103, 108, 113, 119, 124, 130, 137, 143, 150, 158, 166, 174, 183, 192, 201, 212, 222, 234]
      223 11 786 234 235 798 233
      rfl rfl rfl rfl (by norm_num) rfl (by norm_num) (by norm_num)
      (Or.inr (by unfold tx2N tx2R; exact txT_ge_of _ _ _ _ rlbC_3.2.2.2.2.2.2.1.1 (le_of_lt rlbC_3.2.2.2.2.2.2.1.2) (by unfold tZero TXBETA2; norm_num) (by unfold tZero TXBETA2; norm_num)))
      (by unfold tx2N tx2R; exact txT_lt_of _ _ _ rlbC_3.2.2.2.2.2.2.2.1.1 (by unfold tZero TXBETA2; norm_num) (by unfold tZero TXBETA2; norm_num))
  have e43 : List.foldl (selStep tx2N (3.15 : ℝ)) ((164.55 : ℝ), [37, 39, 40, 41, 43, 45, 46, 48, 50, 52, 54, 57, 59, 61, 64, 67, 69, 72, 76, 79, 82, 86, 90, 94, 99, 103, 108, 113, 119, 124, 130, 137, 143, 150, 158, 166, 174, 183, 192, 201, 212, 222, 234])
      (List.range' 235 786)
      = List.foldl (selStep tx2N (3.15 : ℝ)) ((161.4 : ℝ), [37, 39, 40, 41, 43, 45, 46, 48, 50, 52, 54, 57, 59, 61, 64, 67, 69, 72, 76, 79, 82, 86, 90, 94, 99, 103, 108, 113, 119, 124, 130, 137, 143, 150, 158, 166, 174, 183, 192, 201, 212, 222, 234, 245])
      (List.range' 246 775) :=
    run_segment (3.15 : ℝ) (164.55 : ℝ) (161.4 : ℝ) [37, 39, 40, 41, 43, 45, 46, 48, 50, 52, 54, 57, 59, 61, 64, 67, 69, 72, 76, 79, 82, 86, 90, 94, 99, 103, 108, 113, 119, 124, 130, 137, 143, 150, 158, 166, 174, 183, 192, 201, 212, 222, 234] [37, 39, 40, 41, 43, 45, 46, 48, 50, 52, 54, 57, 59, 61, 64, 67, 69, 72, 76, 79, 82, 86, 90, 94, 99, 103, 108, 113, 119, 124, 130, 137, 143, 150, 158, 166, 174, 183, 192, 201, 212, 222, 234, 245]
      235 10 775 245 246 786 244
      rfl rfl rfl rfl (by norm_num) rfl (by norm_num) (by norm_num)
      (Or.inr (by unfold tx2N tx2R; exact txT_ge_of _ _ _ _ rlbC_3.2.2.2.2.2.2.2.2.1.1 (le_of_lt rlbC_3.2.2.2.2.2.2.2.2.1.2) (by unfold tZero TXBETA2; norm_num) (by unfold tZero TXBETA2; norm_num)))
      (by unfold tx2N tx2R; exact txT_lt_of _ _ _ rlbC_3.2.2.2.2.2.2.2.2.2.1.1 (by unfold tZero TXBETA2; norm_num) (by unfold tZero TXBETA2; norm_num))
  have e44 : List.foldl (selStep tx2N (3.15 : ℝ)) ((161.4 : ℝ), [37, 39, 40, 41, 43, 45, 46, 48, 50, 52, 54, 57, 59, 61, 64, 67, 69, 72, 76, 79, 82, 86, 90, 94, 99, 103, 108, 113, 119, 124, 130, 137, 143, 150, 158, 166, 174, 183, 192, 201, 212, 222, 234, 245])
      (List.range' 246 775)
      = List.foldl (selStep tx2N (3.15 : ℝ)) ((158.25 : ℝ), [37, 39, 40, 41, 43, 45, 46, 48, 50, 52, 54, 57, 59, 61, 64, 67, 69, 72, 76, 79, 82, 86, 90, 94, 99, 103, 108, 113, 119, 124, 130, 137, 143, 150, 158, 166, 174, 183, 192, 201, 212, 222, 234, 245, 258])
      (List.range' 259 762) :=
    run_segment (3.15 : ℝ) (161.4 : ℝ) (158.25 : ℝ) [37, 39, 40, 41, 43, 45, 46, 48, 50, 52, 54, 57, 59, 61, 64, 67, 69, 72, 76, 79, 82, 86, 90, 94, 99, 103, 108, 113, 119, 124, 130, 137, 143, 150, 158, 166, 174, 183, 192, 201, 212, 222, 234, 245] [37, 39, 40, 41, 43, 45, 46, 48, 50, 52, 54, 57, 59, 61, 64, 67, 69, 72, 76, 79, 82, 86, 90, 94, 99, 103, 108, 113, 119, 124, 130, 137, 143, 150, 158, 166, 174, 183, 192, 201, 212, 222, 234, 245, 258]
      246 12 762 258 259 775 257
      rfl rfl rfl rfl (by norm_num) rfl (by norm_num) (by norm_num)
      (Or.inr (by unfold tx2N tx2R; exact txT_ge_of _ _ _ _ rlbC_3.2.2.2.2.2.2.2.2.2.2.1.1 (le_of_lt rlbC_3.2.2.2.2.2.2.2.2.2.2.1.2) (by unfold tZero TXBETA2; norm_num) (by unfold tZero TXBETA2; norm_num)))
      (by unfold tx2N tx2R; exact txT_lt_of _ _ _ rlbC_3.2.2.2.2.2.2.2.2.2.2.2.1.1 (by unfold tZero TXBETA2; norm_num) (by unfold tZero TXBETA2; norm_num))
  have e45 : List.foldl (selStep tx2N (3.15 : ℝ)) ((158.25 : ℝ), [37, 39, 40, 41, 43, 45, 46, 48, 50, 52, 54, 57, 59, 61, 64, 67, 69, 72, 76, 79, 82, 86, 90, 94, 99, 103, 108, 113, 119, 124, 130, 137, 143, 150, 158, 166, 174, 183, 192, 201, 212, 222, 234, 245, 258])
      (List.range' 259 762)
      = List.foldl (selStep tx2N (3.15 : ℝ)) ((155.1 : ℝ), [37, 39, 40, 41, 43, 45, 46, 48, 50, 52, 54, 57, 59, 61, 64, 67, 69, 72, 76, 79, 82, 86, 90, 94, 99, 103, 108, 113, 119, 124, 130, 137, 143, 150, 158, 166, 174, 183, 192, 201, 212, 222, 234, 245, 258, 271])
      (List.range' 272 749) :=
    run_segment (3.15 : ℝ) (158.25 : ℝ) (155.1 : ℝ) [37, 39, 40, 41, 43, 45, 46, 48, 50, 52, 54, 57, 59, 61, 64, 67, 69, 72, 76, 79, 82, 86, 90, 94, 99, 103, 108, 113, 119, 124, 130, 137, 143, 150, 158, 166, 174, 183, 192, 201, 212, 222, 234, 245, 258] [37, 39, 40, 41, 43, 45, 46, 48, 50, 52, 54, 57, 59, 61, 64, 67, 69, 72, 76, 79, 82, 86, 90, 94, 99, 103, 108, 113, 119, 124, 130, 137, 143, 150, 158, 166, 174, 183, 192, 201, 212, 222, 234, 245, 258, 271]
      259 12 749 271 272 762 270
      rfl rfl rfl rfl (by norm_num) rfl (by norm_num) (by norm_num)
      (Or.inr (by unfold tx2N tx2R; exact txT_ge_of _ _ _ _ rlbC_3.2.2.2.2.2.2.2.2.2.2.2.2.1.1 (le_of_lt rlbC_3.2.2.2.2.2.2.2.2.2.2.2.2.1.2) (by unfold tZero TXBETA2; norm_num) (by unfold tZero TXBETA2; norm_num)))
      (by unfold tx2N tx2R; exact txT_lt_of _ _ _ rlbC_3.2.2.2.2.2.2.2.2.2.2.2.2.2.1.1 (by unfold tZero TXBETA2; norm_num) (by unfold tZero TXBETA2; norm_num))
  have e46 : List.foldl (selStep tx2N (3.15 : ℝ)) ((155.1 : ℝ), [37, 39, 40, 41, 43, 45, 46, 48, 50, 52, 54, 57, 59, 61, 64, 67, 69, 72, 76, 79, 82, 86, 90, 94, 99, 103, 108, 113, 119, 124, 130, 137, 143, 150, 158, 166, 174, 183, 192, 201, 212, 222, 234, 245, 258, 271])
      (List.range' 272 749)
      = List.foldl (selStep tx2N (3.15 : ℝ)) ((151.95 : ℝ), [37, 39, 40, 41, 43, 45, 46, 48, 50, 52, 54, 57, 59, 61, 64, 67, 69, 72, 76, 79, 82, 86, 90, 94, 99, 103, 108, 113, 119, 124, 130, 137, 143, 150, 158, 166, 174, 183, 192, 201, 212, 222, 234, 245, 258, 271, 284])
      (List.range' 285 736) :=
    run_segment (3.15 : ℝ) (155.1 : ℝ) (151.95 : ℝ) [37, 39, 40, 41, 43, 45, 46, 48, 50, 52, 54, 57, 59, 61, 64, 67, 69, 72, 76, 79, 82, 86, 90, 94, 99, 103, 108, 113, 119, 124, 130, 137, 143, 150, 158, 166, 174, 183, 192, 201, 212, 222, 234, 245, 258, 271] [37, 39, 40, 41, 43, 45, 46, 48, 50, 52, 54, 57, 59, 61, 64, 67, 69, 72, 76, 79, 82, 86, 90, 94, 99, 103, 108, 113, 119, 124, 130, 137, 143, 150, 158, 166, 174, 183, 192, 201, 212, 222, 234, 245, 258, 271, 284]
      272 12 736 284 285 749 283
      rfl rfl rfl rfl (by norm_num) rfl (by norm_num) (by norm_num)
      (Or.inr (by unfold tx2N tx2R; exact txT_ge_of _ _ _ _ rlbC_3.2.2.2.2.2.2.2.2.2.2.2.2.2.2.1.1 (le_of_lt rlbC_3.2.2.2.2.2.2.2.2.2.2.2.2.2.2.1.2) (by unfold tZero TXBETA2; norm_num) (by unfold tZero TXBETA2; norm_num)))
      (by unfold tx2N tx2R; exact txT_lt_of _ _ _ rlbC_3.2.2.2.2.2.2.2.2.2.2.2.2.2.2.2.1.1 (by unfold tZero TXBETA2; norm_num) (by unfold tZero TXBETA2; norm_num))
  have e47 : List.foldl (selStep tx2N (3.15 : ℝ)) ((151.95 : ℝ), [37, 39, 40, 41, 43, 45, 46, 48, 50, 52, 54, 57, 59, 61, 64, 67, 69, 72, 76, 79, 82, 86, 90, 94, 99, 103, 108, 113, 119, 124, 130, 137, 143, 150, 158, 166, 174, 183, 192, 201, 212, 222, 234, 245, 258, 271, 284])
      (List.range' 285 736)
      = List.foldl (selStep tx2N (3.15 : ℝ)) ((148.8 : ℝ), [37, 39, 40, 41, 43, 45, 46, 48, 50, 52, 54, 57, 59, 61, 64, 67, 69, 72, 76, 79, 82, 86, 90, 94, 99, 103, 108, 113, 119, 124, 130, 137, 143, 150, 158, 166, 174, 183, 192, 201, 212, 222, 234, 245, 258, 271, 284, 299])
      (List.range' 300 721) :=
    run_segment (3.15 : ℝ) (151.95 : ℝ) (148.8 : ℝ) [37, 39, 40, 41, 43, 45, 46, 48, 50, 52, 54, 57, 59, 61, 64, 67, 69, 72, 76, 79, 82, 86, 90, 94, 99, 103, 108, 113, 119, 124, 130, 137, 143, 150, 158, 166, 174, 183, 192, 201, 212, 222, 234, 245, 258, 271, 284] [37, 39, 40, 41, 43, 45, 46, 48, 50, 52, 54, 57, 59, 61, 64, 67, 69, 72, 76, 79, 82, 86, 90, 94, 99, 103, 108, 113, 119, 124, 130, 137, 143, 150, 158, 166, 174, 183, 192, 201, 212, 222, 234, 245, 258, 271, 284, 299]
      285 14 721 299 300 736 298
      rfl rfl rfl rfl (by norm_num) rfl (by norm_num) (by norm_num)
      (Or.inr (by unfold tx2N tx2R; exact txT_ge_of _ _ _ _ rlbC_3.2.2.2.2.2.2.2.2.2.2.2.2.2.2.2.2.1.1 (le_of_lt rlbC_3.2.2.2.2.2.2.2.2.2.2.2.2.2.2.2.2.1.2) (by unfold tZero TXBETA2; norm_num) (by unfold tZero TXBETA2; norm_num)))
      (by unfold tx2N tx2R; exact txT_lt_of _ _ _ rlbC_3.2.2.2.2.2.2.2.2.2.2.2.2.2.2.2.2.2.1.1 (by unfold tZero TXBETA2; norm_num) (by unfold tZero TXBETA2; norm_num))
  have e48 : List.foldl (selStep tx2N (3.15 : ℝ)) ((148.8 : ℝ), [37, 39, 40, 41, 43, 45, 46, 48, 50, 52, 54, 57, 59, 61, 64, 67, 69, 72, 76, 79, 82, 86, 90, 94, 99, 103, 108, 113, 119, 124, 130, 137, 143, 150, 158, 166, 174, 183, 192, 201, 212, 222, 234, 245, 258, 271, 284, 299])
      (List.range' 300 721)
      = List.foldl (selStep tx2N (3.15 : ℝ)) ((145.65 : ℝ), [37, 39, 40, 41, 43, 45, 46, 48, 50, 52, 54, 57, 59, 61, 64, 67, 69, 72, 76, 79, 82, 86, 90, 94, 99, 103, 108, 113, 119, 124, 130, 137, 143, 150, 158, 166, 174, 183, 192, 201, 212, 222, 234, 245, 258, 271, 284, 299, 314])
      (List.range' 315 706) :=
    run_segment (3.15 : ℝ) (148.8 : ℝ) (145.65 : ℝ) [37, 39, 40, 41, 43, 45, 46, 48, 50, 52, 54, 57, 59, 61, 64, 67, 69, 72, 76, 79, 82, 86, 90, 94, 99, 103, 108, 113, 119, 124, 130, 137, 143, 150, 158, 166, 174, 183, 192, 201, 212, 222, 234, 245, 258, 271, 284, 299] [37, 39, 40, 41, 43, 45, 46, 48, 50, 52, 54, 57, 59, 61, 64, 67, 69, 72, 76, 79, 82, 86, 90, 94, 99, 103, 108, 113, 119, 124, 130, 137, 143, 150, 158, 166, 174, 183, 192, 201, 212, 222, 234, 245, 258, 271, 284, 299, 314]
      300 14 706 314 315 721 313
      rfl rfl rfl rfl (by norm_num) rfl (by norm_num) (by norm_num)
      (Or.inr (by unfold tx2N tx2R; exact txT_ge_of _ _ _ _ rlbC_3.2.2.2.2.2.2.2.2.2.2.2.2.2.2.2.2.2.2.1.1 (le_of_lt rlbC_3.2.2.2.2.2.2.2.2.2.2.2.2.2.2.2.2.2.2.1.2) (by unfold tZero TXBETA2; norm_num) (by unfold tZero TXBETA2; norm_num)))
      (by unfold tx2N tx2R; exact txT_lt_of _ _ _ rlbC_3.2.2.2.2.2.2.2.2.2.2.2.2.2.2.2.2.2.2.2.1.1 (by unfold tZero TXBETA2; norm_num) (by unfold tZero TXBETA2; norm_num))
  have e49 : List.foldl (selStep tx2N (3.15 : ℝ)) ((145.65 : ℝ), [37, 39, 40, 41, 43, 45, 46, 48, 50, 52, 54, 57, 59, 61, 64, 67, 69, 72, 76, 79, 82, 86, 90, 94, 99, 103, 108, 113, 119, 124, 130, 137, 143, 150, 158, 166, 174, 183, 192, 201, 212, 222, 234, 245, 258, 271, 284, 299, 314])
      (List.range' 315 706)
      = List.foldl (selStep tx2N (3.15 : ℝ)) ((142.5 : ℝ), [37, 39, 40, 41, 43, 45, 46, 48, 50, 52, 54, 57, 59, 61, 64, 67, 69, 72, 76, 79, 82, 86, 90, 94, 99, 103, 108, 113, 119, 124, 130, 137, 143, 150, 158, 166, 174, 183, 192, 201, 212, 222, 234, 245, 258, 271, 284, 299, 314, 329])
      (List.range' 330 691) :=
    run_segment (3.15 : ℝ) (145.65 : ℝ) (142.5 : ℝ) [37, 39, 40, 41, 43, 45, 46, 48, 50, 52, 54, 57, 59, 61, 64, 67, 69, 72, 76, 79, 82, 86, 90, 94, 99, 103, 108, 113, 119, 124, 130, 137, 143, 150, 158, 166, 174, 183, 192, 201, 212, 222, 234, 245, 258, 271, 284, 299, 314] [37, 39, 40, 41, 43, 45, 46, 48, 50, 52, 54, 57, 59, 61, 64, 67, 69, 72, 76, 79, 82, 86, 90, 94, 99, 103, 108, 113, 119, 124, 130, 137, 143, 150, 158, 166, 174, 183, 192, 201, 212, 222, 234, 245, 258, 271, 284, 299, 314, 329]
      315 14 691 329 330 706 328
      rfl rfl rfl rfl (by norm_num) rfl (by norm_num) (by norm_num)
      (Or.inr (by unfold tx2N tx2R; exact txT_ge_of _ _ _ _ rlbC_3.2.2.2.2.2.2.2.2.2.2.2.2.2.2.2.2.2.2.2.2.1.1 (le_of_lt rlbC_3.2.2.2.2.2.2.2.2.2.2.2.2.2.2.2.2.2.2.2.2.1.2) (by unfold tZero TXBETA2; norm_num) (by unfold tZero TXBETA2; norm_num)))
      (by unfold tx2N tx2R; exact txT_lt_of _ _ _ rlbC_3.2.2.2.2.2.2.2.2.2.2.2.2.2.2.2.2.2.2.2.2.2.1.1 (by unfold tZero TXBETA2; norm_num) (by unfold tZero TXBETA2; norm_num))
  have e50 : List.foldl (selStep tx2N (3.15 : ℝ)) ((142.5 : ℝ), [37, 39, 40, 41, 43, 45, 46, 48, 50, 52, 54, 57, 59, 61, 64, 67, 69, 72, 76, 79, 82, 86, 90, 94, 99, 103, 108, 113, 119, 124, 130, 137, 143, 150, 158, 166, 174, 183, 192, 201, 212, 222, 234, 245, 258, 271, 284, 299, 314, 329])
      (List.range' 330 691)
      = List.foldl (selStep tx2N (3.15 : ℝ)) ((139.35 : ℝ), [37, 39, 40, 41, 43, 45, 46, 48, 50, 52, 54, 57, 59, 61, 64, 67, 69, 72, 76, 79, 82, 86, 90, 94, 99, 103, 108, 113, 119, 124, 130, 137, 143, 150, 158, 166, 174, 183, 192, 201, 212, 222, 234, 245, 258, 271, 284, 299, 314, 329, 345])
      (List.range' 346 675) :=
    run_segment (3.15 : ℝ) (142.5 : ℝ) (139.35 : ℝ) [37, 39, 40, 41, 43, 45, 46, 48, 50, 52, 54, 57, 59, 61, 64, 67, 69, 72, 76, 79, 82, 86, 90, 94, 99, 103, 108, 113, 119, 124, 130, 137, 143, 150, 158, 166, 174, 183, 192, 201, 212, 222, 234, 245, 258, 271, 284, 299, 314, 329] [37, 39, 40, 41, 43, 45, 46, 48, 50, 52, 54, 57, 59, 61, 64, 67, 69, 72, 76, 79, 82, 86, 90, 94, 99, 103, 108, 113, 119, 124, 130, 137, 143, 150, 158, 166, 174, 183, 192, 201, 212, 222, 234, 245, 258, 271, 284, 299, 314, 329, 345]
      330 15 675 345 346 691 344
      rfl rfl rfl rfl (by norm_num) rfl (by norm_num) (by norm_num)
      (Or.inr (by unfold tx2N tx2R; exact txT_ge_of _ _ _ _ rlbC_3.2.2.2.2.2.2.2.2.2.2.2.2.2.2.2.2.2.2.2.2.2.2.1.1 (le_of_lt rlbC_3.2.2.2.2.2.2.2.2.2.2.2.2.2.2.2.2.2.2.2.2.2.2.1.2) (by unfold tZero TXBETA2; norm_num) (by unfold tZero TXBETA2; norm_num)))
      (by unfold tx2N tx2R; exact txT_lt_of _ _ _ rlbC_3.2.2.2.2.2.2.2.2.2.2.2.2.2.2.2.2.2.2.2.2.2.2.2.1.1 (by unfold tZero TXBETA2; norm_num) (by unfold tZero TXBETA2; norm_num))
  have e51 : List.foldl (selStep tx2N (3.15 : ℝ)) ((139.35 : ℝ), [37, 39, 40, 41, 43, 45, 46, 48, 50, 52, 54, 57, 59, 61, 64, 67, 69, 72, 76, 79, 82, 86, 90, 94, 99, 103, 108, 113, 119, 124, 130, 137, 143, 150, 158, 166, 174, 183, 192, 201, 212, 222, 234, 245, 258, 271, 284, 299, 314, 329, 345])
      (List.range' 346 675)
      = List.foldl (selStep tx2N (3.15 : ℝ)) ((136.2 : ℝ), [37, 39, 40, 41, 43, 45, 46, 48, 50, 52, 54, 57, 59, 61, 64, 67, 69, 72, 76, 79, 82, 86, 90, 94, 99, 103, 108, 113, 119, 124, 130, 137, 143, 150, 158, 166, 174, 183, 192, 201, 212, 222, 234, 245, 258, 271, 284, 299, 314, 329, 345, 362])
      (List.range' 363 658) :=
    run_segment (3.15 : ℝ) (139.35 : ℝ) (136.2 : ℝ) [37, 39, 40, 41, 43, 45, 46, 48, 50, 52, 54, 57, 59, 61, 64, 67, 69, 72, 76, 79, 82, 86, 90, 94, 99, 103, 108, 113, 119, 124, 130, 137, 143, 150, 158, 166, 174, 183, 192, 201, 212, 222, 234, 245, 258, 271, 284, 299, 314, 329, 345] [37, 39, 40, 41, 43, 45, 46, 48, 50, 52, 54, 57, 59, 61, 64, 67, 69, 72, 76, 79, 82, 86, 90, 94, 99, 103, 108, 113, 119, 124, 130, 137, 143, 150, 158, 166, 174, 183, 192, 201, 212, 222, 234, 245, 258, 271, 284, 299, 314, 329, 345, 362]
      346 16 658 362 363 675 361
      rfl rfl rfl rfl (by norm_num) rfl (by norm_num) (by norm_num)
      (Or.inr (by unfold tx2N tx2R; exact txT_ge_of _ _ _ _ rlbC_3.2.2.2.2.2.2.2.2.2.2.2.2.2.2.2.2.2.2.2.2.2.2.2.2.1 (le_of_lt rlbC_3.2.2.2.2.2.2.2.2.2.2.2.2.2.2.2.2.2.2.2.2.2.2.2.2.2) (by unfold tZero TXBETA2; norm_num) (by unfold tZero TXBETA2; norm_num)))
      (by unfold tx2N tx2R; exact txT_lt_of _ _ _ rlbC_4.1.1 (by unfold tZero TXBETA2; norm_num) (by unfold tZero TXBETA2; norm_num))
  have e52 : List.foldl (selStep tx2N (3.15 : ℝ)) ((136.2 : ℝ), [37, 39, 40, 41, 43, 45, 46, 48, 50, 52, 54, 57, 59, 61, 64, 67, 69, 72, 76, 79, 82, 86, 90, 94, 99, 103, 108, 113, 119, 124, 130, 137, 143, 150, 158, 166, 174, 183, 192, 201, 212, 222, 234, 245, 258, 271, 284, 299, 314, 329, 345, 362])
      (List.range' 363 658)
      = List.foldl (selStep tx2N (3.15 : ℝ)) ((133.05 : ℝ), [37, 39, 40, 41, 43, 45, 46, 48, 50, 52, 54, 57, 59, 61, 64, 67, 69, 72, 76, 79, 82, 86, 90, 94, 99, 103, 108, 113, 119, 124, 130, 137, 143, 150, 158, 166, 174, 183, 192, 201, 212, 222, 234, 245, 258, 271, 284, 299, 314, 329, 345, 362, 380])
      (List.range' 381 640) :=
    run_segment (3.15 : ℝ) (136.2 : ℝ) (133.05 : ℝ) [37, 39, 40, 41, 43, 45, 46, 48, 50, 52, 54, 57, 59, 61, 64, 67, 69, 72, 76, 79, 82, 86, 90, 94, 99, 103, 108, 113, 119, 124, 130, 137, 143, 150, 158, 166, 174, 183, 192, 201, 212, 222, 234, 245, 258, 271, 284, 299, 314, 329, 345, 362] [37, 39, 40, 41, 43, 45, 46, 48, 50, 52, 54, 57, 59, 61, 64, 67, 69, 72, 76, 79, 82, 86, 90, 94, 99, 103, 108, 113, 119, 124, 130, 137, 143, 150, 158, 166, 174, 183, 192, 201, 212, 222, 234, 245, 258, 271, 284, 299, 314, 329, 345, 362, 380]
      363 17 640 380 381 658 379
      rfl rfl rfl rfl (by norm_num) rfl (by norm_num) (by norm_num)
      (Or.inr (by unfold tx2N tx2R; exact txT_ge_of _ _ _ _ rlbC_4.2.1.1 (le_of_lt rlbC_4.2.1.2) (by unfold tZero TXBETA2; norm_num) (by unfold tZero TXBETA2; norm_num)))
      (by unfold tx2N tx2R; exact txT_lt_of _ _ _ rlbC_4.2.2.1.1 (by unfold tZero TXBETA2; norm_num) (by unfold tZero TXBETA2; norm_num))
  have e53 : List.foldl (selStep tx2N (3.15 : ℝ)) ((133.05 : ℝ), [37, 39, 40, 41, 43, 45, 46, 48, 50, 52, 54, 57, 59, 61, 64, 67, 69, 72, 76, 79, 82, 86, 90, 94, 99, 103, 108, 113, 119, 124, 130, 137, 143, 150, 158, 166, 174, 183, 192, 201, 212, 222, 234, 245, 258, 271, 284, 299, 314, 329, 345, 362, 380])
      (List.range' 381 640)
      = List.foldl (selStep tx2N (3.15 : ℝ)) ((129.9 : ℝ), [37, 39, 40, 41, 43, 45, 46, 48, 50, 52, 54, 57, 59, 61, 64, 67, 69, 72, 76, 79, 82, 86, 90, 94, 99, 103, 108, 113, 119, 124, 130, 137, 143, 150, 158, 166, 174, 183, 192, 201, 212, 222, 234, 245, 258, 271, 284, 299, 314, 329, 345, 362, 380, 398])
      (List.range' 399 622) :=
    run_segment (3.15 : ℝ) (133.05 : ℝ) (129.9 : ℝ) [37, 39, 40, 41, 43, 45, 46, 48, 50, 52, 54, 57, 59, 61, 64, 67, 69, 72, 76, 79, 82, 86, 90, 94, 99, 103, 108, 113, 119, 124, 130, 137, 143, 150, 158, 166, 174, 183, 192, 201, 212, 222, 234, 245, 258, 271, 284, 299, 314, 329, 345, 362, 380] [37, 39, 40, 41, 43, 45, 46, 48, 50, 52, 54, 57, 59, 61, 64, 67, 69, 72, 76, 79, 82, 86, 90, 94, 99, 103, 108, 113, 119, 124, 130, 137, 143, 150, 158, 166, 174, 183, 192, 201, 212, 222, 234, 245, 258, 271, 284, 299, 314, 329, 345, 362, 380, 398]
      381 17 622 398 399 640 397
      rfl rfl rfl rfl (by norm_num) rfl (by norm_num) (by norm_num)
      (Or.inr (by unfold tx2N tx2R; exact txT_ge_of _ _ _ _ rlbC_4.2.2.2.1.1 (le_of_lt rlbC_4.2.2.2.1.2) (by unfold tZero TXBETA2; norm_num) (by unfold tZero TXBETA2; norm_num)))
      (by unfold tx2N tx2R; exact txT_lt_of _ _ _ rlbC_4.2.2.2.2.1.1 (by unfold tZero TXBETA2; norm_num) (by unfold tZero TXBETA2; norm_num))
  have e54 : List.foldl (selStep tx2N (3.15 : ℝ)) ((129.9 : ℝ), [37, 39, 40, 41, 43, 45, 46, 48, 50, 52, 54, 57, 59, 61, 64, 67, 69, 72, 76, 79, 82, 86, 90, 94, 99, 103, 108, 113, 119, 124, 130, 137, 143, 150, 158, 166, 174, 183, 192, 201, 212, 222, 234, 245, 258, 271, 284, 299, 314, 329, 345, 362, 380, 398])
      (List.range' 399 622)
      = List.foldl (selStep tx2N (3.15 : ℝ)) ((126.75 : ℝ), [37, 39, 40, 41, 43, 45, 46, 48, 50, 52, 54, 57, 59, 61, 64, 67, 69, 72, 76, 79, 82, 86, 90, 94, 99, 103, 108, 113, 119, 124, 130, 137, 143, 150, 158, 166, 174, 183, 192, 201, 212, 222, 234, 245, 258, 271, 284, 299, 314, 329, 345, 362, 380, 398, 416])
      (List.range' 417 604) :=
    run_segment (3.15 : ℝ) (129.9 : ℝ) (126.75 : ℝ) [37, 39, 40, 41, 43, 45, 46, 48, 50, 52, 54, 57, 59, 61, 64, 67, 69, 72, 76, 79, 82, 86, 90, 94, 99, 103, 108, 113, 119, 124, 130, 137, 143, 150, 158, 166, 174, 183, 192, 201, 212, 222, 234, 245, 258, 271, 284, 299, 314, 329, 345, 362, 380, 398] [37, 39, 40, 41, 43, 45, 46, 48, 50, 52, 54, 57, 59, 61, 64, 67, 69, 72, 76, 79, 82, 86, 90, 94, 99, 103, 108, 113, 119, 124, 130, 137, 143, 150, 158, 166, 174, 183, 192, 201, 212, 222, 234, 245, 258, 271, 284, 299, 314, 329, 345, 362, 380, 398, 416]
      399 17 604 416 417 622 415
      rfl rfl rfl rfl (by norm_num) rfl (by norm_num) (by norm_num)
      (Or.inr (by unfold tx2N tx2R; exact txT_ge_of _ _ _ _ rlbC_4.2.2.2.2.2.1.1 (le_of_lt rlbC_4.2.2.2.2.2.1.2) (by unfold tZero TXBETA2; norm_num) (by unfold tZero TXBETA2; norm_num)))
      (by unfold tx2N tx2R; exact txT_lt_of _ _ _ rlbC_4.2.2.2.2.2.2.1.1 (by unfold tZero TXBETA2; norm_num) (by unfold tZero TXBETA2; norm_num))
  have e55 : List.foldl (selStep tx2N (3.15 : ℝ)) ((126.75 : ℝ), [37, 39, 40, 41, 43, 45, 46, 48, 50, 52, 54, 57, 59, 61, 64, 67, 69, 72, 76, 79, 82, 86, 90, 94, 99, 103, 108, 113, 119, 124, 130, 137, 143, 150, 158, 166, 174, 183, 192, 201, 212, 222, 234, 245, 258, 271, 284, 299, 314, 329, 345, 362, 380, 398, 416])
      (List.range' 417 604)
      = List.foldl (selStep tx2N (3.15 : ℝ)) ((123.6 : ℝ), [37, 39, 40, 41, 43, 45, 46, 48, 50, 52, 54, 57, 59, 61, 64, 67, 69, 72, 76, 79, 82, 86, 90, 94, 99, 103, 108, 113, 119, 124, 130, 137, 143, 150, 158, 166, 174, 183, 192, 201, 212, 222, 234, 245, 258, 271, 284, 299, 314, 329, 345, 362, 380, 398, 416, 436])
      (List.range' 437 584) :=
    run_segment (3.15 : ℝ) (126.75 : ℝ) (123.6 : ℝ) [37, 39, 40, 41, 43, 45, 46, 48, 50, 52, 54, 57, 59, 61, 64, 67, 69, 72, 76, 79, 82, 86, 90, 94, 99, 103, 108, 113, 119, 124, 130, 137, 143, 150, 158, 166, 174, 183, 192, 201, 212, 222, 234, 245, 258, 271, 284, 299, 314, 329, 345, 362, 380, 398, 416] [37, 39, 40, 41, 43, 45, 46, 48, 50, 52, 54, 57, 59, 61, 64, 67, 69, 72, 76, 79, 82, 86, 90, 94, 99, 103, 108, 113, 119, 124, 130, 137, 143, 150, 158, 166, 174, 183, 192, 201, 212, 222, 234, 245, 258, 271, 284, 299, 314, 329, 345, 362, 380, 398, 416, 436]
      417 19 584 436 437 604 435
      rfl rfl rfl rfl (by norm_num) rfl (by norm_num) (by norm_num)
      (Or.inr (by unfold tx2N tx2R; exact txT_ge_of _ _ _ _ rlbC_4.2.2.2.2.2.2.2.1.1 (le_of_lt rlbC_4.2.2.2.2.2.2.2.1.2) (by unfold tZero TXBETA2; norm_num) (by unfold tZero TXBETA2; norm_num)))
      (by unfold tx2N tx2R; exact txT_lt_of _ _ _ rlbC_4.2.2.2.2.2.2.2.2.1.1 (by unfold tZero TXBETA2; norm_num) (by unfold tZero TXBETA2; norm_num))
  have e56 : List.foldl (selStep tx2N (3.15 : ℝ)) ((123.6 : ℝ), [37, 39, 40, 41, 43, 45, 46, 48, 50, 52, 54, 57, 59, 61, 64, 67, 69, 72, 76, 79, 82, 86, 90, 94, 99, 103, 108, 113, 119, 124, 130, 137, 143, 150, 158, 166, 174, 183, 192, 201, 212, 222, 234, 245, 258, 271, 284, 299, 314, 329, 345, 362, 380, 398, 416, 436])
      (List.range' 437 584)
      = List.foldl (selStep tx2N (3.15 : ℝ)) ((120.45 : ℝ), [37, 39, 40, 41, 43, 45, 46, 48, 50, 52, 54, 57, 59, 61, 64, 67, 69, 72, 76, 79, 82, 86, 90, 94, 99, 103, 108, 113, 119, 124, 130, 137, 143, 150, 158, 166, 174, 183, 192, 201, 212, 222, 234, 245, 258, 271, 284, 299, 314, 329, 345, 362, 380, 398, 416, 436, 455])
      (List.range' 456 565) :=
    run_segment (3.15 : ℝ) (123.6 : ℝ) (120.45 : ℝ) [37, 39, 40, 41, 43, 45, 46, 48, 50, 52, 54, 57, 59, 61, 64, 67, 69, 72, 76, 79, 82, 86, 90, 94, 99, 103, 108, 113, 119, 124, 130, 137, 143, 150, 158, 166, 174, 183, 192, 201, 212, 222, 234, 245, 258, 271, 284, 299, 314, 329, 345, 362, 380, 398, 416, 436] [37, 39, 40, 41, 43, 45, 46, 48, 50, 52, 54, 57, 59, 61, 64, 67, 69, 72, 76, 79, 82, 86, 90, 94, 99, 103, 108, 113, 119, 124, 130, 137, 143, 150, 158, 166, 174, 183, 192, 201, 212, 222, 234, 245, 258, 271, 284, 299, 314, 329, 345, 362, 380, 398, 416, 436, 455]
      437 18 565 455 456 584 454
      rfl rfl rfl rfl (by norm_num) rfl (by norm_num) (by norm_num)
      (Or.inr (by unfold tx2N tx2R; exact txT_ge_of _ _ _ _ rlbC_4.2.2.2.2.2.2.2.2.2.1.1 (le_of_lt rlbC_4.2.2.2.2.2.2.2.2.2.1.2) (by unfold tZero TXBETA2; norm_num) (by unfold tZero TXBETA2; norm_num)))
      (by unfold tx2N tx2R; exact txT_lt_of _ _ _ rlbC_4.2.2.2.2.2.2.2.2.2.2.1.1 (by unfold tZero TXBETA2; norm_num) (by unfold tZero TXBETA2; norm_num))
  have e57 : List.foldl (selStep tx2N (3.15 : ℝ)) ((120.45 : ℝ), [37, 39, 40, 41, 43, 45, 46, 48, 50, 52, 54, 57, 59, 61, 64, 67, 69, 72, 76, 79, 82, 86, 90, 94, 99, 103, 108, 113, 119, 124, 130, 137, 143, 150, 158, 166, 174, 183, 192, 201, 212, 222, 234, 245, 258, 271, 284, 299, 314, 329, 345, 362, 380, 398, 416, 436, 455])
      (List.range' 456 565)
      = List.foldl (selStep tx2N (3.15 : ℝ)) ((117.3 : ℝ), [37, 39, 40, 41, 43, 45, 46, 48, 50, 52, 54, 57, 59, 61, 64, 67, 69, 72, 76, 79, 82, 86, 90, 94, 99, 103, 108, 113, 119, 124, 130, 137, 143, 150, 158, 166, 174, 183, 192, 201, 212, 222, 234, 245, 258, 271, 284, 299, 314, 329, 345, 362, 380, 398, 416, 436, 455, 476])
      (List.range' 477 544) :=
    run_segment (3.15 : ℝ) (120.45 : ℝ) (117.3 : ℝ) [37, 39, 40, 41, 43, 45, 46, 48, 50, 52, 54, 57, 59, 61, 64, 67, 69, 72, 76, 79, 82, 86, 90, 94, 99, 103, 108, 113, 119, 124, 130, 137, 143, 150, 158, 166, 174, 183, 192, 201, 212, 222, 234, 245, 258, 271, 284, 299, 314, 329, 345, 362, 380, 398, 416, 436, 455] [37, 39, 40, 41, 43, 45, 46, 48, 50, 52, 54, 57, 59, 61, 64, 67, 69, 72, 76, 79, 82, 86, 90, 94, 99, 103, 108, 113, 119, 124, 130, 137, 143, 150, 158, 166, 174, 183, 192, 201, 212, 222, 234, 245, 258, 271, 284, 299, 314, 329, 345, 362, 380, 398, 416, 436, 455, 476]
      456 20 544 476 477 565 475
      rfl rfl rfl rfl (by norm_num) rfl (by norm_num) (by norm_num)
      (Or.inr (by unfold tx2N tx2R; exact txT_ge_of _ _ _ _ rlbC_4.2.2.2.2.2.2.2.2.2.2.2.1.1 (le_of_lt rlbC_4.2.2.2.2.2.2.2.2.2.2.2.1.2) (by unfold tZero TXBETA2; norm_num) (by unfold tZero TXBETA2; norm_num)))
      (by unfold tx2N tx2R; exact txT_lt_of _ _ _ rlbC_4.2.2.2.2.2.2.2.2.2.2.2.2.1.1 (by unfold tZero TXBETA2; norm_num) (by unfold tZero TXBETA2; norm_num))
  have e58 : List.foldl (selStep tx2N (3.15 : ℝ)) ((117.3 : ℝ), [37, 39, 40, 41, 43, 45, 46, 48, 50, 52, 54, 57, 59, 61, 64, 67, 69, 72, 76, 79, 82, 86, 90, 94, 99, 103, 108, 113, 119, 124, 130, 137, 143, 150, 158, 166, 174, 183, 192, 201, 212, 222, 234, 245, 258, 271, 284, 299, 314, 329, 345, 362, 380, 398, 416, 436, 455, 476])
      (List.range' 477 544)
      = List.foldl (selStep tx2N (3.15 : ℝ)) ((114.15 : ℝ), [37, 39, 40, 41, 43, 45, 46, 48, 50, 52, 54, 57, 59, 61, 64, 67, 69, 72, 76, 79, 82, 86, 90, 94, 99, 103, 108, 113, 119, 124, 130, 137, 143, 150, 158, 166, 174, 183, 192, 201, 212, 222, 234, 245, 258, 271, 284, 299, 314, 329, 345, 362, 380, 398, 416, 436, 455, 476, 496])
      (List.range' 497 524) :=
    run_segment (3.15 : ℝ) (117.3 : ℝ) (114.15 : ℝ) [37, 39, 40, 41, 43, 45, 46, 48, 50, 52, 54, 57, 59, 61, 64, 67, 69, 72, 76, 79, 82, 86, 90, 94, 99, 103, 108, 113, 119, 124, 130, 137, 143, 150, 158, 166, 174, 183, 192, 201, 212, 222, 234, 245, 258, 271, 284, 299, 314, 329, 345, 362, 380, 398, 416, 436, 455, 476] [37, 39, 40, 41, 43, 45, 46, 48, 50, 52, 54, 57, 59, 61, 64, 67, 69, 72, 76, 79, 82, 86, 90, 94, 99, 103, 108, 113, 119, 124, 130, 137, 143, 150, 158, 166, 174, 183, 192, 201, 212, 222, 234, 245, 258, 271, 284, 299, 314, 329, 345, 362, 380, 398, 416, 436, 455, 476, 496]
      477 19 524 496 497 544 495
      rfl rfl rfl rfl (by norm_num) rfl (by norm_num) (by norm_num)
      (Or.inr (by unfold tx2N tx2R; exact txT_ge_of _ _ _ _ rlbC_4.2.2.2.2.2.2.2.2.2.2.2.2.2.1.1 (le_of_lt rlbC_4.2.2.2.2.2.2.2.2.2.2.2.2.2.1.2) (by unfold tZero TXBETA2; norm_num) (by unfold tZero TXBETA2; norm_num)))
      (by unfold tx2N tx2R; exact txT_lt_of _ _ _ rlbC_4.2.2.2.2.2.2.2.2.2.2.2.2.2.2.1.1 (by unfold tZero TXBETA2; norm_num) (by unfold tZero TXBETA2; norm_num))
  have e59 : List.foldl (selStep tx2N (3.15 : ℝ)) ((114.15 : ℝ), [37, 39, 40, 41, 43, 45, 46, 48, 50, 52, 54, 57, 59, 61, 64, 67, 69, 72, 76, 79, 82, 86, 90, 94, 99, 103, 108, 113, 119, 124, 130, 137, 143, 150, 158, 166, 174, 183, 192, 201, 212, 222, 234, 245, 258, 271, 284, 299, 314, 329, 345, 362, 380, 398, 416, 436, 455, 476, 496])
      (List.range' 497 524)
      = List.foldl (selStep tx2N (3.15 : ℝ)) ((111 : ℝ), [37, 39, 40, 41, 43, 45, 46, 48, 50, 52, 54, 57, 59, 61, 64, 67, 69, 72, 76, 79, 82, 86, 90, 94, 99, 103, 108, 113, 119, 124, 130, 137, 143, 150, 158, 166, 174, 183, 192, 201, 212, 222, 234, 245, 258, 271, 284, 299, 314, 329, 345, 362, 380, 398, 416, 436, 455, 476, 496, 517])
      (List.range' 518 503) :=
    run_segment (3.15 : ℝ) (114.15 : ℝ) (111 : ℝ) [37, 39, 40, 41, 43, 45, 46, 48, 50, 52, 54, 57, 59, 61, 64, 67, 69, 72, 76, 79, 82, 86, 90, 94, 99, 103, 108, 113, 119, 124, 130, 137, 143, 150, 158, 166, 174, 183, 192, 201, 212, 222, 234, 245, 258, 271, 284, 299, 314, 329, 345, 362, 380, 398, 416, 436, 455, 476, 496] [37, 39, 40, 41, 43, 45, 46, 48, 50, 52, 54, 57, 59, 61, 64, 67, 69, 72, 76, 79, 82, 86, 90, 94, 99, 103, 108, 113, 119, 124, 130, 137, 143, 150, 158, 166, 174, 183, 192, 201, 212, 222, 234, 245, 258, 271, 284, 299, 314, 329, 345, 362, 380, 398, 416, 436, 455, 476, 496, 517]
      497 20 503 517 518 524 516
      rfl rfl rfl rfl (by norm_num) rfl (by norm_num) (by norm_num)
      (Or.inr (by unfold tx2N tx2R; exact txT_ge_of _ _ _ _ rlbC_4.2.2.2.2.2.2.2.2.2.2.2.2.2.2.2.1.1 (le_of_lt rlbC_4.2.2.2.2.2.2.2.2.2.2.2.2.2.2.2.1.2) (by unfold tZero TXBETA2; norm_num) (by unfold tZero TXBETA2; norm_num)))
      (by unfold tx2N tx2R; exact txT_lt_of _ _ _ rlbC_4.2.2.2.2.2.2.2.2.2.2.2.2.2.2.2.2.1.1 (by unfold tZero TXBETA2; norm_num) (by unfold tZero TXBETA2; norm_num))
  have e60 : List.foldl (selStep tx2N (3.15 : ℝ)) ((111 : ℝ), [37, 39, 40, 41, 43, 45, 46, 48, 50, 52, 54, 57, 59, 61, 64, 67, 69, 72, 76, 79, 82, 86, 90, 94, 99, 103, 108, 113, 119, 124, 130, 137, 143, 150, 158, 166, 174, 183, 192, 201, 212, 222, 234, 245, 258, 271, 284, 299, 314, 329, 345, 362, 380, 398, 416, 436, 455, 476, 496, 517])
      (List.range' 518 503)
      = List.foldl (selStep tx2N (3.15 : ℝ)) ((107.85 : ℝ), [37, 39, 40, 41, 43, 45, 46, 48, 50, 52, 54, 57, 59, 61, 64, 67, 69, 72, 76, 79, 82, 86, 90, 94, 99, 103, 108, 113, 119, 124, 130, 137, 143, 150, 158, 166, 174, 183, 192, 201, 212, 222, 234, 245, 258, 271, 284, 299, 314, 329, 345, 362, 380, 398, 416, 436, 455, 476, 496, 517, 539])
      (List.range' 540 481) :=
    run_segment (3.15 : ℝ) (111 : ℝ) (107.85 : ℝ) [37, 39, 40, 41, 43, 45, 46, 48, 50, 52, 54, 57, 59, 61, 64, 67, 69, 72, 76, 79, 82, 86, 90, 94, 99, 103, 108, 113, 119, 124, 130, 137, 143, 150, 158, 166, 174, 183, 192, 201, 212, 222, 234, 245, 258, 271, 284, 299, 314, 329, 345, 362, 380, 398, 416, 436, 455, 476, 496, 517] [37, 39, 40, 41, 43, 45, 46, 48, 50, 52, 54, 57, 59, 61, 64, 67, 69, 72, 76, 79, 82, 86, 90, 94, 99, 103, 108, 113, 119, 124, 130, 137, 143, 150, 158, 166, 174, 183, 192, 201, 212, 222, 234, 245, 258, 271, 284, 299, 314, 329, 345, 362, 380, 398, 416, 436, 455, 476, 496, 517, 539]
      518 21 481 539 540 503 538
      rfl rfl rfl rfl (by norm_num) rfl (by norm_num) (by norm_num)
      (Or.inr (by unfold tx2N tx2R; exact txT_ge_of _ _ _ _ rlbC_4.2.2.2.2.2.2.2.2.2.2.2.2.2.2.2.2.2.1.1 (le_of_lt rlbC_4.2.2.2.2.2.2.2.2.2.2.2.2.2.2.2.2.2.1.2) (by unfold tZero TXBETA2; norm_num) (by unfold tZero TXBETA2; norm_num)))
      (by unfold tx2N tx2R; exact txT_lt_of _ _ _ rlbC_4.2.2.2.2.2.2.2.2.2.2.2.2.2.2.2.2.2.2.1.1 (by unfold tZero TXBETA2; norm_num) (by unfold tZero TXBETA2; norm_num))
  have e61 : List.foldl (selStep tx2N (3.15 : ℝ)) ((107.85 : ℝ), [37, 39, 40, 41, 43, 45, 46, 48, 50, 52, 54, 57, 59, 61, 64, 67, 69, 72, 76, 79, 82, 86, 90, 94, 99, 103, 108, 113, 119, 124, 130, 137, 143, 150, 158, 166, 174, 183, 192, 201, 212, 222, 234, 245, 258, 271, 284, 299, 314, 329, 345, 362, 380, 398, 416, 436, 455, 476, 496, 517, 539])
      (List.range' 540 481)
      = List.foldl (selStep tx2N (3.15 : ℝ)) ((104.7 : ℝ), [37, 39, 40, 41, 43, 45, 46, 48, 50, 52, 54, 57, 59, 61, 64, 67, 69, 72, 76, 79, 82, 86, 90, 94, 99, 103, 108, 113, 119, 124, 130, 137, 143, 150, 158, 166, 174, 183, 192, 201, 212, 222, 234, 245, 258, 271, 284, 299, 314, 329, 345, 362, 380, 398, 416, 436, 455, 476, 496, 517, 539, 561])
      (List.range' 562 459) :=
    run_segment (3.15 : ℝ) (107.85 : ℝ) (104.7 : ℝ) [37, 39, 40, 41, 43, 45, 46, 48, 50, 52, 54, 57, 59, 61, 64, 67, 69, 72, 76, 79, 82, 86, 90, 94, 99, 103, 108, 113, 119, 124, 130, 137, 143, 150, 158, 166, 174, 183, 192, 201, 212, 222, 234, 245, 258, 271, 284, 299, 314, 329, 345, 362, 380, 398, 416, 436, 455, 476, 496, 517, 539] [37, 39, 40, 41, 43, 45, 46, 48, 50, 52, 54, 57, 59, 61, 64, 67, 69, 72, 76, 79, 82, 86, 90, 94, 99, 103, 108, 113, 119, 124, 130, 137, 143, 150, 158, 166, 174, 183, 192, 201, 212, 222, 234, 245, 258, 271, 284, 299, 314, 329, 345, 362, 380, 398, 416, 436, 455, 476, 496, 517, 539, 561]
      540 21 459 561 562 481 560
      rfl rfl rfl rfl (by norm_num) rfl (by norm_num) (by norm_num)
      (Or.inr (by unfold tx2N tx2R; exact txT_ge_of _ _ _ _ rlbC_4.2.2.2.2.2.2.2.2.2.2.2.2.2.2.2.2.2.2.2.1.1 (le_of_lt rlbC_4.2.2.2.2.2.2.2.2.2.2.2.2.2.2.2.2.2.2.2.1.2) (by unfold tZero TXBETA2; norm_num) (by unfold tZero TXBETA2; norm_num)))
      (by unfold tx2N tx2R; exact txT_lt_of _ _ _ rlbC_4.2.2.2.2.2.2.2.2.2.2.2.2.2.2.2.2.2.2.2.2.1.1 (by unfold tZero TXBETA2; norm_num) (by unfold tZero TXBETA2; norm_num))
  have e62 : List.foldl (selStep tx2N (3.15 : ℝ)) ((104.7 : ℝ), [37, 39, 40, 41, 43, 45, 46, 48, 50, 52, 54, 57, 59, 61, 64, 67, 69, 72, 76, 79, 82, 86, 90, 94, 99, 103, 108, 113, 119, 124, 130, 137, 143, 150, 158, 166, 174, 183, 192, 201, 212, 222, 234, 245, 258, 271, 284, 299, 314, 329, 345, 362, 380, 398, 416, 436, 455, 476, 496, 517, 539, 561])
      (List.range' 562 459)
      = List.foldl (selStep tx2N (3.15 : ℝ)) ((101.55 : ℝ), [37, 39, 40, 41, 43, 45, 46, 48, 50, 52, 54, 57, 59, 61, 64, 67, 69, 72, 76, 79, 82, 86, 90, 94, 99, 103, 108, 113, 119, 124, 130, 137, 143, 150, 158, 166, 174, 183, 192, 201, 212, 222, 234, 245, 258, 271, 284, 299, 314, 329, 345, 362, 380, 398, 416, 436, 455, 476, 496, 517, 539, 561, 582])
      (List.range' 583 438) :=
    run_segment (3.15 : ℝ) (104.7 : ℝ) (101.55 : ℝ) [37, 39, 40, 41, 43, 45, 46, 48, 50, 52, 54, 57, 59, 61, 64, 67, 69, 72, 76, 79, 82, 86, 90, 94, 99, 103, 108, 113, 119, 124, 130, 137, 143, 150, 158, 166, 174, 183, 192, 201, 212, 222, 234, 245, 258, 271, 284, 299, 314, 329, 345, 362, 380, 398, 416, 436, 455, 476, 496, 517, 539, 561] [37, 39, 40, 41, 43, 45, 46, 48, 50, 52, 54, 57, 59, 61, 64, 67, 69, 72, 76, 79, 82, 86, 90, 94, 99, 103, 108, 113, 119, 124, 130, 137, 143, 150, 158, 166, 174, 183, 192, 201, 212, 222, 234, 245, 258, 271, 284, 299, 314, 329, 345, 362, 380, 398, 416, 436, 455, 476, 496, 517, 539, 561, 582]
      562 20 438 582 583 459 581
      rfl rfl rfl rfl (by norm_num) rfl (by norm_num) (by norm_num)
      (Or.inr (by unfold tx2N tx2R; exact txT_ge_of _ _ _ _ rlbC_4.2.2.2.2.2.2.2.2.2.2.2.2.2.2.2.2.2.2.2.2.2.1.1 (le_of_lt rlbC_4.2.2.2.2.2.2.2.2.2.2.2.2.2.2.2.2.2.2.2.2.2.1.2) (by unfold tZero TXBETA2; norm_num) (by unfold tZero TXBETA2; norm_num)))
      (by unfold tx2N tx2R; exact txT_lt_of _ _ _ rlbC_4.2.2.2.2.2.2.2.2.2.2.2.2.2.2.2.2.2.2.2.2.2.2.1.1 (by unfold tZero TXBETA2; norm_num) (by unfold tZero TXBETA2; norm_num))
  have e63 : List.foldl (selStep tx2N (3.15 : ℝ)) ((101.55 : ℝ), [37, 39, 40, 41, 43, 45, 46, 48, 50, 52, 54, 57, 59, 61, 64, 67, 69, 72, 76, 79, 82, 86, 90, 94, 99, 103, 108, 113, 119, 124, 130, 137, 143, 150, 158, 166, 174, 183, 192, 201, 212, 222, 234, 245, 258, 271, 284, 299, 314, 329, 345, 362, 380, 398, 416, 436, 455, 476, 496, 517, 539, 561, 582])
      (List.range' 583 438)
      = List.foldl (selStep tx2N (3.15 : ℝ)) ((98.4 : ℝ), [37, 39, 40, 41, 43, 45, 46, 48, 50, 52, 54, 57, 59, 61, 64, 67, 69, 72, 76, 79, 82, 86, 90, 94, 99, 103, 108, 113, 119, 124, 130, 137, 143, 150, 158, 166, 174, 183, 192, 201, 212, 222, 234, 245, 258, 271, 284, 299, 314, 329, 345, 362, 380, 398, 416, 436, 455, 476, 496, 517, 539, 561, 582, 604])
      (List.range' 605 416) :=
    run_segment (3.15 : ℝ) (101.55 : ℝ) (98.4 : ℝ) [37, 39, 40, 41, 43, 45, 46, 48, 50, 52, 54, 57, 59, 61, 64, 67, 69, 72, 76, 79, 82, 86, 90, 94, 99, 103, 108, 113, 119, 124, 130, 137, 143, 150, 158, 166, 174, 183, 192, 201, 212, 222, 234, 245, 258, 271, 284, 299, 314, 329, 345, 362, 380, 398, 416, 436, 455, 476, 496, 517, 539, 561, 582] [37, 39, 40, 41, 43, 45, 46, 48, 50, 52, 54, 57, 59, 61, 64, 67, 69, 72, 76, 79, 82, 86, 90, 94, 99, 103, 108, 113, 119, 124, 130, 137, 143, 150, 158, 166, 174, 183, 192, 201, 212, 222, 234, 245, 258, 271, 284, 299, 314, 329, 345, 362, 380, 398, 416, 436, 455, 476, 496, 517, 539, 561, 582, 604]
      583 21 416 604 605 438 603
      rfl rfl rfl rfl (by norm_num) rfl (by norm_num) (by norm_num)
      (Or.inr (by unfold tx2N tx2R; exact txT_ge_of _ _ _ _ rlbC_4.2.2.2.2.2.2.2.2.2.2.2.2.2.2.2.2.2.2.2.2.2.2.2.1.1 (le_of_lt rlbC_4.2.2.2.2.2.2.2.2.2.2.2.2.2.2.2.2.2.2.2.2.2.2.2.1.2) (by unfold tZero TXBETA2; norm_num) (by unfold tZero TXBETA2; norm_num)))
      (by unfold tx2N tx2R; exact txT_lt_of _ _ _ rlbC_4.2.2.2.2.2.2.2.2.2.2.2.2.2.2.2.2.2.2.2.2.2.2.2.2.1 (by unfold tZero TXBETA2; norm_num) (by unfold tZero TXBETA2; norm_num))
  have e64 : List.foldl (selStep tx2N (3.15 : ℝ)) ((98.4 : ℝ), [37, 39, 40, 41, 43, 45, 46, 48, 50, 52, 54, 57, 59, 61, 64, 67, 69, 72, 76, 79, 82, 86, 90, 94, 99, 103, 108, 113, 119, 124, 130, 137, 143, 150, 158, 166, 174, 183, 192, 201, 212, 222, 234, 245, 258, 271, 284, 299, 314, 329, 345, 362, 380, 398, 416, 436, 455, 476, 496, 517, 539, 561, 582, 604])
      (List.range' 605 416)
      = List.foldl (selStep tx2N (3.15 : ℝ)) ((95.25 : ℝ), [37, 39, 40, 41, 43, 45, 46, 48, 50, 52, 54, 57, 59, 61, 64, 67, 69, 72, 76, 79, 82, 86, 90, 94, 99, 103, 108, 113, 119, 124, 130, 137, 143, 150, 158, 166, 174, 183, 192, 201, 212, 222, 234, 245, 258, 271, 284, 299, 314, 329, 345, 362, 380, 398, 416, 436, 455, 476, 496, 517, 539, 561, 582, 604, 626])
      (List.range' 627 394) :=
    run_segment (3.15 : ℝ) (98.4 : ℝ) (95.25 : ℝ) [37, 39, 40, 41, 43, 45, 46, 48, 50, 52, 54, 57, 59, 61, 64, 67, 69, 72, 76, 79, 82, 86, 90, 94, 99, 103, 108, 113, 119, 124, 130, 137, 143, 150, 158, 166, 174, 183, 192, 201, 212, 222, 234, 245, 258, 271, 284, 299, 314, 329, 345, 362, 380, 398, 416, 436, 455, 476, 496, 517, 539, 561, 582, 604] [37, 39, 40, 41, 43, 45, 46, 48, 50, 52, 54, 57, 59, 61, 64, 67, 69, 72, 76, 79, 82, 86, 90, 94, 99, 103, 108, 113, 119, 124, 130, 137, 143, 150, 158, 166, 174, 183, 192, 201, 212, 222, 234, 245, 258, 271, 284, 299, 314, 329, 345, 362, 380, 398, 416, 436, 455, 476, 496, 517, 539, 561, 582, 604, 626]
      605 21 394 626 627 416 625
      rfl rfl rfl rfl (by norm_num) rfl (by norm_num) (by norm_num)
      (Or.inr (by unfold tx2N tx2R; exact txT_ge_of _ _ _ _ rlbC_5.1.1 (le_of_lt rlbC_5.1.2) (by unfold tZero TXBETA2; norm_num) (by unfold tZero TXBETA2; norm_num)))
      (by unfold tx2N tx2R; exact txT_lt_of _ _ _ rlbC_5.2.1.1 (by unfold tZero TXBETA2; norm_num) (by unfold tZero TXBETA2; norm_num))
  have e65 : List.foldl (selStep tx2N (3.15 : ℝ)) ((95.25 : ℝ), [37, 39, 40, 41, 43, 45, 46, 48, 50, 52, 54, 57, 59, 61, 64, 67, 69, 72, 76, 79, 82, 86, 90, 94, 99, 103, 108, 113, 119, 124, 130, 137, 143, 150, 158, 166, 174, 183, 192, 201, 212, 222, 234, 245, 258, 271, 284, 299, 314, 329, 345, 362, 380, 398, 416, 436, 455, 476, 496, 517, 539, 561, 582, 604, 626])
      (List.range' 627 394)
      = List.foldl (selStep tx2N (3.15 : ℝ)) ((92.1 : ℝ), [37, 39, 40, 41, 43, 45, 46, 48, 50, 52, 54, 57, 59, 61, 64, 67, 69, 72, 76, 79, 82, 86, 90, 94, 99, 103, 108, 113, 119, 124, 130, 137, 143, 150, 158, 166, 174, 183, 192, 201, 212, 222, 234, 245, 258, 271, 284, 299, 314, 329, 345, 362, 380, 398, 416, 436, 455, 476, 496, 517, 539, 561, 582, 604, 626, 648])
      (List.range' 649 372) :=
    run_segment (3.15 : ℝ) (95.25 : ℝ) (92.1 : ℝ) [37, 39, 40, 41, 43, 45, 46, 48, 50, 52, 54, 57, 59, 61, 64, 67, 69, 72, 76, 79, 82, 86, 90, 94, 99, 103, 108, 113, 119, 124, 130, 137, 143, 150, 158, 166, 174, 183, 192, 201, 212, 222, 234, 245, 258, 271, 284, 299, 314, 329, 345, 362, 380, 398, 416, 436, 455, 476, 496, 517, 539, 561, 582, 604, 626] [37, 39, 40, 41, 43, 45, 46, 48, 50, 52, 54, 57, 59, 61, 64, 67, 69, 72, 76, 79, 82, 86, 90, 94, 99, 103, 108, 113, 119, 124, 130, 137, 143, 150, 158, 166, 174, 183, 192, 201, 212, 222, 234, 245, 258, 271, 284, 299, 314, 329, 345, 362, 380, 398, 416, 436, 455, 476, 496, 517, 539, 561, 582, 604, 626, 648]
      627 21 372 648 649 394 647
      rfl rfl rfl rfl (by norm_num) rfl (by norm_num) (by norm_num)
      (Or.inr (by unfold tx2N tx2R; exact txT_ge_of _ _ _ _ rlbC_5.2.2.1.1 (le_of_lt rlbC_5.2.2.1.2) (by unfold tZero TXBETA2; norm_num) (by unfold tZero TXBETA2; norm_num)))
      (by unfold tx2N tx2R; exact txT_lt_of _ _ _ rlbC_5.2.2.2.1.1 (by unfold tZero TXBETA2; norm_num) (by unfold tZero TXBETA2; norm_num))
  have e66 : List.foldl (selStep tx2N (3.15 : ℝ)) ((92.1 : ℝ), [37, 39, 40, 41, 43, 45, 46, 48, 50, 52, 54, 57, 59, 61, 64, 67, 69, 72, 76, 79, 82, 86, 90, 94, 99, 103, 108, 113, 119, 124, 130, 137, 143, 150, 158, 166, 174, 183, 192, 201, 212, 222, 234, 245, 258, 271, 284, 299, 314, 329, 345, 362, 380, 398, 416, 436, 455, 476, 496, 517, 539, 561, 582, 604, 626, 648])
      (List.range' 649 372)
      = List.foldl (selStep tx2N (3.15 : ℝ)) ((88.95 : ℝ), [37, 39, 40, 41, 43, 45, 46, 48, 50, 52, 54, 57, 59, 61, 64, 67, 69, 72, 76, 79, 82, 86, 90, 94, 99, 103, 108, 113, 119, 124, 130, 137, 143, 150, 158, 166, 174, 183, 192, 201, 212, 222, 234, 245, 258, 271, 284, 299, 314, 329, 345, 362, 380, 398, 416, 436, 455, 476, 496, 517, 539, 561, 582, 604, 626, 648, 670])
      (List.range' 671 350) :=
    run_segment (3.15 : ℝ) (92.1 : ℝ) (88.95 : ℝ) [37, 39, 40, 41, 43, 45, 46, 48, 50, 52, 54, 57, 59, 61, 64, 67, 69, 72, 76, 79, 82, 86, 90, 94, 99, 103, 108, 113, 119, 124, 130, 137, 143, 150, 158, 166, 174, 183, 192, 201, 212, 222, 234, 245, 258, 271, 284, 299, 314, 329, 345, 362, 380, 398, 416, 436, 455, 476, 496, 517, 539, 561, 582, 604, 626, 648] [37, 39, 40, 41, 43, 45, 46, 48, 50, 52, 54, 57, 59, 61, 64, 67, 69, 72, 76, 79, 82, 86, 90, 94, 99, 103, 108, 113, 119, 124, 130, 137, 143, 150, 158, 166, 174, 183, 192, 201, 212, 222, 234, 245, 258, 271, 284, 299, 314, 329, 345, 362, 380, 398, 416, 436, 455, 476, 496, 517, 539, 561, 582, 604, 626, 648, 670]
      649 21 350 670 671 372 669
      rfl rfl rfl rfl (by norm_num) rfl (by norm_num) (by norm_num)
      (Or.inr (by unfold tx2N tx2R; exact txT_ge_of _ _ _ _ rlbC_5.2.2.2.2.1.1 (le_of_lt rlbC_5.2.2.2.2.1.2) (by unfold tZero TXBETA2; norm_num) (by unfold tZero TXBETA2; norm_num)))
      (by unfold tx2N tx2R; exact txT_lt_of _ _ _ rlbC_5.2.2.2.2.2.1.1 (by unfold tZero TXBETA2; norm_num) (by unfold tZero TXBETA2; norm_num))
  have e67 : List.foldl (selStep tx2N (3.15 : ℝ)) ((88.95 : ℝ), [37, 39, 40, 41, 43, 45, 46, 48, 50, 52, 54, 57, 59, 61, 64, 67, 69, 72, 76, 79, 82, 86, 90, 94, 99, 103, 108, 113, 119, 124, 130, 137, 143, 150, 158, 166, 174, 183, 192, 201, 212, 222, 234, 245, 258, 271, 284, 299, 314, 329, 345, 362, 380, 398, 416, 436, 455, 476, 496, 517, 539, 561, 582, 604, 626, 648, 670])
      (List.range' 671 350)
      = List.foldl (selStep tx2N (3.15 : ℝ)) ((85.8 : ℝ), [37, 39, 40, 41, 43, 45, 46, 48, 50, 52, 54, 57, 59, 61, 64, 67, 69, 72, 76, 79, 82, 86, 90, 94, 99, 103, 108, 113, 119, 124, 130, 137, 143, 150, 158, 166, 174, 183, 192, 201, 212, 222, 234, 245, 258, 271, 284, 299, 314, 329, 345, 362, 380, 398, 416, 436, 455, 476, 496, 517, 539, 561, 582, 604, 626, 648, 670, 691])
      (List.range' 692 329) :=
    run_segment (3.15 : ℝ) (88.95 : ℝ) (85.8 : ℝ) [37, 39, 40, 41, 43, 45, 46, 48, 50, 52, 54, 57, 59, 61, 64, 67, 69, 72, 76, 79, 82, 86, 90, 94, 99, 103, 108, 113, 119, 124, 130, 137, 143, 150, 158, 166, 174, 183, 192, 201, 212, 222, 234, 245, 258, 271, 284, 299, 314, 329, 345, 362, 380, 398, 416, 436, 455, 476, 496, 517, 539, 561, 582, 604, 626, 648, 670] [37, 39, 40, 41, 43, 45, 46, 48, 50, 52, 54, 57, 59, 61, 64, 67, 69, 72, 76, 79, 82, 86, 90, 94, 99, 103, 108, 113, 119, 124, 130, 137, 143, 150, 158, 166, 174, 183, 192, 201, 212, 222, 234, 245, 258, 271, 284, 299, 314, 329, 345, 362, 380, 398, 416, 436, 455, 476, 496, 517, 539, 561, 582, 604, 626, 648, 670, 691]
      671 20 329 691 692 350 690
      rfl rfl rfl rfl (by norm_num) rfl (by norm_num) (by norm_num)
      (Or.inr (by unfold tx2N tx2R; exact txT_ge_of _ _ _ _ rlbC_5.2.2.2.2.2.2.1.1 (le_of_lt rlbC_5.2.2.2.2.2.2.1.2) (by unfold tZero TXBETA2; norm_num) (by unfold tZero TXBETA2; norm_num)))
      (by unfold tx2N tx2R; exact txT_lt_of _ _ _ rlbC_5.2.2.2.2.2.2.2.1.1 (by unfold tZero TXBETA2; norm_num) (by unfold tZero TXBETA2; norm_num))
  have e68 : List.foldl (selStep tx2N (3.15 : ℝ)) ((85.8 : ℝ), [37, 39, 40, 41, 43, 45, 46, 48, 50, 52, 54, 57, 59, 61, 64, 67, 69, 72, 76, 79, 82, 86, 90, 94, 99, 103, 108, 113, 119, 124, 130, 137, 143, 150, 158, 166, 174, 183, 192, 201, 212, 222, 234, 245, 258, 271, 284, 299, 314, 329, 345, 362, 380, 398, 416, 436, 455, 476, 496, 517, 539, 561, 582, 604, 626, 648, 670, 691])
      (List.range' 692 329)
      = List.foldl (selStep tx2N (3.15 : ℝ)) ((82.65 : ℝ), [37, 39, 40, 41, 43, 45, 46, 48, 50, 52, 54, 57, 59, 61, 64, 67, 69, 72, 76, 79, 82, 86, 90, 94, 99, 103, 108, 113, 119, 124, 130, 137, 143, 150, 158, 166, 174, 183, 192, 201, 212, 222, 234, 245, 258, 271, 284, 299, 314, 329, 345, 362, 380, 398, 416, 436, 455, 476, 496, 517, 539, 561, 582, 604, 626, 648, 670, 691, 713])
      (List.range' 714 307) :=
    run_segment (3.15 : ℝ) (85.8 : ℝ) (82.65 : ℝ) [37, 39, 40, 41, 43, 45, 46, 48, 50, 52, 54, 57, 59, 61, 64, 67, 69, 72, 76, 79, 82, 86, 90, 94, 99, 103, 108, 113, 119, 124, 130, 137, 143, 150, 158, 166, 174, 183, 192, 201, 212, 222, 234, 245, 258, 271, 284, 299, 314, 329, 345, 362, 380, 398, 416, 436, 455, 476, 496, 517, 539, 561, 582, 604, 626, 648, 670, 691] [37, 39, 40, 41, 43, 45, 46, 48, 50, 52, 54, 57, 59, 61, 64, 67, 69, 72, 76, 79, 82, 86, 90, 94, 99, 103, 108, 113, 119, 124, 130, 137, 143, 150, 158, 166, 174, 183, 192, 201, 212, 222, 234, 245, 258, 271, 284, 299, 314, 329, 345, 362, 380, 398, 416, 436, 455, 476, 496, 517, 539, 561, 582, 604, 626, 648, 670, 691, 713]
      692 21 307 713 714 329 712
      rfl rfl rfl rfl (by norm_num) rfl (by norm_num) (by norm_num)
      (Or.inr (by unfold tx2N tx2R; exact txT_ge_of _ _ _ _ rlbC_5.2.2.2.2.2.2.2.2.1.1 (le_of_lt rlbC_5.2.2.2.2.2.2.2.2.1.2) (by unfold tZero TXBETA2; norm_num) (by unfold tZero TXBETA2; norm_num)))
      (by unfold tx2N tx2R; exact txT_lt_of _ _ _ rlbC_5.2.2.2.2.2.2.2.2.2.1.1 (by unfold tZero TXBETA2; norm_num) (by unfold tZero TXBETA2; norm_num))
  have e69 : List.foldl (selStep tx2N (3.15 : ℝ)) ((82.65 : ℝ), [37, 39, 40, 41, 43, 45, 46, 48, 50, 52, 54, 57, 59, 61, 64, 67, 69, 72, 76, 79, 82, 86, 90, 94, 99, 103, 108, 113, 119, 124, 130, 137, 143, 150, 158, 166, 174, 183, 192, 201, 212, 222, 234, 245, 258, 271, 284, 299, 314, 329, 345, 362, 380, 398, 416, 436, 455, 476, 496, 517, 539, 561, 582, 604, 626, 648, 670, 691, 713])
      (List.range' 714 307)
      = List.foldl (selStep tx2N (3.15 : ℝ)) ((79.5 : ℝ), [37, 39, 40, 41, 43, 45, 46, 48, 50, 52, 54, 57, 59, 61, 64, 67, 69, 72, 76, 79, 82, 86, 90, 94, 99, 103, 108, 113, 119, 124, 130, 137, 143, 150, 158, 166, 174, 183, 192, 201, 212, 222, 234, 245, 258, 271, 284, 299, 314, 329, 345, 362, 380, 398, 416, 436, 455, 476, 496, 517, 539, 561, 582, 604, 626, 648, 670, 691, 713, 733])
      (List.range' 734 287) :=
    run_segment (3.15 : ℝ) (82.65 : ℝ) (79.5 : ℝ) [37, 39, 40, 41, 43, 45, 46, 48, 50, 52, 54, 57, 59, 61, 64, 67, 69, 72, 76, 79, 82, 86, 90, 94, 99, 103, 108, 113, 119, 124, 130, 137, 143, 150, 158, 166, 174, 183, 192, 201, 212, 222, 234, 245, 258, 271, 284, 299, 314, 329, 345, 362, 380, 398, 416, 436, 455, 476, 496, 517, 539, 561, 582, 604, 626, 648, 670, 691, 713] [37, 39, 40, 41, 43, 45, 46, 48, 50, 52, 54, 57, 59, 61, 64, 67, 69, 72, 76, 79, 82, 86, 90, 94, 99, 103, 108, 113, 119, 124, 130, 137, 143, 150, 158, 166, 174, 183, 192, 201, 212, 222, 234, 245, 258, 271, 284, 299, 314, 329, 345, 362, 380, 398, 416, 436, 455, 476, 496, 517, 539, 561, 582, 604, 626, 648, 670, 691, 713, 733]
      714 19 287 733 734 307 732
      rfl rfl rfl rfl (by norm_num) rfl (by norm_num) (by norm_num)
      (Or.inr (by unfold tx2N tx2R; exact txT_ge_of _ _ _ _ rlbC_5.2.2.2.2.2.2.2.2.2.2.1.1 (le_of_lt rlbC_5.2.2.2.2.2.2.2.2.2.2.1.2) (by unfold tZero TXBETA2; norm_num) (by unfold tZero TXBETA2; norm_num)))
      (by unfold tx2N tx2R; exact txT_lt_of _ _ _ rlbC_5.2.2.2.2.2.2.2.2.2.2.2.1.1 (by unfold tZero TXBETA2; norm_num) (by unfold tZero TXBETA2; norm_num))
  have e70 : List.foldl (selStep tx2N (3.15 : ℝ)) ((79.5 : ℝ), [37, 39, 40, 41, 43, 45, 46, 48, 50, 52, 54, 57, 59, 61, 64, 67, 69, 72, 76, 79, 82, 86, 90, 94, 99, 103, 108, 113, 119, 124, 130, 137, 143, 150, 158, 166, 174, 183, 192, 201, 212, 222, 234, 245, 258, 271, 284, 299, 314, 329, 345, 362, 380, 398, 416, 436, 455, 476, 496, 517, 539, 561, 582, 604, 626, 648, 670, 691, 713, 733])
      (List.range' 734 287)
      = List.foldl (selStep tx2N (3.15 : ℝ)) ((76.35 : ℝ), [37, 39, 40, 41, 43, 45, 46, 48, 50, 52, 54, 57, 59, 61, 64, 67, 69, 72, 76, 79, 82, 86, 90, 94, 99, 103, 108, 113, 119, 124, 130, 137, 143, 150, 158, 166, 174, 183, 192, 201, 212, 222, 234, 245, 258, 271, 284, 299, 314, 329, 345, 362, 380, 398, 416, 436, 455, 476, 496, 517, 539, 561, 582, 604, 626, 648, 670, 691, 713, 733, 754])
      (List.range' 755 266) :=
    run_segment (3.15 : ℝ) (79.5 : ℝ) (76.35 : ℝ) [37, 39, 40, 41, 43, 45, 46, 48, 50, 52, 54, 57, 59, 61, 64, 67, 69, 72, 76, 79, 82, 86, 90, 94, 99, 103, 108, 113, 119, 124, 130, 137, 143, 150, 158, 166, 174, 183, 192, 201, 212, 222, 234, 245, 258, 271, 284, 299, 314, 329, 345, 362, 380, 398, 416, 436, 455, 476, 496, 517, 539, 561, 582, 604, 626, 648, 670, 691, 713, 733] [37, 39, 40, 41, 43, 45, 46, 48, 50, 52, 54, 57, 59, 61, 64, 67, 69, 72, 76, 79, 82, 86, 90, 94, 99, 103, 108, 113, 119, 124, 130, 137, 143, 150, 158, 166, 174, 183, 192, 201, 212, 222, 234, 245, 258, 271, 284, 299, 314, 329, 345, 362, 380, 398, 416, 436, 455, 476, 496, 517, 539, 561, 582, 604, 626, 648, 670, 691, 713, 733, 754]
      734 20 266 754 755 287 753
      rfl rfl rfl rfl (by norm_num) rfl (by norm_num) (by norm_num)
      (Or.inr (by unfold tx2N tx2R; exact txT_ge_of _ _ _ _ rlbC_5.2.2.2.2.2.2.2.2.2.2.2.2.1.1 (le_of_lt rlbC_5.2.2.2.2.2.2.2.2.2.2.2.2.1.2) (by unfold tZero TXBETA2; norm_num) (by unfold tZero TXBETA2; norm_num)))
      (by unfold tx2N tx2R; exact txT_lt_of _ _ _ rlbC_5.2.2.2.2.2.2.2.2.2.2.2.2.2.1.1 (by unfold tZero TXBETA2; norm_num) (by unfold tZero TXBETA2; norm_num))
  have e71 : List.foldl (selStep tx2N (3.15 : ℝ)) ((76.35 : ℝ), [37, 39, 40, 41, 43, 45, 46, 48, 50, 52, 54, 57, 59, 61, 64, 67, 69, 72, 76, 79, 82, 86, 90, 94, 99, 103, 108, 113, 119, 124, 130, 137, 143, 150, 158, 166, 174, 183, 192, 201, 212, 222, 234, 245, 258, 271, 284, 299, 314, 329, 345, 362, 380, 398, 416, 436, 455, 476, 496, 517, 539, 561, 582, 604, 626, 648, 670, 691, 713, 733, 754])
      (List.range' 755 266)
      = List.foldl (selStep tx2N (3.15 : ℝ)) ((73.2 : ℝ), [37, 39, 40, 41, 43, 45, 46, 48, 50, 52, 54, 57, 59, 61, 64, 67, 69, 72, 76, 79, 82, 86, 90, 94, 99, 103, 108, 113, 119, 124, 130, 137, 143, 150, 158, 166, 174, 183, 192, 201, 212, 222, 234, 245, 258, 271, 284, 299, 314, 329, 345, 362, 380, 398, 416, 436, 455, 476, 496, 517, 539, 561, 582, 604, 626, 648, 670, 691, 713, 733, 754, 773])
      (List.range' 774 247) :=
    run_segment (3.15 : ℝ) (76.35 : ℝ) (73.2 : ℝ) [37, 39, 40, 41, 43, 45, 46, 48, 50, 52, 54, 57, 59, 61, 64, 67, 69, 72, 76, 79, 82, 86, 90, 94, 99, 103, 108, 113, 119, 124, 130, 137, 143, 150, 158, 166, 174, 183, 192, 201, 212, 222, 234, 245, 258, 271, 284, 299, 314, 329, 345, 362, 380, 398, 416, 436, 455, 476, 496, 517, 539, 561, 582, 604, 626, 648, 670, 691, 713, 733, 754] [37, 39, 40, 41, 43, 45, 46, 48, 50, 52, 54, 57, 59, 61, 64, 67, 69, 72, 76, 79, 82, 86, 90, 94, 99, 103, 108, 113, 119, 124, 130, 137, 143, 150, 158, 166, 174, 183, 192, 201, 212, 222, 234, 245, 258, 271, 284, 299, 314, 329, 345, 362, 380, 398, 416, 436, 455, 476, 496, 517, 539, 561, 582, 604, 626, 648, 670, 691, 713, 733, 754, 773]
      755 18 247 773 774 266 772
      rfl rfl rfl rfl (by norm_num) rfl (by norm_num) (by norm_num)
      (Or.inr (by unfold tx2N tx2R; exact txT_ge_of _ _ _ _ rlbC_5.2.2.2.2.2.2.2.2.2.2.2.2.2.2.1.1 (le_of_lt rlbC_5.2.2.2.2.2.2.2.2.2.2.2.2.2.2.1.2) (by unfold tZero TXBETA2; norm_num) (by unfold tZero TXBETA2; norm_num)))
      (by unfold tx2N tx2R; exact txT_lt_of _ _ _ rlbC_5.2.2.2.2.2.2.2.2.2.2.2.2.2.2.2.1.1 (by unfold tZero TXBETA2; norm_num) (by unfold tZero TXBETA2; norm_num))
  have e72 : List.foldl (selStep tx2N (3.15 : ℝ)) ((73.2 : ℝ), [37, 39, 40, 41, 43, 45, 46, 48, 50, 52, 54, 57, 59, 61, 64, 67, 69, 72, 76, 79, 82, 86, 90, 94, 99, 103, 108, 113, 119, 124, 130, 137, 143, 150, 158, 166, 174, 183, 192, 201, 212, 222, 234, 245, 258, 271, 284, 299, 314, 329, 345, 362, 380, 398, 416, 436, 455, 476, 496, 517, 539, 561, 582, 604, 626, 648, 670, 691, 713, 733, 754, 773])
      (List.range' 774 247)
      = List.foldl (selStep tx2N (3.15 : ℝ)) ((70.05 : ℝ), [37, 39, 40, 41, 43, 45, 46, 48, 50, 52, 54, 57, 59, 61, 64, 67, 69, 72, 76, 79, 82, 86, 90, 94, 99, 103, 108, 113, 119, 124, 130, 137, 143, 150, 158, 166, 174, 183, 192, 201, 212, 222, 234, 245, 258, 271, 284, 299, 314, 329, 345, 362, 380, 398, 416, 436, 455, 476, 496, 517, 539, 561, 582, 604, 626, 648, 670, 691, 713, 733, 754, 773, 792])
      (List.range' 793 228) :=
    run_segment (3.15 : ℝ) (73.2 : ℝ) (70.05 : ℝ) [37, 39, 40, 41, 43, 45, 46, 48, 50, 52, 54, 57, 59, 61, 64, 67, 69, 72, 76, 79, 82, 86, 90, 94, 99, 103, 108, 113, 119, 124, 130, 137, 143, 150, 158, 166, 174, 183, 192, 201, 212, 222, 234, 245, 258, 271, 284, 299, 314, 329, 345, 362, 380, 398, 416, 436, 455, 476, 496, 517, 539, 561, 582, 604, 626, 648, 670, 691, 713, 733, 754, 773] [37, 39, 40, 41, 43, 45, 46, 48, 50, 52, 54, 57, 59, 61, 64, 67, 69, 72, 76, 79, 82, 86, 90, 94, 99, 103, 108, 113, 119, 124, 130, 137, 143, 150, 158, 166, 174, 183, 192, 201, 212, 222, 234, 245, 258, 271, 284, 299, 314, 329, 345, 362, 380, 398, 416, 436, 455, 476, 496, 517, 539, 561, 582, 604, 626, 648, 670, 691, 713, 733, 754, 773, 792]
      774 18 228 792 793 247 791
      rfl rfl rfl rfl (by norm_num) rfl (by norm_num) (by norm_num)
      (Or.inr (by unfold tx2N tx2R; exact txT_ge_of _ _ _ _ rlbC_5.2.2.2.2.2.2.2.2.2.2.2.2.2.2.2.2.1.1 (le_of_lt rlbC_5.2.2.2.2.2.2.2.2.2.2.2.2.2.2.2.2.1.2) (by unfold tZero TXBETA2; norm_num) (by unfold tZero TXBETA2; norm_num)))
      (by unfold tx2N tx2R; exact txT_lt_of _ _ _ rlbC_5.2.2.2.2.2.2.2.2.2.2.2.2.2.2.2.2.2.1.1 (by unfold tZero TXBETA2; norm_num) (by unfold tZero TXBETA2; norm_num))
  have e73 : List.foldl (selStep tx2N (3.15 : ℝ)) ((70.05 : ℝ), [37, 39, 40, 41, 43, 45, 46, 48, 50, 52, 54, 57, 59, 61, 64, 67, 69, 72, 76, 79, 82, 86, 90, 94, 99, 103, 108, 113, 119, 124, 130, 137, 143, 150, 158, 166, 174, 183, 192, 201, 212, 222, 234, 245, 258, 271, 284, 299, 314, 329, 345, 362, 380, 398, 416, 436, 455, 476, 496, 517, 539, 561, 582, 604, 626, 648, 670, 691, 713, 733, 754, 773, 792])
      (List.range' 793 228)
      = List.foldl (selStep tx2N (3.15 : ℝ)) ((66.9 : ℝ), [37, 39, 40, 41, 43, 45, 46, 48, 50, 52, 54, 57, 59, 61, 64, 67, 69, 72, 76, 79, 82, 86, 90, 94, 99, 103, 108, 113, 119, 124, 130, 137, 143, 150, 158, 166, 174, 183, 192, 201, 212, 222, 234, 245, 258, 271, 284, 299, 314, 329, 345, 362, 380, 398, 416, 436, 455, 476, 496, 517, 539, 561, 582, 604, 626, 648, 670, 691, 713, 733, 754, 773, 792, 810])
      (List.range' 811 210) :=
    run_segment (3.15 : ℝ) (70.05 : ℝ) (66.9 : ℝ) [37, 39, 40, 41, 43, 45, 46, 48, 50, 52, 54, 57, 59, 61, 64, 67, 69, 72, 76, 79, 82, 86, 90, 94, 99, 103, 108, 113, 119, 124, 130, 137, 143, 150, 158, 166, 174, 183, 192, 201, 212, 222, 234, 245, 258, 271, 284, 299, 314, 329, 345, 362, 380, 398, 416, 436, 455, 476, 496, 517, 539, 561, 582, 604, 626, 648, 670, 691, 713, 733, 754, 773, 792] [37, 39, 40, 41, 43, 45, 46, 48, 50, 52, 54, 57, 59, 61, 64, 67, 69, 72, 76, 79, 82, 86, 90, 94, 99, 103, 108, 113, 119, 124, 130, 137, 143, 150, 158, 166, 174, 183, 192, 201, 212, 222, 234, 245, 258, 271, 284, 299, 314, 329, 345, 362, 380, 398, 416, 436, 455, 476, 496, 517, 539, 561, 582, 604, 626, 648, 670, 691, 713, 733, 754, 773, 792, 810]
      793 17 210 810 811 228 809
      rfl rfl rfl rfl (by norm_num) rfl (by norm_num) (by norm_num)
      (Or.inr (by unfold tx2N tx2R; exact txT_ge_of _ _ _ _ rlbC_5.2.2.2.2.2.2.2.2.2.2.2.2.2.2.2.2.2.2.1.1 (le_of_lt rlbC_5.2.2.2.2.2.2.2.2.2.2.2.2.2.2.2.2.2.2.1.2) (by unfold tZero TXBETA2; norm_num) (by unfold tZero TXBETA2; norm_num)))
      (by unfold tx2N tx2R; exact txT_lt_of _ _ _ rlbC_5.2.2.2.2.2.2.2.2.2.2.2.2.2.2.2.2.2.2.2.1.1 (by unfold tZero TXBETA2; norm_num) (by unfold tZero TXBETA2; norm_num))
  have e74 : List.foldl (selStep tx2N (3.15 : ℝ)) ((66.9 : ℝ), [37, 39, 40, 41, 43, 45, 46, 48, 50, 52, 54, 57, 59, 61, 64, 67, 69, 72, 76, 79, 82, 86, 90, 94, 99, 103, 108, 113, 119, 124, 130, 137, 143, 150, 158, 166, 174, 183, 192, 201, 212, 222, 234, 245, 258, 271, 284, 299, 314, 329, 345, 362, 380, 398, 416, 436, 455, 476, 496, 517, 539, 561, 582, 604, 626, 648, 670, 691, 713, 733, 754, 773, 792, 810])
      (List.range' 811 210)
      = List.foldl (selStep tx2N (3.15 : ℝ)) ((63.75 : ℝ), [37, 39, 40, 41, 43, 45, 46, 48, 50, 52, 54, 57, 59, 61, 64, 67, 69, 72, 76, 79, 82, 86, 90, 94, 99, 103, 108, 113, 119, 124, 130, 137, 143, 150, 158, 166, 174, 183, 192, 201, 212, 222, 234, 245, 258, 271, 284, 299, 314, 329, 345, 362, 380, 398, 416, 436, 455, 476, 496, 517, 539, 561, 582, 604, 626, 648, 670, 691, 713, 733, 754, 773, 792, 810, 828])
      (List.range' 829 192) :=
    run_segment (3.15 : ℝ) (66.9 : ℝ) (63.75 : ℝ) [37, 39, 40, 41, 43, 45, 46, 48, 50, 52, 54, 57, 59, 61, 64, 67, 69, 72, 76, 79, 82, 86, 90, 94, 99, 103, 108, 113, 119, 124, 130, 137, 143, 150, 158, 166, 174, 183, 192, 201, 212, 222, 234, 245, 258, 271, 284, 299, 314, 329, 345, 362, 380, 398, 416, 436, 455, 476, 496, 517, 539, 561, 582, 604, 626, 648, 670, 691, 713, 733, 754, 773, 792, 810] [37, 39, 40, 41, 43, 45, 46, 48, 50, 52, 54, 57, 59, 61, 64, 67, 69, 72, 76, 79, 82, 86, 90, 94, 99, 103, 108, 113, 119, 124, 130, 137, 143, 150, 158, 166, 174, 183, 192, 201, 212, 222, 234, 245, 258, 271, 284, 299, 314, 329, 345, 362, 380, 398, 416, 436, 455, 476, 496, 517, 539, 561, 582, 604, 626, 648, 670, 691, 713, 733, 754, 773, 792, 810, 828]
      811 17 192 828 829 210 827
      rfl rfl rfl rfl (by norm_num) rfl (by norm_num) (by norm_num)
      (Or.inr (by unfold tx2N tx2R; exact txT_ge_of _ _ _ _ rlbC_5.2.2.2.2.2.2.2.2.2.2.2.2.2.2.2.2.2.2.2.2.1.1 (le_of_lt rlbC_5.2.2.2.2.2.2.2.2.2.2.2.2.2.2.2.2.2.2.2.2.1.2) (by unfold tZero TXBETA2; norm_num) (by unfold tZero TXBETA2; norm_num)))
      (by unfold tx2N tx2R; exact txT_lt_of _ _ _ rlbC_5.2.2.2.2.2.2.2.2.2.2.2.2.2.2.2.2.2.2.2.2.2.1.1 (by unfold tZero TXBETA2; norm_num) (by unfold tZero TXBETA2; norm_num))
  have e75 : List.foldl (selStep tx2N (3.15 : ℝ)) ((63.75 : ℝ), [37, 39, 40, 41, 43, 45, 46, 48, 50, 52, 54, 57, 59, 61, 64, 67, 69, 72, 76, 79, 82, 86, 90, 94, 99, 103, 108, 113, 119, 124, 130, 137, 143, 150, 158, 166, 174, 183, 192, 201, 212, 222, 234, 245, 258, 271, 284, 299, 314, 329, 345, 362, 380, 398, 416, 436, 455, 476, 496, 517, 539, 561, 582, 604, 626, 648, 670, 691, 713, 733, 754, 773, 792, 810, 828])
      (List.range' 829 192)
      = List.foldl (selStep tx2N (3.15 : ℝ)) ((60.6 : ℝ), [37, 39, 40, 41, 43, 45, 46, 48, 50, 52, 54, 57, 59, 61, 64, 67, 69, 72, 76, 79, 82, 86, 90, 94, 99, 103, 108, 113, 119, 124, 130, 137, 143, 150, 158, 166, 174, 183, 192, 201, 212, 222, 234, 245, 258, 271, 284, 299, 314, 329, 345, 362, 380, 398, 416, 436, 455, 476, 496, 517, 539, 561, 582, 604, 626, 648, 670, 691, 713, 733, 754, 773, 792, 810, 828, 845])
      (List.range' 846 175) :=
    run_segment (3.15 : ℝ) (63.75 : ℝ) (60.6 : ℝ) [37, 39, 40, 41, 43, 45, 46, 48, 50, 52, 54, 57, 59, 61, 64, 67, 69, 72, 76, 79, 82, 86, 90, 94, 99, 103, 108, 113, 119, 124, 130, 137, 143, 150, 158, 166, 174, 183, 192, 201, 212, 222, 234, 245, 258, 271, 284, 299, 314, 329, 345, 362, 380, 398, 416, 436, 455, 476, 496, 517, 539, 561, 582, 604, 626, 648, 670, 691, 713, 733, 754, 773, 792, 810, 828] [37, 39, 40, 41, 43, 45, 46, 48, 50, 52, 54, 57, 59, 61, 64, 67, 69, 72, 76, 79, 82, 86, 90, 94, 99, 103, 108, 113, 119, 124, 130, 137, 143, 150, 158, 166, 174, 183, 192, 201, 212, 222, 234, 245, 258, 271, 284, 299, 314, 329, 345, 362, 380, 398, 416, 436, 455, 476, 496, 517, 539, 561, 582, 604, 626, 648, 670, 691, 713, 733, 754, 773, 792, 810, 828, 845]
      829 16 175 845 846 192 844
      rfl rfl rfl rfl (by norm_num) rfl (by norm_num) (by norm_num)
      (Or.inr (by unfold tx2N tx2R; exact txT_ge_of _ _ _ _ rlbC_5.2.2.2.2.2.2.2.2.2.2.2.2.2.2.2.2.2.2.2.2.2.2.1.1 (le_of_lt rlbC_5.2.2.2.2.2.2.2.2.2.2.2.2.2.2.2.2.2.2.2.2.2.2.1.2) (by unfold tZero TXBETA2; norm_num) (by unfold tZero TXBETA2; norm_num)))
      (by unfold tx2N tx2R; exact txT_lt_of _ _ _ rlbC_5.2.2.2.2.2.2.2.2.2.2.2.2.2.2.2.2.2.2.2.2.2.2.2.1.1 (by unfold tZero TXBETA2; norm_num) (by unfold tZero TXBETA2; norm_num))
  have e76 : List.foldl (selStep tx2N (3.15 : ℝ)) ((60.6 : ℝ), [37, 39, 40, 41, 43, 45, 46, 48, 50, 52, 54, 57, 59, 61, 64, 67, 69, 72, 76, 79, 82, 86, 90, 94, 99, 103, 108, 113, 119, 124, 130, 137, 143, 150, 158, 166, 174, 183, 192, 201, 212, 222, 234, 245, 258, 271, 284, 299, 314, 329, 345, 362, 380, 398, 416, 436, 455, 476, 496, 517, 539, 561, 582, 604, 626, 648, 670, 691, 713, 733, 754, 773, 792, 810, 828, 845])
      (List.range' 846 175)
      = List.foldl (selStep tx2N (3.15 : ℝ)) ((57.45 : ℝ), [37, 39, 40, 41, 43, 45, 46, 48, 50, 52, 54, 57, 59, 61, 64, 67, 69, 72, 76, 79, 82, 86, 90, 94, 99, 103, 108, 113, 119, 124, 130, 137, 143, 150, 158, 166, 174, 183, 192, 201, 212, 222, 234, 245, 258, 271, 284, 299, 314, 329, 345, 362, 380, 398, 416, 436, 455, 476, 496, 517, 539, 561, 582, 604, 626, 648, 670, 691, 713, 733, 754, 773, 792, 810, 828, 845, 860])
      (List.range' 861 160) :=
    run_segment (3.15 : ℝ) (60.6 : ℝ) (57.45 : ℝ) [37, 39, 40, 41, 43, 45, 46, 48, 50, 52, 54, 57, 59, 61, 64, 67, 69, 72, 76, 79, 82, 86, 90, 94, 99, 103, 108, 113, 119, 124, 130, 137, 143, 150, 158, 166, 174, 183, 192, 201, 212, 222, 234, 245, 258, 271, 284, 299, 314, 329, 345, 362, 380, 398, 416, 436, 455, 476, 496, 517, 539, 561, 582, 604, 626, 648, 670, 691, 713, 733, 754, 773, 792, 810, 828, 845] [37, 39, 40, 41, 43, 45, 46, 48, 50, 52, 54, 57, 59, 61, 64, 67, 69, 72, 76, 79, 82, 86, 90, 94, 99, 103, 108, 113, 119, 124, 130, 137, 143, 150, 158, 166, 174, 183, 192, 201, 212, 222, 234, 245, 258, 271, 284, 299, 314, 329, 345, 362, 380, 398, 416, 436, 455, 476, 496, 517, 539, 561, 582, 604, 626, 648, 670, 691, 713, 733, 754, 773, 792, 810, 828, 845, 860]
      846 14 160 860 861 175 859
      rfl rfl rfl rfl (by norm_num) rfl (by norm_num) (by norm_num)
      (Or.inr (by unfold tx2N tx2R; exact txT_ge_of _ _ _ _ rlbC_5.2.2.2.2.2.2.2.2.2.2.2.2.2.2.2.2.2.2.2.2.2.2.2.2.1 (le_of_lt rlbC_5.2.2.2.2.2.2.2.2.2.2.2.2.2.2.2.2.2.2.2.2.2.2.2.2.2) (by unfold tZero TXBETA2; norm_num) (by unfold tZero TXBETA2; norm_num)))
      (by unfold tx2N tx2R; exact txT_lt_of _ _ _ rlbC_6.1.1 (by unfold tZero TXBETA2; norm_num) (by unfold tZero TXBETA2; norm_num))
  have e77 : List.foldl (selStep tx2N (3.15 : ℝ)) ((57.45 : ℝ), [37, 39, 40, 41, 43, 45, 46, 48, 50, 52, 54, 57, 59, 61, 64, 67, 69, 72, 76, 79, 82, 86, 90, 94, 99, 103, 108, 113, 119, 124, 130, 137, 143, 150, 158, 166, 174, 183, 192, 201, 212, 222, 234, 245, 258, 271, 284, 299, 314, 329, 345, 362, 380, 398, 416, 436, 455, 476, 496, 517, 539, 561, 582, 604, 626, 648, 670, 691, 713, 733, 754, 773, 792, 810, 828, 845, 860])
      (List.range' 861 160)
      = List.foldl (selStep tx2N (3.15 : ℝ)) ((54.3 : ℝ), [37, 39, 40, 41, 43, 45, 46, 48, 50, 52, 54, 57, 59, 61, 64, 67, 69, 72, 76, 79, 82, 86, 90, 94, 99, 103, 108, 113, 119, 124, 130, 137, 143, 150, 158, 166, 174, 183, 192, 201, 212, 222, 234, 245, 258, 271, 284, 299, 314, 329, 345, 362, 380, 398, 416, 436, 455, 476, 496, 517, 539, 561, 582, 604, 626, 648, 670, 691, 713, 733, 754, 773, 792, 810, 828, 845, 860, 875])
      (List.range' 876 145) :=
    run_segment (3.15 : ℝ) (57.45 : ℝ) (54.3 : ℝ) [37, 39, 40, 41, 43, 45, 46, 48, 50, 52, 54, 57, 59, 61, 64, 67, 69, 72, 76, 79, 82, 86, 90, 94, 99, 103, 108, 113, 119, 124, 130, 137, 143, 150, 158, 166, 174, 183, 192, 201, 212, 222, 234, 245, 258, 271, 284, 299, 314, 329, 345, 362, 380, 398, 416, 436, 455, 476, 496, 517, 539, 561, 582, 604, 626, 648, 670, 691, 713, 733, 754, 773, 792, 810, 828, 845, 860] [37, 39, 40, 41, 43, 45, 46, 48, 50, 52, 54, 57, 59, 61, 64, 67, 69, 72, 76, 79, 82, 86, 90, 94, 99, 103, 108, 113, 119, 124, 130, 137, 143, 150, 158, 166, 174, 183, 192, 201, 212, 222, 234, 245, 258, 271, 284, 299, 314, 329, 345, 362, 380, 398, 416, 436, 455, 476, 496, 517, 539, 561, 582, 604, 626, 648, 670, 691, 713, 733, 754, 773, 792, 810, 828, 845, 860, 875]
      861 14 145 875 876 160 874
      rfl rfl rfl rfl (by norm_num) rfl (by norm_num) (by norm_num)
      (Or.inr (by unfold tx2N tx2R; exact txT_ge_of _ _ _ _ rlbC_6.2.1.1 (le_of_lt rlbC_6.2.1.2) (by unfold tZero TXBETA2; norm_num) (by unfold tZero TXBETA2; norm_num)))
      (by unfold tx2N tx2R; exact txT_lt_of _ _ _ rlbC_6.2.2.1.1 (by unfold tZero TXBETA2; norm_num) (by unfold tZero TXBETA2; norm_num))
  have e78 : List.foldl (selStep tx2N (3.15 : ℝ)) ((54.3 : ℝ), [37, 39, 40, 41, 43, 45, 46, 48, 50, 52, 54, 57, 59, 61, 64, 67, 69, 72, 76, 79, 82, 86, 90, 94, 99, 103, 108, 113, 119, 124, 130, 137, 143, 150, 158, 166, 174, 183, 192, 201, 212, 222, 234, 245, 258, 271, 284, 299, 314, 329, 345, 362, 380, 398, 416, 436, 455, 476, 496, 517, 539, 561, 582, 604, 626, 648, 670, 691, 713, 733, 754, 773, 792, 810, 828, 845, 860, 875])
      (List.range' 876 145)
      = List.foldl (selStep tx2N (3.15 : ℝ)) ((51.15 : ℝ), [37, 39, 40, 41, 43, 45, 46, 48, 50, 52, 54, 57, 59, 61, 64, 67, 69, 72, 76, 79, 82, 86, 90, 94, 99, 103, 108, 113, 119, 124, 130, 137, 143, 150, 158, 166, 174, 183, 192, 201, 212, 222, 234, 245, 258, 271, 284, 299, 314, 329, 345, 362, 380, 398, 416, 436, 455, 476, 496, 517, 539, 561, 582, 604, 626, 648, 670, 691, 713, 733, 754, 773, 792, 810, 828, 845, 860, 875, 889])
      (List.range' 890 131) :=
    run_segment (3.15 : ℝ) (54.3 : ℝ) (51.15 : ℝ) [37, 39, 40, 41, 43, 45, 46, 48, 50, 52, 54, 57, 59, 61, 64, 67, 69, 72, 76, 79, 82, 86, 90, 94, 99, 103, 108, 113, 119, 124, 130, 137, 143, 150, 158, 166, 174, 183, 192, 201, 212, 222, 234, 245, 258, 271, 284, 299, 314, 329, 345, 362, 380, 398, 416, 436, 455, 476, 496, 517, 539, 561, 582, 604, 626, 648, 670, 691, 713, 733, 754, 773, 792, 810, 828, 845, 860, 875] [37, 39, 40, 41, 43, 45, 46, 48, 50, 52, 54, 57, 59, 61, 64, 67, 69, 72, 76, 79, 82, 86, 90, 94, 99, 103, 108, 113, 119, 124, 130, 137, 143, 150, 158, 166, 174, 183, 192, 201, 212, 222, 234, 245, 258, 271, 284, 299, 314, 329, 345, 362, 380, 398, 416, 436, 455, 476, 496, 517, 539, 561, 582, 604, 626, 648, 670, 691, 713, 733, 754, 773, 792, 810, 828, 845, 860, 875, 889]
      876 13 131 889 890 145 888
      rfl rfl rfl rfl (by norm_num) rfl (by norm_num) (by norm_num)
      (Or.inr (by unfold tx2N tx2R; exact txT_ge_of _ _ _ _ rlbC_6.2.2.2.1.1 (le_of_lt rlbC_6.2.2.2.1.2) (by unfold tZero TXBETA2; norm_num) (by unfold tZero TXBETA2; norm_num)))
      (by unfold tx2N tx2R; exact txT_lt_of _ _ _ rlbC_6.2.2.2.2.1.1 (by unfold tZero TXBETA2; norm_num) (by unfold tZero TXBETA2; norm_num))
  have e79 : List.foldl (selStep tx2N (3.15 : ℝ)) ((51.15 : ℝ), [37, 39, 40, 41, 43, 45, 46, 48, 50, 52, 54, 57, 59, 61, 64, 67, 69, 72, 76, 79, 82, 86, 90, 94, 99, 103, 108, 113, 119, 124, 130, 137, 143, 150, 158, 166, 174, 183, 192, 201, 212, 222, 234, 245, 258, 271, 284, 299, 314, 329, 345, 362, 380, 398, 416, 436, 455, 476, 496, 517, 539, 561, 582, 604, 626, 648, 670, 691, 713, 733, 754, 773, 792, 810, 828, 845, 860, 875, 889])
      (List.range' 890 131)
      = List.foldl (selStep tx2N (3.15 : ℝ)) ((48 : ℝ), [37, 39, 40, 41, 43, 45, 46, 48, 50, 52, 54, 57, 59, 61, 64, 67, 69, 72, 76, 79, 82, 86, 90, 94, 99, 103, 108, 113, 119, 124, 130, 137, 143, 150, 158, 166, 174, 183, 192, 201, 212, 222, 234, 245, 258, 271, 284, 299, 314, 329, 345, 362, 380, 398, 416, 436, 455, 476, 496, 517, 539, 561, 582, 604, 626, 648, 670, 691, 713, 733, 754, 773, 792, 810, 828, 845, 860, 875, 889, 902])
      (List.range' 903 118) :=
    run_segment (3.15 : ℝ) (51.15 : ℝ) (48 : ℝ) [37, 39, 40, 41, 43, 45, 46, 48, 50, 52, 54, 57, 59, 61, 64, 67, 69, 72, 76, 79, 82, 86, 90, 94, 99, 103, 108, 113, 119, 124, 130, 137, 143, 150, 158, 166, 174, 183, 192, 201, 212, 222, 234, 245, 258, 271, 284, 299, 314, 329, 345, 362, 380, 398, 416, 436, 455, 476, 496, 517, 539, 561, 582, 604, 626, 648, 670, 691, 713, 733, 754, 773, 792, 810, 828, 845, 860, 875, 889] [37, 39, 40, 41, 43, 45, 46, 48, 50, 52, 54, 57, 59, 61, 64, 67, 69, 72, 76, 79, 82, 86, 90, 94, 99, 103, 108, 113, 119, 124, 130, 137, 143, 150, 158, 166, 174, 183, 192, 201, 212, 222, 234, 245, 258, 271, 284, 299, 314, 329, 345, 362, 380, 398, 416, 436, 455, 476, 496, 517, 539, 561, 582, 604, 626, 648, 670, 691, 713, 733, 754, 773, 792, 810, 828, 845, 860, 875, 889, 902]
      890 12 118 902 903 131 901
      rfl rfl rfl rfl (by norm_num) rfl (by norm_num) (by norm_num)
      (Or.inr (by unfold tx2N tx2R; exact txT_ge_of _ _ _ _ rlbC_6.2.2.2.2.2.1.1 (le_of_lt rlbC_6.2.2.2.2.2.1.2) (by unfold tZero TXBETA2; norm_num) (by unfold tZero TXBETA2; norm_num)))
      (by unfold tx2N tx2R; exact txT_lt_of _ _ _ rlbC_6.2.2.2.2.2.2.1.1 (by unfold tZero TXBETA2; norm_num) (by unfold tZero TXBETA2; norm_num))
  have e80 : List.foldl (selStep tx2N (3.15 : ℝ)) ((48 : ℝ), [37, 39, 40, 41, 43, 45, 46, 48, 50, 52, 54, 57, 59, 61, 64, 67, 69, 72, 76, 79, 82, 86, 90, 94, 99, 103, 108, 113, 119, 124, 130, 137, 143, 150, 158, 166, 174, 183, 192, 201, 212, 222, 234, 245, 258, 271, 284, 299, 314, 329, 345, 362, 380, 398, 416, 436, 455, 476, 496, 517, 539, 561, 582, 604, 626, 648, 670, 691, 713, 733, 754, 773, 792, 810, 828, 845, 860, 875, 889, 902])
      (List.range' 903 118)
      = List.foldl (selStep tx2N (3.15 : ℝ)) ((44.85 : ℝ), [37, 39, 40, 41, 43, 45, 46, 48, 50, 52, 54, 57, 59, 61, 64, 67, 69, 72, 76, 79, 82, 86, 90, 94, 99, 103, 108, 113, 119, 124, 130, 137, 143, 150, 158, 166, 174, 183, 192, 201, 212, 222, 234, 245, 258, 271, 284, 299, 314, 329, 345, 362, 380, 398, 416, 436, 455, 476, 496, 517, 539, 561, 582, 604, 626, 648, 670, 691, 713, 733, 754, 773, 792, 810, 828, 845, 860, 875, 889, 902, 915])
      (List.range' 916 105) :=
    run_segment (3.15 : ℝ) (48 : ℝ) (44.85 : ℝ) [37, 39, 40, 41, 43, 45, 46, 48, 50, 52, 54, 57, 59, 61, 64, 67, 69, 72, 76, 79, 82, 86, 90, 94, 99, 103, 108, 113, 119, 124, 130, 137, 143, 150, 158, 166, 174, 183, 192, 201, 212, 222, 234, 245, 258, 271, 284, 299, 314, 329, 345, 362, 380, 398, 416, 436, 455, 476, 496, 517, 539, 561, 582, 604, 626, 648, 670, 691, 713, 733, 754, 773, 792, 810, 828, 845, 860, 875, 889, 902] [37, 39, 40, 41, 43, 45, 46, 48, 50, 52, 54, 57, 59, 61, 64, 67, 69, 72, 76, 79, 82, 86, 90, 94, 99, 103, 108, 113, 119, 124, 130, 137, 143, 150, 158, 166, 174, 183, 192, 201, 212, 222, 234, 245, 258, 271, 284, 299, 314, 329, 345, 362, 380, 398, 416, 436, 455, 476, 496, 517, 539, 561, 582, 604, 626, 648, 670, 691, 713, 733, 754, 773, 792, 810, 828, 845, 860, 875, 889, 902, 915]
      903 12 105 915 916 118 914
      rfl rfl rfl rfl (by norm_num) rfl (by norm_num) (by norm_num)
      (Or.inr (by unfold tx2N tx2R; exact txT_ge_of _ _ _ _ rlbC_6.2.2.2.2.2.2.2.1.1 (le_of_lt rlbC_6.2.2.2.2.2.2.2.1.2) (by unfold tZero TXBETA2; norm_num) (by unfold tZero TXBETA2; norm_num)))
      (by unfold tx2N tx2R; exact txT_lt_of _ _ _ rlbC_6.2.2.2.2.2.2.2.2.1.1 (by unfold tZero TXBETA2; norm_num) (by unfold tZero TXBETA2; norm_num))
  have e81 : List.foldl (selStep tx2N (3.15 : ℝ)) ((44.85 : ℝ), [37, 39, 40, 41, 43, 45, 46, 48, 50, 52, 54, 57, 59, 61, 64, 67, 69, 72, 76, 79, 82, 86, 90, 94, 99, 103, 108, 113, 119, 124, 130, 137, 143, 150, 158, 166, 174, 183, 192, 201, 212, 222, 234, 245, 258, 271, 284, 299, 314, 329, 345, 362, 380, 398, 416, 436, 455, 476, 496, 517, 539, 561, 582, 604, 626, 648, 670, 691, 713, 733, 754, 773, 792, 810, 828, 845, 860, 875, 889, 902, 915])
      (List.range' 916 105)
      = List.foldl (selStep tx2N (3.15 : ℝ)) ((41.7 : ℝ), [37, 39, 40, 41, 43, 45, 46, 48, 50, 52, 54, 57, 59, 61, 64, 67, 69, 72, 76, 79, 82, 86, 90, 94, 99, 103, 108, 113, 119, 124, 130, 137, 143, 150, 158, 166, 174, 183, 192, 201, 212, 222, 234, 245, 258, 271, 284, 299, 314, 329, 345, 362, 380, 398, 416, 436, 455, 476, 496, 517, 539, 561, 582, 604, 626, 648, 670, 691, 713, 733, 754, 773, 792, 810, 828, 845, 860, 875, 889, 902, 915, 926])
      (List.range' 927 94) :=
    run_segment (3.15 : ℝ) (44.85 : ℝ) (41.7 : ℝ) [37, 39, 40, 41, 43, 45, 46, 48, 50, 52, 54, 57, 59, 61, 64, 67, 69, 72, 76, 79, 82, 86, 90, 94, 99, 103, 108, 113, 119, 124, 130, 137, 143, 150, 158, 166, 174, 183, 192, 201, 212, 222, 234, 245, 258, 271, 284, 299, 314, 329, 345, 362, 380, 398, 416, 436, 455, 476, 496, 517, 539, 561, 582, 604, 626, 648, 670, 691, 713, 733, 754, 773, 792, 810, 828, 845, 860, 875, 889, 902, 915] [37, 39, 40, 41, 43, 45, 46, 48, 50, 52, 54, 57, 59, 61, 64, 67, 69, 72, 76, 79, 82, 86, 90, 94, 99, 103, 108, 113, 119, 124, 130, 137, 143, 150, 158, 166, 174, 183, 192, 201, 212, 222, 234, 245, 258, 271, 284, 299, 314, 329, 345, 362, 380, 398, 416, 436, 455, 476, 496, 517, 539, 561, 582, 604, 626, 648, 670, 691, 713, 733, 754, 773, 792, 810, 828, 845, 860, 875, 889, 902, 915, 926]
      916 10 94 926 927 105 925
      rfl rfl rfl rfl (by norm_num) rfl (by norm_num) (by norm_num)
      (Or.inr (by unfold tx2N tx2R; exact txT_ge_of _ _ _ _ rlbC_6.2.2.2.2.2.2.2.2.2.1.1 (le_of_lt rlbC_6.2.2.2.2.2.2.2.2.2.1.2) (by unfold tZero TXBETA2; norm_num) (by unfold tZero TXBETA2; norm_num)))
      (by unfold tx2N tx2R; exact txT_lt_of _ _ _ rlbC_6.2.2.2.2.2.2.2.2.2.2.1.1 (by unfold tZero TXBETA2; norm_num) (by unfold tZero TXBETA2; norm_num))
  have e82 : List.foldl (selStep tx2N (3.15 : ℝ)) ((41.7 : ℝ), [37, 39, 40, 41, 43, 45, 46, 48, 50, 52, 54, 57, 59, 61, 64, 67, 69, 72, 76, 79, 82, 86, 90, 94, 99, 103, 108, 113, 119, 124, 130, 137, 143, 150, 158, 166, 174, 183, 192, 201, 212, 222, 234, 245, 258, 271, 284, 299, 314, 329, 345, 362, 380, 398, 416, 436, 455, 476, 496, 517, 539, 561, 582, 604, 626, 648, 670, 691, 713, 733, 754, 773, 792, 810, 828, 845, 860, 875, 889, 902, 915, 926])
      (List.range' 927 94)
      = List.foldl (selStep tx2N (3.15 : ℝ)) ((38.55 : ℝ), [37, 39, 40, 41, 43, 45, 46, 48, 50, 52, 54, 57, 59, 61, 64, 67, 69, 72, 76, 79, 82, 86, 90, 94, 99, 103, 108, 113, 119, 124, 130, 137, 143, 150, 158, 166, 174, 183, 192, 201, 212, 222, 234, 245, 258, 271, 284, 299, 314, 329, 345, 362, 380, 398, 416, 436, 455, 476, 496, 517, 539, 561, 582, 604, 626, 648, 670, 691, 713, 733, 754, 773, 792, 810, 828, 845, 860, 875, 889, 902, 915, 926, 936])
      (List.range' 937 84) :=
    run_segment (3.15 : ℝ) (41.7 : ℝ) (38.55 : ℝ) [37, 39, 40, 41, 43, 45, 46, 48, 50, 52, 54, 57, 59, 61, 64, 67, 69, 72, 76, 79, 82, 86, 90, 94, 99, 103, 108, 113, 119, 124, 130, 137, 143, 150, 158, 166, 174, 183, 192, 201, 212, 222, 234, 245, 258, 271, 284, 299, 314, 329, 345, 362, 380, 398, 416, 436, 455, 476, 496, 517, 539, 561, 582, 604, 626, 648, 670, 691, 713, 733, 754, 773, 792, 810, 828, 845, 860, 875, 889, 902, 915, 926] [37, 39, 40, 41, 43, 45, 46, 48, 50, 52, 54, 57, 59, 61, 64, 67, 69, 72, 76, 79, 82, 86, 90, 94, 99, 103, 108, 113, 119, 124, 130, 137, 143, 150, 158, 166, 174, 183, 192, 201, 212, 222, 234, 245, 258, 271, 284, 299, 314, 329, 345, 362, 380, 398, 416, 436, 455, 476, 496, 517, 539, 561, 582, 604, 626, 648, 670, 691, 713, 733, 754, 773, 792, 810, 828, 845, 860, 875, 889, 902, 915, 926, 936]
      927 9 84 936 937 94 935
      rfl rfl rfl rfl (by norm_num) rfl (by norm_num) (by norm_num)
      (Or.inr (by unfold tx2N tx2R; exact txT_ge_of _ _ _ _ rlbC_6.2.2.2.2.2.2.2.2.2.2.2.1.1 (le_of_lt rlbC_6.2.2.2.2.2.2.2.2.2.2.2.1.2) (by unfold tZero TXBETA2; norm_num) (by unfold tZero TXBETA2; norm_num)))
      (by unfold tx2N tx2R; exact txT_lt_of _ _ _ rlbC_6.2.2.2.2.2.2.2.2.2.2.2.2.1.1 (by unfold tZero TXBETA2; norm_num) (by unfold tZero TXBETA2; norm_num))
  have e83 : List.foldl (selStep tx2N (3.15 : ℝ)) ((38.55 : ℝ), [37, 39, 40, 41, 43, 45, 46, 48, 50, 52, 54, 57, 59, 61, 64, 67, 69, 72, 76, 79, 82, 86, 90, 94, 99, 103, 108, 113, 119, 124, 130, 137, 143, 150, 158, 166, 174, 183, 192, 201, 212, 222, 234, 245, 258, 271, 284, 299, 314, 329, 345, 362, 380, 398, 416, 436, 455, 476, 496, 517, 539, 561, 582, 604, 626, 648, 670, 691, 713, 733, 754, 773, 792, 810, 828, 845, 860, 875, 889, 902, 915, 926, 936])
      (List.range' 937 84)
      = List.foldl (selStep tx2N (3.15 : ℝ)) ((35.4 : ℝ), [37, 39, 40, 41, 43, 45, 46, 48, 50, 52, 54, 57, 59, 61, 64, 67, 69, 72, 76, 79, 82, 86, 90, 94, 99, 103, 108, 113, 119, 124, 130, 137, 143, 150, 158, 166, 174, 183, 192, 201, 212, 222, 234, 245, 258, 271, 284, 299, 314, 329, 345, 362, 380, 398, 416, 436, 455, 476, 496, 517, 539, 561, 582, 604, 626, 648, 670, 691, 713, 733, 754, 773, 792, 810, 828, 845, 860, 875, 889, 902, 915, 926, 936, 946])
      (List.range' 947 74) :=
    run_segment (3.15 : ℝ) (38.55 : ℝ) (35.4 : ℝ) [37, 39, 40, 41, 43, 45, 46, 48, 50, 52, 54, 57, 59, 61, 64, 67, 69, 72, 76, 79, 82, 86, 90, 94, 99, 103, 108, 113, 119, 124, 130, 137, 143, 150, 158, 166, 174, 183, 192, 201, 212, 222, 234, 245, 258, 271, 284, 299, 314, 329, 345, 362, 380, 398, 416, 436, 455, 476, 496, 517, 539, 561, 582, 604, 626, 648, 670, 691, 713, 733, 754, 773, 792, 810, 828, 845, 860, 875, 889, 902, 915, 926, 936] [37, 39, 40, 41, 43, 45, 46, 48, 50, 52, 54, 57, 59, 61, 64, 67, 69, 72, 76, 79, 82, 86, 90, 94, 99, 103, 108, 113, 119, 124, 130, 137, 143, 150, 158, 166, 174, 183, 192, 201, 212, 222, 234, 245, 258, 271, 284, 299, 314, 329, 345, 362, 380, 398, 416, 436, 455, 476, 496, 517, 539, 561, 582, 604, 626, 648, 670, 691, 713, 733, 754, 773, 792, 810, 828, 845, 860, 875, 889, 902, 915, 926, 936, 946]
      937 9 74 946 947 84 945
      rfl rfl rfl rfl (by norm_num) rfl (by norm_num) (by norm_num)
      (Or.inr (by unfold tx2N tx2R; exact txT_ge_of _ _ _ _ rlbC_6.2.2.2.2.2.2.2.2.2.2.2.2.2.1.1 (le_of_lt rlbC_6.2.2.2.2.2.2.2.2.2.2.2.2.2.1.2) (by unfold tZero TXBETA2; norm_num) (by unfold tZero TXBETA2; norm_num)))
      (by unfold tx2N tx2R; exact txT_lt_of _ _ _ rlbC_6.2.2.2.2.2.2.2.2.2.2.2.2.2.2.1.1 (by unfold tZero TXBETA2; norm_num) (by unfold tZero TXBETA2; norm_num))
  have e84 : List.foldl (selStep tx2N (3.15 : ℝ)) ((35.4 : ℝ), [37, 39, 40, 41, 43, 45, 46, 48, 50, 52, 54, 57, 59, 61, 64, 67, 69, 72, 76, 79, 82, 86, 90, 94, 99, 103, 108, 113, 119, 124, 130, 137, 143, 150, 158, 166, 174, 183, 192, 201, 212, 222, 234, 245, 258, 271, 284, 299, 314, 329, 345, 362, 380, 398, 416, 436, 455, 476, 496, 517, 539, 561, 582, 604, 626, 648, 670, 691, 713, 733, 754, 773, 792, 810, 828, 845, 860, 875, 889, 902, 915, 926, 936, 946])
      (List.range' 947 74)
      = List.foldl (selStep tx2N (3.15 : ℝ)) ((32.25 : ℝ), [37, 39, 40, 41, 43, 45, 46, 48, 50, 52, 54, 57, 59, 61, 64, 67, 69, 72, 76, 79, 82, 86, 90, 94, 99, 103, 108, 113, 119, 124, 130, 137, 143, 150, 158, 166, 174, 183, 192, 201, 212, 222, 234, 245, 258, 271, 284, 299, 314, 329, 345, 362, 380, 398, 416, 436, 455, 476, 496, 517, 539, 561, 582, 604, 626, 648, 670, 691, 713, 733, 754, 773, 792, 810, 828, 845, 860, 875, 889, 902, 915, 926, 936, 946, 955])
      (List.range' 956 65) :=
    run_segment (3.15 : ℝ) (35.4 : ℝ) (32.25 : ℝ) [37, 39, 40, 41, 43, 45, 46, 48, 50, 52, 54, 57, 59, 61, 64, 67, 69, 72, 76, 79, 82, 86, 90, 94, 99, 103, 108, 113, 119, 124, 130, 137, 143, 150, 158, 166, 174, 183, 192, 201, 212, 222, 234, 245, 258, 271, 284, 299, 314, 329, 345, 362, 380, 398, 416, 436, 455, 476, 496, 517, 539, 561, 582, 604, 626, 648, 670, 691, 713, 733, 754, 773, 792, 810, 828, 845, 860, 875, 889, 902, 915, 926, 936, 946] [37, 39, 40, 41, 43, 45, 46, 48, 50, 52, 54, 57, 59, 61, 64, 67, 69, 72, 76, 79, 82, 86, 90, 94, 99, 103, 108, 113, 119, 124, 130, 137, 143, 150, 158, 166, 174, 183, 192, 201, 212, 222, 234, 245, 258, 271, 284, 299, 314, 329, 345, 362, 380, 398, 416, 436, 455, 476, 496, 517, 539, 561, 582, 604, 626, 648, 670, 691, 713, 733, 754, 773, 792, 810, 828, 845, 860, 875, 889, 902, 915, 926, 936, 946, 955]
      947 8 65 955 956 74 954
      rfl rfl rfl rfl (by norm_num) rfl (by norm_num) (by norm_num)
      (Or.inr (by unfold tx2N tx2R; exact txT_ge_of _ _ _ _ rlbC_6.2.2.2.2.2.2.2.2.2.2.2.2.2.2.2.1.1 (le_of_lt rlbC_6.2.2.2.2.2.2.2.2.2.2.2.2.2.2.2.1.2) (by unfold tZero TXBETA2; norm_num) (by unfold tZero TXBETA2; norm_num)))
      (by unfold tx2N tx2R; exact txT_lt_of _ _ _ rlbC_6.2.2.2.2.2.2.2.2.2.2.2.2.2.2.2.2.1.1 (by unfold tZero TXBETA2; norm_num) (by unfold tZero TXBETA2; norm_num))
  have e85 : List.foldl (selStep tx2N (3.15 : ℝ)) ((32.25 : ℝ), [37, 39, 40, 41, 43, 45, 46, 48, 50, 52, 54, 57, 59, 61, 64, 67, 69, 72, 76, 79, 82, 86, 90, 94, 99, 103, 108, 113, 119, 124, 130, 137, 143, 150, 158, 166, 174, 183, 192, 201, 212, 222, 234, 245, 258, 271, 284, 299, 314, 329, 345, 362, 380, 398, 416, 436, 455, 476, 496, 517, 539, 561, 582, 604, 626, 648, 670, 691, 713, 733, 754, 773, 792, 810, 828, 845, 860, 875, 889, 902, 915, 926, 936, 946, 955])
      (List.range' 956 65)
      = List.foldl (selStep tx2N (3.15 : ℝ)) ((29.1 : ℝ), [37, 39, 40, 41, 43, 45, 46, 48, 50, 52, 54, 57, 59, 61, 64, 67, 69, 72, 76, 79, 82, 86, 90, 94, 99, 103, 108, 113, 119, 124, 130, 137, 143, 150, 158, 166, 174, 183, 192, 201, 212, 222, 234, 245, 258, 271, 284, 299, 314, 329, 345, 362, 380, 398, 416, 436, 455, 476, 496, 517, 539, 561, 582, 604, 626, 648, 670, 691, 713, 733, 754, 773, 792, 810, 828, 845, 860, 875, 889, 902, 915, 926, 936, 946, 955, 963])
      (List.range' 964 57) :=
    run_segment (3.15 : ℝ) (32.25 : ℝ) (29.1 : ℝ) [37, 39, 40, 41, 43, 45, 46, 48, 50, 52, 54, 57, 59, 61, 64, 67, 69, 72, 76, 79, 82, 86, 90, 94, 99, 103, 108, 113, 119, 124, 130, 137, 143, 150, 158, 166, 174, 183, 192, 201, 212, 222, 234, 245, 258, 271, 284, 299, 314, 329, 345, 362, 380, 398, 416, 436, 455, 476, 496, 517, 539, 561, 582, 604, 626, 648, 670, 691, 713, 733, 754, 773, 792, 810, 828, 845, 860, 875, 889, 902, 915, 926, 936, 946, 955] [37, 39, 40, 41, 43, 45, 46, 48, 50, 52, 54, 57, 59, 61, 64, 67, 69, 72, 76, 79, 82, 86, 90, 94, 99, 103, 108, 113, 119, 124, 130, 137, 143, 150, 158, 166, 174, 183, 192, 201, 212, 222, 234, 245, 258, 271, 284, 299, 314, 329, 345, 362, 380, 398, 416, 436, 455, 476, 496, 517, 539, 561, 582, 604, 626, 648, 670, 691, 713, 733, 754, 773, 792, 810, 828, 845, 860, 875, 889, 902, 915, 926, 936, 946, 955, 963]
      956 7 57 963 964 65 962
      rfl rfl rfl rfl (by norm_num) rfl (by norm_num) (by norm_num)
      (Or.inr (by unfold tx2N tx2R; exact txT_ge_of _ _ _ _ rlbC_6.2.2.2.2.2.2.2.2.2.2.2.2.2.2.2.2.2.1.1 (le_of_lt rlbC_6.2.2.2.2.2.2.2.2.2.2.2.2.2.2.2.2.2.1.2) (by unfold tZero TXBETA2; norm_num) (by unfold tZero TXBETA2; norm_num)))
      (by unfold tx2N tx2R; exact txT_lt_of _ _ _ rlbC_6.2.2.2.2.2.2.2.2.2.2.2.2.2.2.2.2.2.2.1.1 (by unfold tZero TXBETA2; norm_num) (by unfold tZero TXBETA2; norm_num))
  have e86 : List.foldl (selStep tx2N (3.15 : ℝ)) ((29.1 : ℝ), [37, 39, 40, 41, 43, 45, 46, 48, 50, 52, 54, 57, 59, 61, 64, 67, 69, 72, 76, 79, 82, 86, 90, 94, 99, 103, 108, 113, 119, 124, 130, 137, 143, 150, 158, 166, 174, 183, 192, 201, 212, 222, 234, 245, 258, 271, 284, 299, 314, 329, 345, 362, 380, 398, 416, 436, 455, 476, 496, 517, 539, 561, 582, 604, 626, 648, 670, 691, 713, 733, 754, 773, 792, 810, 828, 845, 860, 875, 889, 902, 915, 926, 936, 946, 955, 963])
      (List.range' 964 57)
      = List.foldl (selStep tx2N (3.15 : ℝ)) ((25.95 : ℝ), [37, 39, 40, 41, 43, 45, 46, 48, 50, 52, 54, 57, 59, 61, 64, 67, 69, 72, 76, 79, 82, 86, 90, 94, 99, 103, 108, 113, 119, 124, 130, 137, 143, 150, 158, 166, 174, 183, 192, 201, 212, 222, 234, 245, 258, 271, 284, 299, 314, 329, 345, 362, 380, 398, 416, 436, 455, 476, 496, 517, 539, 561, 582, 604, 626, 648, 670, 691, 713, 733, 754, 773, 792, 810, 828, 845, 860, 875, 889, 902, 915, 926, 936, 946, 955, 963, 970])
      (List.range' 971 50) :=
    run_segment (3.15 : ℝ) (29.1 : ℝ) (25.95 : ℝ) [37, 39, 40, 41, 43, 45, 46, 48, 50, 52, 54, 57, 59, 61, 64, 67, 69, 72, 76, 79, 82, 86, 90, 94, 99, 103, 108, 113, 119, 124, 130, 137, 143, 150, 158, 166, 174, 183, 192, 201, 212, 222, 234, 245, 258, 271, 284, 299, 314, 329, 345, 362, 380, 398, 416, 436, 455, 476, 496, 517, 539, 561, 582, 604, 626, 648, 670, 691, 713, 733, 754, 773, 792, 810, 828, 845, 860, 875, 889, 902, 915, 926, 936, 946, 955, 963] [37, 39, 40, 41, 43, 45, 46, 48, 50, 52, 54, 57, 59, 61, 64, 67, 69, 72, 76, 79, 82, 86, 90, 94, 99, 103, 108, 113, 119, 124, 130, 137, 143, 150, 158, 166, 174, 183, 192, 201, 212, 222, 234, 245, 258, 271, 284, 299, 314, 329, 345, 362, 380, 398, 416, 436, 455, 476, 496, 517, 539, 561, 582, 604, 626, 648, 670, 691, 713, 733, 754, 773, 792, 810, 828, 845, 860, 875, 889, 902, 915, 926, 936, 946, 955, 963, 970]
      964 6 50 970 971 57 969
      rfl rfl rfl rfl (by norm_num) rfl (by norm_num) (by norm_num)
      (Or.inr (by unfold tx2N tx2R; exact txT_ge_of _ _ _ _ rlbC_6.2.2.2.2.2.2.2.2.2.2.2.2.2.2.2.2.2.2.2.1.1 (le_of_lt rlbC_6.2.2.2.2.2.2.2.2.2.2.2.2.2.2.2.2.2.2.2.1.2) (by unfold tZero TXBETA2; norm_num) (by unfold tZero TXBETA2; norm_num)))
      (by unfold tx2N tx2R; exact txT_lt_of _ _ _ rlbC_6.2.2.2.2.2.2.2.2.2.2.2.2.2.2.2.2.2.2.2.2.1.1 (by unfold tZero TXBETA2; norm_num) (by unfold tZero TXBETA2; norm_num))
  have e87 : List.foldl (selStep tx2N (3.15 : ℝ)) ((25.95 : ℝ), [37, 39, 40, 41, 43, 45, 46, 48, 50, 52, 54, 57, 59, 61, 64, 67, 69, 72, 76, 79, 82, 86, 90, 94, 99, 103, 108, 113, 119, 124, 130, 137, 143, 150, 158, 166, 174, 183, 192, 201, 212, 222, 234, 245, 258, 271, 284, 299, 314, 329, 345, 362, 380, 398, 416, 436, 455, 476, 496, 517, 539, 561, 582, 604, 626, 648, 670, 691, 713, 733, 754, 773, 792, 810, 828, 845, 860, 875, 889, 902, 915, 926, 936, 946, 955, 963, 970])
      (List.range' 971 50)
      = List.foldl (selStep tx2N (3.15 : ℝ)) ((22.8 : ℝ), [37, 39, 40, 41, 43, 45, 46, 48, 50, 52, 54, 57, 59, 61, 64, 67, 69, 72, 76, 79, 82, 86, 90, 94, 99, 103, 108, 113, 119, 124, 130, 137, 143, 150, 158, 166, 174, 183, 192, 201, 212, 222, 234, 245, 258, 271, 284, 299, 314, 329, 345, 362, 380, 398, 416, 436, 455, 476, 496, 517, 539, 561, 582, 604, 626, 648, 670, 691, 713, 733, 754, 773, 792, 810, 828, 845, 860, 875, 889, 902, 915, 926, 936, 946, 955, 963, 970, 977])
      (List.range' 978 43) :=
    run_segment (3.15 : ℝ) (25.95 : ℝ) (22.8 : ℝ) [37, 39, 40, 41, 43, 45, 46, 48, 50, 52, 54, 57, 59, 61, 64, 67, 69, 72, 76, 79, 82, 86, 90, 94, 99, 103, 108, 113, 119, 124, 130, 137, 143, 150, 158, 166, 174, 183, 192, 201, 212, 222, 234, 245, 258, 271, 284, 299, 314, 329, 345, 362, 380, 398, 416, 436, 455, 476, 496, 517, 539, 561, 582, 604, 626, 648, 670, 691, 713, 733, 754, 773, 792, 810, 828, 845, 860, 875, 889, 902, 915, 926, 936, 946, 955, 963, 970] [37, 39, 40, 41, 43, 45, 46, 48, 50, 52, 54, 57, 59, 61, 64, 67, 69, 72, 76, 79, 82, 86, 90, 94, 99, 103, 108, 113, 119, 124, 130, 137, 143, 150, 158, 166, 174, 183, 192, 201, 212, 222, 234, 245, 258, 271, 284, 299, 314, 329, 345, 362, 380, 398, 416, 436, 455, 476, 496, 517, 539, 561, 582, 604, 626, 648, 670, 691, 713, 733, 754, 773, 792, 810, 828, 845, 860, 875, 889, 902, 915, 926, 936, 946, 955, 963, 970, 977]
      971 6 43 977 978 50 976
      rfl rfl rfl rfl (by norm_num) rfl (by norm_num) (by norm_num)
      (Or.inr (by unfold tx2N tx2R; exact txT_ge_of _ _ _ _ rlbC_6.2.2.2.2.2.2.2.2.2.2.2.2.2.2.2.2.2.2.2.2.2.1.1 (le_of_lt rlbC_6.2.2.2.2.2.2.2.2.2.2.2.2.2.2.2.2.2.2.2.2.2.1.2) (by unfold tZero TXBETA2; norm_num) (by unfold tZero TXBETA2; norm_num)))
      (by unfold tx2N tx2R; exact txT_lt_of _ _ _ rlbC_6.2.2.2.2.2.2.2.2.2.2.2.2.2.2.2.2.2.2.2.2.2.2.1.1 (by unfold tZero TXBETA2; norm_num) (by unfold tZero TXBETA2; norm_num))
  have e88 : List.foldl (selStep tx2N (3.15 : ℝ)) ((22.8 : ℝ), [37, 39, 40, 41, 43, 45, 46, 48, 50, 52, 54, 57, 59, 61, 64, 67, 69, 72, 76, 79, 82, 86, 90, 94, 99, 103, 108, 113, 119, 124, 130, 137, 143, 150, 158, 166, 174, 183, 192, 201, 212, 222, 234, 245, 258, 271, 284, 299, 314, 329, 345, 362, 380, 398, 416, 436, 455, 476, 496, 517, 539, 561, 582, 604, 626, 648, 670, 691, 713, 733, 754, 773, 792, 810, 828, 845, 860, 875, 889, 902, 915, 926, 936, 946, 955, 963, 970, 977])
      (List.range' 978 43)
      = List.foldl (selStep tx2N (3.15 : ℝ)) ((19.65 : ℝ), [37, 39, 40, 41, 43, 45, 46, 48, 50, 52, 54, 57, 59, 61, 64, 67, 69, 72, 76, 79, 82, 86, 90, 94, 99, 103, 108, 113, 119, 124, 130, 137, 143, 150, 158, 166, 174, 183, 192, 201, 212, 222, 234, 245, 258, 271, 284, 299, 314, 329, 345, 362, 380, 398, 416, 436, 455, 476, 496, 517, 539, 561, 582, 604, 626, 648, 670, 691, 713, 733, 754, 773, 792, 810, 828, 845, 860, 875, 889, 902, 915, 926, 936, 946, 955, 963, 970, 977, 983])
      (List.range' 984 37) :=
    run_segment (3.15 : ℝ) (22.8 : ℝ) (19.65 : ℝ) [37, 39, 40, 41, 43, 45, 46, 48, 50, 52, 54, 57, 59, 61, 64, 67, 69, 72, 76, 79, 82, 86, 90, 94, 99, 103, 108, 113, 119, 124, 130, 137, 143, 150, 158, 166, 174, 183, 192, 201, 212, 222, 234, 245, 258, 271, 284, 299, 314, 329, 345, 362, 380, 398, 416, 436, 455, 476, 496, 517, 539, 561, 582, 604, 626, 648, 670, 691, 713, 733, 754, 773, 792, 810, 828, 845, 860, 875, 889, 902, 915, 926, 936, 946, 955, 963, 970, 977] [37, 39, 40, 41, 43, 45, 46, 48, 50, 52, 54, 57, 59, 61, 64, 67, 69, 72, 76, 79, 82, 86, 90, 94, 99, 103, 108, 113, 119, 124, 130, 137, 143, 150, 158, 166, 174, 183, 192, 201, 212, 222, 234, 245, 258, 271, 284, 299, 314, 329, 345, 362, 380, 398, 416, 436, 455, 476, 496, 517, 539, 561, 582, 604, 626, 648, 670, 691, 713, 733, 754, 773, 792, 810, 828, 845, 860, 875, 889, 902, 915, 926, 936, 946, 955, 963, 970, 977, 983]
      978 5 37 983 984 43 982
      rfl rfl rfl rfl (by norm_num) rfl (by norm_num) (by norm_num)
      (Or.inr (by unfold tx2N tx2R; exact txT_ge_of _ _ _ _ rlbC_6.2.2.2.2.2.2.2.2.2.2.2.2.2.2.2.2.2.2.2.2.2.2.2.1.1 (le_of_lt rlbC_6.2.2.2.2.2.2.2.2.2.2.2.2.2.2.2.2.2.2.2.2.2.2.2.1.2) (by unfold tZero TXBETA2; norm_num) (by unfold tZero TXBETA2; norm_num)))
      (by unfold tx2N tx2R; exact txT_lt_of _ _ _ rlbC_6.2.2.2.2.2.2.2.2.2.2.2.2.2.2.2.2.2.2.2.2.2.2.2.2.1 (by unfold tZero TXBETA2; norm_num) (by unfold tZero TXBETA2; norm_num))
  have e89 : List.foldl (selStep tx2N (3.15 : ℝ)) ((19.65 : ℝ), [37, 39, 40, 41, 43, 45, 46, 48, 50, 52, 54, 57, 59, 61, 64, 67, 69, 72, 76, 79, 82, 86, 90, 94, 99, 103, 108, 113, 119, 124, 130, 137, 143, 150, 158, 166, 174, 183, 192, 201, 212, 222, 234, 245, 258, 271, 284, 299, 314, 329, 345, 362, 380, 398, 416, 436, 455, 476, 496, 517, 539, 561, 582, 604, 626, 648, 670, 691, 713, 733, 754, 773, 792, 810, 828, 845, 860, 875, 889, 902, 915, 926, 936, 946, 955, 963, 970, 977, 983])
      (List.range' 984 37)
      = List.foldl (selStep tx2N (3.15 : ℝ)) ((16.5 : ℝ), [37, 39, 40, 41, 43, 45, 46, 48, 50, 52, 54, 57, 59, 61, 64, 67, 69, 72, 76, 79, 82, 86, 90, 94, 99, 103, 108, 113, 119, 124, 130, 137, 143, 150, 158, 166, 174, 183, 192, 201, 212, 222, 234, 245, 258, 271, 284, 299, 314, 329, 345, 362, 380, 398, 416, 436, 455, 476, 496, 517, 539, 561, 582, 604, 626, 648, 670, 691, 713, 733, 754, 773, 792, 810, 828, 845, 860, 875, 889, 902, 915, 926, 936, 946, 955, 963, 970, 977, 983, 988])
      (List.range' 989 32) :=
    run_segment (3.15 : ℝ) (19.65 : ℝ) (16.5 : ℝ) [37, 39, 40, 41, 43, 45, 46, 48, 50, 52, 54, 57, 59, 61, 64, 67, 69, 72, 76, 79, 82, 86, 90, 94, 99, 103, 108, 113, 119, 124, 130, 137, 143, 150, 158, 166, 174, 183, 192, 201, 212, 222, 234, 245, 258, 271, 284, 299, 314, 329, 345, 362, 380, 398, 416, 436, 455, 476, 496, 517, 539, 561, 582, 604, 626, 648, 670, 691, 713, 733, 754, 773, 792, 810, 828, 845, 860, 875, 889, 902, 915, 926, 936, 946, 955, 963, 970, 977, 983] [37, 39, 40, 41, 43, 45, 46, 48, 50, 52, 54, 57, 59, 61, 64, 67, 69, 72, 76, 79, 82, 86, 90, 94, 99, 103, 108, 113, 119, 124, 130, 137, 143, 150, 158, 166, 174, 183, 192, 201, 212, 222, 234, 245, 258, 271, 284, 299, 314, 329, 345, 362, 380, 398, 416, 436, 455, 476, 496, 517, 539, 561, 582, 604, 626, 648, 670, 691, 713, 733, 754, 773, 792, 810, 828, 845, 860, 875, 889, 902, 915, 926, 936, 946, 955, 963, 970, 977, 983, 988]
      984 4 32 988 989 37 987
      rfl rfl rfl rfl (by norm_num) rfl (by norm_num) (by norm_num)
      (Or.inr (by unfold tx2N tx2R; exact txT_ge_of _ _ _ _ rlbC_7.1.1 (le_of_lt rlbC_7.1.2) (by unfold tZero TXBETA2; norm_num) (by unfold tZero TXBETA2; norm_num)))
      (by unfold tx2N tx2R; exact txT_lt_of _ _ _ rlbC_7.2.1.1 (by unfold tZero TXBETA2; norm_num) (by unfold tZero TXBETA2; norm_num))
  have e90 : List.foldl (selStep tx2N (3.15 : ℝ)) ((16.5 : ℝ), [37, 39, 40, 41, 43, 45, 46, 48, 50, 52, 54, 57, 59, 61, 64, 67, 69, 72, 76, 79, 82, 86, 90, 94, 99, 103, 108, 113, 119, 124, 130, 137, 143, 150, 158, 166, 174, 183, 192, 201, 212, 222, 234, 245, 258, 271, 284, 299, 314, 329, 345, 362, 380, 398, 416, 436, 455, 476, 496, 517, 539, 561, 582, 604, 626, 648, 670, 691, 713, 733, 754, 773, 792, 810, 828, 845, 860, 875, 889, 902, 915, 926, 936, 946, 955, 963, 970, 977, 983, 988])
      (List.range' 989 32)
      = List.foldl (selStep tx2N (3.15 : ℝ)) ((13.35 : ℝ), [37, 39, 40, 41, 43, 45, 46, 48, 50, 52, 54, 57, 59, 61, 64, 67, 69, 72, 76, 79, 82, 86, 90, 94, 99, 103, 108, 113, 119, 124, 130, 137, 143, 150, 158, 166, 174, 183, 192, 201, 212, 222, 234, 245, 258, 271, 284, 299, 314, 329, 345, 362, 380, 398, 416, 436, 455, 476, 496, 517, 539, 561, 582, 604, 626, 648, 670, 691, 713, 733, 754, 773, 792, 810, 828, 845, 860, 875, 889, 902, 915, 926, 936, 946, 955, 963, 970, 977, 983, 988, 993])
      (List.range' 994 27) :=
    run_segment (3.15 : ℝ) (16.5 : ℝ) (13.35 : ℝ) [37, 39, 40, 41, 43, 45, 46, 48, 50, 52, 54, 57, 59, 61, 64, 67, 69, 72, 76, 79, 82, 86, 90, 94, 99, 103, 108, 113, 119, 124, 130, 137, 143, 150, 158, 166, 174, 183, 192, 201, 212, 222, 234, 245, 258, 271, 284, 299, 314, 329, 345, 362, 380, 398, 416, 436, 455, 476, 496, 517, 539, 561, 582, 604, 626, 648, 670, 691, 713, 733, 754, 773, 792, 810, 828, 845, 860, 875, 889, 902, 915, 926, 936, 946, 955, 963, 970, 977, 983, 988] [37, 39, 40, 41, 43, 45, 46, 48, 50, 52, 54, 57, 59, 61, 64, 67, 69, 72, 76, 79, 82, 86, 90, 94, 99, 103, 108, 113, 119, 124, 130, 137, 143, 150, 158, 166, 174, 183, 192, 201, 212, 222, 234, 245, 258, 271, 284, 299, 314, 329, 345, 362, 380, 398, 416, 436, 455, 476, 496, 517, 539, 561, 582, 604, 626, 648, 670, 691, 713, 733, 754, 773, 792, 810, 828, 845, 860, 875, 889, 902, 915, 926, 936, 946, 955, 963, 970, 977, 983, 988, 993]
      989 4 27 993 994 32 992
      rfl rfl rfl rfl (by norm_num) rfl (by norm_num) (by norm_num)
      (Or.inr (by unfold tx2N tx2R; exact txT_ge_of _ _ _ _ rlbC_7.2.2.1.1 (le_of_lt rlbC_7.2.2.1.2) (by unfold tZero TXBETA2; norm_num) (by unfold tZero TXBETA2; norm_num)))
      (by unfold tx2N tx2R; exact txT_lt_of _ _ _ rlbC_7.2.2.2.1.1 (by unfold tZero TXBETA2; norm_num) (by unfold tZero TXBETA2; norm_num))
  have e91 : List.foldl (selStep tx2N (3.15 : ℝ)) ((13.35 : ℝ), [37, 39, 40, 41, 43, 45, 46, 48, 50, 52, 54, 57, 59, 61, 64, 67, 69, 72, 76, 79, 82, 86, 90, 94, 99, 103, 108, 113, 119, 124, 130, 137, 143, 150, 158, 166, 174, 183, 192, 201, 212, 222, 234, 245, 258, 271, 284, 299, 314, 329, 345, 362, 380, 398, 416, 436, 455, 476, 496, 517, 539, 561, 582, 604, 626, 648, 670, 691, 713, 733, 754, 773, 792, 810, 828, 845, 860, 875, 889, 902, 915, 926, 936, 946, 955, 963, 970, 977, 983, 988, 993])
      (List.range' 994 27)
      = List.foldl (selStep tx2N (3.15 : ℝ)) ((10.2 : ℝ), [37, 39, 40, 41, 43, 45, 46, 48, 50, 52, 54, 57, 59, 61, 64, 67, 69, 72, 76, 79, 82, 86, 90, 94, 99, 103, 108, 113, 119, 124, 130, 137, 143, 150, 158, 166, 174, 183, 192, 201, 212, 222, 234, 245, 258, 271, 284, 299, 314, 329, 345, 362, 380, 398, 416, 436, 455, 476, 496, 517, 539, 561, 582, 604, 626, 648, 670, 691, 713, 733, 754, 773, 792, 810, 828, 845, 860, 875, 889, 902, 915, 926, 936, 946, 955, 963, 970, 977, 983, 988, 993, 997])
      (List.range' 998 23) :=
    run_segment (3.15 : ℝ) (13.35 : ℝ) (10.2 : ℝ) [37, 39, 40, 41, 43, 45, 46, 48, 50, 52, 54, 57, 59, 61, 64, 67, 69, 72, 76, 79, 82, 86, 90, 94, 99, 103, 108, 113, 119, 124, 130, 137, 143, 150, 158, 166, 174, 183, 192, 201, 212, 222, 234, 245, 258, 271, 284, 299, 314, 329, 345, 362, 380, 398, 416, 436, 455, 476, 496, 517, 539, 561, 582, 604, 626, 648, 670, 691, 713, 733, 754, 773, 792, 810, 828, 845, 860, 875, 889, 902, 915, 926, 936, 946, 955, 963, 970, 977, 983, 988, 993] [37, 39, 40, 41, 43, 45, 46, 48, 50, 52, 54, 57, 59, 61, 64, 67, 69, 72, 76, 79, 82, 86, 90, 94, 99, 103, 108, 113, 119, 124, 130, 137, 143, 150, 158, 166, 174, 183, 192, 201, 212, 222, 234, 245, 258, 271, 284, 299, 314, 329, 345, 362, 380, 398, 416, 436, 455, 476, 496, 517, 539, 561, 582, 604, 626, 648, 670, 691, 713, 733, 754, 773, 792, 810, 828, 845, 860, 875, 889, 902, 915, 926, 936, 946, 955, 963, 970, 977, 983, 988, 993, 997]
      994 3 23 997 998 27 996
      rfl rfl rfl rfl (by norm_num) rfl (by norm_num) (by norm_num)
      (Or.inr (by unfold tx2N tx2R; exact txT_ge_of _ _ _ _ rlbC_7.2.2.2.2.1.1 (le_of_lt rlbC_7.2.2.2.2.1.2) (by unfold tZero TXBETA2; norm_num) (by unfold tZero TXBETA2; norm_num)))
      (by unfold tx2N tx2R; exact txT_lt_of _ _ _ rlbC_7.2.2.2.2.2.1.1 (by unfold tZero TXBETA2; norm_num) (by unfold tZero TXBETA2; norm_num))
  have e92 : List.foldl (selStep tx2N (3.15 : ℝ)) ((10.2 : ℝ), [37, 39, 40, 41, 43, 45, 46, 48, 50, 52, 54, 57, 59, 61, 64, 67, 69, 72, 76, 79, 82, 86, 90, 94, 99, 103, 108, 113, 119, 124, 130, 137, 143, 150, 158, 166, 174, 183, 192, 201, 212, 222, 234, 245, 258, 271, 284, 299, 314, 329, 345, 362, 380, 398, 416, 436, 455, 476, 496, 517, 539, 561, 582, 604, 626, 648, 670, 691, 713, 733, 754, 773, 792, 810, 828, 845, 860, 875, 889, 902, 915, 926, 936, 946, 955, 963, 970, 977, 983, 988, 993, 997])
      (List.range' 998 23)
      = List.foldl (selStep tx2N (3.15 : ℝ)) ((7.05 : ℝ), [37, 39, 40, 41, 43, 45, 46, 48, 50, 52, 54, 57, 59, 61, 64, 67, 69, 72, 76, 79, 82, 86, 90, 94, 99, 103, 108, 113, 119, 124, 130, 137, 143, 150, 158, 166, 174, 183, 192, 201, 212, 222, 234, 245, 258, 271, 284, 299, 314, 329, 345, 362, 380, 398, 416, 436, 455, 476, 496, 517, 539, 561, 582, 604, 626, 648, 670, 691, 713, 733, 754, 773, 792, 810, 828, 845, 860, 875, 889, 902, 915, 926, 936, 946, 955, 963, 970, 977, 983, 988, 993, 997, 1001])
      (List.range' 1002 19) :=
    run_segment (3.15 : ℝ) (10.2 : ℝ) (7.05 : ℝ) [37, 39, 40, 41, 43, 45, 46, 48, 50, 52, 54, 57, 59, 61, 64, 67, 69, 72, 76, 79, 82, 86, 90, 94, 99, 103, 108, 113, 119, 124, 130, 137, 143, 150, 158, 166, 174, 183, 192, 201, 212, 222, 234, 245, 258, 271, 284, 299, 314, 329, 345, 362, 380, 398, 416, 436, 455, 476, 496, 517, 539, 561, 582, 604, 626, 648, 670, 691, 713, 733, 754, 773, 792, 810, 828, 845, 860, 875, 889, 902, 915, 926, 936, 946, 955, 963, 970, 977, 983, 988, 993, 997] [37, 39, 40, 41, 43, 45, 46, 48, 50, 52, 54, 57, 59, 61, 64, 67, 69, 72, 76, 79, 82, 86, 90, 94, 99, 103, 108, 113, 119, 124, 130, 137, 143, 150, 158, 166, 174, 183, 192, 201, 212, 222, 234, 245, 258, 271, 284, 299, 314, 329, 345, 362, 380, 398, 416, 436, 455, 476, 496, 517, 539, 561, 582, 604, 626, 648, 670, 691, 713, 733, 754, 773, 792, 810, 828, 845, 860, 875, 889, 902, 915, 926, 936, 946, 955, 963, 970, 977, 983, 988, 993, 997, 1001]
      998 3 19 1001 1002 23 1000
      rfl rfl rfl rfl (by norm_num) rfl (by norm_num) (by norm_num)
      (Or.inr (by unfold tx2N tx2R; exact txT_ge_of _ _ _ _ rlbC_7.2.2.2.2.2.2.1.1 (le_of_lt rlbC_7.2.2.2.2.2.2.1.2) (by unfold tZero TXBETA2; norm_num) (by unfold tZero TXBETA2; norm_num)))
      (by unfold tx2N tx2R; exact txT_lt_of _ _ _ rlbC_7.2.2.2.2.2.2.2.1.1 (by unfold tZero TXBETA2; norm_num) (by unfold tZero TXBETA2; norm_num))
  have e93 : List.foldl (selStep tx2N (3.15 : ℝ)) ((7.05 : ℝ), [37, 39, 40, 41, 43, 45, 46, 48, 50, 52, 54, 57, 59, 61, 64, 67, 69, 72, 76, 79, 82, 86, 90, 94, 99, 103, 108, 113, 119, 124, 130, 137, 143, 150, 158, 166, 174, 183, 192, 201, 212, 222, 234, 245, 258, 271, 284, 299, 314, 329, 345, 362, 380, 398, 416, 436, 455, 476, 496, 517, 539, 561, 582, 604, 626, 648, 670, 691, 713, 733, 754, 773, 792, 810, 828, 845, 860, 875, 889, 902, 915, 926, 936, 946, 955, 963, 970, 977, 983, 988, 993, 997, 1001])
      (List.range' 1002 19)
      = List.foldl (selStep tx2N (3.15 : ℝ)) ((3.9 : ℝ), [37, 39, 40, 41, 43, 45, 46, 48, 50, 52, 54, 57, 59, 61, 64, 67, 69, 72, 76, 79, 82, 86, 90, 94, 99, 103, 108, 113, 119, 124, 130, 137, 143, 150, 158, 166, 174, 183, 192, 201, 212, 222, 234, 245, 258, 271, 284, 299, 314, 329, 345, 362, 380, 398, 416, 436, 455, 476, 496, 517, 539, 561, 582, 604, 626, 648, 670, 691, 713, 733, 754, 773, 792, 810, 828, 845, 860, 875, 889, 902, 915, 926, 936, 946, 955, 963, 970, 977, 983, 988, 993, 997, 1001, 1004])
      (List.range' 1005 16) :=
    run_segment (3.15 : ℝ) (7.05 : ℝ) (3.9 : ℝ) [37, 39, 40, 41, 43, 45, 46, 48, 50, 52, 54, 57, 59, 61, 64, 67, 69, 72, 76, 79, 82, 86, 90, 94, 99, 103, 108, 113, 119, 124, 130, 137, 143, 150, 158, 166, 174, 183, 192, 201, 212, 222, 234, 245, 258, 271, 284, 299, 314, 329, 345, 362, 380, 398, 416, 436, 455, 476, 496, 517, 539, 561, 582, 604, 626, 648, 670, 691, 713, 733, 754, 773, 792, 810, 828, 845, 860, 875, 889, 902, 915, 926, 936, 946, 955, 963, 970, 977, 983, 988, 993, 997, 1001] [37, 39, 40, 41, 43, 45, 46, 48, 50, 52, 54, 57, 59, 61, 64, 67, 69, 72, 76, 79, 82, 86, 90, 94, 99, 103, 108, 113, 119, 124, 130, 137, 143, 150, 158, 166, 174, 183, 192, 201, 212, 222, 234, 245, 258, 271, 284, 299, 314, 329, 345, 362, 380, 398, 416, 436, 455, 476, 496, 517, 539, 561, 582, 604, 626, 648, 670, 691, 713, 733, 754, 773, 792, 810, 828, 845, 860, 875, 889, 902, 915, 926, 936, 946, 955, 963, 970, 977, 983, 988, 993, 997, 1001, 1004]
      1002 2 16 1004 1005 19 1003
      rfl rfl rfl rfl (by norm_num) rfl (by norm_num) (by norm_num)
      (Or.inr (by unfold tx2N tx2R; exact txT_ge_of _ _ _ _ rlbC_7.2.2.2.2.2.2.2.2.1.1 (le_of_lt rlbC_7.2.2.2.2.2.2.2.2.1.2) (by unfold tZero TXBETA2; norm_num) (by unfold tZero TXBETA2; norm_num)))
      (by unfold tx2N tx2R; exact txT_lt_of _ _ _ rlbC_7.2.2.2.2.2.2.2.2.2.1.1 (by unfold tZero TXBETA2; norm_num) (by unfold tZero TXBETA2; norm_num))
  have e94 : List.foldl (selStep tx2N (3.15 : ℝ)) ((3.9 : ℝ), [37, 39, 40, 41, 43, 45, 46, 48, 50, 52, 54, 57, 59, 61, 64, 67, 69, 72, 76, 79, 82, 86, 90, 94, 99, 103, 108, 113, 119, 124, 130, 137, 143, 150, 158, 166, 174, 183, 192, 201, 212, 222, 234, 245, 258, 271, 284, 299, 314, 329, 345, 362, 380, 398, 416, 436, 455, 476, 496, 517, 539, 561, 582, 604, 626, 648, 670, 691, 713, 733, 754, 773, 792, 810, 828, 845, 860, 875, 889, 902, 915, 926, 936, 946, 955, 963, 970, 977, 983, 988, 993, 997, 1001, 1004])
      (List.range' 1005 16)
      = List.foldl (selStep tx2N (3.15 : ℝ)) ((0.75 : ℝ), [37, 39, 40, 41, 43, 45, 46, 48, 50, 52, 54, 57, 59, 61, 64, 67, 69, 72, 76, 79, 82, 86, 90, 94, 99, 103, 108, 113, 119, 124, 130, 137, 143, 150, 158, 166, 174, 183, 192, 201, 212, 222, 234, 245, 258, 271, 284, 299, 314, 329, 345, 362, 380, 398, 416, 436, 455, 476, 496, 517, 539, 561, 582, 604, 626, 648, 670, 691, 713, 733, 754, 773, 792, 810, 828, 845, 860, 875, 889, 902, 915, 926, 936, 946, 955, 963, 970, 977, 983, 988, 993, 997, 1001, 1004, 1007])
      (List.range' 1008 13) :=
    run_segment (3.15 : ℝ) (3.9 : ℝ) (0.75 : ℝ) [37, 39, 40, 41, 43, 45, 46, 48, 50, 52, 54, 57, 59, 61, 64, 67, 69, 72, 76, 79, 82, 86, 90, 94, 99, 103, 108, 113, 119, 124, 130, 137, 143, 150, 158, 166, 174, 183, 192, 201, 212, 222, 234, 245, 258, 271, 284, 299, 314, 329, 345, 362, 380, 398, 416, 436, 455, 476, 496, 517, 539, 561, 582, 604, 626, 648, 670, 691, 713, 733, 754, 773, 792, 810, 828, 845, 860, 875, 889, 902, 915, 926, 936, 946, 955, 963, 970, 977, 983, 988, 993, 997, 1001, 1004] [37, 39, 40, 41, 43, 45, 46, 48, 50, 52, 54, 57, 59, 61, 64, 67, 69, 72, 76, 79, 82, 86, 90, 94, 99, 103, 108, 113, 119, 124, 130, 137, 143, 150, 158, 166, 174, 183, 192, 201, 212, 222, 234, 245, 258, 271, 284, 299, 314, 329, 345, 362, 380, 398, 416, 436, 455, 476, 496, 517, 539, 561, 582, 604, 626, 648, 670, 691, 713, 733, 754, 773, 792, 810, 828, 845, 860, 875, 889, 902, 915, 926, 936, 946, 955, 963, 970, 977, 983, 988, 993, 997, 1001, 1004, 1007]
      1005 2 13 1007 1008 16 1006
      rfl rfl rfl rfl (by norm_num) rfl (by norm_num) (by norm_num)
      (Or.inr (by unfold tx2N tx2R; exact txT_ge_of _ _ _ _ rlbC_7.2.2.2.2.2.2.2.2.2.2.1.1 (le_of_lt rlbC_7.2.2.2.2.2.2.2.2.2.2.1.2) (by unfold tZero TXBETA2; norm_num) (by unfold tZero TXBETA2; norm_num)))
      (by unfold tx2N tx2R; exact txT_lt_of _ _ _ rlbC_7.2.2.2.2.2.2.2.2.2.2.2.1.1 (by unfold tZero TXBETA2; norm_num) (by unfold tZero TXBETA2; norm_num))
  have e95 : List.foldl (selStep tx2N (3.15 : ℝ)) ((0.75 : ℝ), [37, 39, 40, 41, 43, 45, 46, 48, 50, 52, 54, 57, 59, 61, 64, 67, 69, 72, 76, 79, 82, 86, 90, 94, 99, 103, 108, 113, 119, 124, 130, 137, 143, 150, 158, 166, 174, 183, 192, 201, 212, 222, 234, 245, 258, 271, 284, 299, 314, 329, 345, 362, 380, 398, 416, 436, 455, 476, 496, 517, 539, 561, 582, 604, 626, 648, 670, 691, 713, 733, 754, 773, 792, 810, 828, 845, 860, 875, 889, 902, 915, 926, 936, 946, 955, 963, 970, 977, 983, 988, 993, 997, 1001, 1004, 1007])
      (List.range' 1008 13)
      = List.foldl (selStep tx2N (3.15 : ℝ)) ((-2.4 : ℝ), [37, 39, 40, 41, 43, 45, 46, 48, 50, 52, 54, 57, 59, 61, 64, 67, 69, 72, 76, 79, 82, 86, 90, 94, 99, 103, 108, 113, 119, 124, 130, 137, 143, 150, 158, 166, 174, 183, 192, 201, 212, 222, 234, 245, 258, 271, 284, 299, 314, 329, 345, 362, 380, 398, 416, 436, 455, 476, 496, 517, 539, 561, 582, 604, 626, 648, 670, 691, 713, 733, 754, 773, 792, 810, 828, 845, 860, 875, 889, 902, 915, 926, 936, 946, 955, 963, 970, 977, 983, 988, 993, 997, 1001, 1004, 1007, 1009])
      (List.range' 1010 11) :=
    run_segment (3.15 : ℝ) (0.75 : ℝ) (-2.4 : ℝ) [37, 39, 40, 41, 43, 45, 46, 48, 50, 52, 54, 57, 59, 61, 64, 67, 69, 72, 76, 79, 82, 86, 90, 94, 99, 103, 108, 113, 119, 124, 130, 137, 143, 150, 158, 166, 174, 183, 192, 201, 212, 222, 234, 245, 258, 271, 284, 299, 314, 329, 345, 362, 380, 398, 416, 436, 455, 476, 496, 517, 539, 561, 582, 604, 626, 648, 670, 691, 713, 733, 754, 773, 792, 810, 828, 845, 860, 875, 889, 902, 915, 926, 936, 946, 955, 963, 970, 977, 983, 988, 993, 997, 1001, 1004, 1007] [37, 39, 40, 41, 43, 45, 46, 48, 50, 52, 54, 57, 59, 61, 64, 67, 69, 72, 76, 79, 82, 86, 90, 94, 99, 103, 108, 113, 119, 124, 130, 137, 143, 150, 158, 166, 174, 183, 192, 201, 212, 222, 234, 245, 258, 271, 284, 299, 314, 329, 345, 362, 380, 398, 416, 436, 455, 476, 496, 517, 539, 561, 582, 604, 626, 648, 670, 691, 713, 733, 754, 773, 792, 810, 828, 845, 860, 875, 889, 902, 915, 926, 936, 946, 955, 963, 970, 977, 983, 988, 993, 997, 1001, 1004, 1007, 1009]
      1008 1 11 1009 1010 13 1008
      rfl rfl rfl rfl (by norm_num) rfl (by norm_num) (by norm_num)
      (Or.inr (by unfold tx2N tx2R; exact txT_ge_of _ _ _ _ rlbC_7.2.2.2.2.2.2.2.2.2.2.2.2.1.1 (le_of_lt rlbC_7.2.2.2.2.2.2.2.2.2.2.2.2.1.2) (by unfold tZero TXBETA2; norm_num) (by unfold tZero TXBETA2; norm_num)))
      (by unfold tx2N tx2R; exact txT_lt_of _ _ _ rlbC_7.2.2.2.2.2.2.2.2.2.2.2.2.2.1.1 (by unfold tZero TXBETA2; norm_num) (by unfold tZero TXBETA2; norm_num))
  have e96 : List.foldl (selStep tx2N (3.15 : ℝ)) ((-2.4 : ℝ), [37, 39, 40, 41, 43, 45, 46, 48, 50, 52, 54, 57, 59, 61, 64, 67, 69, 72, 76, 79, 82, 86, 90, 94, 99, 103, 108, 113, 119, 124, 130, 137, 143, 150, 158, 166, 174, 183, 192, 201, 212, 222, 234, 245, 258, 271, 284, 299, 314, 329, 345, 362, 380, 398, 416, 436, 455, 476, 496, 517, 539, 561, 582, 604, 626, 648, 670, 691, 713, 733, 754, 773, 792, 810, 828, 845, 860, 875, 889, 902, 915, 926, 936, 946, 955, 963, 970, 977, 983, 988, 993, 997, 1001, 1004, 1007, 1009])
      (List.range' 1010 11)
      = List.foldl (selStep tx2N (3.15 : ℝ)) ((-5.55 : ℝ), [37, 39, 40, 41, 43, 45, 46, 48, 50, 52, 54, 57, 59, 61, 64, 67, 69, 72, 76, 79, 82, 86, 90, 94, 99, 103, 108, 113, 119, 124, 130, 137, 143, 150, 158, 166, 174, 183, 192, 201, 212, 222, 234, 245, 258, 271, 284, 299, 314, 329, 345, 362, 380, 398, 416, 436, 455, 476, 496, 517, 539, 561, 582, 604, 626, 648, 670, 691, 713, 733, 754, 773, 792, 810, 828, 845, 860, 875, 889, 902, 915, 926, 936, 946, 955, 963, 970, 977, 983, 988, 993, 997, 1001, 1004, 1007, 1009, 1011])
      (List.range' 1012 9) :=
    run_segment (3.15 : ℝ) (-2.4 : ℝ) (-5.55 : ℝ) [37, 39, 40, 41, 43, 45, 46, 48, 50, 52, 54, 57, 59, 61, 64, 67, 69, 72, 76, 79, 82, 86, 90, 94, 99, 103, 108, 113, 119, 124, 130, 137, 143, 150, 158, 166, 174, 183, 192, 201, 212, 222, 234, 245, 258, 271, 284, 299, 314, 329, 345, 362, 380, 398, 416, 436, 455, 476, 496, 517, 539, 561, 582, 604, 626, 648, 670, 691, 713, 733, 754, 773, 792, 810, 828, 845, 860, 875, 889, 902, 915, 926, 936, 946, 955, 963, 970, 977, 983, 988, 993, 997, 1001, 1004, 1007, 1009] [37, 39, 40, 41, 43, 45, 46, 48, 50, 52, 54, 57, 59, 61, 64, 67, 69, 72, 76, 79, 82, 86, 90, 94, 99, 103, 108, 113, 119, 124, 130, 137, 143, 150, 158, 166, 174, 183, 192, 201, 212, 222, 234, 245, 258, 271, 284, 299, 314, 329, 345, 362, 380, 398, 416, 436, 455, 476, 496, 517, 539, 561, 582, 604, 626, 648, 670, 691, 713, 733, 754, 773, 792, 810, 828, 845, 860, 875, 889, 902, 915, 926, 936, 946, 955, 963, 970, 977, 983, 988, 993, 997, 1001, 1004, 1007, 1009, 1011]
      1010 1 9 1011 1012 11 1010
      rfl rfl rfl rfl (by norm_num) rfl (by norm_num) (by norm_num)
      (Or.inr (by unfold tx2N tx2R; exact txT_ge_of _ _ _ _ rlbC_7.2.2.2.2.2.2.2.2.2.2.2.2.2.2.1.1 (le_of_lt rlbC_7.2.2.2.2.2.2.2.2.2.2.2.2.2.2.1.2) (by unfold tZero TXBETA2; norm_num) (by unfold tZero TXBETA2; norm_num)))
      (by unfold tx2N tx2R; exact txT_lt_of _ _ _ rlbC_7.2.2.2.2.2.2.2.2.2.2.2.2.2.2.2.1.1 (by unfold tZero TXBETA2; norm_num) (by unfold tZero TXBETA2; norm_num))
  have e97 : List.foldl (selStep tx2N (3.15 : ℝ)) ((-5.55 : ℝ), [37, 39, 40, 41, 43, 45, 46, 48, 50, 52, 54, 57, 59, 61, 64, 67, 69, 72, 76, 79, 82, 86, 90, 94, 99, 103, 108, 113, 119, 124, 130, 137, 143, 150, 158, 166, 174, 183, 192, 201, 212, 222, 234, 245, 258, 271, 284, 299, 314, 329, 345, 362, 380, 398, 416, 436, 455, 476, 496, 517, 539, 561, 582, 604, 626, 648, 670, 691, 713, 733, 754, 773, 792, 810, 828, 845, 860, 875, 889, 902, 915, 926, 936, 946, 955, 963, 970, 977, 983, 988, 993, 997, 1001, 1004, 1007, 1009, 1011])
      (List.range' 1012 9)
      = List.foldl (selStep tx2N (3.15 : ℝ)) ((-8.7 : ℝ), [37, 39, 40, 41, 43, 45, 46, 48, 50, 52, 54, 57, 59, 61, 64, 67, 69, 72, 76, 79, 82, 86, 90, 94, 99, 103, 108, 113, 119, 124, 130, 137, 143, 150, 158, 166, 174, 183, 192, 201, 212, 222, 234, 245, 258, 271, 284, 299, 314, 329, 345, 362, 380, 398, 416, 436, 455, 476, 496, 517, 539, 561, 582, 604, 626, 648, 670, 691, 713, 733, 754, 773, 792, 810, 828, 845, 860, 875, 889, 902, 915, 926, 936, 946, 955, 963, 970, 977, 983, 988, 993, 997, 1001, 1004, 1007, 1009, 1011, 1013])
      (List.range' 1014 7) :=
    run_segment (3.15 : ℝ) (-5.55 : ℝ) (-8.7 : ℝ) [37, 39, 40, 41, 43, 45, 46, 48, 50, 52, 54, 57, 59, 61, 64, 67, 69, 72, 76, 79, 82, 86, 90, 94, 99, 103, 108, 113, 119, 124, 130, 137, 143, 150, 158, 166, 174, 183, 192, 201, 212, 222, 234, 245, 258, 271, 284, 299, 314, 329, 345, 362, 380, 398, 416, 436, 455, 476, 496, 517, 539, 561, 582, 604, 626, 648, 670, 691, 713, 733, 754, 773, 792, 810, 828, 845, 860, 875, 889, 902, 915, 926, 936, 946, 955, 963, 970, 977, 983, 988, 993, 997, 1001, 1004, 1007, 1009, 1011] [37, 39, 40, 41, 43, 45, 46, 48, 50, 52, 54, 57, 59, 61, 64, 67, 69, 72, 76, 79, 82, 86, 90, 94, 99, 103, 108, 113, 119, 124, 130, 137, 143, 150, 158, 166, 174, 183, 192, 201, 212, 222, 234, 245, 258, 271, 284, 299, 314, 329, 345, 362, 380, 398, 416, 436, 455, 476, 496, 517, 539, 561, 582, 604, 626, 648, 670, 691, 713, 733, 754, 773, 792, 810, 828, 845, 860, 875, 889, 902, 915, 926, 936, 946, 955, 963, 970, 977, 983, 988, 993, 997, 1001, 1004, 1007, 1009, 1011, 1013]
      1012 1 7 1013 1014 9 1012
      rfl rfl rfl rfl (by norm_num) rfl (by norm_num) (by norm_num)
      (Or.inr (by unfold tx2N tx2R; exact txT_ge_of _ _ _ _ rlbC_7.2.2.2.2.2.2.2.2.2.2.2.2.2.2.2.2.1.1 (le_of_lt rlbC_7.2.2.2.2.2.2.2.2.2.2.2.2.2.2.2.2.1.2) (by unfold tZero TXBETA2; norm_num) (by unfold tZero TXBETA2; norm_num)))
      (by unfold tx2N tx2R; exact txT_lt_of _ _ _ rlbC_7.2.2.2.2.2.2.2.2.2.2.2.2.2.2.2.2.2.1.1 (by unfold tZero TXBETA2; norm_num) (by unfold tZero TXBETA2; norm_num))
  have e98 : List.foldl (selStep tx2N (3.15 : ℝ)) ((-8.7 : ℝ), [37, 39, 40, 41, 43, 45, 46, 48, 50, 52, 54, 57, 59, 61, 64, 67, 69, 72, 76, 79, 82, 86, 90, 94, 99, 103, 108, 113, 119, 124, 130, 137, 143, 150, 158, 166, 174, 183, 192, 201, 212, 222, 234, 245, 258, 271, 284, 299, 314, 329, 345, 362, 380, 398, 416, 436, 455, 476, 496, 517, 539, 561, 582, 604, 626, 648, 670, 691, 713, 733, 754, 773, 792, 810, 828, 845, 860, 875, 889, 902, 915, 926, 936, 946, 955, 963, 970, 977, 983, 988, 993, 997, 1001, 1004, 1007, 1009, 1011, 1013])
      (List.range' 1014 7)
      = List.foldl (selStep tx2N (3.15 : ℝ)) ((-11.85 : ℝ), [37, 39, 40, 41, 43, 45, 46, 48, 50, 52, 54, 57, 59, 61, 64, 67, 69, 72, 76, 79, 82, 86, 90, 94, 99, 103, 108, 113, 119, 124, 130, 137, 143, 150, 158, 166, 174, 183, 192, 201, 212, 222, 234, 245, 258, 271, 284, 299, 314, 329, 345, 362, 380, 398, 416, 436, 455, 476, 496, 517, 539, 561, 582, 604, 626, 648, 670, 691, 713, 733, 754, 773, 792, 810, 828, 845, 860, 875, 889, 902, 915, 926, 936, 946, 955, 963, 970, 977, 983, 988, 993, 997, 1001, 1004, 1007, 1009, 1011, 1013, 1015])
      (List.range' 1016 5) :=
    run_segment (3.15 : ℝ) (-8.7 : ℝ) (-11.85 : ℝ) [37, 39, 40, 41, 43, 45, 46, 48, 50, 52, 54, 57, 59, 61, 64, 67, 69, 72, 76, 79, 82, 86, 90, 94, 99, 103, 108, 113, 119, 124, 130, 137, 143, 150, 158, 166, 174, 183, 192, 201, 212, 222, 234, 245, 258, 271, 284, 299, 314, 329, 345, 362, 380, 398, 416, 436, 455, 476, 496, 517, 539, 561, 582, 604, 626, 648, 670, 691, 713, 733, 754, 773, 792, 810, 828, 845, 860, 875, 889, 902, 915, 926, 936, 946, 955, 963, 970, 977, 983, 988, 993, 997, 1001, 1004, 1007, 1009, 1011, 1013] [37, 39, 40, 41, 43, 45, 46, 48, 50, 52, 54, 57, 59, 61, 64, 67, 69, 72, 76, 79, 82, 86, 90, 94, 99, 103, 108, 113, 119, 124, 130, 137, 143, 150, 158, 166, 174, 183, 192, 201, 212, 222, 234, 245, 258, 271, 284, 299, 314, 329, 345, 362, 380, 398, 416, 436, 455, 476, 496, 517, 539, 561, 582, 604, 626, 648, 670, 691, 713, 733, 754, 773, 792, 810, 828, 845, 860, 875, 889, 902, 915, 926, 936, 946, 955, 963, 970, 977, 983, 988, 993, 997, 1001, 1004, 1007, 1009, 1011, 1013, 1015]
      1014 1 5 1015 1016 7 1014
      rfl rfl rfl rfl (by norm_num) rfl (by norm_num) (by norm_num)
      (Or.inr (by unfold tx2N tx2R; exact txT_ge_of _ _ _ _ rlbC_7.2.2.2.2.2.2.2.2.2.2.2.2.2.2.2.2.2.2.1.1 (le_of_lt rlbC_7.2.2.2.2.2.2.2.2.2.2.2.2.2.2.2.2.2.2.1.2) (by unfold tZero TXBETA2; norm_num) (by unfold tZero TXBETA2; norm_num)))
      (by unfold tx2N tx2R; exact txT_lt_of _ _ _ rlbC_7.2.2.2.2.2.2.2.2.2.2.2.2.2.2.2.2.2.2.2.1.1 (by unfold tZero TXBETA2; norm_num) (by unfold tZero TXBETA2; norm_num))
  have e99 : List.foldl (selStep tx2N (3.15 : ℝ)) ((-11.85 : ℝ), [37, 39, 40, 41, 43, 45, 46, 48, 50, 52, 54, 57, 59, 61, 64, 67, 69, 72, 76, 79, 82, 86, 90, 94, 99, 103, 108, 113, 119, 124, 130, 137, 143, 150, 158, 166, 174, 183, 192, 201, 212, 222, 234, 245, 258, 271, 284, 299, 314, 329, 345, 362, 380, 398, 416, 436, 455, 476, 496, 517, 539, 561, 582, 604, 626, 648, 670, 691, 713, 733, 754, 773, 792, 810, 828, 845, 860, 875, 889, 902, 915, 926, 936, 946, 955, 963, 970, 977, 983, 988, 993, 997, 1001, 1004, 1007, 1009, 1011, 1013, 1015])
      (List.range' 1016 5)
      = List.foldl (selStep tx2N (3.15 : ℝ)) ((-15 : ℝ), [37, 39, 40, 41, 43, 45, 46, 48, 50, 52, 54, 57, 59, 61, 64, 67, 69, 72, 76, 79, 82, 86, 90, 94, 99, 103, 108, 113, 119, 124, 130, 137, 143, 150, 158, 166, 174, 183, 192, 201, 212, 222, 234, 245, 258, 271, 284, 299, 314, 329, 345, 362, 380, 398, 416, 436, 455, 476, 496, 517, 539, 561, 582, 604, 626, 648, 670, 691, 713, 733, 754, 773, 792, 810, 828, 845, 860, 875, 889, 902, 915, 926, 936, 946, 955, 963, 970, 977, 983, 988, 993, 997, 1001, 1004, 1007, 1009, 1011, 1013, 1015, 1016])
      (List.range' 1017 4) :=
    run_segment (3.15 : ℝ) (-11.85 : ℝ) (-15 : ℝ) [37, 39, 40, 41, 43, 45, 46, 48, 50, 52, 54, 57, 59, 61, 64, 67, 69, 72, 76, 79, 82, 86, 90, 94, 99, 103, 108, 113, 119, 124, 130, 137, 143, 150, 158, 166, 174, 183, 192, 201, 212, 222, 234, 245, 258, 271, 284, 299, 314, 329, 345, 362, 380, 398, 416, 436, 455, 476, 496, 517, 539, 561, 582, 604, 626, 648, 670, 691, 713, 733, 754, 773, 792, 810, 828, 845, 860, 875, 889, 902, 915, 926, 936, 946, 955, 963, 970, 977, 983, 988, 993, 997, 1001, 1004, 1007, 1009, 1011, 1013, 1015] [37, 39, 40, 41, 43, 45, 46, 48, 50, 52, 54, 57, 59, 61, 64, 67, 69, 72, 76, 79, 82, 86, 90, 94, 99, 103, 108, 113, 119, 124, 130, 137, 143, 150, 158, 166, 174, 183, 192, 201, 212, 222, 234, 245, 258, 271, 284, 299, 314, 329, 345, 362, 380, 398, 416, 436, 455, 476, 496, 517, 539, 561, 582, 604, 626, 648, 670, 691, 713, 733, 754, 773, 792, 810, 828, 845, 860, 875, 889, 902, 915, 926, 936, 946, 955, 963, 970, 977, 983, 988, 993, 997, 1001, 1004, 1007, 1009, 1011, 1013, 1015, 1016]
      1016 0 4 1016 1017 5 1015
      rfl rfl rfl rfl (by norm_num) rfl (by norm_num) (by norm_num)
      (Or.inl rfl)
      (by unfold tx2N tx2R; exact txT_lt_of _ _ _ rlbC_7.2.2.2.2.2.2.2.2.2.2.2.2.2.2.2.2.2.2.2.2.1.1 (by unfold tZero TXBETA2; norm_num) (by unfold tZero TXBETA2; norm_num))
  have e100 : List.foldl (selStep tx2N (3.15 : ℝ)) ((-15 : ℝ), [37, 39, 40, 41, 43, 45, 46, 48, 50, 52, 54, 57, 59, 61, 64, 67, 69, 72, 76, 79, 82, 86, 90, 94, 99, 103, 108, 113, 119, 124, 130, 137, 143, 150, 158, 166, 174, 183, 192, 201, 212, 222, 234, 245, 258, 271, 284, 299, 314, 329, 345, 362, 380, 398, 416, 436, 455, 476, 496, 517, 539, 561, 582, 604, 626, 648, 670, 691, 713, 733, 754, 773, 792, 810, 828, 845, 860, 875, 889, 902, 915, 926, 936, 946, 955, 963, 970, 977, 983, 988, 993, 997, 1001, 1004, 1007, 1009, 1011, 1013, 1015, 1016])
      (List.range' 1017 4)
      = List.foldl (selStep tx2N (3.15 : ℝ)) ((-18.15 : ℝ), [37, 39, 40, 41, 43, 45, 46, 48, 50, 52, 54, 57, 59, 61, 64, 67, 69, 72, 76, 79, 82, 86, 90, 94, 99, 103, 108, 113, 119, 124, 130, 137, 143, 150, 158, 166, 174, 183, 192, 201, 212, 222, 234, 245, 258, 271, 284, 299, 314, 329, 345, 362, 380, 398, 416, 436, 455, 476, 496, 517, 539, 561, 582, 604, 626, 648, 670, 691, 713, 733, 754, 773, 792, 810, 828, 845, 860, 875, 889, 902, 915, 926, 936, 946, 955, 963, 970, 977, 983, 988, 993, 997, 1001, 1004, 1007, 1009, 1011, 1013, 1015, 1016, 1018])
      (List.range' 1019 2) :=
    run_segment (3.15 : ℝ) (-15 : ℝ) (-18.15 : ℝ) [37, 39, 40, 41, 43, 45, 46, 48, 50, 52, 54, 57, 59, 61, 64, 67, 69, 72, 76, 79, 82, 86, 90, 94, 99, 103, 108, 113, 119, 124, 130, 137, 143, 150, 158, 166, 174, 183, 192, 201, 212, 222, 234, 245, 258, 271, 284, 299, 314, 329, 345, 362, 380, 398, 416, 436, 455, 476, 496, 517, 539, 561, 582, 604, 626, 648, 670, 691, 713, 733, 754, 773, 792, 810, 828, 845, 860, 875, 889, 902, 915, 926, 936, 946, 955, 963, 970, 977, 983, 988, 993, 997, 1001, 1004, 1007, 1009, 1011, 1013, 1015, 1016] [37, 39, 40, 41, 43, 45, 46, 48, 50, 52, 54, 57, 59, 61, 64, 67, 69, 72, 76, 79, 82, 86, 90, 94, 99, 103, 108, 113, 119, 124, 130, 137, 143, 150, 158, 166, 174, 183, 192, 201, 212, 222, 234, 245, 258, 271, 284, 299, 314, 329, 345, 362, 380, 398, 416, 436, 455, 476, 496, 517, 539, 561, 582, 604, 626, 648, 670, 691, 713, 733, 754, 773, 792, 810, 828, 845, 860, 875, 889, 902, 915, 926, 936, 946, 955, 963, 970, 977, 983, 988, 993, 997, 1001, 1004, 1007, 1009, 1011, 1013, 1015, 1016, 1018]
      1017 1 2 1018 1019 4 1017
      rfl rfl rfl rfl (by norm_num) rfl (by norm_num) (by norm_num)
      (Or.inr (by unfold tx2N tx2R; exact txT_ge_of _ _ _ _ rlbC_7.2.2.2.2.2.2.2.2.2.2.2.2.2.2.2.2.2.2.2.2.2.1.1 (le_of_lt rlbC_7.2.2.2.2.2.2.2.2.2.2.2.2.2.2.2.2.2.2.2.2.2.1.2) (by unfold tZero TXBETA2; norm_num) (by unfold tZero TXBETA2; norm_num)))
      (by unfold tx2N tx2R; exact txT_lt_of _ _ _ rlbC_7.2.2.2.2.2.2.2.2.2.2.2.2.2.2.2.2.2.2.2.2.2.2.1.1 (by unfold tZero TXBETA2; norm_num) (by unfold tZero TXBETA2; norm_num))
  have e101 : List.foldl (selStep tx2N (3.15 : ℝ)) ((-18.15 : ℝ), [37, 39, 40, 41, 43, 45, 46, 48, 50, 52, 54, 57, 59, 61, 64, 67, 69, 72, 76, 79, 82, 86, 90, 94, 99, 103, 108, 113, 119, 124, 130, 137, 143, 150, 158, 166, 174, 183, 192, 201, 212, 222, 234, 245, 258, 271, 284, 299, 314, 329, 345, 362, 380, 398, 416, 436, 455, 476, 496, 517, 539, 561, 582, 604, 626, 648, 670, 691, 713, 733, 754, 773, 792, 810, 828, 845, 860, 875, 889, 902, 915, 926, 936, 946, 955, 963, 970, 977, 983, 988, 993, 997, 1001, 1004, 1007, 1009, 1011, 1013, 1015, 1016, 1018])
      (List.range' 1019 2)
      = List.foldl (selStep tx2N (3.15 : ℝ)) ((-21.3 : ℝ), [37, 39, 40, 41, 43, 45, 46, 48, 50, 52, 54, 57, 59, 61, 64, 67, 69, 72, 76, 79, 82, 86, 90, 94, 99, 103, 108, 113, 119, 124, 130, 137, 143, 150, 158, 166, 174, 183, 192, 201, 212, 222, 234, 245, 258, 271, 284, 299, 314, 329, 345, 362, 380, 398, 416, 436, 455, 476, 496, 517, 539, 561, 582, 604, 626, 648, 670, 691, 713, 733, 754, 773, 792, 810, 828, 845, 860, 875, 889, 902, 915, 926, 936, 946, 955, 963, 970, 977, 983, 988, 993, 997, 1001, 1004, 1007, 1009, 1011, 1013, 1015, 1016, 1018, 1019])
      (List.range' 1020 1) :=
    run_segment (3.15 : ℝ) (-18.15 : ℝ) (-21.3 : ℝ) [37, 39, 40, 41, 43, 45, 46, 48, 50, 52, 54, 57, 59, 61, 64, 67, 69, 72, 76, 79, 82, 86, 90, 94, 99, 103, 108, 113, 119, 124, 130, 137, 143, 150, 158, 166, 174, 183, 192, 201, 212, 222, 234, 245, 258, 271, 284, 299, 314, 329, 345, 362, 380, 398, 416, 436, 455, 476, 496, 517, 539, 561, 582, 604, 626, 648, 670, 691, 713, 733, 754, 773, 792, 810, 828, 845, 860, 875, 889, 902, 915, 926, 936, 946, 955, 963, 970, 977, 983, 988, 993, 997, 1001, 1004, 1007, 1009, 1011, 1013, 1015, 1016, 1018] [37, 39, 40, 41, 43, 45, 46, 48, 50, 52, 54, 57, 59, 61, 64, 67, 69, 72, 76, 79, 82, 86, 90, 94, 99, 103, 108, 113, 119, 124, 130, 137, 143, 150, 158, 166, 174, 183, 192, 201, 212, 222, 234, 245, 258, 271, 284, 299, 314, 329, 345, 362, 380, 398, 416, 436, 455, 476, 496, 517, 539, 561, 582, 604, 626, 648, 670, 691, 713, 733, 754, 773, 792, 810, 828, 845, 860, 875, 889, 902, 915, 926, 936, 946, 955, 963, 970, 977, 983, 988, 993, 997, 1001, 1004, 1007, 1009, 1011, 1013, 1015, 1016, 1018, 1019]
      1019 0 1 1019 1020 2 1018
      rfl rfl rfl rfl (by norm_num) rfl (by norm_num) (by norm_num)
      (Or.inl rfl)
      (by unfold tx2N tx2R; exact txT_lt_of _ _ _ rlbC_7.2.2.2.2.2.2.2.2.2.2.2.2.2.2.2.2.2.2.2.2.2.2.2.1.1 (by unfold tZero TXBETA2; norm_num) (by unfold tZero TXBETA2; norm_num))
  have e102 : List.foldl (selStep tx2N (3.15 : ℝ)) ((-21.3 : ℝ), [37, 39, 40, 41, 43, 45, 46, 48, 50, 52, 54, 57, 59, 61, 64, 67, 69, 72, 76, 79, 82, 86, 90, 94, 99, 103, 108, 113, 119, 124, 130, 137, 143, 150, 158, 166, 174, 183, 192, 201, 212, 222, 234, 245, 258, 271, 284, 299, 314, 329, 345, 362, 380, 398, 416, 436, 455, 476, 496, 517, 539, 561, 582, 604, 626, 648, 670, 691, 713, 733, 754, 773, 792, 810, 828, 845, 860, 875, 889, 902, 915, 926, 936, 946, 955, 963, 970, 977, 983, 988, 993, 997, 1001, 1004, 1007, 1009, 1011, 1013, 1015, 1016, 1018, 1019])
      (List.range' 1020 1)
      = List.foldl (selStep tx2N (3.15 : ℝ)) ((-24.45 : ℝ), normalRows)
      (List.range' 1021 0) :=
    run_segment (3.15 : ℝ) (-21.3 : ℝ) (-24.45 : ℝ) [37, 39, 40, 41, 43, 45, 46, 48, 50, 52, 54, 57, 59, 61, 64, 67, 69, 72, 76, 79, 82, 86, 90, 94, 99, 103, 108, 113, 119, 124, 130, 137, 143, 150, 158, 166, 174, 183, 192, 201, 212, 222, 234, 245, 258, 271, 284, 299, 314, 329, 345, 362, 380, 398, 416, 436, 455, 476, 496, 517, 539, 561, 582, 604, 626, 648, 670, 691, 713, 733, 754, 773, 792, 810, 828, 845, 860, 875, 889, 902, 915, 926, 936, 946, 955, 963, 970, 977, 983, 988, 993, 997, 1001, 1004, 1007, 1009, 1011, 1013, 1015, 1016, 1018, 1019] normalRows
      1020 0 0 1020 1021 1 1019
      rfl rfl rfl rfl (by norm_num) rfl (by norm_num) (by norm_num)
      (Or.inl rfl)
      (by unfold tx2N tx2R; exact txT_lt_of _ _ _ rlbC_7.2.2.2.2.2.2.2.2.2.2.2.2.2.2.2.2.2.2.2.2.2.2.2.2.1 (by unfold tZero TXBETA2; norm_num) (by unfold tZero TXBETA2; norm_num))
  rw [e0, e1, e2, e3, e4, e5, e6, e7, e8, e9, e10, e11, e12, e13, e14, e15, e16, e17, e18, e19, e20, e21, e22, e23, e24, e25, e26, e27, e28, e29, e30, e31, e32, e33, e34, e35, e36, e37, e38, e39, e40, e41, e42, e43, e44, e45, e46, e47, e48, e49, e50, e51, e52, e53, e54, e55, e56, e57, e58, e59, e60, e61, e62, e63, e64, e65, e66, e67, e68, e69, e70, e71, e72, e73, e74, e75, e76, e77, e78, e79, e80, e81, e82, e83, e84, e85, e86, e87, e88, e89, e90, e91, e92, e93, e94, e95, e96, e97, e98, e99, e100, e101, e102]
  rfl

theorem normalRows_map_floor :
    normalRows.map (fun c => ⌊tx2N c⌋) = [(299 : ℤ), (294 : ℤ), (292 : ℤ), (290 : ℤ), (286 : ℤ), (282 : ℤ), (280 : ℤ), (277 : ℤ), (274 : ℤ), (271 : ℤ), (268 : ℤ), (263 : ℤ), (261 : ℤ), (258 : ℤ), (255 : ℤ), (251 : ℤ), (249 : ℤ), (246 : ℤ), (242 : ℤ), (239 : ℤ), (236 : ℤ), (233 : ℤ), (230 : ℤ), (227 : ℤ), (223 : ℤ), (221 : ℤ), (217 : ℤ), (214 : ℤ), (211 : ℤ), (208 : ℤ), (205 : ℤ), (201 : ℤ), (199 : ℤ), (195 : ℤ), (192 : ℤ), (189 : ℤ), (186 : ℤ), (183 : ℤ), (180 : ℤ), (177 : ℤ), (173 : ℤ), (170 : ℤ), (167 : ℤ), (164 : ℤ), (161 : ℤ), (158 : ℤ), (155 : ℤ), (151 : ℤ), (148 : ℤ), (145 : ℤ), (142 : ℤ), (139 : ℤ), (136 : ℤ), (132 : ℤ), (129 : ℤ), (126 : ℤ), (123 : ℤ), (120 : ℤ), (117 : ℤ), (114 : ℤ), (110 : ℤ), (107 : ℤ), (104 : ℤ), (101 : ℤ), (98 : ℤ), (95 : ℤ), (92 : ℤ), (88 : ℤ), (85 : ℤ), (82 : ℤ), (79 : ℤ), (76 : ℤ), (73 : ℤ), (70 : ℤ), (66 : ℤ), (63 : ℤ), (60 : ℤ), (57 : ℤ), (54 : ℤ), (51 : ℤ), (47 : ℤ), (44 : ℤ), (41 : ℤ), (38 : ℤ), (35 : ℤ), (31 : ℤ), (28 : ℤ), (25 : ℤ), (22 : ℤ), (19 : ℤ), (15 : ℤ), (12 : ℤ), (9 : ℤ), (6 : ℤ), (2 : ℤ), (0 : ℤ), (-3 : ℤ), (-6 : ℤ), (-10 : ℤ), (-13 : ℤ), (-18 : ℤ), (-22 : ℤ), (-27 : ℤ)] := by
  unfold normalRows
  simp only [List.map_cons, List.map_nil, List.cons.injEq, and_true]
  exact ⟨(Int.floor_eq_iff.mpr ⟨(by push_cast; unfold tx2N tx2R; exact txT_ge_of _ _ _ _ rlbC_0.2.1.1 (le_of_lt rlbC_0.2.1.2) (by unfold tZero TXBETA2; norm_num) (by unfold tZero TXBETA2; norm_num)), (by push_cast; unfold tx2N tx2R; exact txT_lt_of _ _ _ rlbC_0.2.1.1 (by unfold tZero TXBETA2; norm_num) (by unfold tZero TXBETA2; push_cast; norm_num))⟩), (Int.floor_eq_iff.mpr ⟨(by push_cast; unfold tx2N tx2R; exact txT_ge_of _ _ _ _ rlbC_0.2.2.2.1.1 (le_of_lt rlbC_0.2.2.2.1.2) (by unfold tZero TXBETA2; norm_num) (by unfold tZero TXBETA2; norm_num)), (by push_cast; unfold tx2N tx2R; exact txT_lt_of _ _ _ rlbC_0.2.2.2.1.1 (by unfold tZero TXBETA2; norm_num) (by unfold tZero TXBETA2; push_cast; norm_num))⟩), (Int.floor_eq_iff.mpr ⟨(by push_cast; unfold tx2N tx2R; exact txT_ge_of _ _ _ _ rlbC_0.2.2.2.2.1.1 (le_of_lt rlbC_0.2.2.2.2.1.2) (by unfold tZero TXBETA2; norm_num) (by unfold tZero TXBETA2; norm_num)), (by push_cast; unfold tx2N tx2R; exact txT_lt_of _ _ _ rlbC_0.2.2.2.2.1.1 (by unfold tZero TXBETA2; norm_num) (by unfold tZero TXBETA2; push_cast; norm_num))⟩), (Int.floor_eq_iff.mpr ⟨(by push_cast; unfold tx2N tx2R; exact txT_ge_of _ _ _ _ rlbC_0.2.2.2.2.2.1.1 (le_of_lt rlbC_0.2.2.2.2.2.1.2) (by unfold tZero TXBETA2; norm_num) (by unfold tZero TXBETA2; norm_num)), (by push_cast; unfold tx2N tx2R; exact txT_lt_of _ _ _ rlbC_0.2.2.2.2.2.1.1 (by unfold tZero TXBETA2; norm_num) (by unfold tZero TXBETA2; push_cast; norm_num))⟩), (Int.floor_eq_iff.mpr ⟨(by push_cast; unfold tx2N tx2R; exact txT_ge_of _ _ _ _ rlbC_0.2.2.2.2.2.2.2.1.1 (le_of_lt rlbC_0.2.2.2.2.2.2.2.1.2) (by unfold tZero TXBETA2; norm_num) (by unfold tZero TXBETA2; norm_num)), (by push_cast; unfold tx2N tx2R; exact txT_lt_of _ _ _ rlbC_0.2.2.2.2.2.2.2.1.1 (by unfold tZero TXBETA2; norm_num) (by unfold tZero TXBETA2; push_cast; norm_num))⟩), (Int.floor_eq_iff.mpr ⟨(by push_cast; unfold tx2N tx2R; exact txT_ge_of _ _ _ _ rlbC_0.2.2.2.2.2.2.2.2.2.1.1 (le_of_lt rlbC_0.2.2.2.2.2.2.2.2.2.1.2) (by unfold tZero TXBETA2; norm_num) (by unfold tZero TXBETA2; norm_num)), (by push_cast; unfold tx2N tx2R; exact txT_lt_of _ _ _ rlbC_0.2.2.2.2.2.2.2.2.2.1.1 (by unfold tZero TXBETA2; norm_num) (by unfold tZero TXBETA2; push_cast; norm_num))⟩), (Int.floor_eq_iff.mpr ⟨(by push_cast; unfold tx2N tx2R; exact txT_ge_of _ _ _ _ rlbC_0.2.2.2.2.2.2.2.2.2.2.1.1 (le_of_lt rlbC_0.2.2.2.2.2.2.2.2.2.2.1.2) (by unfold tZero TXBETA2; norm_num) (by unfold tZero TXBETA2; norm_num)), (by push_cast; unfold tx2N tx2R; exact txT_lt_of _ _ _ rlbC_0.2.2.2.2.2.2.2.2.2.2.1.1 (by unfold tZero TXBETA2; norm_num) (by unfold tZero TXBETA2; push_cast; norm_num))⟩), (Int.floor_eq_iff.mpr ⟨(by push_cast; unfold tx2N tx2R; exact txT_ge_of _ _ _ _ rlbC_0.2.2.2.2.2.2.2.2.2.2.2.2.1.1 (le_of_lt rlbC_0.2.2.2.2.2.2.2.2.2.2.2.2.1.2) (by unfold tZero TXBETA2; norm_num) (by unfold tZero TXBETA2; norm_num)), (by push_cast; unfold tx2N tx2R; exact txT_lt_of _ _ _ rlbC_0.2.2.2.2.2.2.2.2.2.2.2.2.1.1 (by unfold tZero TXBETA2; norm_num) (by unfold tZero TXBETA2; push_cast; norm_num))⟩), (Int.floor_eq_iff.mpr ⟨(by push_cast; unfold tx2N tx2R; exact txT_ge_of _ _ _ _ rlbC_0.2.2.2.2.2.2.2.2.2.2.2.2.2.2.1.1 (le_of_lt rlbC_0.2.2.2.2.2.2.2.2.2.2.2.2.2.2.1.2) (by unfold tZero TXBETA2; norm_num) (by unfold tZero TXBETA2; norm_num)), (by push_cast; unfold tx2N tx2R; exact txT_lt_of _ _ _ rlbC_0.2.2.2.2.2.2.2.2.2.2.2.2.2.2.1.1 (by unfold tZero TXBETA2; norm_num) (by unfold tZero TXBETA2; push_cast; norm_num))⟩), (Int.floor_eq_iff.mpr ⟨(by push_cast; unfold tx2N tx2R; exact txT_ge_of _ _ _ _ rlbC_0.2.2.2.2.2.2.2.2.2.2.2.2.2.2.2.2.1.1 (le_of_lt rlbC_0.2.2.2.2.2.2.2.2.2.2.2.2.2.2.2.2.1.2) (by unfold tZero TXBETA2; norm_num) (by unfold tZero TXBETA2; norm_num)), (by push_cast; unfold tx2N tx2R; exact txT_lt_of _ _ _ rlbC_0.2.2.2.2.2.2.2.2.2.2.2.2.2.2.2.2.1.1 (by unfold tZero TXBETA2; norm_num) (by unfold tZero TXBETA2; push_cast; norm_num))⟩), (Int.floor_eq_iff.mpr ⟨(by push_cast; unfold tx2N tx2R; exact txT_ge_of _ _ _ _ rlbC_0.2.2.2.2.2.2.2.2.2.2.2.2.2.2.2.2.2.2.1.1 (le_of_lt rlbC_0.2.2.2.2.2.2.2.2.2.2.2.2.2.2.2.2.2.2.1.2) (by unfold tZero TXBETA2; norm_num) (by unfold tZero TXBETA2; norm_num)), (by push_cast; unfold tx2N tx2R; exact txT_lt_of _ _ _ rlbC_0.2.2.2.2.2.2.2.2.2.2.2.2.2.2.2.2.2.2.1.1 (by unfold tZero TXBETA2; norm_num) (by unfold tZero TXBETA2; push_cast; norm_num))⟩), (Int.floor_eq_iff.mpr ⟨(by push_cast; unfold tx2N tx2R; exact txT_ge_of _ _ _ _ rlbC_0.2.2.2.2.2.2.2.2.2.2.2.2.2.2.2.2.2.2.2.2.1.1 (le_of_lt rlbC_0.2.2.2.2.2.2.2.2.2.2.2.2.2.2.2.2.2.2.2.2.1.2) (by unfold tZero TXBETA2; norm_num) (by unfold tZero TXBETA2; norm_num)), (by push_cast; unfold tx2N tx2R; exact txT_lt_of _ _ _ rlbC_0.2.2.2.2.2.2.2.2.2.2.2.2.2.2.2.2.2.2.2.2.1.1 (by unfold tZero TXBETA2; norm_num) (by unfold tZero TXBETA2; push_cast; norm_num))⟩), (Int.floor_eq_iff.mpr ⟨(by push_cast; unfold tx2N tx2R; exact txT_ge_of _ _ _ _ rlbC_0.2.2.2.2.2.2.2.2.2.2.2.2.2.2.2.2.2.2.2.2.2.2.1.1 (le_of_lt rlbC_0.2.2.2.2.2.2.2.2.2.2.2.2.2.2.2.2.2.2.2.2.2.2.1.2) (by unfold tZero TXBETA2; norm_num) (by unfold tZero TXBETA2; norm_num)), (by push_cast; unfold tx2N tx2R; exact txT_lt_of _ _ _ rlbC_0.2.2.2.2.2.2.2.2.2.2.2.2.2.2.2.2.2.2.2.2.2.2.1.1 (by unfold tZero TXBETA2; norm_num) (by unfold tZero TXBETA2; push_cast; norm_num))⟩), (Int.floor_eq_iff.mpr ⟨(by push_cast; unfold tx2N tx2R; exact txT_ge_of _ _ _ _ rlbC_0.2.2.2.2.2.2.2.2.2.2.2.2.2.2.2.2.2.2.2.2.2.2.2.2.1 (le_of_lt rlbC_0.2.2.2.2.2.2.2.2.2.2.2.2.2.2.2.2.2.2.2.2.2.2.2.2.2) (by unfold tZero TXBETA2; norm_num) (by unfold tZero TXBETA2; norm_num)), (by push_cast; unfold tx2N tx2R; exact txT_lt_of _ _ _ rlbC_0.2.2.2.2.2.2.2.2.2.2.2.2.2.2.2.2.2.2.2.2.2.2.2.2.1 (by unfold tZero TXBETA2; norm_num) (by unfold tZero TXBETA2; push_cast; norm_num))⟩), (Int.floor_eq_iff.mpr ⟨(by push_cast; unfold tx2N tx2R; exact txT_ge_of _ _ _ _ rlbC_1.2.1.1 (le_of_lt rlbC_1.2.1.2) (by unfold tZero TXBETA2; norm_num) (by unfold tZero TXBETA2; norm_num)), (by push_cast; unfold tx2N tx2R; exact txT_lt_of _ _ _ rlbC_1.2.1.1 (by unfold tZero TXBETA2; norm_num) (by unfold tZero TXBETA2; push_cast; norm_num))⟩), (Int.floor_eq_iff.mpr ⟨(by push_cast; unfold tx2N tx2R; exact txT_ge_of _ _ _ _ rlbC_1.2.2.2.1.1 (le_of_lt rlbC_1.2.2.2.1.2) (by unfold tZero TXBETA2; norm_num) (by unfold tZero TXBETA2; norm_num)), (by push_cast; unfold tx2N tx2R; exact txT_lt_of _ _ _ rlbC_1.2.2.2.1.1 (by unfold tZero TXBETA2; norm_num) (by unfold tZero TXBETA2; push_cast; norm_num))⟩), (Int.floor_eq_iff.mpr ⟨(by push_cast; unfold tx2N tx2R; exact txT_ge_of _ _ _ _ rlbC_1.2.2.2.2.2.1.1 (le_of_lt rlbC_1.2.2.2.2.2.1.2) (by unfold tZero TXBETA2; norm_num) (by unfold tZero TXBETA2; norm_num)), (by push_cast; unfold tx2N tx2R; exact txT_lt_of _ _ _ rlbC_1.2.2.2.2.2.1.1 (by unfold tZero TXBETA2; norm_num) (by unfold tZero TXBETA2; push_cast; norm_num))⟩), (Int.floor_eq_iff.mpr ⟨(by push_cast; unfold tx2N tx2R; exact txT_ge_of _ _ _ _ rlbC_1.2.2.2.2.2.2.2.1.1 (le_of_lt rlbC_1.2.2.2.2.2.2.2.1.2) (by unfold tZero TXBETA2; norm_num) (by unfold tZero TXBETA2; norm_num)), (by push_cast; unfold tx2N tx2R; exact txT_lt_of _ _ _ rlbC_1.2.2.2.2.2.2.2.1.1 (by unfold tZero TXBETA2; norm_num) (by unfold tZero TXBETA2; push_cast; norm_num))⟩), (Int.floor_eq_iff.mpr ⟨(by push_cast; unfold tx2N tx2R; exact txT_ge_of _ _ _ _ rlbC_1.2.2.2.2.2.2.2.2.2.1.1 (le_of_lt rlbC_1.2.2.2.2.2.2.2.2.2.1.2) (by unfold tZero TXBETA2; norm_num) (by unfold tZero TXBETA2; norm_num)), (by push_cast; unfold tx2N tx2R; exact txT_lt_of _ _ _ rlbC_1.2.2.2.2.2.2.2.2.2.1.1 (by unfold tZero TXBETA2; norm_num) (by unfold tZero TXBETA2; push_cast; norm_num))⟩), (Int.floor_eq_iff.mpr ⟨(by push_cast; unfold tx2N tx2R; exact txT_ge_of _ _ _ _ rlbC_1.2.2.2.2.2.2.2.2.2.2.2.1.1 (le_of_lt rlbC_1.2.2.2.2.2.2.2.2.2.2.2.1.2) (by unfold tZero TXBETA2; norm_num) (by unfold tZero TXBETA2; norm_num)), (by push_cast; unfold tx2N tx2R; exact txT_lt_of _ _ _ rlbC_1.2.2.2.2.2.2.2.2.2.2.2.1.1 (by unfold tZero TXBETA2; norm_num) (by unfold tZero TXBETA2; push_cast; norm_num))⟩), (Int.floor_eq_iff.mpr ⟨(by push_cast; unfold tx2N tx2R; exact txT_ge_of _ _ _ _ rlbC_1.2.2.2.2.2.2.2.2.2.2.2.2.2.1.1 (le_of_lt rlbC_1.2.2.2.2.2.2.2.2.2.2.2.2.2.1.2) (by unfold tZero TXBETA2; norm_num) (by unfold tZero TXBETA2; norm_num)), (by push_cast; unfold tx2N tx2R; exact txT_lt_of _ _ _ rlbC_1.2.2.2.2.2.2.2.2.2.2.2.2.2.1.1 (by unfold tZero TXBETA2; norm_num) (by unfold tZero TXBETA2; push_cast; norm_num))⟩), (Int.floor_eq_iff.mpr ⟨(by push_cast; unfold tx2N tx2R; exact txT_ge_of _ _ _ _ rlbC_1.2.2.2.2.2.2.2.2.2.2.2.2.2.2.2.1.1 (le_of_lt rlbC_1.2.2.2.2.2.2.2.2.2.2.2.2.2.2.2.1.2) (by unfold tZero TXBETA2; norm_num) (by unfold tZero TXBETA2; norm_num)), (by push_cast; unfold tx2N tx2R; exact txT_lt_of _ _ _ rlbC_1.2.2.2.2.2.2.2.2.2.2.2.2.2.2.2.1.1 (by unfold tZero TXBETA2; norm_num) (by unfold tZero TXBETA2; push_cast; norm_num))⟩), (Int.floor_eq_iff.mpr ⟨(by push_cast; unfold tx2N tx2R; exact txT_ge_of _ _ _ _ rlbC_1.2.2.2.2.2.2.2.2.2.2.2.2.2.2.2.2.2.1.1 (le_of_lt rlbC_1.2.2.2.2.2.2.2.2.2.2.2.2.2.2.2.2.2.1.2) (by unfold tZero TXBETA2; norm_num) (by unfold tZero TXBETA2; norm_num)), (by push_cast; unfold tx2N tx2R; exact txT_lt_of _ _ _ rlbC_1.2.2.2.2.2.2.2.2.2.2.2.2.2.2.2.2.2.1.1 (by unfold tZero TXBETA2; norm_num) (by unfold tZero TXBETA2; push_cast; norm_num))⟩), (Int.floor_eq_iff.mpr ⟨(by push_cast; unfold tx2N tx2R; exact txT_ge_of _ _ _ _ rlbC_1.2.2.2.2.2.2.2.2.2.2.2.2.2.2.2.2.2.2.2.1.1 (le_of_lt rlbC_1.2.2.2.2.2.2.2.2.2.2.2.2.2.2.2.2.2.2.2.1.2) (by unfold tZero TXBETA2; norm_num) (by unfold tZero TXBETA2; norm_num)), (by push_cast; unfold tx2N tx2R; exact txT_lt_of _ _ _ rlbC_1.2.2.2.2.2.2.2.2.2.2.2.2.2.2.2.2.2.2.2.1.1 (by unfold tZero TXBETA2; norm_num) (by unfold tZero TXBETA2; push_cast; norm_num))⟩), (Int.floor_eq_iff.mpr ⟨(by push_cast; unfold tx2N tx2R; exact txT_ge_of _ _ _ _ rlbC_1.2.2.2.2.2.2.2.2.2.2.2.2.2.2.2.2.2.2.2.2.2.1.1 (le_of_lt rlbC_1.2.2.2.2.2.2.2.2.2.2.2.2.2.2.2.2.2.2.2.2.2.1.2) (by unfold tZero TXBETA2; norm_num) (by unfold tZero TXBETA2; norm_num)), (by push_cast; unfold tx2N tx2R; exact txT_lt_of _ _ _ rlbC_1.2.2.2.2.2.2.2.2.2.2.2.2.2.2.2.2.2.2.2.2.2.1.1 (by unfold tZero TXBETA2; norm_num) (by unfold tZero TXBETA2; push_cast; norm_num))⟩), (Int.floor_eq_iff.mpr ⟨(by push_cast; unfold tx2N tx2R; exact txT_ge_of _ _ _ _ rlbC_1.2.2.2.2.2.2.2.2.2.2.2.2.2.2.2.2.2.2.2.2.2.2.2.1.1 (le_of_lt rlbC_1.2.2.2.2.2.2.2.2.2.2.2.2.2.2.2.2.2.2.2.2.2.2.2.1.2) (by unfold tZero TXBETA2; norm_num) (by unfold tZero TXBETA2; norm_num)), (by push_cast; unfold tx2N tx2R; exact txT_lt_of _ _ _ rlbC_1.2.2.2.2.2.2.2.2.2.2.2.2.2.2.2.2.2.2.2.2.2.2.2.1.1 (by unfold tZero TXBETA2; norm_num) (by unfold tZero TXBETA2; push_cast; norm_num))⟩), (Int.floor_eq_iff.mpr ⟨(by push_cast; unfold tx2N tx2R; exact txT_ge_of _ _ _ _ rlbC_2.1.1 (le_of_lt rlbC_2.1.2) (by unfold tZero TXBETA2; norm_num) (by unfold tZero TXBETA2; norm_num)), (by push_cast; unfold tx2N tx2R; exact txT_lt_of _ _ _ rlbC_2.1.1 (by unfold tZero TXBETA2; norm_num) (by unfold tZero TXBETA2; push_cast; norm_num))⟩), (Int.floor_eq_iff.mpr ⟨(by push_cast; unfold tx2N tx2R; exact txT_ge_of _ _ _ _ rlbC_2.2.2.1.1 (le_of_lt rlbC_2.2.2.1.2) (by unfold tZero TXBETA2; norm_num) (by unfold tZero TXBETA2; norm_num)), (by push_cast; unfold tx2N tx2R; exact txT_lt_of _ _ _ rlbC_2.2.2.1.1 (by unfold tZero TXBETA2; norm_num) (by unfold tZero TXBETA2; push_cast; norm_num))⟩), (Int.floor_eq_iff.mpr ⟨(by push_cast; unfold tx2N tx2R; exact txT_ge_of _ _ _ _ rlbC_2.2.2.2.2.1.1 (le_of_lt rlbC_2.2.2.2.2.1.2) (by unfold tZero TXBETA2; norm_num) (by unfold tZero TXBETA2; norm_num)), (by push_cast; unfold tx2N tx2R; exact txT_lt_of _ _ _ rlbC_2.2.2.2.2.1.1 (by unfold tZero TXBETA2; norm_num) (by unfold tZero TXBETA2; push_cast; norm_num))⟩), (Int.floor_eq_iff.mpr ⟨(by push_cast; unfold tx2N tx2R; exact txT_ge_of _ _ _ _ rlbC_2.2.2.2.2.2.2.1.1 (le_of_lt rlbC_2.2.2.2.2.2.2.1.2) (by unfold tZero TXBETA2; norm_num) (by unfold tZero TXBETA2; norm_num)), (by push_cast; unfold tx2N tx2R; exact txT_lt_of _ _ _ rlbC_2.2.2.2.2.2.2.1.1 (by unfold tZero TXBETA2; norm_num) (by unfold tZero TXBETA2; push_cast; norm_num))⟩), (Int.floor_eq_iff.mpr ⟨(by push_cast; unfold tx2N tx2R; exact txT_ge_of _ _ _ _ rlbC_2.2.2.2.2.2.2.2.2.1.1 (le_of_lt rlbC_2.2.2.2.2.2.2.2.2.1.2) (by unfold tZero TXBETA2; norm_num) (by unfold tZero TXBETA2; norm_num)), (by push_cast; unfold tx2N tx2R; exact txT_lt_of _ _ _ rlbC_2.2.2.2.2.2.2.2.2.1.1 (by unfold tZero TXBETA2; norm_num) (by unfold tZero TXBETA2; push_cast; norm_num))⟩), (Int.floor_eq_iff.mpr ⟨(by push_cast; unfold tx2N tx2R; exact txT_ge_of _ _ _ _ rlbC_2.2.2.2.2.2.2.2.2.2.2.1.1 (le_of_lt rlbC_2.2.2.2.2.2.2.2.2.2.2.1.2) (by unfold tZero TXBETA2; norm_num) (by unfold tZero TXBETA2; norm_num)), (by push_cast; unfold tx2N tx2R; exact txT_lt_of _ _ _ rlbC_2.2.2.2.2.2.2.2.2.2.2.1.1 (by unfold tZero TXBETA2; norm_num) (by unfold tZero TXBETA2; push_cast; norm_num))⟩), (Int.floor_eq_iff.mpr ⟨(by push_cast; unfold tx2N tx2R; exact txT_ge_of _ _ _ _ rlbC_2.2.2.2.2.2.2.2.2.2.2.2.2.1.1 (le_of_lt rlbC_2.2.2.2.2.2.2.2.2.2.2.2.2.1.2) (by unfold tZero TXBETA2; norm_num) (by unfold tZero TXBETA2; norm_num)), (by push_cast; unfold tx2N tx2R; exact txT_lt_of _ _ _ rlbC_2.2.2.2.2.2.2.2.2.2.2.2.2.1.1 (by unfold tZero TXBETA2; norm_num) (by unfold tZero TXBETA2; push_cast; norm_num))⟩), (Int.floor_eq_iff.mpr ⟨(by push_cast; unfold tx2N tx2R; exact txT_ge_of _ _ _ _ rlbC_2.2.2.2.2.2.2.2.2.2.2.2.2.2.2.1.1 (le_of_lt rlbC_2.2.2.2.2.2.2.2.2.2.2.2.2.2.2.1.2) (by unfold tZero TXBETA2; norm_num) (by unfold tZero TXBETA2; norm_num)), (by push_cast; unfold tx2N tx2R; exact txT_lt_of _ _ _ rlbC_2.2.2.2.2.2.2.2.2.2.2.2.2.2.2.1.1 (by unfold tZero TXBETA2; norm_num) (by unfold tZero TXBETA2; push_cast; norm_num))⟩), (Int.floor_eq_iff.mpr ⟨(by push_cast; unfold tx2N tx2R; exact txT_ge_of _ _ _ _ rlbC_2.2.2.2.2.2.2.2.2.2.2.2.2.2.2.2.2.1.1 (le_of_lt rlbC_2.2.2.2.2.2.2.2.2.2.2.2.2.2.2.2.2.1.2) (by unfold tZero TXBETA2; norm_num) (by unfold tZero TXBETA2; norm_num)), (by push_cast; unfold tx2N tx2R; exact txT_lt_of _ _ _ rlbC_2.2.2.2.2.2.2.2.2.2.2.2.2.2.2.2.2.1.1 (by unfold tZero TXBETA2; norm_num) (by unfold tZero TXBETA2; push_cast; norm_num))⟩), (Int.floor_eq_iff.mpr ⟨(by push_cast; unfold tx2N tx2R; exact txT_ge_of _ _ _ _ rlbC_2.2.2.2.2.2.2.2.2.2.2.2.2.2.2.2.2.2.2.1.1 (le_of_lt rlbC_2.2.2.2.2.2.2.2.2.2.2.2.2.2.2.2.2.2.2.1.2) (by unfold tZero TXBETA2; norm_num) (by unfold tZero TXBETA2; norm_num)), (by push_cast; unfold tx2N tx2R; exact txT_lt_of _ _ _ rlbC_2.2.2.2.2.2.2.2.2.2.2.2.2.2.2.2.2.2.2.1.1 (by unfold tZero TXBETA2; norm_num) (by unfold tZero TXBETA2; push_cast; norm_num))⟩), (Int.floor_eq_iff.mpr ⟨(by push_cast; unfold tx2N tx2R; exact txT_ge_of _ _ _ _ rlbC_2.2.2.2.2.2.2.2.2.2.2.2.2.2.2.2.2.2.2.2.2.1.1 (le_of_lt rlbC_2.2.2.2.2.2.2.2.2.2.2.2.2.2.2.2.2.2.2.2.2.1.2) (by unfold tZero TXBETA2; norm_num) (by unfold tZero TXBETA2; norm_num)), (by push_cast; unfold tx2N tx2R; exact txT_lt_of _ _ _ rlbC_2.2.2.2.2.2.2.2.2.2.2.2.2.2.2.2.2.2.2.2.2.1.1 (by unfold tZero TXBETA2; norm_num) (by unfold tZero TXBETA2; push_cast; norm_num))⟩), (Int.floor_eq_iff.mpr ⟨(by push_cast; unfold tx2N tx2R; exact txT_ge_of _ _ _ _ rlbC_2.2.2.2.2.2.2.2.2.2.2.2.2.2.2.2.2.2.2.2.2.2.2.1.1 (le_of_lt rlbC_2.2.2.2.2.2.2.2.2.2.2.2.2.2.2.2.2.2.2.2.2.2.2.1.2) (by unfold tZero TXBETA2; norm_num) (by unfold tZero TXBETA2; norm_num)), (by push_cast; unfold tx2N tx2R; exact txT_lt_of _ _ _ rlbC_2.2.2.2.2.2.2.2.2.2.2.2.2.2.2.2.2.2.2.2.2.2.2.1.1 (by unfold tZero TXBETA2; norm_num) (by unfold tZero TXBETA2; push_cast; norm_num))⟩), (Int.floor_eq_iff.mpr ⟨(by push_cast; unfold tx2N tx2R; exact txT_ge_of _ _ _ _ rlbC_2.2.2.2.2.2.2.2.2.2.2.2.2.2.2.2.2.2.2.2.2.2.2.2.2.1 (le_of_lt rlbC_2.2.2.2.2.2.2.2.2.2.2.2.2.2.2.2.2.2.2.2.2.2.2.2.2.2) (by unfold tZero TXBETA2; norm_num) (by unfold tZero TXBETA2; norm_num)), (by push_cast; unfold tx2N tx2R; exact txT_lt_of _ _ _ rlbC_2.2.2.2.2.2.2.2.2.2.2.2.2.2.2.2.2.2.2.2.2.2.2.2.2.1 (by unfold tZero TXBETA2; norm_num) (by unfold tZero TXBETA2; push_cast; norm_num))⟩), (Int.floor_eq_iff.mpr ⟨(by push_cast; unfold tx2N tx2R; exact txT_ge_of _ _ _ _ rlbC_3.2.1.1 (le_of_lt rlbC_3.2.1.2) (by unfold tZero TXBETA2; norm_num) (by unfold tZero TXBETA2; norm_num)), (by push_cast; unfold tx2N tx2R; exact txT_lt_of _ _ _ rlbC_3.2.1.1 (by unfold tZero TXBETA2; norm_num) (by unfold tZero TXBETA2; push_cast; norm_num))⟩), (Int.floor_eq_iff.mpr ⟨(by push_cast; unfold tx2N tx2R; exact txT_ge_of _ _ _ _ rlbC_3.2.2.2.1.1 (le_of_lt rlbC_3.2.2.2.1.2) (by unfold tZero TXBETA2; norm_num) (by unfold tZero TXBETA2; norm_num)), (by push_cast; unfold tx2N tx2R; exact txT_lt_of _ _ _ rlbC_3.2.2.2.1.1 (by unfold tZero TXBETA2; norm_num) (by unfold tZero TXBETA2; push_cast; norm_num))⟩), (Int.floor_eq_iff.mpr ⟨(by push_cast; unfold tx2N tx2R; exact txT_ge_of _ _ _ _ rlbC_3.2.2.2.2.2.1.1 (le_of_lt rlbC_3.2.2.2.2.2.1.2) (by unfold tZero TXBETA2; norm_num) (by unfold tZero TXBETA2; norm_num)), (by push_cast; unfold tx2N tx2R; exact txT_lt_of _ _ _ rlbC_3.2.2.2.2.2.1.1 (by unfold tZero TXBETA2; norm_num) (by unfold tZero TXBETA2; push_cast; norm_num))⟩), (Int.floor_eq_iff.mpr ⟨(by push_cast; unfold tx2N tx2R; exact txT_ge_of _ _ _ _ rlbC_3.2.2.2.2.2.2.2.1.1 (le_of_lt rlbC_3.2.2.2.2.2.2.2.1.2) (by unfold tZero TXBETA2; norm_num) (by unfold tZero TXBETA2; norm_num)), (by push_cast; unfold tx2N tx2R; exact txT_lt_of _ _ _ rlbC_3.2.2.2.2.2.2.2.1.1 (by unfold tZero TXBETA2; norm_num) (by unfold tZero TXBETA2; push_cast; norm_num))⟩), (Int.floor_eq_iff.mpr ⟨(by push_cast; unfold tx2N tx2R; exact txT_ge_of _ _ _ _ rlbC_3.2.2.2.2.2.2.2.2.2.1.1 (le_of_lt rlbC_3.2.2.2.2.2.2.2.2.2.1.2) (by unfold tZero TXBETA2; norm_num) (by unfold tZero TXBETA2; norm_num)), (by push_cast; unfold tx2N tx2R; exact txT_lt_of _ _ _ rlbC_3.2.2.2.2.2.2.2.2.2.1.1 (by unfold tZero TXBETA2; norm_num) (by unfold tZero TXBETA2; push_cast; norm_num))⟩), (Int.floor_eq_iff.mpr ⟨(by push_cast; unfold tx2N tx2R; exact txT_ge_of _ _ _ _ rlbC_3.2.2.2.2.2.2.2.2.2.2.2.1.1 (le_of_lt rlbC_3.2.2.2.2.2.2.2.2.2.2.2.1.2) (by unfold tZero TXBETA2; norm_num) (by unfold tZero TXBETA2; norm_num)), (by push_cast; unfold tx2N tx2R; exact txT_lt_of _ _ _ rlbC_3.2.2.2.2.2.2.2.2.2.2.2.1.1 (by unfold tZero TXBETA2; norm_num) (by unfold tZero TXBETA2; push_cast; norm_num))⟩), (Int.floor_eq_iff.mpr ⟨(by push_cast; unfold tx2N tx2R; exact txT_ge_of _ _ _ _ rlbC_3.2.2.2.2.2.2.2.2.2.2.2.2.2.1.1 (le_of_lt rlbC_3.2.2.2.2.2.2.2.2.2.2.2.2.2.1.2) (by unfold tZero TXBETA2; norm_num) (by unfold tZero TXBETA2; norm_num)), (by push_cast; unfold tx2N tx2R; exact txT_lt_of _ _ _ rlbC_3.2.2.2.2.2.2.2.2.2.2.2.2.2.1.1 (by unfold tZero TXBETA2; norm_num) (by unfold tZero TXBETA2; push_cast; norm_num))⟩), (Int.floor_eq_iff.mpr ⟨(by push_cast; unfold tx2N tx2R; exact txT_ge_of _ _ _ _ rlbC_3.2.2.2.2.2.2.2.2.2.2.2.2.2.2.2.1.1 (le_of_lt rlbC_3.2.2.2.2.2.2.2.2.2.2.2.2.2.2.2.1.2) (by unfold tZero TXBETA2; norm_num) (by unfold tZero TXBETA2; norm_num)), (by push_cast; unfold tx2N tx2R; exact txT_lt_of _ _ _ rlbC_3.2.2.2.2.2.2.2.2.2.2.2.2.2.2.2.1.1 (by unfold tZero TXBETA2; norm_num) (by unfold tZero TXBETA2; push_cast; norm_num))⟩), (Int.floor_eq_iff.mpr ⟨(by push_cast; unfold tx2N tx2R; exact txT_ge_of _ _ _ _ rlbC_3.2.2.2.2.2.2.2.2.2.2.2.2.2.2.2.2.2.1.1 (le_of_lt rlbC_3.2.2.2.2.2.2.2.2.2.2.2.2.2.2.2.2.2.1.2) (by unfold tZero TXBETA2; norm_num) (by unfold tZero TXBETA2; norm_num)), (by push_cast; unfold tx2N tx2R; exact txT_lt_of _ _ _ rlbC_3.2.2.2.2.2.2.2.2.2.2.2.2.2.2.2.2.2.1.1 (by unfold tZero TXBETA2; norm_num) (by unfold tZero TXBETA2; push_cast; norm_num))⟩), (Int.floor_eq_iff.mpr ⟨(by push_cast; unfold tx2N tx2R; exact txT_ge_of _ _ _ _ rlbC_3.2.2.2.2.2.2.2.2.2.2.2.2.2.2.2.2.2.2.2.1.1 (le_of_lt rlbC_3.2.2.2.2.2.2.2.2.2.2.2.2.2.2.2.2.2.2.2.1.2) (by unfold tZero TXBETA2; norm_num) (by unfold tZero TXBETA2; norm_num)), (by push_cast; unfold tx2N tx2R; exact txT_lt_of _ _ _ rlbC_3.2.2.2.2.2.2.2.2.2.2.2.2.2.2.2.2.2.2.2.1.1 (by unfold tZero TXBETA2; norm_num) (by unfold tZero TXBETA2; push_cast; norm_num))⟩), (Int.floor_eq_iff.mpr ⟨(by push_cast; unfold tx2N tx2R; exact txT_ge_of _ _ _ _ rlbC_3.2.2.2.2.2.2.2.2.2.2.2.2.2.2.2.2.2.2.2.2.2.1.1 (le_of_lt rlbC_3.2.2.2.2.2.2.2.2.2.2.2.2.2.2.2.2.2.2.2.2.2.1.2) (by unfold tZero TXBETA2; norm_num) (by unfold tZero TXBETA2; norm_num)), (by push_cast; unfold tx2N tx2R; exact txT_lt_of _ _ _ rlbC_3.2.2.2.2.2.2.2.2.2.2.2.2.2.2.2.2.2.2.2.2.2.1.1 (by unfold tZero TXBETA2; norm_num) (by unfold tZero TXBETA2; push_cast; norm_num))⟩), (Int.floor_eq_iff.mpr ⟨(by push_cast; unfold tx2N tx2R; exact txT_ge_of _ _ _ _ rlbC_3.2.2.2.2.2.2.2.2.2.2.2.2.2.2.2.2.2.2.2.2.2.2.2.1.1 (le_of_lt rlbC_3.2.2.2.2.2.2.2.2.2.2.2.2.2.2.2.2.2.2.2.2.2.2.2.1.2) (by unfold tZero TXBETA2; norm_num) (by unfold tZero TXBETA2; norm_num)), (by push_cast; unfold tx2N tx2R; exact txT_lt_of _ _ _ rlbC_3.2.2.2.2.2.2.2.2.2.2.2.2.2.2.2.2.2.2.2.2.2.2.2.1.1 (by unfold tZero TXBETA2; norm_num) (by unfold tZero TXBETA2; push_cast; norm_num))⟩), (Int.floor_eq_iff.mpr ⟨(by push_cast; unfold tx2N tx2R; exact txT_ge_of _ _ _ _ rlbC_4.1.1 (le_of_lt rlbC_4.1.2) (by unfold tZero TXBETA2; norm_num) (by unfold tZero TXBETA2; norm_num)), (by push_cast; unfold tx2N tx2R; exact txT_lt_of _ _ _ rlbC_4.1.1 (by unfold tZero TXBETA2; norm_num) (by unfold tZero TXBETA2; push_cast; norm_num))⟩), (Int.floor_eq_iff.mpr ⟨(by push_cast; unfold tx2N tx2R; exact txT_ge_of _ _ _ _ rlbC_4.2.2.1.1 (le_of_lt rlbC_4.2.2.1.2) (by unfold tZero TXBETA2; norm_num) (by unfold tZero TXBETA2; norm_num)), (by push_cast; unfold tx2N tx2R; exact txT_lt_of _ _ _ rlbC_4.2.2.1.1 (by unfold tZero TXBETA2; norm_num) (by unfold tZero TXBETA2; push_cast; norm_num))⟩), (Int.floor_eq_iff.mpr ⟨(by push_cast; unfold tx2N tx2R; exact txT_ge_of _ _ _ _ rlbC_4.2.2.2.2.1.1 (le_of_lt rlbC_4.2.2.2.2.1.2) (by unfold tZero TXBETA2; norm_num) (by unfold tZero TXBETA2; norm_num)), (by push_cast; unfold tx2N tx2R; exact txT_lt_of _ _ _ rlbC_4.2.2.2.2.1.1 (by unfold tZero TXBETA2; norm_num) (by unfold tZero TXBETA2; push_cast; norm_num))⟩), (Int.floor_eq_iff.mpr ⟨(by push_cast; unfold tx2N tx2R; exact txT_ge_of _ _ _ _ rlbC_4.2.2.2.2.2.2.1.1 (le_of_lt rlbC_4.2.2.2.2.2.2.1.2) (by unfold tZero TXBETA2; norm_num) (by unfold tZero TXBETA2; norm_num)), (by push_cast; unfold tx2N tx2R; exact txT_lt_of _ _ _ rlbC_4.2.2.2.2.2.2.1.1 (by unfold tZero TXBETA2; norm_num) (by unfold tZero TXBETA2; push_cast; norm_num))⟩), (Int.floor_eq_iff.mpr ⟨(by push_cast; unfold tx2N tx2R; exact txT_ge_of _ _ _ _ rlbC_4.2.2.2.2.2.2.2.2.1.1 (le_of_lt rlbC_4.2.2.2.2.2.2.2.2.1.2) (by unfold tZero TXBETA2; norm_num) (by unfold tZero TXBETA2; norm_num)), (by push_cast; unfold tx2N tx2R; exact txT_lt_of _ _ _ rlbC_4.2.2.2.2.2.2.2.2.1.1 (by unfold tZero TXBETA2; norm_num) (by unfold tZero TXBETA2; push_cast; norm_num))⟩), (Int.floor_eq_iff.mpr ⟨(by push_cast; unfold tx2N tx2R; exact txT_ge_of _ _ _ _ rlbC_4.2.2.2.2.2.2.2.2.2.2.1.1 (le_of_lt rlbC_4.2.2.2.2.2.2.2.2.2.2.1.2) (by unfold tZero TXBETA2; norm_num) (by unfold tZero TXBETA2; norm_num)), (by push_cast; unfold tx2N tx2R; exact txT_lt_of _ _ _ rlbC_4.2.2.2.2.2.2.2.2.2.2.1.1 (by unfold tZero TXBETA2; norm_num) (by unfold tZero TXBETA2; push_cast; norm_num))⟩), (Int.floor_eq_iff.mpr ⟨(by push_cast; unfold tx2N tx2R; exact txT_ge_of _ _ _ _ rlbC_4.2.2.2.2.2.2.2.2.2.2.2.2.1.1 (le_of_lt rlbC_4.2.2.2.2.2.2.2.2.2.2.2.2.1.2) (by unfold tZero TXBETA2; norm_num) (by unfold tZero TXBETA2; norm_num)), (by push_cast; unfold tx2N tx2R; exact txT_lt_of _ _ _ rlbC_4.2.2.2.2.2.2.2.2.2.2.2.2.1.1 (by unfold tZero TXBETA2; norm_num) (by unfold tZero TXBETA2; push_cast; norm_num))⟩), (Int.floor_eq_iff.mpr ⟨(by push_cast; unfold tx2N tx2R; exact txT_ge_of _ _ _ _ rlbC_4.2.2.2.2.2.2.2.2.2.2.2.2.2.2.1.1 (le_of_lt rlbC_4.2.2.2.2.2.2.2.2.2.2.2.2.2.2.1.2) (by unfold tZero TXBETA2; norm_num) (by unfold tZero TXBETA2; norm_num)), (by push_cast; unfold tx2N tx2R; exact txT_lt_of _ _ _ rlbC_4.2.2.2.2.2.2.2.2.2.2.2.2.2.2.1.1 (by unfold tZero TXBETA2; norm_num) (by unfold tZero TXBETA2; push_cast; norm_num))⟩), (Int.floor_eq_iff.mpr ⟨(by push_cast; unfold tx2N tx2R; exact txT_ge_of _ _ _ _ rlbC_4.2.2.2.2.2.2.2.2.2.2.2.2.2.2.2.2.1.1 (le_of_lt rlbC_4.2.2.2.2.2.2.2.2.2.2.2.2.2.2.2.2.1.2) (by unfold tZero TXBETA2; norm_num) (by unfold tZero TXBETA2; norm_num)), (by push_cast; unfold tx2N tx2R; exact txT_lt_of _ _ _ rlbC_4.2.2.2.2.2.2.2.2.2.2.2.2.2.2.2.2.1.1 (by unfold tZero TXBETA2; norm_num) (by unfold tZero TXBETA2; push_cast; norm_num))⟩), (Int.floor_eq_iff.mpr ⟨(by push_cast; unfold tx2N tx2R; exact txT_ge_of _ _ _ _ rlbC_4.2.2.2.2.2.2.2.2.2.2.2.2.2.2.2.2.2.2.1.1 (le_of_lt rlbC_4.2.2.2.2.2.2.2.2.2.2.2.2.2.2.2.2.2.2.1.2) (by unfold tZero TXBETA2; norm_num) (by unfold tZero TXBETA2; norm_num)), (by push_cast; unfold tx2N tx2R; exact txT_lt_of _ _ _ rlbC_4.2.2.2.2.2.2.2.2.2.2.2.2.2.2.2.2.2.2.1.1 (by unfold tZero TXBETA2; norm_num) (by unfold tZero TXBETA2; push_cast; norm_num))⟩), (Int.floor_eq_iff.mpr ⟨(by push_cast; unfold tx2N tx2R; exact txT_ge_of _ _ _ _ rlbC_4.2.2.2.2.2.2.2.2.2.2.2.2.2.2.2.2.2.2.2.2.1.1 (le_of_lt rlbC_4.2.2.2.2.2.2.2.2.2.2.2.2.2.2.2.2.2.2.2.2.1.2) (by unfold tZero TXBETA2; norm_num) (by unfold tZero TXBETA2; norm_num)), (by push_cast; unfold tx2N tx2R; exact txT_lt_of _ _ _ rlbC_4.2.2.2.2.2.2.2.2.2.2.2.2.2.2.2.2.2.2.2.2.1.1 (by unfold tZero TXBETA2; norm_num) (by unfold tZero TXBETA2; push_cast; norm_num))⟩), (Int.floor_eq_iff.mpr ⟨(by push_cast; unfold tx2N tx2R; exact txT_ge_of _ _ _ _ rlbC_4.2.2.2.2.2.2.2.2.2.2.2.2.2.2.2.2.2.2.2.2.2.2.1.1 (le_of_lt rlbC_4.2.2.2.2.2.2.2.2.2.2.2.2.2.2.2.2.2.2.2.2.2.2.1.2) (by unfold tZero TXBETA2; norm_num) (by unfold tZero TXBETA2; norm_num)), (by push_cast; unfold tx2N tx2R; exact txT_lt_of _ _ _ rlbC_4.2.2.2.2.2.2.2.2.2.2.2.2.2.2.2.2.2.2.2.2.2.2.1.1 (by unfold tZero TXBETA2; norm_num) (by unfold tZero TXBETA2; push_cast; norm_num))⟩), (Int.floor_eq_iff.mpr ⟨(by push_cast; unfold tx2N tx2R; exact txT_ge_of _ _ _ _ rlbC_4.2.2.2.2.2.2.2.2.2.2.2.2.2.2.2.2.2.2.2.2.2.2.2.2.1 (le_of_lt rlbC_4.2.2.2.2.2.2.2.2.2.2.2.2.2.2.2.2.2.2.2.2.2.2.2.2.2) (by unfold tZero TXBETA2; norm_num) (by unfold tZero TXBETA2; norm_num)), (by push_cast; unfold tx2N tx2R; exact txT_lt_of _ _ _ rlbC_4.2.2.2.2.2.2.2.2.2.2.2.2.2.2.2.2.2.2.2.2.2.2.2.2.1 (by unfold tZero TXBETA2; norm_num) (by unfold tZero TXBETA2; push_cast; norm_num))⟩), (Int.floor_eq_iff.mpr ⟨(by push_cast; unfold tx2N tx2R; exact txT_ge_of _ _ _ _ rlbC_5.2.1.1 (le_of_lt rlbC_5.2.1.2) (by unfold tZero TXBETA2; norm_num) (by unfold tZero TXBETA2; norm_num)), (by push_cast; unfold tx2N tx2R; exact txT_lt_of _ _ _ rlbC_5.2.1.1 (by unfold tZero TXBETA2; norm_num) (by unfold tZero TXBETA2; push_cast; norm_num))⟩), (Int.floor_eq_iff.mpr ⟨(by push_cast; unfold tx2N tx2R; exact txT_ge_of _ _ _ _ rlbC_5.2.2.2.1.1 (le_of_lt rlbC_5.2.2.2.1.2) (by unfold tZero TXBETA2; norm_num) (by unfold tZero TXBETA2; norm_num)), (by push_cast; unfold tx2N tx2R; exact txT_lt_of _ _ _ rlbC_5.2.2.2.1.1 (by unfold tZero TXBETA2; norm_num) (by unfold tZero TXBETA2; push_cast; norm_num))⟩), (Int.floor_eq_iff.mpr ⟨(by push_cast; unfold tx2N tx2R; exact txT_ge_of _ _ _ _ rlbC_5.2.2.2.2.2.1.1 (le_of_lt rlbC_5.2.2.2.2.2.1.2) (by unfold tZero TXBETA2; norm_num) (by unfold tZero TXBETA2; norm_num)), (by push_cast; unfold tx2N tx2R; exact txT_lt_of _ _ _ rlbC_5.2.2.2.2.2.1.1 (by unfold tZero TXBETA2; norm_num) (by unfold tZero TXBETA2; push_cast; norm_num))⟩), (Int.floor_eq_iff.mpr ⟨(by push_cast; unfold tx2N tx2R; exact txT_ge_of _ _ _ _ rlbC_5.2.2.2.2.2.2.2.1.1 (le_of_lt rlbC_5.2.2.2.2.2.2.2.1.2) (by unfold tZero TXBETA2; norm_num) (by unfold tZero TXBETA2; norm_num)), (by push_cast; unfold tx2N tx2R; exact txT_lt_of _ _ _ rlbC_5.2.2.2.2.2.2.2.1.1 (by unfold tZero TXBETA2; norm_num) (by unfold tZero TXBETA2; push_cast; norm_num))⟩), (Int.floor_eq_iff.mpr ⟨(by push_cast; unfold tx2N tx2R; exact txT_ge_of _ _ _ _ rlbC_5.2.2.2.2.2.2.2.2.2.1.1 (le_of_lt rlbC_5.2.2.2.2.2.2.2.2.2.1.2) (by unfold tZero TXBETA2; norm_num) (by unfold tZero TXBETA2; norm_num)), (by push_cast; unfold tx2N tx2R; exact txT_lt_of _ _ _ rlbC_5.2.2.2.2.2.2.2.2.2.1.1 (by unfold tZero TXBETA2; norm_num) (by unfold tZero TXBETA2; push_cast; norm_num))⟩), (Int.floor_eq_iff.mpr ⟨(by push_cast; unfold tx2N tx2R; exact txT_ge_of _ _ _ _ rlbC_5.2.2.2.2.2.2.2.2.2.2.2.1.1 (le_of_lt rlbC_5.2.2.2.2.2.2.2.2.2.2.2.1.2) (by unfold tZero TXBETA2; norm_num) (by unfold tZero TXBETA2; norm_num)), (by push_cast; unfold tx2N tx2R; exact txT_lt_of _ _ _ rlbC_5.2.2.2.2.2.2.2.2.2.2.2.1.1 (by unfold tZero TXBETA2; norm_num) (by unfold tZero TXBETA2; push_cast; norm_num))⟩), (Int.floor_eq_iff.mpr ⟨(by push_cast; unfold tx2N tx2R; exact txT_ge_of _ _ _ _ rlbC_5.2.2.2.2.2.2.2.2.2.2.2.2.2.1.1 (le_of_lt rlbC_5.2.2.2.2.2.2.2.2.2.2.2.2.2.1.2) (by unfold tZero TXBETA2; norm_num) (by unfold tZero TXBETA2; norm_num)), (by push_cast; unfold tx2N tx2R; exact txT_lt_of _ _ _ rlbC_5.2.2.2.2.2.2.2.2.2.2.2.2.2.1.1 (by unfold tZero TXBETA2; norm_num) (by unfold tZero TXBETA2; push_cast; norm_num))⟩), (Int.floor_eq_iff.mpr ⟨(by push_cast; unfold tx2N tx2R; exact txT_ge_of _ _ _ _ rlbC_5.2.2.2.2.2.2.2.2.2.2.2.2.2.2.2.1.1 (le_of_lt rlbC_5.2.2.2.2.2.2.2.2.2.2.2.2.2.2.2.1.2) (by unfold tZero TXBETA2; norm_num) (by unfold tZero TXBETA2; norm_num)), (by push_cast; unfold tx2N tx2R; exact txT_lt_of _ _ _ rlbC_5.2.2.2.2.2.2.2.2.2.2.2.2.2.2.2.1.1 (by unfold tZero TXBETA2; norm_num) (by unfold tZero TXBETA2; push_cast; norm_num))⟩), (Int.floor_eq_iff.mpr ⟨(by push_cast; unfold tx2N tx2R; exact txT_ge_of _ _ _ _ rlbC_5.2.2.2.2.2.2.2.2.2.2.2.2.2.2.2.2.2.1.1 (le_of_lt rlbC_5.2.2.2.2.2.2.2.2.2.2.2.2.2.2.2.2.2.1.2) (by unfold tZero TXBETA2; norm_num) (by unfold tZero TXBETA2; norm_num)), (by push_cast; unfold tx2N tx2R; exact txT_lt_of _ _ _ rlbC_5.2.2.2.2.2.2.2.2.2.2.2.2.2.2.2.2.2.1.1 (by unfold tZero TXBETA2; norm_num) (by unfold tZero TXBETA2; push_cast; norm_num))⟩), (Int.floor_eq_iff.mpr ⟨(by push_cast; unfold tx2N tx2R; exact txT_ge_of _ _ _ _ rlbC_5.2.2.2.2.2.2.2.2.2.2.2.2.2.2.2.2.2.2.2.1.1 (le_of_lt rlbC_5.2.2.2.2.2.2.2.2.2.2.2.2.2.2.2.2.2.2.2.1.2) (by unfold tZero TXBETA2; norm_num) (by unfold tZero TXBETA2; norm_num)), (by push_cast; unfold tx2N tx2R; exact txT_lt_of _ _ _ rlbC_5.2.2.2.2.2.2.2.2.2.2.2.2.2.2.2.2.2.2.2.1.1 (by unfold tZero TXBETA2; norm_num) (by unfold tZero TXBETA2; push_cast; norm_num))⟩), (Int.floor_eq_iff.mpr ⟨(by push_cast; unfold tx2N tx2R; exact txT_ge_of _ _ _ _ rlbC_5.2.2.2.2.2.2.2.2.2.2.2.2.2.2.2.2.2.2.2.2.2.1.1 (le_of_lt rlbC_5.2.2.2.2.2.2.2.2.2.2.2.2.2.2.2.2.2.2.2.2.2.1.2) (by unfold tZero TXBETA2; norm_num) (by unfold tZero TXBETA2; norm_num)), (by push_cast; unfold tx2N tx2R; exact txT_lt_of _ _ _ rlbC_5.2.2.2.2.2.2.2.2.2.2.2.2.2.2.2.2.2.2.2.2.2.1.1 (by unfold tZero TXBETA2; norm_num) (by unfold tZero TXBETA2; push_cast; norm_num))⟩), (Int.floor_eq_iff.mpr ⟨(by push_cast; unfold tx2N tx2R; exact txT_ge_of _ _ _ _ rlbC_5.2.2.2.2.2.2.2.2.2.2.2.2.2.2.2.2.2.2.2.2.2.2.2.1.1 (le_of_lt rlbC_5.2.2.2.2.2.2.2.2.2.2.2.2.2.2.2.2.2.2.2.2.2.2.2.1.2) (by unfold tZero TXBETA2; norm_num) (by unfold tZero TXBETA2; norm_num)), (by push_cast; unfold tx2N tx2R; exact txT_lt_of _ _ _ rlbC_5.2.2.2.2.2.2.2.2.2.2.2.2.2.2.2.2.2.2.2.2.2.2.2.1.1 (by unfold tZero TXBETA2; norm_num) (by unfold tZero TXBETA2; push_cast; norm_num))⟩), (Int.floor_eq_iff.mpr ⟨(by push_cast; unfold tx2N tx2R; exact txT_ge_of _ _ _ _ rlbC_6.1.1 (le_of_lt rlbC_6.1.2) (by unfold tZero TXBETA2; norm_num) (by unfold tZero TXBETA2; norm_num)), (by push_cast; unfold tx2N tx2R; exact txT_lt_of _ _ _ rlbC_6.1.1 (by unfold tZero TXBETA2; norm_num) (by unfold tZero TXBETA2; push_cast; norm_num))⟩), (Int.floor_eq_iff.mpr ⟨(by push_cast; unfold tx2N tx2R; exact txT_ge_of _ _ _ _ rlbC_6.2.2.1.1 (le_of_lt rlbC_6.2.2.1.2) (by unfold tZero TXBETA2; norm_num) (by unfold tZero TXBETA2; norm_num)), (by push_cast; unfold tx2N tx2R; exact txT_lt_of _ _ _ rlbC_6.2.2.1.1 (by unfold tZero TXBETA2; norm_num) (by unfold tZero TXBETA2; push_cast; norm_num))⟩), (Int.floor_eq_iff.mpr ⟨(by push_cast; unfold tx2N tx2R; exact txT_ge_of _ _ _ _ rlbC_6.2.2.2.2.1.1 (le_of_lt rlbC_6.2.2.2.2.1.2) (by unfold tZero TXBETA2; norm_num) (by unfold tZero TXBETA2; norm_num)), (by push_cast; unfold tx2N tx2R; exact txT_lt_of _ _ _ rlbC_6.2.2.2.2.1.1 (by unfold tZero TXBETA2; norm_num) (by unfold tZero TXBETA2; push_cast; norm_num))⟩), (Int.floor_eq_iff.mpr ⟨(by push_cast; unfold tx2N tx2R; exact txT_ge_of _ _ _ _ rlbC_6.2.2.2.2.2.2.1.1 (le_of_lt rlbC_6.2.2.2.2.2.2.1.2) (by unfold tZero TXBETA2; norm_num) (by unfold tZero TXBETA2; norm_num)), (by push_cast; unfold tx2N tx2R; exact txT_lt_of _ _ _ rlbC_6.2.2.2.2.2.2.1.1 (by unfold tZero TXBETA2; norm_num) (by unfold tZero TXBETA2; push_cast; norm_num))⟩), (Int.floor_eq_iff.mpr ⟨(by push_cast; unfold tx2N tx2R; exact txT_ge_of _ _ _ _ rlbC_6.2.2.2.2.2.2.2.2.1.1 (le_of_lt rlbC_6.2.2.2.2.2.2.2.2.1.2) (by unfold tZero TXBETA2; norm_num) (by unfold tZero TXBETA2; norm_num)), (by push_cast; unfold tx2N tx2R; exact txT_lt_of _ _ _ rlbC_6.2.2.2.2.2.2.2.2.1.1 (by unfold tZero TXBETA2; norm_num) (by unfold tZero TXBETA2; push_cast; norm_num))⟩), (Int.floor_eq_iff.mpr ⟨(by push_cast; unfold tx2N tx2R; exact txT_ge_of _ _ _ _ rlbC_6.2.2.2.2.2.2.2.2.2.2.1.1 (le_of_lt rlbC_6.2.2.2.2.2.2.2.2.2.2.1.2) (by unfold tZero TXBETA2; norm_num) (by unfold tZero TXBETA2; norm_num)), (by push_cast; unfold tx2N tx2R; exact txT_lt_of _ _ _ rlbC_6.2.2.2.2.2.2.2.2.2.2.1.1 (by unfold tZero TXBETA2; norm_num) (by unfold tZero TXBETA2; push_cast; norm_num))⟩), (Int.floor_eq_iff.mpr ⟨(by push_cast; unfold tx2N tx2R; exact txT_ge_of _ _ _ _ rlbC_6.2.2.2.2.2.2.2.2.2.2.2.2.1.1 (le_of_lt rlbC_6.2.2.2.2.2.2.2.2.2.2.2.2.1.2) (by unfold tZero TXBETA2; norm_num) (by unfold tZero TXBETA2; norm_num)), (by push_cast; unfold tx2N tx2R; exact txT_lt_of _ _ _ rlbC_6.2.2.2.2.2.2.2.2.2.2.2.2.1.1 (by unfold tZero TXBETA2; norm_num) (by unfold tZero TXBETA2; push_cast; norm_num))⟩), (Int.floor_eq_iff.mpr ⟨(by push_cast; unfold tx2N tx2R; exact txT_ge_of _ _ _ _ rlbC_6.2.2.2.2.2.2.2.2.2.2.2.2.2.2.1.1 (le_of_lt rlbC_6.2.2.2.2.2.2.2.2.2.2.2.2.2.2.1.2) (by unfold tZero TXBETA2; norm_num) (by unfold tZero TXBETA2; norm_num)), (by push_cast; unfold tx2N tx2R; exact txT_lt_of _ _ _ rlbC_6.2.2.2.2.2.2.2.2.2.2.2.2.2.2.1.1 (by unfold tZero TXBETA2; norm_num) (by unfold tZero TXBETA2; push_cast; norm_num))⟩), (Int.floor_eq_iff.mpr ⟨(by push_cast; unfold tx2N tx2R; exact txT_ge_of _ _ _ _ rlbC_6.2.2.2.2.2.2.2.2.2.2.2.2.2.2.2.2.1.1 (le_of_lt rlbC_6.2.2.2.2.2.2.2.2.2.2.2.2.2.2.2.2.1.2) (by unfold tZero TXBETA2; norm_num) (by unfold tZero TXBETA2; norm_num)), (by push_cast; unfold tx2N tx2R; exact txT_lt_of _ _ _ rlbC_6.2.2.2.2.2.2.2.2.2.2.2.2.2.2.2.2.1.1 (by unfold tZero TXBETA2; norm_num) (by unfold tZero TXBETA2; push_cast; norm_num))⟩), (Int.floor_eq_iff.mpr ⟨(by push_cast; unfold tx2N tx2R; exact txT_ge_of _ _ _ _ rlbC_6.2.2.2.2.2.2.2.2.2.2.2.2.2.2.2.2.2.2.1.1 (le_of_lt rlbC_6.2.2.2.2.2.2.2.2.2.2.2.2.2.2.2.2.2.2.1.2) (by unfold tZero TXBETA2; norm_num) (by unfold tZero TXBETA2; norm_num)), (by push_cast; unfold tx2N tx2R; exact txT_lt_of _ _ _ rlbC_6.2.2.2.2.2.2.2.2.2.2.2.2.2.2.2.2.2.2.1.1 (by unfold tZero TXBETA2; norm_num) (by unfold tZero TXBETA2; push_cast; norm_num))⟩), (Int.floor_eq_iff.mpr ⟨(by push_cast; unfold tx2N tx2R; exact txT_ge_of _ _ _ _ rlbC_6.2.2.2.2.2.2.2.2.2.2.2.2.2.2.2.2.2.2.2.2.1.1 (le_of_lt rlbC_6.2.2.2.2.2.2.2.2.2.2.2.2.2.2.2.2.2.2.2.2.1.2) (by unfold tZero TXBETA2; norm_num) (by unfold tZero TXBETA2; norm_num)), (by push_cast; unfold tx2N tx2R; exact txT_lt_of _ _ _ rlbC_6.2.2.2.2.2.2.2.2.2.2.2.2.2.2.2.2.2.2.2.2.1.1 (by unfold tZero TXBETA2; norm_num) (by unfold tZero TXBETA2; push_cast; norm_num))⟩), (Int.floor_eq_iff.mpr ⟨(by push_cast; unfold tx2N tx2R; exact txT_ge_of _ _ _ _ rlbC_6.2.2.2.2.2.2.2.2.2.2.2.2.2.2.2.2.2.2.2.2.2.2.1.1 (le_of_lt rlbC_6.2.2.2.2.2.2.2.2.2.2.2.2.2.2.2.2.2.2.2.2.2.2.1.2) (by unfold tZero TXBETA2; norm_num) (by unfold tZero TXBETA2; norm_num)), (by push_cast; unfold tx2N tx2R; exact txT_lt_of _ _ _ rlbC_6.2.2.2.2.2.2.2.2.2.2.2.2.2.2.2.2.2.2.2.2.2.2.1.1 (by unfold tZero TXBETA2; norm_num) (by unfold tZero TXBETA2; push_cast; norm_num))⟩), (Int.floor_eq_iff.mpr ⟨(by push_cast; unfold tx2N tx2R; exact txT_ge_of _ _ _ _ rlbC_6.2.2.2.2.2.2.2.2.2.2.2.2.2.2.2.2.2.2.2.2.2.2.2.2.1 (le_of_lt rlbC_6.2.2.2.2.2.2.2.2.2.2.2.2.2.2.2.2.2.2.2.2.2.2.2.2.2) (by unfold tZero TXBETA2; norm_num) (by unfold tZero TXBETA2; norm_num)), (by push_cast; unfold tx2N tx2R; exact txT_lt_of _ _ _ rlbC_6.2.2.2.2.2.2.2.2.2.2.2.2.2.2.2.2.2.2.2.2.2.2.2.2.1 (by unfold tZero TXBETA2; norm_num) (by unfold tZero TXBETA2; push_cast; norm_num))⟩), (Int.floor_eq_iff.mpr ⟨(by push_cast; unfold tx2N tx2R; exact txT_ge_of _ _ _ _ rlbC_7.2.1.1 (le_of_lt rlbC_7.2.1.2) (by unfold tZero TXBETA2; norm_num) (by unfold tZero TXBETA2; norm_num)), (by push_cast; unfold tx2N tx2R; exact txT_lt_of _ _ _ rlbC_7.2.1.1 (by unfold tZero TXBETA2; norm_num) (by unfold tZero TXBETA2; push_cast; norm_num))⟩), (Int.floor_eq_iff.mpr ⟨(by push_cast; unfold tx2N tx2R; exact txT_ge_of _ _ _ _ rlbC_7.2.2.2.1.1 (le_of_lt rlbC_7.2.2.2.1.2) (by unfold tZero TXBETA2; norm_num) (by unfold tZero TXBETA2; norm_num)), (by push_cast; unfold tx2N tx2R; exact txT_lt_of _ _ _ rlbC_7.2.2.2.1.1 (by unfold tZero TXBETA2; norm_num) (by unfold tZero TXBETA2; push_cast; norm_num))⟩), (Int.floor_eq_iff.mpr ⟨(by push_cast; unfold tx2N tx2R; exact txT_ge_of _ _ _ _ rlbC_7.2.2.2.2.2.1.1 (le_of_lt rlbC_7.2.2.2.2.2.1.2) (by unfold tZero TXBETA2; norm_num) (by unfold tZero TXBETA2; norm_num)), (by push_cast; unfold tx2N tx2R; exact txT_lt_of _ _ _ rlbC_7.2.2.2.2.2.1.1 (by unfold tZero TXBETA2; norm_num) (by unfold tZero TXBETA2; push_cast; norm_num))⟩), (Int.floor_eq_iff.mpr ⟨(by push_cast; unfold tx2N tx2R; exact txT_ge_of _ _ _ _ rlbC_7.2.2.2.2.2.2.2.1.1 (le_of_lt rlbC_7.2.2.2.2.2.2.2.1.2) (by unfold tZero TXBETA2; norm_num) (by unfold tZero TXBETA2; norm_num)), (by push_cast; unfold tx2N tx2R; exact txT_lt_of _ _ _ rlbC_7.2.2.2.2.2.2.2.1.1 (by unfold tZero TXBETA2; norm_num) (by unfold tZero TXBETA2; push_cast; norm_num))⟩), (Int.floor_eq_iff.mpr ⟨(by push_cast; unfold tx2N tx2R; exact txT_ge_of _ _ _ _ rlbC_7.2.2.2.2.2.2.2.2.2.1.1 (le_of_lt rlbC_7.2.2.2.2.2.2.2.2.2.1.2) (by unfold tZero TXBETA2; norm_num) (by unfold tZero TXBETA2; norm_num)), (by push_cast; unfold tx2N tx2R; exact txT_lt_of _ _ _ rlbC_7.2.2.2.2.2.2.2.2.2.1.1 (by unfold tZero TXBETA2; norm_num) (by unfold tZero TXBETA2; push_cast; norm_num))⟩), (Int.floor_eq_iff.mpr ⟨(by push_cast; unfold tx2N tx2R; exact txT_ge_of _ _ _ _ rlbC_7.2.2.2.2.2.2.2.2.2.2.2.1.1 (le_of_lt rlbC_7.2.2.2.2.2.2.2.2.2.2.2.1.2) (by unfold tZero TXBETA2; norm_num) (by unfold tZero TXBETA2; norm_num)), (by push_cast; unfold tx2N tx2R; exact txT_lt_of _ _ _ rlbC_7.2.2.2.2.2.2.2.2.2.2.2.1.1 (by unfold tZero TXBETA2; norm_num) (by unfold tZero TXBETA2; push_cast; norm_num))⟩), (Int.floor_eq_iff.mpr ⟨(by push_cast; unfold tx2N tx2R; exact txT_ge_of _ _ _ _ rlbC_7.2.2.2.2.2.2.2.2.2.2.2.2.2.1.1 (le_of_lt rlbC_7.2.2.2.2.2.2.2.2.2.2.2.2.2.1.2) (by unfold tZero TXBETA2; norm_num) (by unfold tZero TXBETA2; norm_num)), (by push_cast; unfold tx2N tx2R; exact txT_lt_of _ _ _ rlbC_7.2.2.2.2.2.2.2.2.2.2.2.2.2.1.1 (by unfold tZero TXBETA2; norm_num) (by unfold tZero TXBETA2; push_cast; norm_num))⟩), (Int.floor_eq_iff.mpr ⟨(by push_cast; unfold tx2N tx2R; exact txT_ge_of _ _ _ _ rlbC_7.2.2.2.2.2.2.2.2.2.2.2.2.2.2.2.1.1 (le_of_lt rlbC_7.2.2.2.2.2.2.2.2.2.2.2.2.2.2.2.1.2) (by unfold tZero TXBETA2; norm_num) (by unfold tZero TXBETA2; norm_num)), (by push_cast; unfold tx2N tx2R; exact txT_lt_of _ _ _ rlbC_7.2.2.2.2.2.2.2.2.2.2.2.2.2.2.2.1.1 (by unfold tZero TXBETA2; norm_num) (by unfold tZero TXBETA2; push_cast; norm_num))⟩), (Int.floor_eq_iff.mpr ⟨(by push_cast; unfold tx2N tx2R; exact txT_ge_of _ _ _ _ rlbC_7.2.2.2.2.2.2.2.2.2.2.2.2.2.2.2.2.2.1.1 (le_of_lt rlbC_7.2.2.2.2.2.2.2.2.2.2.2.2.2.2.2.2.2.1.2) (by unfold tZero TXBETA2; norm_num) (by unfold tZero TXBETA2; norm_num)), (by push_cast; unfold tx2N tx2R; exact txT_lt_of _ _ _ rlbC_7.2.2.2.2.2.2.2.2.2.2.2.2.2.2.2.2.2.1.1 (by unfold tZero TXBETA2; norm_num) (by unfold tZero TXBETA2; push_cast; norm_num))⟩), (Int.floor_eq_iff.mpr ⟨(by push_cast; unfold tx2N tx2R; exact txT_ge_of _ _ _ _ rlbC_7.2.2.2.2.2.2.2.2.2.2.2.2.2.2.2.2.2.2.2.1.1 (le_of_lt rlbC_7.2.2.2.2.2.2.2.2.2.2.2.2.2.2.2.2.2.2.2.1.2) (by unfold tZero TXBETA2; norm_num) (by unfold tZero TXBETA2; norm_num)), (by push_cast; unfold tx2N tx2R; exact txT_lt_of _ _ _ rlbC_7.2.2.2.2.2.2.2.2.2.2.2.2.2.2.2.2.2.2.2.1.1 (by unfold tZero TXBETA2; norm_num) (by unfold tZero TXBETA2; push_cast; norm_num))⟩), (Int.floor_eq_iff.mpr ⟨(by push_cast; unfold tx2N tx2R; exact txT_ge_of _ _ _ _ rlbC_7.2.2.2.2.2.2.2.2.2.2.2.2.2.2.2.2.2.2.2.2.1.1 (le_of_lt rlbC_7.2.2.2.2.2.2.2.2.2.2.2.2.2.2.2.2.2.2.2.2.1.2) (by unfold tZero TXBETA2; norm_num) (by unfold tZero TXBETA2; norm_num)), (by push_cast; unfold tx2N tx2R; exact txT_lt_of _ _ _ rlbC_7.2.2.2.2.2.2.2.2.2.2.2.2.2.2.2.2.2.2.2.2.1.1 (by unfold tZero TXBETA2; norm_num) (by unfold tZero TXBETA2; push_cast; norm_num))⟩), (Int.floor_eq_iff.mpr ⟨(by push_cast; unfold tx2N tx2R; exact txT_ge_of _ _ _ _ rlbC_7.2.2.2.2.2.2.2.2.2.2.2.2.2.2.2.2.2.2.2.2.2.2.1.1 (le_of_lt rlbC_7.2.2.2.2.2.2.2.2.2.2.2.2.2.2.2.2.2.2.2.2.2.2.1.2) (by unfold tZero TXBETA2; norm_num) (by unfold tZero TXBETA2; norm_num)), (by push_cast; unfold tx2N tx2R; exact txT_lt_of _ _ _ rlbC_7.2.2.2.2.2.2.2.2.2.2.2.2.2.2.2.2.2.2.2.2.2.2.1.1 (by unfold tZero TXBETA2; norm_num) (by unfold tZero TXBETA2; push_cast; norm_num))⟩), (Int.floor_eq_iff.mpr ⟨(by push_cast; unfold tx2N tx2R; exact txT_ge_of _ _ _ _ rlbC_7.2.2.2.2.2.2.2.2.2.2.2.2.2.2.2.2.2.2.2.2.2.2.2.1.1 (le_of_lt rlbC_7.2.2.2.2.2.2.2.2.2.2.2.2.2.2.2.2.2.2.2.2.2.2.2.1.2) (by unfold tZero TXBETA2; norm_num) (by unfold tZero TXBETA2; norm_num)), (by push_cast; unfold tx2N tx2R; exact txT_lt_of _ _ _ rlbC_7.2.2.2.2.2.2.2.2.2.2.2.2.2.2.2.2.2.2.2.2.2.2.2.1.1 (by unfold tZero TXBETA2; norm_num) (by unfold tZero TXBETA2; push_cast; norm_num))⟩), (Int.floor_eq_iff.mpr ⟨(by push_cast; unfold tx2N tx2R; exact txT_ge_of _ _ _ _ rlbC_7.2.2.2.2.2.2.2.2.2.2.2.2.2.2.2.2.2.2.2.2.2.2.2.2.1 (le_of_lt rlbC_7.2.2.2.2.2.2.2.2.2.2.2.2.2.2.2.2.2.2.2.2.2.2.2.2.2) (by unfold tZero TXBETA2; norm_num) (by unfold tZero TXBETA2; norm_num)), (by push_cast; unfold tx2N tx2R; exact txT_lt_of _ _ _ rlbC_7.2.2.2.2.2.2.2.2.2.2.2.2.2.2.2.2.2.2.2.2.2.2.2.2.1 (by unfold tZero TXBETA2; norm_num) (by unfold tZero TXBETA2; push_cast; norm_num))⟩)⟩

/-! ## Dense mode (table id 0): threshold never moves -/

theorem retained_dense_eq : retained 0 = List.range' 37 984 := by
  unfold retained selRows
  rw [codesList_eq, show (maxTemp : ℝ) = (300 : ℝ) from rfl,
    show (1001 : ℕ) = 17 + 984 from by norm_num, range'_split,
    show (20 + 17 : ℕ) = 37 from rfl, List.foldl_append]
  have h1 : List.foldl (selStep tx2N 0) ((300 : ℝ), []) (List.range' 20 17)
      = ((300 : ℝ), []) := by
    apply foldl_skip
    intro c hc
    rw [List.mem_range'_1] at hc
    rw [not_lt]
    exact le_trans tx2N_ge_36_300 (tx2N_anti (by omega) (by omega) (by omega))
  have h2 : List.foldl (selStep tx2N 0) ((300 : ℝ), []) (List.range' 37 984)
      = ((300 : ℝ), [] ++ List.range' 37 984) := by
    apply foldl_dense
    intro c hc
    rw [List.mem_range'_1] at hc
    exact lt_of_le_of_lt (tx2N_anti (by omega) (by omega) (by omega)) tx2N_lt_37_300
  rw [h1, h2]
  simp

theorem tableRows_zero : tableRows 0 = List.range' 37 984 := by
  unfold tableRows temperatureStepSize
  rw [if_pos rfl]
  exact retained_dense_eq

theorem tableRows_normal {tbl : ℕ} (htbl : tbl ≠ 0) : tableRows tbl = normalRows := by
  unfold tableRows temperatureStepSize
  rw [if_neg htbl]
  exact retained_normal_eq

/-! ## Helpers for the no-validation claim: the generator also runs with
an invalid (negative) beta substituted for `TXBETA2` -/

theorem badBeta_tx2_20_lt : txT (rl ((20 : ℕ) : ℝ)) (-1) < maxTemp := by
  have h := rlb_20.2
  unfold txT tZero maxTemp
  have hneg : rl ((20 : ℕ) : ℝ) / (-1) = -rl ((20 : ℕ) : ℝ) := by ring
  rw [hneg]
  have hc : (0 : ℝ) < 1 / (25 + 273.15) := by norm_num
  have hd : (1 : ℝ) < 1 / (25 + 273.15) + -rl ((20 : ℕ) : ℝ) := by linarith
  have h1 : 1 / (1 / (25 + 273.15) + -rl ((20 : ℕ) : ℝ)) < 1 := by
    rw [div_lt_one (by linarith)]
    exact hd
  linarith

theorem badBeta_mem_20 :
    20 ∈ selRows (fun c => txT (rl c) (-1)) ((maxTemp - minTemp) / 100) maxTemp
      codesList := by
  unfold selRows
  rw [codesList_eq, show List.range' 20 1001 = 20 :: List.range' 21 1000 from rfl,
    List.foldl_cons]
  have step : selStep (fun c : ℕ => txT (rl c) (-1)) ((maxTemp - minTemp) / 100)
      (maxTemp, []) 20
      = (maxTemp - (maxTemp - minTemp) / 100, ([] : List ℕ) ++ [20]) := by
    unfold selStep
    rw [if_pos]
    exact badBeta_tx2_20_lt
  rw [step]
  exact mem_foldl_selStep _ _ _ _ _ 20 (by simp)

/-! ## Claim theorems -/

/-- C1: in a non-dense-mode table (temperature step size nonzero — any
table id other than 0, where the step is `(maxTemp-minTemp)/100`), the
floored `tx2` values of consecutive retained rows strictly decrease as
the ADC code increases, i.e. the floored `tx2` sequence over the whole
retained row list is strictly decreasing. -/
theorem tableRows_floorTx2_strictDecreasing (tbl : ℕ) (htbl : tbl ≠ 0) :
    List.Chain' (· > ·) ((tableRows tbl).map fun c => ⌊tx2N c⌋) := by
  rw [tableRows_normal htbl, normalRows_map_floor]
  simp only [List.chain'_cons, List.chain'_singleton, and_true]
  norm_num

/-- Witness for C1 at the concrete table id 600. -/
theorem tableRows_floorTx2_strictDecreasing_600 :
    List.Chain' (· > ·) ((tableRows 600).map fun c => ⌊tx2N c⌋) :=
  tableRows_floorTx2_strictDecreasing 600 (by norm_num)

/-- C2 (counterexample): in dense mode not every sampled code is
retained — code 20 is sampled but dropped, since its `tx2` is above
`maxTemp`; hence the retained row count is not `adcStop - adcStart + 1`. -/
theorem denseMode_drops_code20 :
    20 ∈ codesList ∧ 20 ∉ tableRows 0 ∧ (tableRows 0).length ≠ 1001 := by
  refine ⟨?_, ?_, ?_⟩
  · rw [codesList_eq, List.mem_range'_1]
    omega
  · rw [tableRows_zero, List.mem_range'_1]
    omega
  · rw [tableRows_zero, List.length_range']
    omega

/-- C2 (amended): in dense mode the retained rows are exactly the
sampled codes whose `tx2` is below `maxTemp`, namely codes 37..1020, so
the retained row count is 984 (not `adcStop - adcStart + 1 = 1001`:
codes 20..36 have `tx2 ≥ maxTemp` and are dropped). -/
theorem denseMode_rows : tableRows 0 = List.range' 37 984 ∧ (tableRows 0).length = 984 := by
  refine ⟨tableRows_zero, ?_⟩
  rw [tableRows_zero, List.length_range']

/-- C3 (counterexample): the temperature projection is *not* increasing
in beta at the negative log-ratio `-1`: the claimed chain
`T(3380) < T(3950) < T(4500)` fails (the first inequality is false). -/
theorem txT_beta_not_increasing_at_neg1 :
    ¬ (txT (-1) TXBETA1 < txT (-1) TXBETA2 ∧ txT (-1) TXBETA2 < txT (-1) TXBETA3) := by
  intro h
  have h1 := h.1
  unfold txT TXBETA1 TXBETA2 tZero at h1
  norm_num at h1

/-- C3 (amended): for a fixed negative log-ratio (and positive betas
with a positive Steinhart-Hart denominator) the projected temperature is
strictly *decreasing* in beta; at `x = -1` the configured betas satisfy
`T(3380) > T(3950) > T(4500)`. -/
theorem txT_strictAnti_in_beta_of_neg (x B1 B2 : ℝ) (hx : x < 0) (hB1 : 0 < B1)
    (hB12 : B1 < B2) (hd : 0 < 1 / (25 + tZero) + x / B1) :
    txT x B2 < txT x B1 := by
  unfold txT
  have hB2 : 0 < B2 := lt_trans hB1 hB12
  have hxx : x / B1 < x / B2 := by
    rw [div_lt_div_iff hB1 hB2]
    exact mul_lt_mul_of_neg_left hB12 hx
  have hd2 : 1 / (25 + tZero) + x / B1 < 1 / (25 + tZero) + x / B2 := by linarith
  have := one_div_lt_one_div_of_lt hd hd2
  linarith

/-- Witness for C3 (amended), instantiating the two adjacent beta pairs
at log-ratio `-1`. -/
theorem txT_beta_chain_at_neg1 :
    txT (-1) TXBETA2 < txT (-1) TXBETA1 ∧ txT (-1) TXBETA3 < txT (-1) TXBETA2 :=
  ⟨txT_strictAnti_in_beta_of_neg (-1) TXBETA1 TXBETA2 (by norm_num)
      (by unfold TXBETA1; norm_num) (by unfold TXBETA1 TXBETA2; norm_num)
      (by unfold TXBETA1 tZero; norm_num),
   txT_strictAnti_in_beta_of_neg (-1) TXBETA2 TXBETA3 (by norm_num)
      (by unfold TXBETA2; norm_num) (by unfold TXBETA2 TXBETA3; norm_num)
      (by unfold TXBETA2 tZero; norm_num)⟩

/-- C4: for every ADC code strictly between 0 and `adcFS`, converting to
a resistance and back recovers the code exactly (over the reals). -/
theorem r2v_v2r_roundTrip (c : ℝ) (h0 : 0 < c) (h1 : c < adcFS) :
    r2v (v2r c) = c := by
  unfold r2v v2r adcFS rPullup at *
  have hd : 0 < 1 - c / 1023 := by
    rw [sub_pos, div_lt_one (by norm_num)]
    exact h1
  have h3 : (1 : ℝ) - c / 1023 ≠ 0 := ne_of_gt hd
  rw [div_add' _ _ _ h3, ← mul_div_assoc, div_div_div_cancel_right₀]
  rw [show c / 1023 * 4700 + 4700 * (1 - c / 1023) = 4700 from by ring]
  · field_simp
  · intro hh
    apply h3
    linarith

/-- Witness for C4 at the mid-scale code 511. -/
theorem r2v_v2r_roundTrip_511 : r2v (v2r 511) = 511 :=
  r2v_v2r_roundTrip 511 (by norm_num) (by unfold adcFS; norm_num)

/-- C5 (counterexample): it is not true that `v2r` signals an error for
every code at or beyond `adcFS`: at code 1024 the Python-scalar
semantics silently returns a (negative) resistance. -/
theorem v2rPy_beyond_fullScale_not_error :
    ¬ (∀ c : ℚ, 1023 ≤ c → v2rPy c = none) := by
  intro h
  have h1 := h 1024 (by norm_num)
  unfold v2rPy at h1
  norm_num at h1
  exact Option.noConfusion h1

/-- C5 (amended): `v2r` raises a division-by-zero error exactly at
`code = adcFS`; for any code strictly beyond `adcFS` it silently returns
a negative resistance, so callers must keep `code < adcFS`. -/
theorem v2rPy_domain_behavior :
    v2rPy 1023 = none ∧ ∀ c : ℚ, 1023 < c → ∃ r, v2rPy c = some r ∧ r < 0 := by
  constructor
  · unfold v2rPy
    norm_num
  · intro c hc
    have hd : 1 - c / 1023 < 0 := by
      rw [sub_neg, lt_div_iff (by norm_num : (0 : ℚ) < 1023)]
      linarith
    refine ⟨c / 1023 * 4700 / (1 - c / 1023), ?_, ?_⟩
    · unfold v2rPy
      rw [if_neg (ne_of_lt hd)]
    · apply div_neg_of_pos_of_neg
      · have hc0 : (0 : ℚ) < c := by linarith
        positivity
      · exact hd

/-- Witness for C5 (amended) at code 1024. -/
theorem v2rPy_at_1024 : ∃ r, v2rPy 1024 = some r ∧ r < 0 :=
  v2rPy_domain_behavior.2 1024 (by norm_num)

/-- C6 (counterexample): the generator performs no configuration
validation — with an invalid configuration (the non-positive beta `-1`
in place of `TXBETA2`) the generation loop still runs and produces a
nonempty table instead of failing fast. -/
theorem generation_no_validation_ne_nil :
    selRows (fun c => txT (rl c) (-1)) ((maxTemp - minTemp) / 100) maxTemp
      codesList ≠ [] :=
  List.ne_nil_of_mem badBeta_mem_20

/-- C6 (amended): the script contains no configuration validation;
sampling and selection proceed for invalid configurations as well — with
the non-positive beta `-1` the loop still retains the very first sampled
code. -/
theorem generation_no_validation_mem :
    20 ∈ selRows (fun c => txT (rl c) (-1)) ((maxTemp - minTemp) / 100) maxTemp
      codesList :=
  badBeta_mem_20

/-- C7 (counterexample): in normal mode the retained row count is not
bounded by `(maxTemp - minTemp) / stepSize + 1 = 101`: table 600 retains
103 rows. -/
theorem tableRows600_length_gt_101 : ¬ ((tableRows 600).length ≤ 101) := by
  rw [tableRows_normal (by norm_num)]
  decide

/-- C7 (amended): in normal mode (step `3.15`) the retained row count is
103 — bounded by `(maxTemp - min sampled tx2) / stepSize + 1 ≈ 104`
rather than by `(maxTemp - minTemp) / stepSize + 1 = 101`, because the
selection loop has no lower temperature cutoff and the sampled
temperatures extend below `minTemp`. -/
theorem tableRows_length_eq_103 (tbl : ℕ) (htbl : tbl ≠ 0) :
    (tableRows tbl).length = 103 := by
  rw [tableRows_normal htbl]
  rfl

/-- Witness for C7 (amended) at table id 600. -/
theorem tableRows600_length : (tableRows 600).length = 103 :=
  tableRows_length_eq_103 600 (by norm_num)

/-- C8: at log-ratio 0 (thermistor resistance exactly `rRef`) the
projection equals `25.5` for every positive beta (beta cancels), and its
floor is the nominal calibration temperature 25 °C. -/
theorem txT_at_zero_logRatio (B : ℝ) (hB : 0 < B) :
    txT 0 B = 25.5 ∧ ⌊txT 0 B⌋ = 25 := by
  have h : txT 0 B = 25.5 := by
    unfold txT tZero
    rw [zero_div]
    norm_num
  refine ⟨h, ?_⟩
  rw [h, Int.floor_eq_iff]
  refine ⟨by push_cast; norm_num, by push_cast; norm_num⟩

/-- Witness for C8 at the middle beta. -/
theorem txT_at_zero_logRatio_TXBETA2 :
    txT 0 TXBETA2 = 25.5 ∧ ⌊txT 0 TXBETA2⌋ = 25 :=
  txT_at_zero_logRatio TXBETA2 (by unfold TXBETA2; norm_num)

/-- C9: in every mode (any table id, dense included) every retained
row's `tx2` is strictly below the initial threshold `maxTemp`. -/
theorem retained_tx2_lt_maxTemp (tbl : ℕ) (c : ℕ) (hc : c ∈ tableRows tbl) :
    tx2N c < maxTemp := by
  have hs : 0 ≤ temperatureStepSize tbl := by
    unfold temperatureStepSize maxTemp minTemp
    split
    · norm_num
    · norm_num
  unfold tableRows retained selRows at hc
  exact foldl_selStep_lt tx2N _ hs maxTemp codesList maxTemp [] (le_refl _)
    (by intro d hd; exact absurd hd (List.not_mem_nil d)) c hc

/-- Witness for C9: code 37 is retained in the dense table and its `tx2`
is below `maxTemp`. -/
theorem retained_tx2_lt_maxTemp_37 : tx2N 37 < maxTemp :=
  retained_tx2_lt_maxTemp 0 37 (by rw [tableRows_zero, List.mem_range'_1]; omega)

/-- C10: `v2r` is strictly increasing on `[0, adcFS)`; consequently over
the sampled codes the log-ratios `rl` are strictly increasing and the
real-valued `tx2` temperatures are strictly decreasing (before any
filtering). -/
theorem conversions_monotone :
    (∀ x y : ℝ, 0 ≤ x → x < y → y < adcFS → v2r x < v2r y) ∧
    (∀ x y : ℝ, 0 < x → x < y → y < adcFS → rl x < rl y) ∧
    (∀ x y : ℝ, ((adcStart : ℕ) : ℝ) ≤ x → x < y → y ≤ ((adcStop : ℕ) : ℝ) →
      tx2R y < tx2R x) := by
  refine ⟨?_, ?_, ?_⟩
  · intro x y h0 hxy hy
    unfold adcFS at hy
    exact v2r_mono h0 hxy hy
  · intro x y h0 hxy hy
    unfold adcFS at hy
    exact rl_mono h0 hxy hy
  · intro x y hx hxy hy
    unfold adcStart at hx
    unfold adcStop at hy
    norm_num at hx hy
    exact tx2R_anti hx hxy hy

/-- Witness for C10 at codes 100 and 200. -/
theorem conversions_monotone_inst :
    v2r 100 < v2r 200 ∧ rl 100 < rl 200 ∧ tx2R 200 < tx2R 100 :=
  ⟨conversions_monotone.1 100 200 (by norm_num) (by norm_num)
      (by unfold adcFS; norm_num),
   conversions_monotone.2.1 100 200 (by norm_num) (by norm_num)
      (by unfold adcFS; norm_num),
   conversions_monotone.2.2 100 200 (by unfold adcStart; norm_num) (by norm_num)
      (by unfold adcStop; norm_num)⟩
